import Mathlib

/-! UMI-Extraction: FASTQ records, DGE barcodes, demultiplexer and gene+UMI counter

A shallow embedding of the `hts` / `utk` libraries of the repository.

Conventions of the embedding.

* `std::string` is a list of characters (`CppString`).
* A C++ function that can throw `std::logic_error` returns `Except String _`;
  the string is the message of the exception.  `std::invalid_argument` and
  `std::out_of_range` raised by `std::stoul` are `std::logic_error`s as well.
* `std::size_t` counters and container sizes are natural numbers; they only
  grow by one per processed record, so they cannot reach `2^64`.
  `std::stoul` results are reduced modulo `2^64` where the C library does so.
* `std::map<std::string, V>` is an association list kept in key order
  (`StdMap`).
-/

set_option autoImplicit false

/-- The type `std::string`. -/
abbrev CppString := List Char

namespace CppString

/-- The NUL character that terminates the buffer of every `std::string`. -/
def nul : Char := Char.ofNat 0

/-- Embedding of `std::string::front()`.  On an empty string the call reads the terminating
NUL of the buffer (formally outside the contract of `front`); this is what the
embedding returns. -/
def front (s : CppString) : Char := s.headD nul

/-- Embedding of `std::string::substr(pos, len)` for `pos <= size()`. -/
def substr (s : CppString) (pos len : Nat) : CppString := (s.drop pos).take len

/-- Embedding of `std::string::substr(pos)` for `pos <= size()`. -/
def substrFrom (s : CppString) (pos : Nat) : CppString := s.drop pos

/-- Embedding of `std::string::c_str()` seen as a C string: the characters before the first NUL. -/
def c_str (s : CppString) : CppString := s.takeWhile (fun c => c != nul)

/-- Lexicographic `operator<` of `std::string` (character codes compared). -/
def lt : CppString → CppString → Bool
  | [], [] => false
  | [], _ :: _ => true
  | _ :: _, [] => false
  | a :: as, b :: bs => if a.toNat < b.toNat then true else if b.toNat < a.toNat then false else lt as bs

end CppString

/-! ## `std::map` -/

/-- The type `std::map<std::string, V>`: an association list in key order. -/
abbrev StdMap (V : Type) := List (CppString × V)

namespace StdMap

variable {V : Type}

/-- Embedding of `map.find(key)`: the mapped value, `none` for `end()`. -/
def find (m : StdMap V) (key : CppString) : Option V :=
  match m with
  | [] => none
  | (k, v) :: rest => if k = key then some v else find rest key

/-- Insertion of a new entry at its place in key order. -/
def insertSorted (m : StdMap V) (key : CppString) (v : V) : StdMap V :=
  match m with
  | [] => [(key, v)]
  | (k, w) :: rest =>
    if CppString.lt key k then (key, v) :: (k, w) :: rest else (k, w) :: insertSorted rest key v

/-- Replacement of the value stored under an existing key. -/
def replace (m : StdMap V) (key : CppString) (v : V) : StdMap V :=
  match m with
  | [] => []
  | (k, w) :: rest => if k = key then (k, v) :: rest else (k, w) :: replace rest key v

/-- Embedding of `map[key] = v`: overwrite the entry of `key`, creating it when absent. -/
def assign (m : StdMap V) (key : CppString) (v : V) : StdMap V :=
  match find m key with
  | some _ => replace m key v
  | none => insertSorted m key v

/-- The map after evaluating `map[key]`: an absent key gets a value-initialised
entry `dflt`, a present key leaves the map as it is. -/
def touch (m : StdMap V) (key : CppString) (dflt : V) : StdMap V :=
  match find m key with
  | some _ => m
  | none => insertSorted m key dflt

/-- The keys of the map, in iteration order. -/
def keys (m : StdMap V) : List CppString := m.map Prod.fst

end StdMap

/-! ## `utk::StringUtils` -/

namespace utk

/-- Pieces of a non-empty character sequence between occurrences of `sep`. -/
def splitOnChar (sep : Char) : CppString → List CppString
  | [] => [[]]
  | c :: cs =>
    if c = sep then [] :: splitOnChar sep cs
    else
      match splitOnChar sep cs with
      | [] => [[c]]
      | p :: ps => (c :: p) :: ps

/-- Embedding of `utk::splitString(str, sep)` for a separator that is one literal character
(`':'` and TAB in the callers).  The token iterator of `std::regex` yields the
text before each match and a non-empty rest; the function then adds the empty
last part itself when the string ends with the separator.  An empty string
gives no part at all. -/
def splitString (str : CppString) (sep : Char) : List CppString :=
  if str.isEmpty then [] else splitOnChar sep str

/-- Pieces between maximal runs of spaces; `inRun` says that the previous
character was a space of the current run. -/
def splitOnSpaceRuns : Bool → CppString → List CppString
  | _, [] => [[]]
  | inRun, c :: cs =>
    if c = ' ' then
      if inRun then splitOnSpaceRuns true cs else [] :: splitOnSpaceRuns true cs
    else
      match splitOnSpaceRuns false cs with
      | [] => [[c]]
      | p :: ps => (c :: p) :: ps

/-- Embedding of `utk::splitString(str, " +")`: the separator is the regular expression
"one or more spaces" (`IlluminaFASTQSequence::space_sep`). -/
def splitStringSpaces (str : CppString) : List CppString :=
  if str.isEmpty then [] else splitOnSpaceRuns false str

end utk

/-! ## `std::stoul` -/

namespace std

/-- Embedding of `isspace` of the C locale. -/
def isspace (c : Char) : Bool :=
  c = ' ' || c = '\t' || c = '\n' || c = '\r' || c.toNat = 11 || c.toNat = 12

/-- Embedding of `isdigit`. -/
def isdigit (c : Char) : Bool := decide ('0'.toNat ≤ c.toNat) && decide (c.toNat ≤ '9'.toNat)

/-- Value of a run of decimal digits, most significant first. -/
def digitsValue (ds : CppString) : Nat := ds.foldl (fun acc c => 10 * acc + (c.toNat - '0'.toNat)) 0

/-- Embedding of `ULONG_MAX` on the LP64 targets of the program. -/
def ULONG_MAX : Nat := 2 ^ 64 - 1

/-- Embedding of `std::stoul(str)` (base 10, no position output): `strtoul` skips leading
white space, takes an optional sign and the longest run of digits, and ignores
whatever follows.  No digit gives `std::invalid_argument`, a magnitude above
`ULONG_MAX` gives `std::out_of_range` (both are `none` here); a minus sign
negates the value in unsigned arithmetic. -/
def stoul (str : CppString) : Option Nat :=
  let s := (CppString.c_str str).dropWhile isspace
  let signed : Bool × CppString :=
    match s with
    | '+' :: r => (false, r)
    | '-' :: r => (true, r)
    | _ => (false, s)
  let ds := signed.2.takeWhile isdigit
  if ds.isEmpty then none
  else
    let v := digitsValue ds
    if v > ULONG_MAX then none
    else some (if signed.1 then (2 ^ 64 - v) % 2 ^ 64 else v)

end std

/-! ## `hts::FASTQSequence` -/

namespace hts

/-- The four lines of a FASTQ record (`FASTQSequence::FASTQSequenceLines`,
indexed by `LineType` = Identifier, Sequence, Option, Quality). -/
structure FASTQSequenceLines where
  identifier : CppString
  sequence : CppString
  option : CppString
  quality : CppString
  deriving DecidableEq, Repr

/-- Data members of `FASTQSequence`. -/
structure FASTQSequence where
  lines : FASTQSequenceLines := ⟨[], [], [], []⟩
  read_length : Nat := 0
  group_id : CppString := []
  parse_seq : Bool := false
  flush_ostream : Bool := false
  deriving DecidableEq, Repr

namespace FASTQSequence

/-- Embedding of `FASTQSequence::id_line_beg_char`. -/
def id_line_beg_char : Char := '@'

/-- Embedding of `FASTQSequence::opt_line_beg_char`. -/
def opt_line_beg_char : Char := '+'

/-- Embedding of `FASTQSequence::parse()`. -/
def parse (s : FASTQSequence) : Except String FASTQSequence :=
  if CppString.front s.lines.identifier != id_line_beg_char then
    Except.error "Identifier line doesn't start with @"
  else if CppString.front s.lines.option != opt_line_beg_char then
    Except.error "Option line doesn't start with +"
  else
    let seq_length := s.lines.sequence.length
    let qual_length := s.lines.quality.length
    if seq_length = qual_length then Except.ok { s with read_length := seq_length }
    else Except.error "The lengths of sequence line and quality line are not equal"

/-- Constructor `FASTQSequence(line1, line2, line3, line4, parse_seq, flush_ostream)`. -/
def ctor (line1 line2 line3 line4 : CppString) (parse_seq flush_ostream : Bool) :
    Except String FASTQSequence :=
  let s : FASTQSequence :=
    { lines := ⟨line1, line2, line3, line4⟩, parse_seq := parse_seq, flush_ostream := flush_ostream }
  if parse_seq then parse s else Except.ok s

/-- Copy constructor and move constructor of `FASTQSequence` (the value of the
new object): lines, read length and the two flags are taken over, `group_id`
is not in the initialiser list and stays empty. -/
def copyCtor (seq : FASTQSequence) : FASTQSequence :=
  { lines := seq.lines, read_length := seq.read_length, parse_seq := seq.parse_seq,
    flush_ostream := seq.flush_ostream }

end FASTQSequence

/-! ## `hts::IlluminaFASTQSequence` -/

/-- Data members of `IlluminaFASTQSequence` (derived from `FASTQSequence`). -/
structure IlluminaFASTQSequence extends FASTQSequence where
  seq_id_part_1 : CppString := []
  seq_id_part_2 : CppString := []
  instrument_id : CppString := []
  run_number : Nat := 0
  flowcell_id : CppString := []
  lane_number : Nat := 0
  tile_number : Nat := 0
  x_pos : Nat := 0
  y_pos : Nat := 0
  read_number : Nat := 0
  is_filtered : Char := 'N'
  control_number : Nat := 0
  index_sequence : CppString := []
  parse_seq_id_level_1 : Bool := false
  parse_seq_id_level_2 : Bool := false
  deriving DecidableEq, Repr

namespace IlluminaFASTQSequence

/-- Embedding of `IlluminaFASTQSequence::n_seq_id_part_1_parts`. -/
def n_seq_id_part_1_parts : Nat := 7

/-- Embedding of `IlluminaFASTQSequence::n_seq_id_part_2_parts`. -/
def n_seq_id_part_2_parts : Nat := 4

/-- Embedding of `IlluminaFASTQSequence::colon_sep`. -/
def colon_sep : Char := ':'

/-- Embedding of `IlluminaFASTQSequence::setGroupId()`. -/
def setGroupId (s : IlluminaFASTQSequence) : IlluminaFASTQSequence :=
  { s with group_id := s.index_sequence }

/-- Embedding of `IlluminaFASTQSequence::adjustParseOption()`. -/
def adjustParseOption (s : IlluminaFASTQSequence) : IlluminaFASTQSequence :=
  if s.parse_seq then
    if !s.parse_seq_id_level_1 then { s with parse_seq_id_level_2 := false } else s
  else
    { s with parse_seq_id_level_1 := false, parse_seq_id_level_2 := false }

/-- Removal of a leading `'@'` from the instrument field. -/
def stripAt (instrument_id : CppString) : CppString :=
  if CppString.front instrument_id = FASTQSequence.id_line_beg_char then
    CppString.substrFrom instrument_id 1
  else instrument_id

/-- A `std::stoul` call wrapped in the `try`/`catch` that rethrows with `msg`. -/
def stoulOr (str : CppString) (msg : String) : Except String Nat :=
  match std.stoul str with
  | some v => Except.ok v
  | none => Except.error msg

/-- The level-2 block of `IlluminaFASTQSequence::parse()` for the first part of
the sequence identifier. -/
def parsePart1 (s : IlluminaFASTQSequence) : Except String IlluminaFASTQSequence :=
  match utk.splitString s.seq_id_part_1 colon_sep with
  | [p0, p1, p2, p3, p4, p5, p6] => do
    let run_number ← stoulOr p1 "Failed to convert run number to unsigned long type"
    let lane_number ← stoulOr p3 "Failed to convert lane number to unsigned long type"
    let tile_number ← stoulOr p4 "Failed to convert tile number to unsigned long type"
    let x_pos ← stoulOr p5 "Failed to convert X position to unsigned long type"
    let y_pos ← stoulOr p6 "Failed to convert Y position to unsigned long type"
    pure { s with instrument_id := stripAt p0, run_number := run_number, flowcell_id := p2,
                  lane_number := lane_number, tile_number := tile_number,
                  x_pos := x_pos, y_pos := y_pos }
  | _ => Except.error "The first part of Sequence Identifier line must have 7 elements!"

/-- The level-2 block of `IlluminaFASTQSequence::parse()` for the second part of
the sequence identifier. -/
def parsePart2 (s : IlluminaFASTQSequence) : Except String IlluminaFASTQSequence :=
  match utk.splitString s.seq_id_part_2 colon_sep with
  | [q0, q1, q2, q3] => do
    let read_number ← stoulOr q0 "Failed to convert read number to unsigned long type"
    let control_number ← stoulOr q2 "Failed to convert control number to unsigned long type"
    pure { s with read_number := read_number, is_filtered := CppString.front (CppString.c_str q1),
                  control_number := control_number, index_sequence := q3 }
  | _ => Except.error "The second part of Sequence Identifier line must have 4 elements!"

/-- Embedding of `IlluminaFASTQSequence::parse()`. -/
def parse (s : IlluminaFASTQSequence) : Except String IlluminaFASTQSequence :=
  if s.parse_seq_id_level_1 then
    match utk.splitStringSpaces s.lines.identifier with
    | [part1, part2] =>
      let s1 := { s with seq_id_part_1 := part1, seq_id_part_2 := part2 }
      if s1.parse_seq_id_level_2 then do
        let s2 ← parsePart1 s1
        parsePart2 s2
      else Except.ok s1
    | _ => Except.error
        "Sequence Identifier line doesn't contain exactly two parts separated by a space"
  else Except.ok s

/-- Constructor `IlluminaFASTQSequence(line1, line2, line3, line4, parse_seq,
parse_seq_id_level_1, parse_seq_id_level_2, flush_ostream)`.  The call of the
virtual `setGroupId()` inside this constructor runs the `IlluminaFASTQSequence`
version. -/
def ctor (line1 line2 line3 line4 : CppString)
    (parse_seq parse_seq_id_level_1 parse_seq_id_level_2 flush_ostream : Bool) :
    Except String IlluminaFASTQSequence := do
  let base ← FASTQSequence.ctor line1 line2 line3 line4 parse_seq flush_ostream
  let s : IlluminaFASTQSequence :=
    adjustParseOption { toFASTQSequence := base,
                        parse_seq_id_level_1 := parse_seq_id_level_1,
                        parse_seq_id_level_2 := parse_seq_id_level_2 }
  if s.parse_seq then do
    let s1 ← parse s
    pure (setGroupId s1)
  else pure s

/-- Copy constructor and move constructor of `IlluminaFASTQSequence` (the value
of the new object). -/
def copyCtor (seq : IlluminaFASTQSequence) : IlluminaFASTQSequence :=
  { seq with toFASTQSequence := FASTQSequence.copyCtor seq.toFASTQSequence }

end IlluminaFASTQSequence

/-! ## `hts::DGEIlluminaFASTQSequence` -/

/-- Data members of `DGEIlluminaFASTQSequence` (derived from `IlluminaFASTQSequence`). -/
structure DGEIlluminaFASTQSequence extends IlluminaFASTQSequence where
  well_barcode : CppString := []
  umi_barcode : CppString := []
  deriving DecidableEq, Repr

namespace DGEIlluminaFASTQSequence

/-- Embedding of `DGEIlluminaFASTQSequence::well_barcode_beg_pos`. -/
def well_barcode_beg_pos : Nat := 0

/-- Embedding of `DGEIlluminaFASTQSequence::well_barcode_end_pos`. -/
def well_barcode_end_pos : Nat := 5

/-- Embedding of `DGEIlluminaFASTQSequence::well_barcode_length`. -/
def well_barcode_length : Nat := well_barcode_end_pos - well_barcode_beg_pos + 1

/-- Embedding of `DGEIlluminaFASTQSequence::umi_barcode_beg_pos`. -/
def umi_barcode_beg_pos : Nat := 6

/-- Embedding of `DGEIlluminaFASTQSequence::umi_barcode_end_pos`. -/
def umi_barcode_end_pos : Nat := 15

/-- Embedding of `DGEIlluminaFASTQSequence::umi_barcode_length`. -/
def umi_barcode_length : Nat := umi_barcode_end_pos - umi_barcode_beg_pos + 1

/-- Embedding of `DGEIlluminaFASTQSequence::setGroupId()`. -/
def setGroupId (s : DGEIlluminaFASTQSequence) : DGEIlluminaFASTQSequence :=
  { s with group_id := CppString.substr s.lines.sequence well_barcode_beg_pos
                         (well_barcode_end_pos - well_barcode_beg_pos + 1) }

/-- Embedding of `DGEIlluminaFASTQSequence::setBarcode()`. -/
def setBarcode (s : DGEIlluminaFASTQSequence) : Except String DGEIlluminaFASTQSequence :=
  if s.lines.sequence.length < well_barcode_length + umi_barcode_length then
    Except.error "The length of barcode part of SeqId line of composited DGE Illumina FASTQ sequence must be equal to or greater than the sum of the lengths of well and UMI barcodes!"
  else
    Except.ok { s with
      well_barcode := CppString.substr s.lines.sequence well_barcode_beg_pos well_barcode_length,
      umi_barcode := CppString.substr s.lines.sequence umi_barcode_beg_pos umi_barcode_length }

/-- Constructor `DGEIlluminaFASTQSequence(line1, line2, line3, line4, parse_seq,
parse_seq_id_level_1, parse_seq_id_level_2, flush_ostream)`. -/
def ctor (line1 line2 line3 line4 : CppString)
    (parse_seq parse_seq_id_level_1 parse_seq_id_level_2 flush_ostream : Bool) :
    Except String DGEIlluminaFASTQSequence := do
  let base ← IlluminaFASTQSequence.ctor line1 line2 line3 line4 parse_seq parse_seq_id_level_1
    parse_seq_id_level_2 flush_ostream
  setBarcode (setGroupId { toIlluminaFASTQSequence := base })

/-- Copy constructor and move constructor of `DGEIlluminaFASTQSequence` (the
value of the new object): the base part goes through the base constructors,
the two barcodes are taken over. -/
def copyCtor (seq : DGEIlluminaFASTQSequence) : DGEIlluminaFASTQSequence :=
  { seq with toIlluminaFASTQSequence := IlluminaFASTQSequence.copyCtor seq.toIlluminaFASTQSequence }

end DGEIlluminaFASTQSequence

/-! ## `hts::PairedFASTQSequenceCreator<DGEIlluminaFASTQSequence>` -/

/-- Data members of `PairedDGEIlluminaFASTQSequence`
(`PairedFASTQSequenceCreator<DGEIlluminaFASTQSequence>`). -/
structure PairedDGEIlluminaFASTQSequence where
  seq_1 : DGEIlluminaFASTQSequence := {}
  seq_2 : DGEIlluminaFASTQSequence := {}
  group_id : CppString := []
  parse_seq : Bool := false
  deriving DecidableEq, Repr

namespace PairedDGEIlluminaFASTQSequence

/-- Embedding of `PairedFASTQSequenceCreator::parse()`, the branch for types derived from
`IlluminaFASTQSequence`. -/
def parse (p : PairedDGEIlluminaFASTQSequence) : Except String Unit :=
  if p.seq_1.seq_id_part_1.isEmpty || p.seq_2.seq_id_part_1.isEmpty then
    Except.error "Two Illumina FASTQ sequences cannot be paird: the first part of Sequence Identifier line of one or both of two sequences are empty"
  else if p.seq_1.seq_id_part_1 != p.seq_2.seq_id_part_1 then
    Except.error "Two Illumina FASTQ sequences cannot be paird: the first part of the Sequence Identifier line of two sequences are different"
  else Except.ok ()

/-- Embedding of `PairedFASTQSequenceCreator::setGroupId()`. -/
def setGroupId (p : PairedDGEIlluminaFASTQSequence) : PairedDGEIlluminaFASTQSequence :=
  { p with group_id := p.seq_1.group_id }

/-- Constructor `PairedFASTQSequenceCreator(seq_1, seq_2, parse_seq)`: the two
members are copy- or move-constructed from the arguments. -/
def ctor (seq_1 seq_2 : DGEIlluminaFASTQSequence) (parse_seq : Bool) :
    Except String PairedDGEIlluminaFASTQSequence := do
  let p : PairedDGEIlluminaFASTQSequence :=
    { seq_1 := DGEIlluminaFASTQSequence.copyCtor seq_1,
      seq_2 := DGEIlluminaFASTQSequence.copyCtor seq_2,
      parse_seq := parse_seq }
  if parse_seq then do
    parse p
    pure (setGroupId p)
  else pure (setGroupId p)

end PairedDGEIlluminaFASTQSequence

/-! ## `hts::CompositedDGEIlluminaFASTQSequence` -/

/-- Data members of `CompositedDGEIlluminaFASTQSequence` (derived from `FASTQSequence`). -/
structure CompositedDGEIlluminaFASTQSequence extends FASTQSequence where
  instrument_id : CppString := []
  run_number : Nat := 0
  flowcell_id : CppString := []
  lane_number : Nat := 0
  tile_number : Nat := 0
  x_pos : Nat := 0
  y_pos : Nat := 0
  well_barcode : CppString := []
  umi_barcode : CppString := []
  parse_compos_seq : Bool := false
  deriving DecidableEq, Repr

namespace CompositedDGEIlluminaFASTQSequence

/-- Embedding of `CompositedDGEIlluminaFASTQSequence::n_seq_id_parts`. -/
def n_seq_id_parts : Nat := IlluminaFASTQSequence.n_seq_id_part_1_parts + 1

/-- Embedding of `CompositedDGEIlluminaFASTQSequence::setGroupId()`. -/
def setGroupId (s : CompositedDGEIlluminaFASTQSequence) : CompositedDGEIlluminaFASTQSequence :=
  { s with group_id := s.well_barcode }

/-- Embedding of `CompositedDGEIlluminaFASTQSequence::getUMIBarcode()`. -/
def getUMIBarcode (s : CompositedDGEIlluminaFASTQSequence) : CppString := s.umi_barcode

/-- Embedding of `CompositedDGEIlluminaFASTQSequence::initializeAttributes(paired_dge_seq,
parse_seq_val, flush_ostream_val)`. -/
def initializeAttributes (s : CompositedDGEIlluminaFASTQSequence)
    (paired_dge_seq : PairedDGEIlluminaFASTQSequence) (parse_seq_val flush_ostream_val : Bool) :
    Except String CompositedDGEIlluminaFASTQSequence := do
  let dge_seq1 := paired_dge_seq.seq_1
  let dge_seq2 := paired_dge_seq.seq_2
  let s1 : CompositedDGEIlluminaFASTQSequence :=
    { s with flush_ostream := flush_ostream_val, read_length := dge_seq2.read_length,
             parse_seq := parse_seq_val }
  let base ← if s1.parse_seq then FASTQSequence.parse s1.toFASTQSequence
             else Except.ok s1.toFASTQSequence
  let s2 : CompositedDGEIlluminaFASTQSequence :=
    { s1 with toFASTQSequence := base,
              instrument_id := dge_seq1.instrument_id, run_number := dge_seq1.run_number,
              flowcell_id := dge_seq1.flowcell_id, lane_number := dge_seq1.lane_number,
              tile_number := dge_seq1.tile_number, x_pos := dge_seq1.x_pos,
              y_pos := dge_seq1.y_pos, well_barcode := dge_seq1.well_barcode,
              umi_barcode := dge_seq1.umi_barcode }
  pure (setGroupId s2)

/-- The member function `initialize(paired_dge_seq, parse_seq, flush_ostream)`
of `CompositedDGEIlluminaFASTQSequence` (its name is a reserved word here):
identifier from read 1, payload from read 2.  The overload taking
`PairedDGEIlluminaFASTQSequence&&` builds the same four lines by moving the
strings out of the pair (`operator+` appends to its left operand) and then
calls `initializeAttributes` on the pair, whose barcodes, identifier fields and
read length are still in place; the value of the new object is the same. -/
def initializeFrom (s : CompositedDGEIlluminaFASTQSequence)
    (paired_dge_seq : PairedDGEIlluminaFASTQSequence) (parse_seq flush_ostream : Bool) :
    Except String CompositedDGEIlluminaFASTQSequence :=
  let dge_seq1 := paired_dge_seq.seq_1
  let dge_seq2 := paired_dge_seq.seq_2
  let lines : FASTQSequenceLines :=
    { identifier := dge_seq1.seq_id_part_1 ++ [':'] ++ dge_seq1.well_barcode ++ dge_seq1.umi_barcode,
      sequence := dge_seq2.lines.sequence,
      option := ['+'],
      quality := dge_seq2.lines.quality }
  initializeAttributes { s with lines := lines } paired_dge_seq parse_seq flush_ostream

/-- Constructor `CompositedDGEIlluminaFASTQSequence(seq_1, seq_2,
parse_paired_seq, parse_seq, flush_ostream)`. -/
def ctorPair (seq_1 seq_2 : DGEIlluminaFASTQSequence)
    (parse_paired_seq parse_seq flush_ostream : Bool) :
    Except String CompositedDGEIlluminaFASTQSequence := do
  let paired ← PairedDGEIlluminaFASTQSequence.ctor seq_1 seq_2 parse_paired_seq
  initializeFrom {} paired parse_seq flush_ostream

/-- Embedding of `CompositedDGEIlluminaFASTQSequence::parse()`. -/
def parse (s : CompositedDGEIlluminaFASTQSequence) :
    Except String CompositedDGEIlluminaFASTQSequence :=
  match utk.splitString s.lines.identifier IlluminaFASTQSequence.colon_sep with
  | [p0, p1, p2, p3, p4, p5, p6, barcode] => do
    let run_number ← IlluminaFASTQSequence.stoulOr p1
      "Failed to convert run number to unsigned long type"
    let lane_number ← IlluminaFASTQSequence.stoulOr p3
      "Failed to convert lane number to unsigned long type"
    let tile_number ← IlluminaFASTQSequence.stoulOr p4
      "Failed to convert tile number to unsigned long type"
    let x_pos ← IlluminaFASTQSequence.stoulOr p5
      "Failed to convert X position to unsigned long type"
    let y_pos ← IlluminaFASTQSequence.stoulOr p6
      "Failed to convert Y position to unsigned long type"
    if barcode.length != DGEIlluminaFASTQSequence.well_barcode_length
        + DGEIlluminaFASTQSequence.umi_barcode_length then
      Except.error "The length of barcode part of SeqId line of composited DGE Illumina FASTQ sequence must be the sum of the lengths of well and UMI barcodes!"
    else
      pure (setGroupId
        { s with instrument_id := IlluminaFASTQSequence.stripAt p0, run_number := run_number,
                 flowcell_id := p2, lane_number := lane_number, tile_number := tile_number,
                 x_pos := x_pos, y_pos := y_pos,
                 well_barcode := CppString.substr barcode
                   DGEIlluminaFASTQSequence.well_barcode_beg_pos
                   DGEIlluminaFASTQSequence.well_barcode_length,
                 umi_barcode := CppString.substr barcode
                   DGEIlluminaFASTQSequence.umi_barcode_beg_pos
                   DGEIlluminaFASTQSequence.umi_barcode_length })
  | _ => Except.error "Sequence Identifier line must have 8 elements!"

/-- Constructor `CompositedDGEIlluminaFASTQSequence(line1, line2, line3, line4,
parse_compos_seq, parse_seq, flush_ostream)`. -/
def ctor (line1 line2 line3 line4 : CppString) (parse_compos_seq parse_seq flush_ostream : Bool) :
    Except String CompositedDGEIlluminaFASTQSequence := do
  let base ← FASTQSequence.ctor line1 line2 line3 line4 parse_seq flush_ostream
  let s : CompositedDGEIlluminaFASTQSequence :=
    { toFASTQSequence := base, parse_compos_seq := parse_compos_seq }
  if parse_compos_seq then parse s else pure s

/-- Copy constructor and move constructor of `CompositedDGEIlluminaFASTQSequence`
(the value of the new object). -/
def copyCtor (seq : CompositedDGEIlluminaFASTQSequence) : CompositedDGEIlluminaFASTQSequence :=
  { seq with toFASTQSequence := FASTQSequence.copyCtor seq.toFASTQSequence }

end CompositedDGEIlluminaFASTQSequence

end hts

/-! ## `std::ofstream` -/

namespace std

/-- State of a `std::ofstream` as far as opening is concerned: whether a file is attached,
the `failbit` of the stream state, and the path of the attached file. -/
structure ofstream where
  is_open : Bool := false
  failbit : Bool := false
  file_path : CppString := []
  deriving DecidableEq, Repr

namespace ofstream

/-- Embedding of `std::ofstream::open(file_path)` in a file system in which `can_open` tells
the paths that can be opened for writing.  The call never throws (the exception
mask of a stream is empty unless `exceptions()` is called, which the program
never does): when the stream is open already or the file cannot be opened it
sets `failbit`, otherwise it attaches the file and clears the state. -/
def open_file (can_open : CppString → Bool) (s : ofstream) (file_path : CppString) : ofstream :=
  if s.is_open then { s with failbit := true }
  else if can_open file_path then { is_open := true, failbit := false, file_path := file_path }
  else { s with failbit := true }

/-- Constructor `std::ofstream(file_path)`: a closed stream on which `open` is called. -/
def ctor (can_open : CppString → Bool) (file_path : CppString) : ofstream :=
  open_file can_open {} file_path

end ofstream

end std

namespace utk

/-- Embedding of `utk::FileSystem::path_sep` (the Unix value). -/
def FileSystem.path_sep : Char := '/'

end utk

namespace hts

/-! ## `hts::FASTQSequenceDemuxer` -/

/-- Embedding of `WellBarcodeTable`: well barcode (key) to well number (value). -/
abbrev WellBarcodeTable := StdMap CppString

/-- What `FASTQSequenceDemuxer<OutputStreamsType, SeqType>` uses of its template
argument `SeqType`: `getGroupId()`, the four lines that `operator<<` writes,
and the copy/move constructor through which `push_back` stores an element
(which takes over the four lines). -/
class SeqTypeOps (SeqType : Type) where
  getGroupId : SeqType → CppString
  getLines : SeqType → FASTQSequenceLines
  moveCtor : SeqType → SeqType
  getLines_moveCtor : ∀ seq, getLines (moveCtor seq) = getLines seq

instance : SeqTypeOps FASTQSequence where
  getGroupId := fun seq => seq.group_id
  getLines := fun seq => seq.lines
  moveCtor := FASTQSequence.copyCtor
  getLines_moveCtor := fun _ => rfl

instance : SeqTypeOps CompositedDGEIlluminaFASTQSequence where
  getGroupId := fun seq => seq.group_id
  getLines := fun seq => seq.lines
  moveCtor := CompositedDGEIlluminaFASTQSequence.copyCtor
  getLines_moveCtor := fun _ => rfl

/-- Embedding of `FASTQFileGroupOutputStreams::FileStreamType` (`std::ofstream`): the state of
the stream and the records that have reached its file, in order, each standing
for its four lines followed by a line break. -/
structure FASTQFileStream extends std.ofstream where
  records : List FASTQSequenceLines := []
  deriving DecidableEq, Repr

namespace FASTQFileStream

/-- A file is attached and the stream is not in a failed state. -/
def good (s : FASTQFileStream) : Bool := s.is_open && !s.failbit

/-- Embedding of `stream.open(file_path)`: the stream state follows `std::ofstream::open`; a
file that is opened is created empty, a failed `open` leaves the file of the
stream as it is. -/
def open_file (can_open : CppString → Bool) (s : FASTQFileStream) (file_path : CppString) :
    FASTQFileStream :=
  { toofstream := std.ofstream.open_file can_open s.toofstream file_path,
    records := if !s.is_open && can_open file_path then [] else s.records }

/-- Embedding of `stream << seq << '\n'`: on a stream that has a file attached and is not in a
failed state the record reaches the file; on any other stream nothing is
written and the stream is (or stays) in a failed state. -/
def put (s : FASTQFileStream) (lines : FASTQSequenceLines) : FASTQFileStream :=
  if s.good then { s with records := s.records ++ [lines] }
  else { s with failbit := true }

end FASTQFileStream

/-- The template argument `OutputStreamsType` (`FASTQFileGroupOutputStreams`,
a `std::map` from group ID to output file stream).  `flush` does not change
what a stream holds and is not part of the state. -/
abbrev FASTQFileGroupOutputStreams := StdMap FASTQFileStream

namespace FASTQFileGroupOutputStreams

/-- Constructor `FASTQFileGroupOutputStreams(main_file_name, file_dir,
well_barcode_table)` in a file system in which `can_open` tells the paths that
can be opened for writing: for every entry of the table, in key order,
`operator[](well).open(file_path)`; `operator[]` creates a closed stream for a
well that has none yet.  Nothing is tested and nothing is thrown. -/
def ctor (can_open : CppString → Bool) (main_file_name file_dir : CppString)
    (well_barcode_table : WellBarcodeTable) : FASTQFileGroupOutputStreams :=
  well_barcode_table.foldl (fun os well_barcode =>
    let file_name := main_file_name ++ ['.'] ++ well_barcode.2 ++ ['.'] ++ "fastq".toList
    let file_path := file_dir ++ [utk.FileSystem.path_sep] ++ file_name
    let stream := (StdMap.find os well_barcode.2).getD {}
    StdMap.assign os well_barcode.2 (FASTQFileStream.open_file can_open stream file_path)) []

/-- Embedding of `FASTQFileGroupOutputStreams::writeSequence(seq, group_id)`:
`operator[](group_id) << seq << '\n'`; `operator[]` creates a closed stream for a
group that has none yet. -/
def writeSequence (os : FASTQFileGroupOutputStreams) (lines : FASTQSequenceLines)
    (group_id : CppString) : FASTQFileGroupOutputStreams :=
  StdMap.assign os group_id (FASTQFileStream.put ((StdMap.find os group_id).getD {}) lines)

end FASTQFileGroupOutputStreams

/-- Data members of `FASTQSequenceDemuxer<FASTQFileGroupOutputStreams, SeqType>`. -/
structure FASTQSequenceDemuxer (SeqType : Type) where
  output_streams : FASTQFileGroupOutputStreams := []
  seq_groups : StdMap (List SeqType) := []
  well_barcode_table : WellBarcodeTable := []
  n_max_seqs : Nat := 0
  flush_ostream : Bool := true
  verbose : Bool := false
  n_grouped_seqs : Nat := 0
  n_ungrouped_seqs : Nat := 0

namespace FASTQSequenceDemuxer

variable {SeqType : Type} [SeqTypeOps SeqType]

/-- Embedding of `FASTQSequenceDemuxer::initSequenceGroups()`. -/
def initSequenceGroups (d : FASTQSequenceDemuxer SeqType) : FASTQSequenceDemuxer SeqType :=
  let groups :=
    d.well_barcode_table.foldl (fun groups well_barcode => StdMap.assign groups well_barcode.2 [])
      d.seq_groups
  { d with seq_groups := groups }

/-- Constructor `FASTQSequenceDemuxer(table, ostreams, max_seqs, flush, verb)`. -/
def ctor (table : WellBarcodeTable) (ostreams : FASTQFileGroupOutputStreams) (max_seqs : Nat)
    (flush verb : Bool) : FASTQSequenceDemuxer SeqType :=
  initSequenceGroups
    { output_streams := ostreams, well_barcode_table := table, n_max_seqs := max_seqs,
      flush_ostream := flush, verbose := verb }

/-- Constructor `FASTQSequenceDemuxer(table_file_path, main_file_name, file_dir,
max_seqs, flush, line_delim_type, verb)`, given the table that the well barcode
reader returns for the file: the output streams are built from the table, in
a file system in which `can_open` tells the paths that can be opened for
writing. -/
def ctorFromTable (can_open : CppString → Bool) (main_file_name file_dir : CppString)
    (table : WellBarcodeTable) (max_seqs : Nat) (flush verb : Bool) :
    FASTQSequenceDemuxer SeqType :=
  ctor table (FASTQFileGroupOutputStreams.ctor can_open main_file_name file_dir table)
    max_seqs flush verb

/-- The buffer `seq_groups[group_id]` as a value (empty when there is no entry). -/
def groupSeqs (d : FASTQSequenceDemuxer SeqType) (group_id : CppString) : List SeqType :=
  (StdMap.find d.seq_groups group_id).getD []

/-- The records that have reached the file of the output stream of `group_id`. -/
def written (d : FASTQSequenceDemuxer SeqType) (group_id : CppString) : List FASTQSequenceLines :=
  ((StdMap.find d.output_streams group_id).getD {}).records

/-- Whether the output stream of `group_id` has a file attached and is not in a failed
state (a group without a stream counts as a closed stream, which is what
`operator[]` would create). -/
def streamGood (d : FASTQSequenceDemuxer SeqType) (group_id : CppString) : Bool :=
  ((StdMap.find d.output_streams group_id).getD {}).good

/-- Embedding of `FASTQSequenceDemuxer::writeSequences(group_id, group_seqs, flush)` where
`group_seqs` is the entry of `group_id` in `seq_groups`, as at both call sites:
every buffered record is written to the stream of the group, then the buffer
is cleared. -/
def writeSequencesGroup (d : FASTQSequenceDemuxer SeqType) (group_id : CppString) (_flush : Bool) :
    FASTQSequenceDemuxer SeqType :=
  let ostreams :=
    (groupSeqs d group_id).foldl
      (fun os group_seq =>
        FASTQFileGroupOutputStreams.writeSequence os (SeqTypeOps.getLines group_seq) group_id)
      d.output_streams
  { d with output_streams := ostreams, seq_groups := StdMap.replace d.seq_groups group_id [] }

/-- Embedding of `FASTQSequenceDemuxer::addSequence(T&& seq)`. -/
def addSequence (d : FASTQSequenceDemuxer SeqType) (seq : SeqType) : FASTQSequenceDemuxer SeqType :=
  match StdMap.find d.well_barcode_table (SeqTypeOps.getGroupId seq) with
  | some group_id =>
    let d0 := { d with seq_groups := StdMap.touch d.seq_groups group_id [] }
    let d1 :=
      if (groupSeqs d0 group_id).length ≥ d0.n_max_seqs then
        writeSequencesGroup d0 group_id d0.flush_ostream
      else d0
    if d1.n_max_seqs = 0 ∨ (d1.n_max_seqs > 0 ∧ (groupSeqs d1 group_id).length < d1.n_max_seqs) then
      let group_seqs := groupSeqs d1 group_id ++ [SeqTypeOps.moveCtor seq]
      { d1 with seq_groups := StdMap.replace d1.seq_groups group_id group_seqs,
                n_grouped_seqs := d1.n_grouped_seqs + 1 }
    else d1
  | none => { d with n_ungrouped_seqs := d.n_ungrouped_seqs + 1 }

/-- Embedding of `FASTQSequenceDemuxer::writeSequences(flush)`: every non-empty group is
written and cleared. -/
def writeSequences (d : FASTQSequenceDemuxer SeqType) (flush : Bool) : FASTQSequenceDemuxer SeqType :=
  (StdMap.keys d.seq_groups).foldl
    (fun acc group_id =>
      if (groupSeqs acc group_id).length > 0 then writeSequencesGroup acc group_id flush else acc)
    d

/-- A call of one of the two public operations of the demultiplexer. -/
inductive Call (SeqType : Type) where
  | addSequence (seq : SeqType)
  | writeSequences (flush : Bool)

/-- The demultiplexer after one call. -/
def step (d : FASTQSequenceDemuxer SeqType) : Call SeqType → FASTQSequenceDemuxer SeqType
  | Call.addSequence seq => addSequence d seq
  | Call.writeSequences flush => writeSequences d flush

/-- The demultiplexer after a sequence of calls. -/
def run (d : FASTQSequenceDemuxer SeqType) (calls : List (Call SeqType)) :
    FASTQSequenceDemuxer SeqType :=
  calls.foldl step d

/-- The records handed to `addSequence` in a sequence of calls, in call order. -/
def addedSeqs : List (Call SeqType) → List SeqType
  | [] => []
  | Call.addSequence seq :: rest => seq :: addedSeqs rest
  | Call.writeSequences _ :: rest => addedSeqs rest

/-- The records of `seqs`, in order, whose group ID is a key of the table that
maps to the well `w`. -/
def recordsOfWell (table : WellBarcodeTable) (seqs : List SeqType) (w : CppString) : List SeqType :=
  seqs.filter (fun seq => decide (StdMap.find table (SeqTypeOps.getGroupId seq) = some w))

/-- Invariant of a demultiplexer that started with empty buffers and streams
holding `written0`, after the records `added` have been handed to it: for every
well the stored copies of the added records of that well are the records sent
to the stream so far followed by the buffered ones; the file of the stream
holds the records sent when the stream is good, and nothing more than at the
start when it is not. -/
def NothingLost (table : WellBarcodeTable) (written0 : CppString → List FASTQSequenceLines)
    (d : FASTQSequenceDemuxer SeqType) (added : List SeqType) : Prop :=
  d.well_barcode_table = table ∧
  ∀ w, ∃ sentRecs : List SeqType,
    written d w = written0 w ++
      (if streamGood d w = true then sentRecs.map SeqTypeOps.getLines else []) ∧
    (recordsOfWell table added w).map SeqTypeOps.moveCtor = sentRecs ++ groupSeqs d w

/-- The demultiplexer after a sequence of `addSequence` calls. -/
def addSequences (d : FASTQSequenceDemuxer SeqType) (seqs : List SeqType) :
    FASTQSequenceDemuxer SeqType :=
  seqs.foldl addSequence d

end FASTQSequenceDemuxer

/-- Embedding of `DGEIlluminaFASTQSequenceDemuxer`. -/
abbrev DGEIlluminaFASTQSequenceDemuxer := FASTQSequenceDemuxer CompositedDGEIlluminaFASTQSequence

namespace DGEIlluminaFASTQSequenceDemuxer

/-- Embedding of `addSequence(read1, read2)` through the variadic overload
`addSequence(Args&&...)`: the composite record is constructed from the pair
with the default flags of its constructor and then added. -/
def addSequencePair (d : DGEIlluminaFASTQSequenceDemuxer) (read1 read2 : DGEIlluminaFASTQSequence) :
    Except String DGEIlluminaFASTQSequenceDemuxer := do
  let seq ← CompositedDGEIlluminaFASTQSequence.ctorPair read1 read2 false false false
  pure (FASTQSequenceDemuxer.addSequence d seq)

/-- The barcode table `AAAAAA -> 1, CCCCCC -> 2`. -/
def exampleTable : WellBarcodeTable :=
  [("AAAAAA".toList, ['1']), ("CCCCCC".toList, ['2'])]

/-- A composite record as read back from its four lines; the barcode is the
last field of the identifier. -/
def exampleRecord (identifier : String) : CompositedDGEIlluminaFASTQSequence :=
  match CompositedDGEIlluminaFASTQSequence.ctor identifier.toList "GAGCTGCT".toList ['+']
      "CCCBBGGG".toList true true false with
  | Except.ok seq => seq
  | Except.error _ => {}

/-- Read 1 of a pair: well barcode `AAAAAA`, UMI `CATAGCGTGG`, parsed at
identifier level 2. -/
def exampleRead1 : DGEIlluminaFASTQSequence :=
  match DGEIlluminaFASTQSequence.ctor
      "@HWI-D00704:48:C7302ANXX:1:1101:1103:2053 1:N:0:ATCACG".toList
      "AAAAAACATAGCGTGGTTTT".toList ['+'] "IIIIIIIIIIIIIIIIIIII".toList true true true false with
  | Except.ok seq => seq
  | Except.error _ => {}

/-- Read 2 of the pair: the payload. -/
def exampleRead2 : DGEIlluminaFASTQSequence :=
  match DGEIlluminaFASTQSequence.ctor
      "@HWI-D00704:48:C7302ANXX:1:1101:1103:2053 2:N:0:ATCACG".toList
      "GAGCTGCTATTTTATATTATGACT".toList ['+'] "CCCBBGGGGGED1FFGG>GDFGEC".toList
      true true true false with
  | Except.ok seq => seq
  | Except.error _ => {}

/-- Three records of well 1 and one of well 2. -/
def exampleRecords : List CompositedDGEIlluminaFASTQSequence :=
  [exampleRecord "@HWI-D00704:48:C7302ANXX:1:1101:1103:2053:AAAAAACATAGCGTGG",
   exampleRecord "@HWI-D00704:48:C7302ANXX:1:1101:1200:2060:AAAAAATTTTGCGTGG",
   exampleRecord "@HWI-D00704:48:C7302ANXX:1:1101:1300:2070:CCCCCCTTTTGCGTGG",
   exampleRecord "@HWI-D00704:48:C7302ANXX:1:1101:1400:2080:AAAAAAGGGGGCGTGG"]

end DGEIlluminaFASTQSequenceDemuxer

/-! ## `hts::SAMGeneUMIAlignmentCounter` -/

/-- Modelled from the spec: the header `SAMSTARFeatureCountsAlignmentOptionalFields.hpp`
with the accessors `getNumberOfTargetFeatures` and `getTargetFeatures` is not
part of the sources.  The spec says that the optional fields are inspected for
a "number of target features" tag and for the target gene; the two accessors
are represented by what they report for a line: `none` when the accessor
returns `false`, otherwise the value stored in its output argument. -/
structure SAMSTARFeatureCountsAlignmentOptionalFields where
  number_of_target_features : Option Nat := none
  target_features : Option (List CppString) := none
  deriving DecidableEq, Repr

/-- What `countAlignmentLine` reads of a
`SAMCompositedDGEIlluminaSTARFeatureCountsAlignmentLine`: the QNAME of the
mandatory fields and the optional fields. -/
structure SAMCompositedDGEIlluminaSTARFeatureCountsAlignmentLine where
  qname : CppString := []
  opt_fields : SAMSTARFeatureCountsAlignmentOptionalFields := {}
  deriving DecidableEq, Repr

/-- Modelled from the spec: the declaration of `gene_umi_pool` (header
`SAMGeneUMIAlignmentCounter.hpp`) is not part of the sources; the spec calls it
the set of seen composite keys, and the code uses `insert(key).second`.  The
pool is the list of its distinct keys. -/
abbrev GeneUMIPool := List CppString

/-- Data members of `SAMGeneUMIAlignmentCounter`. -/
structure SAMGeneUMIAlignmentCounter where
  gene_umi_pool : GeneUMIPool := []
  deriving DecidableEq, Repr

namespace SAMGeneUMIAlignmentCounter

/-- Embedding of `gene_umi_pool.insert(key)`: the pool afterwards and `result.second`. -/
def poolInsert (pool : GeneUMIPool) (key : CppString) : GeneUMIPool × Bool :=
  if key ∈ pool then (pool, false) else (key :: pool, true)

/-- What one call of `countAlignmentLine` leaves behind. -/
structure CountResult where
  status : Bool
  aux_count : Bool
  counter : SAMGeneUMIAlignmentCounter
  deriving DecidableEq, Repr

/-- Embedding of `SAMGeneUMIAlignmentCounter::countAlignmentLine(alignment_line, aux_count)`;
`aux_count` is the value of the reference argument before the call.
`front()` of an empty feature list is outside its contract and is reported as
an error. -/
def countAlignmentLine (counter : SAMGeneUMIAlignmentCounter)
    (alignment_line : SAMCompositedDGEIlluminaSTARFeatureCountsAlignmentLine) (aux_count : Bool) :
    Except String CountResult :=
  let status := false
  match alignment_line.opt_fields.number_of_target_features with
  | some n_target_features =>
    if n_target_features = 1 then
      match alignment_line.opt_fields.target_features with
      | some target_features =>
        match target_features with
        | target_gene :: _ => do
          let compos_dge_seq ←
            CompositedDGEIlluminaFASTQSequence.ctor alignment_line.qname [] [] [] true false false
          let umi_barcode := compos_dge_seq.getUMIBarcode
          let gene_umi_combo := target_gene ++ umi_barcode
          let result := poolInsert counter.gene_umi_pool gene_umi_combo
          pure { status := result.2, aux_count := true, counter := { gene_umi_pool := result.1 } }
        | [] => Except.error "front() called on an empty vector of target features"
      | none => pure { status := status, aux_count := aux_count, counter := counter }
    else pure { status := status, aux_count := aux_count, counter := counter }
  | none => pure { status := status, aux_count := aux_count, counter := counter }

/-- The statuses returned for a sequence of alignment lines given in input
order to one counter, and the counter afterwards. -/
def countAlignmentLines (counter : SAMGeneUMIAlignmentCounter) :
    List SAMCompositedDGEIlluminaSTARFeatureCountsAlignmentLine →
    Except String (List Bool × SAMGeneUMIAlignmentCounter)
  | [] => pure ([], counter)
  | alignment_line :: rest => do
    let r ← countAlignmentLine counter alignment_line false
    let rs ← countAlignmentLines r.counter rest
    pure (r.status :: rs.1, rs.2)

/-- The (target gene, UMI barcode) pair that `countAlignmentLine` extracts from
a line: the first reported target feature and the UMI barcode of the QNAME
parsed as a composite DGE identifier; `none` when either is unavailable. -/
def geneUMI (alignment_line : SAMCompositedDGEIlluminaSTARFeatureCountsAlignmentLine) :
    Option (CppString × CppString) :=
  match alignment_line.opt_fields.target_features,
      CompositedDGEIlluminaFASTQSequence.ctor alignment_line.qname [] [] [] true false false with
  | some (target_gene :: _), Except.ok compos_dge_seq =>
    some (target_gene, compos_dge_seq.getUMIBarcode)
  | _, _ => none

/-- Three alignment lines for one gene: the first two carry the same UMI, the
third another one. -/
def exampleAlignmentLines : List SAMCompositedDGEIlluminaSTARFeatureCountsAlignmentLine :=
  [ { qname := "HWI-D00704:48:C7302ANXX:1:1101:1103:2053:TAAGTACATAGCGTGG".toList,
      opt_fields := { number_of_target_features := some 1,
                      target_features := some ["GAPDH".toList] } },
    { qname := "HWI-D00704:48:C7302ANXX:1:1101:2200:3100:TAAGTACATAGCGTGG".toList,
      opt_fields := { number_of_target_features := some 1,
                      target_features := some ["GAPDH".toList] } },
    { qname := "HWI-D00704:48:C7302ANXX:1:1101:1500:2900:TAAGTAGGGGGGGGGG".toList,
      opt_fields := { number_of_target_features := some 1,
                      target_features := some ["GAPDH".toList] } } ]

end SAMGeneUMIAlignmentCounter

end hts

/-! ## `hts::ConvIlluminaFASTQSequence` -/

namespace hts

/-- Data members of `ConvIlluminaFASTQSequence` (derived from `IlluminaFASTQSequence`). -/
structure ConvIlluminaFASTQSequence extends IlluminaFASTQSequence where
  well_barcode : CppString := []
  deriving DecidableEq, Repr

namespace ConvIlluminaFASTQSequence

/-- Embedding of `ConvIlluminaFASTQSequence::setGroupId()`. -/
def setGroupId (s : ConvIlluminaFASTQSequence) : ConvIlluminaFASTQSequence :=
  { s with group_id := s.index_sequence }

/-- Embedding of `ConvIlluminaFASTQSequence::setBarcode()`. -/
def setBarcode (s : ConvIlluminaFASTQSequence) : ConvIlluminaFASTQSequence :=
  { s with well_barcode := s.index_sequence }

/-- Constructor `ConvIlluminaFASTQSequence(line1, line2, line3, line4, parse_seq,
parse_seq_id_level_1, parse_seq_id_level_2, flush_ostream)`. -/
def ctor (line1 line2 line3 line4 : CppString)
    (parse_seq parse_seq_id_level_1 parse_seq_id_level_2 flush_ostream : Bool) :
    Except String ConvIlluminaFASTQSequence := do
  let base ← IlluminaFASTQSequence.ctor line1 line2 line3 line4 parse_seq parse_seq_id_level_1
    parse_seq_id_level_2 flush_ostream
  pure (setBarcode (setGroupId { toIlluminaFASTQSequence := base }))

/-- Copy constructor and move constructor of `ConvIlluminaFASTQSequence` (the
value of the new object): the base part goes through the base constructors,
then the body runs `setGroupId()` and `setBarcode()`. -/
def copyCtor (seq : ConvIlluminaFASTQSequence) : ConvIlluminaFASTQSequence :=
  setBarcode (setGroupId
    { toIlluminaFASTQSequence := IlluminaFASTQSequence.copyCtor seq.toIlluminaFASTQSequence })

end ConvIlluminaFASTQSequence

/-! ## `hts::PairedFASTQSequenceCreator<SeqType>` -/

/-- The outcome of the two `if constexpr` tests of `PairedFASTQSequenceCreator`
on its template argument, with the accessor that the selected branch of
`parse()` calls. -/
inductive PairedSeqKind (SeqType : Type) where
  /-- Case `std::is_same_v<FASTQSequence, SeqType>`; the accessor is `getIdentifierLine()`. -/
  | isFASTQSequence (getIdentifierLine : SeqType → CppString)
  /-- Case `std::is_base_of_v<IlluminaFASTQSequence, SeqType>`; the accessor is
  `getSequenceIdentifierPart1()`. -/
  | isIlluminaDerived (getSequenceIdentifierPart1 : SeqType → CppString)
  /-- Any other type. -/
  | other

/-- What `PairedFASTQSequenceCreator<SeqType>` uses of its template argument:
the type tests, the copy/move constructor that initialises the two members,
and `getGroupId()`. -/
class PairedSeqTypeOps (SeqType : Type) where
  kind : PairedSeqKind SeqType
  copyCtor : SeqType → SeqType
  getGroupId : SeqType → CppString

instance : PairedSeqTypeOps FASTQSequence where
  kind := PairedSeqKind.isFASTQSequence (fun seq => seq.lines.identifier)
  copyCtor := FASTQSequence.copyCtor
  getGroupId := fun seq => seq.group_id

instance : PairedSeqTypeOps IlluminaFASTQSequence where
  kind := PairedSeqKind.isIlluminaDerived (fun seq => seq.seq_id_part_1)
  copyCtor := IlluminaFASTQSequence.copyCtor
  getGroupId := fun seq => seq.group_id

instance : PairedSeqTypeOps ConvIlluminaFASTQSequence where
  kind := PairedSeqKind.isIlluminaDerived (fun seq => seq.seq_id_part_1)
  copyCtor := ConvIlluminaFASTQSequence.copyCtor
  getGroupId := fun seq => seq.group_id

instance : PairedSeqTypeOps DGEIlluminaFASTQSequence where
  kind := PairedSeqKind.isIlluminaDerived (fun seq => seq.seq_id_part_1)
  copyCtor := DGEIlluminaFASTQSequence.copyCtor
  getGroupId := fun seq => seq.group_id

/-- Data members of `PairedFASTQSequenceCreator<SeqType>`. -/
structure PairedFASTQSequenceCreator (SeqType : Type) where
  seq_1 : SeqType
  seq_2 : SeqType
  group_id : CppString := []
  parse_seq : Bool := false

namespace PairedFASTQSequenceCreator

variable {SeqType : Type} [PairedSeqTypeOps SeqType]

/-- Embedding of `PairedFASTQSequenceCreator::setGroupId()`. -/
def setGroupId (p : PairedFASTQSequenceCreator SeqType) : PairedFASTQSequenceCreator SeqType :=
  { p with group_id := PairedSeqTypeOps.getGroupId p.seq_1 }

/-- Embedding of `PairedFASTQSequenceCreator::parse()`. -/
def parse (p : PairedFASTQSequenceCreator SeqType) : Except String Unit :=
  match (PairedSeqTypeOps.kind : PairedSeqKind SeqType) with
  | PairedSeqKind.isFASTQSequence getIdentifierLine =>
    if getIdentifierLine p.seq_1 != getIdentifierLine p.seq_2 then
      Except.error "Two FASTQ sequences cannot be paird: their Sequence Identifier lines are different"
    else Except.ok ()
  | PairedSeqKind.isIlluminaDerived getSequenceIdentifierPart1 =>
    if (getSequenceIdentifierPart1 p.seq_1).isEmpty
        || (getSequenceIdentifierPart1 p.seq_2).isEmpty then
      Except.error "Two Illumina FASTQ sequences cannot be paird: the first part of Sequence Identifier line of one or both of two sequences are empty"
    else if getSequenceIdentifierPart1 p.seq_1 != getSequenceIdentifierPart1 p.seq_2 then
      Except.error "Two Illumina FASTQ sequences cannot be paird: the first part of the Sequence Identifier line of two sequences are different"
    else Except.ok ()
  | PairedSeqKind.other => Except.error "Cannot parse non-FASTQSequence pair"

/-- Constructor `PairedFASTQSequenceCreator(seq_1, seq_2, parse_seq)`, for both
the `const SeqType&` and the `SeqType&&` overload: the two members are copy-
or move-constructed from the arguments, then the body runs. -/
def ctor (seq_1 seq_2 : SeqType) (parse_seq : Bool) :
    Except String (PairedFASTQSequenceCreator SeqType) :=
  let p : PairedFASTQSequenceCreator SeqType :=
    { seq_1 := PairedSeqTypeOps.copyCtor seq_1,
      seq_2 := PairedSeqTypeOps.copyCtor seq_2,
      parse_seq := parse_seq }
  match (PairedSeqTypeOps.kind : PairedSeqKind SeqType) with
  | PairedSeqKind.other => Except.error "Cannot pair non-FASTQSequence objects"
  | _ =>
    if parse_seq then do
      parse p
      pure (setGroupId p)
    else pure (setGroupId p)

end PairedFASTQSequenceCreator

namespace DGEIlluminaFASTQSequenceDemuxer

/-- Read 2 of the example pair, constructed without any parsing. -/
def exampleRead2Unparsed : DGEIlluminaFASTQSequence :=
  match DGEIlluminaFASTQSequence.ctor
      "@HWI-D00704:48:C7302ANXX:1:1101:1103:2053 2:N:0:ATCACG".toList
      "GAGCTGCTATTTTATATTATGACT".toList ['+'] "CCCBBGGGGGED1FFGG>GDFGEC".toList
      false false false false with
  | Except.ok seq => seq
  | Except.error _ => {}

/-- Read 1 whose first sixteen bases are not all nucleotide letters: the
seventh character of the sequence line is a colon. -/
def exampleRead1Colon : DGEIlluminaFASTQSequence :=
  match DGEIlluminaFASTQSequence.ctor
      "@HWI-D00704:48:C7302ANXX:1:1101:1103:2053 1:N:0:ATCACG".toList
      "AAAAAA:ATAGCGTGGTTTT".toList ['+'] "IIIIIIIIIIIIIIIIIIII".toList
      true true true false with
  | Except.ok seq => seq
  | Except.error _ => {}

end DGEIlluminaFASTQSequenceDemuxer

end hts

/-! ## `std::stoll` and `utk::convert` -/

namespace std

/-- Embedding of `LLONG_MAX`. -/
def LLONG_MAX : Int := 2 ^ 63 - 1

/-- Embedding of `LLONG_MIN`. -/
def LLONG_MIN : Int := -(2 ^ 63)

/-- Embedding of `std::stoll(str)` (base 10, no position output): `strtoll` skips leading
white space, takes an optional sign and the longest run of digits, and ignores
whatever follows.  No digit gives `std::invalid_argument`, a value outside
`LLONG_MIN .. LLONG_MAX` gives `std::out_of_range` (both are `none` here). -/
def stoll (str : CppString) : Option Int :=
  let s := (CppString.c_str str).dropWhile isspace
  let signed : Bool × CppString :=
    match s with
    | '+' :: r => (false, r)
    | '-' :: r => (true, r)
    | _ => (false, s)
  let ds := signed.2.takeWhile isdigit
  if ds.isEmpty then none
  else
    let v : Int := (digitsValue ds : Nat)
    if signed.1 then (if -v < LLONG_MIN then none else some (-v))
    else (if v > LLONG_MAX then none else some v)

end std

namespace std

/-- The subject sequence of `strtoul` and `strtoll` in base 10: whether a minus
sign was read, and the longest run of digits that follows the leading white
space and the optional sign. -/
def subjectSequence (str : CppString) : Bool × CppString :=
  let s := (CppString.c_str str).dropWhile isspace
  let signed : Bool × CppString :=
    match s with
    | '+' :: r => (false, r)
    | '-' :: r => (true, r)
    | _ => (false, s)
  (signed.1, signed.2.takeWhile isdigit)

end std

namespace utk

/-- Embedding of `utk::convert<std::size_t>(str)` on the LP64 targets of the program, where
`std::size_t` is `unsigned long`: the branch `arg = std::stoul(str)`.  `none`
stands for the `std::logic_error` (`std::invalid_argument` or
`std::out_of_range`) thrown by `std::stoul`. -/
def convert_size_t (str : CppString) : Option Nat := std.stoul str

/-- Embedding of `utk::convert<long long>(str)`: the branch `arg = std::stoll(str)`. -/
def convert_long_long (str : CppString) : Option Int := std.stoll str

end utk

/-! ## `hts::SAMAlignmentMandatoryFields` -/

namespace hts

/-- The type `SAMAlignmentMandatoryFields::ParseMasks` = `std::bitset<12>`, as the number
whose binary digits are the bits (`to_ulong()`). -/
abbrev ParseMasks := Nat

namespace ParseMasks

/-- Embedding of `bitset::set()`: all twelve bits on. -/
def set : ParseMasks := 2 ^ 12 - 1

/-- Embedding of `bitset::reset()`: all bits off. -/
def reset : ParseMasks := 0

/-- Embedding of `bitset::test(pos)`. -/
def test (masks : ParseMasks) (pos : Nat) : Bool := Nat.testBit masks pos

/-- Constructor `std::bitset<12>(str)` for a string of `0` and `1` of length at most 12:
the last character is bit 0. -/
def ofString (str : CppString) : ParseMasks :=
  str.foldl (fun acc c => 2 * acc + (if c = '1' then 1 else 0)) 0

end ParseMasks

/-- Data members of `SAMAlignmentMandatoryFields`. -/
structure SAMAlignmentMandatoryFields where
  qname : CppString := []
  flag : Nat := 0
  rname : CppString := []
  pos : Nat := 0
  mapq : Nat := 0
  cigar : CppString := []
  rnext : CppString := []
  pnext : Nat := 0
  tlen : Int := 0
  seq : CppString := []
  qual : CppString := []
  read_length : Nat := 0
  parse_masks : ParseMasks := 0
  flush_ostream : Bool := false
  deriving DecidableEq, Repr

namespace SAMAlignmentMandatoryFields

/-- Embedding of `SAMAlignmentMandatoryFields::n_mand_fields`. -/
def n_mand_fields : Nat := 11

/-- Embedding of `SAMAlignmentMandatoryFields::getNumberOfMandatoryFields()`. -/
def getNumberOfMandatoryFields : Nat := n_mand_fields

/-- A character range `lo-hi` of a bracket expression. -/
def inRange (lo hi c : Char) : Bool := decide (lo.toNat ≤ c.toNat) && decide (c.toNat ≤ hi.toNat)

/-- The bracket expression `[!-~]`. -/
def isPrintable (c : Char) : Bool := inRange '!' '~' c

/-- The bracket expression `[!-()+-<>-~]`: the ranges `!-(`, `)`, `+-<` and `>-~`. -/
def isNameStart (c : Char) : Bool :=
  inRange '!' '(' c || c = ')' || inRange '+' '<' c || inRange '>' '~' c

/-- Embedding of `std::regex_match(qname, std::regex("[!-?A-~]{1,254}"))`, the entry `QNAME`
of `std_sam_align_mand_field_regexes`. -/
def regex_match_QNAME (qname : CppString) : Bool :=
  decide (1 ≤ qname.length) && decide (qname.length ≤ 254)
    && qname.all (fun c => inRange '!' '?' c || inRange 'A' '~' c)

/-- Embedding of `std::regex_match` with the entry `RNAME`, `\*|[!-()+-<>-~][!-~]*`. -/
def regex_match_RNAME (rname : CppString) : Bool :=
  match rname with
  | [] => false
  | c :: rest => decide (rname = ['*']) || (isNameStart c && rest.all isPrintable)

/-- One or more groups `[0-9]+[MIDNSHPX=]`; `inDigits` says that the current
group has at least one digit, `groups` that at least one group is complete. -/
def matchCigarGroups : Bool → Bool → CppString → Bool
  | inDigits, groups, [] => !inDigits && groups
  | inDigits, groups, c :: cs =>
    if inRange '0' '9' c then matchCigarGroups true groups cs
    else if c ∈ ['M', 'I', 'D', 'N', 'S', 'H', 'P', 'X', '='] then
      inDigits && matchCigarGroups false true cs
    else false

/-- Embedding of `std::regex_match` with the entry `CIGAR`, `\*|([0-9]+[MIDNSHPX=])+`. -/
def regex_match_CIGAR (cigar : CppString) : Bool :=
  decide (cigar = ['*']) || matchCigarGroups false false cigar

/-- Embedding of `std::regex_match` with the entry `RNEXT`, `\*|=|[!-()+-<>-~][!-~]*`. -/
def regex_match_RNEXT (rnext : CppString) : Bool :=
  match rnext with
  | [] => false
  | c :: rest =>
    decide (rnext = ['*']) || decide (rnext = ['=']) || (isNameStart c && rest.all isPrintable)

/-- Embedding of `std::regex_match` with the entry `SEQ`, `\*|[A-Za-z=\.]+`. -/
def regex_match_SEQ (seq : CppString) : Bool :=
  decide (seq = ['*']) ||
    (!seq.isEmpty && seq.all (fun c => inRange 'A' 'Z' c || inRange 'a' 'z' c || c = '=' || c = '.'))

/-- Embedding of `std::regex_match` with the entry `QUAL`, `[!-~]+`. -/
def regex_match_QUAL (qual : CppString) : Bool :=
  !qual.isEmpty && qual.all isPrintable

/-- Embedding of `SAMAlignmentMandatoryFields::makeParseMasks(parse_fields)`. -/
def makeParseMasks (m : SAMAlignmentMandatoryFields) (parse_fields : CppString) :
    Except String ParseMasks :=
  if parse_fields.length > 0 then
    if parse_fields.length != n_mand_fields + 1 then
      Except.error (String.mk m.qname ++ "The bit-mask character string for parsing the mandatory fields of SAM alignment line must have 12 characters if not empty!")
    else if parse_fields.any (fun c => c != '0' && c != '1') then
      Except.error "Only 0 and 1 are allowed in the bit-mask character string for parsing the mandatory fields of SAM alignment line!"
    else Except.ok (ParseMasks.ofString parse_fields)
  else Except.ok (ParseMasks.ofString parse_fields)

/-- Embedding of `SAMAlignmentMandatoryFields::parse()`. -/
def parse (m : SAMAlignmentMandatoryFields) : Except String SAMAlignmentMandatoryFields :=
  if ParseMasks.test m.parse_masks 0 && !regex_match_QNAME m.qname then
    Except.error (String.mk m.qname ++ " doesn't match with mandatory pattern of QNAME: [!-?A-~]\x7b1,254\x7d !")
  else if ParseMasks.test m.parse_masks 1 && decide (m.flag > 65535) then
    Except.error ("FLAG " ++ toString m.flag ++ " is greater than 65535!")
  else if ParseMasks.test m.parse_masks 2 && !regex_match_RNAME m.rname then
    Except.error (String.mk m.rname ++ " doesn't match with mandatory pattern of RNAME: \\*|[!-()+-<>-~][!-~]* !")
  else if ParseMasks.test m.parse_masks 3 && decide (m.pos > 2147483647) then
    Except.error ("POS " ++ toString m.pos ++ " is greater than 2147483647!")
  else if ParseMasks.test m.parse_masks 4 && decide (m.mapq > 255) then
    Except.error ("MAPQ " ++ toString m.mapq ++ " is greater than 255!")
  else if ParseMasks.test m.parse_masks 5 && !regex_match_CIGAR m.cigar then
    Except.error (String.mk m.cigar ++ " doesn't match with mandatory pattern of CIGAR: \\*|([0-9]+[MIDNSHPX=])+ !")
  else if ParseMasks.test m.parse_masks 6 && !regex_match_RNEXT m.rnext then
    Except.error (String.mk m.rnext ++ " doesn't match with mandatory pattern of RNEXT: \\*|=|[!-()+-<>-~][!-~]* !")
  else if ParseMasks.test m.parse_masks 7 && decide (m.pnext > 2147483647) then
    Except.error ("PNEXT " ++ toString m.pnext ++ " is greater than 2147483647!")
  else if ParseMasks.test m.parse_masks 8
      && (decide (m.tlen < -2147483647) || decide (m.tlen > 2147483647)) then
    Except.error ("TLEN " ++ toString m.tlen ++ " is greater than 2147483647!")
  else if ParseMasks.test m.parse_masks 9 && !regex_match_SEQ m.seq then
    Except.error (String.mk m.seq ++ " doesn't match with mandatory pattern of SEQ: \\*|[A-Za-z=\\.]+ !")
  else if ParseMasks.test m.parse_masks 10 && !regex_match_QUAL m.qual then
    Except.error (String.mk m.qual ++ " doesn't match with mandatory pattern of QUAL: [!-~]+ !")
  else if ParseMasks.test m.parse_masks 11 then
    if m.seq.length = m.qual.length then Except.ok { m with read_length := m.seq.length }
    else Except.error ("The lengths of " ++ String.mk m.seq ++ " and " ++ String.mk m.qual
      ++ " are different!")
  else Except.ok m

/-- Constructor `SAMAlignmentMandatoryFields(qname, flag, rname, pos, mapq, cigar, rnext,
pnext, tlen, seq, qual, bool parse_fields, flush_ostream)`. -/
def ctor (qname : CppString) (flag : Nat) (rname : CppString) (pos mapq : Nat)
    (cigar rnext : CppString) (pnext : Nat) (tlen : Int) (seq qual : CppString)
    (parse_fields flush_ostream : Bool) : Except String SAMAlignmentMandatoryFields :=
  let m : SAMAlignmentMandatoryFields :=
    { qname := qname, flag := flag, rname := rname, pos := pos, mapq := mapq, cigar := cigar,
      rnext := rnext, pnext := pnext, tlen := tlen, seq := seq, qual := qual,
      flush_ostream := flush_ostream }
  parse { m with parse_masks := if parse_fields then ParseMasks.set else ParseMasks.reset }

/-- Constructor `SAMAlignmentMandatoryFields(qname, flag, rname, pos, mapq, cigar, rnext,
pnext, tlen, seq, qual, const std::string& parse_fields, flush_ostream)`. -/
def ctorMask (qname : CppString) (flag : Nat) (rname : CppString) (pos mapq : Nat)
    (cigar rnext : CppString) (pnext : Nat) (tlen : Int) (seq qual : CppString)
    (parse_fields : CppString) (flush_ostream : Bool) :
    Except String SAMAlignmentMandatoryFields := do
  let m : SAMAlignmentMandatoryFields :=
    { qname := qname, flag := flag, rname := rname, pos := pos, mapq := mapq, cigar := cigar,
      rnext := rnext, pnext := pnext, tlen := tlen, seq := seq, qual := qual,
      flush_ostream := flush_ostream }
  let masks ← makeParseMasks m parse_fields
  parse { m with parse_masks := masks }

end SAMAlignmentMandatoryFields

end hts

/-! ## `hts::SAMCompositedDGEIlluminaAlignmentMandatoryFields` -/

namespace hts

/-- Data members of `SAMCompositedDGEIlluminaAlignmentMandatoryFields` (derived from
`SAMAlignmentMandatoryFields`; the class adds no member). -/
structure SAMCompositedDGEIlluminaAlignmentMandatoryFields extends SAMAlignmentMandatoryFields
  deriving DecidableEq, Repr

namespace SAMCompositedDGEIlluminaAlignmentMandatoryFields

/-- Embedding of `SAMCompositedDGEIlluminaAlignmentMandatoryFields::parse()`. -/
def parse (m : SAMCompositedDGEIlluminaAlignmentMandatoryFields) :
    Except String SAMCompositedDGEIlluminaAlignmentMandatoryFields :=
  if ParseMasks.test m.parse_masks 0 then
    let parts := utk.splitString m.qname IlluminaFASTQSequence.colon_sep
    if parts.length != CompositedDGEIlluminaFASTQSequence.n_seq_id_parts then
      Except.error "The QNAME of the mandatory fields of a SAM alignment line for a composite 3'-DGE Illumina FASTQ sequence must have 8 parts separated by : character!"
    else Except.ok m
  else Except.ok m

/-- Constructor `SAMCompositedDGEIlluminaAlignmentMandatoryFields(qname, flag, rname, pos,
mapq, cigar, rnext, pnext, tlen, seq, qual, bool parse_fields, flush_ostream)`:
the base constructor, then the `parse()` of this class. -/
def ctor (qname : CppString) (flag : Nat) (rname : CppString) (pos mapq : Nat)
    (cigar rnext : CppString) (pnext : Nat) (tlen : Int) (seq qual : CppString)
    (parse_fields flush_ostream : Bool) :
    Except String SAMCompositedDGEIlluminaAlignmentMandatoryFields := do
  let base ← SAMAlignmentMandatoryFields.ctor qname flag rname pos mapq cigar rnext pnext tlen
    seq qual parse_fields flush_ostream
  parse { toSAMAlignmentMandatoryFields := base }

end SAMCompositedDGEIlluminaAlignmentMandatoryFields

/-! ## `hts::SAMAlignmentLine` -/

/-- What `SAMAlignmentLine` uses of its template argument
`SAMAlignmentMandatoryFieldsType`: the default constructor of the member
`mand_fields`, the constructor called by `parseLine`, and the base-class part
of an object. -/
class SAMAlignmentMandatoryFieldsTypeOps (M : Type) where
  defaultCtor : M
  ctor : CppString → Nat → CppString → Nat → Nat → CppString → CppString → Nat → Int →
    CppString → CppString → Bool → Bool → Except String M
  toBase : M → SAMAlignmentMandatoryFields

instance : SAMAlignmentMandatoryFieldsTypeOps SAMAlignmentMandatoryFields where
  defaultCtor := {}
  ctor := SAMAlignmentMandatoryFields.ctor
  toBase := fun m => m

instance : SAMAlignmentMandatoryFieldsTypeOps SAMCompositedDGEIlluminaAlignmentMandatoryFields where
  defaultCtor := {}
  ctor := SAMCompositedDGEIlluminaAlignmentMandatoryFields.ctor
  toBase := fun m => m.toSAMAlignmentMandatoryFields

/-- Data members of `SAMAlignmentLine<SAMAlignmentMandatoryFieldsType,
SAMAlignmentOptionalFieldsType, SAMAlignmentOptionalFieldType>`; `M` is the type
of the mandatory fields, `F` the type of one optional field, and the list of
optional fields (a `std::vector` of them) is a list. -/
structure SAMAlignmentLine (M F : Type) where
  line : CppString := []
  mand_fields : M
  opt_fields : List F := []
  parse_line : Bool := false
  parse_mand_fields : Bool := false
  parse_opt_fields : Bool := false
  parse_opt_fields_attribs : Bool := false
  pref_opt_fields_tags : List CppString := []
  flush_ostream : Bool := false

namespace SAMAlignmentLine

variable {M F : Type} [SAMAlignmentMandatoryFieldsTypeOps M]

/-- Embedding of `SAMAlignmentLine::tab_sep`. -/
def tab_sep : Char := '\t'

/-- A `utk::convert<std::size_t>` call wrapped in the `try`/`catch` that rethrows with `msg`. -/
def convertSizeOr (str : CppString) (msg : String) : Except String Nat :=
  match utk.convert_size_t str with
  | some v => Except.ok v
  | none => Except.error msg

/-- A `utk::convert<long long>` call wrapped in the `try`/`catch` that rethrows with `msg`. -/
def convertLongLongOr (str : CppString) (msg : String) : Except String Int :=
  match utk.convert_long_long str with
  | some v => Except.ok v
  | none => Except.error msg

/-- The optional-field objects that the loop body of `parseLine` appends for one
token `it`.  The constructor of `SAMAlignmentOptionalFieldType` (its source
file is not part of the sources) is the parameter `optCtor`, called with the
field text, `parse_field`, `parse_tag`, `parse_type`, `parse_value` and
`flush_ostream`. -/
def parseOptionalToken
    (optCtor : CppString → Bool → Bool → Bool → Bool → Bool → Except String F)
    (al : SAMAlignmentLine M F) (it : CppString) : Except String (List F) :=
  if al.pref_opt_fields_tags.length > 0 then
    al.pref_opt_fields_tags.mapM (fun tag =>
      if CppString.substr it 0 tag.length = tag then
        optCtor it al.parse_opt_fields al.parse_opt_fields_attribs al.parse_opt_fields_attribs
          al.parse_opt_fields_attribs al.flush_ostream
      else optCtor it false false false false al.flush_ostream)
  else do
    let f ← optCtor it al.parse_opt_fields al.parse_opt_fields_attribs al.parse_opt_fields_attribs
      al.parse_opt_fields_attribs al.flush_ostream
    pure [f]

/-- Embedding of `SAMAlignmentLine::parseLine()`.  The iterator `it` walks over `parts`; the
eleven reads `*(it++)` are the elements 0 to 10, which exist because
`n_parts >= 11`. -/
def parseLine (optCtor : CppString → Bool → Bool → Bool → Bool → Bool → Except String F)
    (al : SAMAlignmentLine M F) : Except String (SAMAlignmentLine M F) :=
  let parts := utk.splitString al.line tab_sep
  if parts.length ≥ SAMAlignmentMandatoryFields.getNumberOfMandatoryFields then do
    let qname := parts.getD 0 []
    if qname.length = 0 then throw "QNAME is empty!"
    let flag ← convertSizeOr (parts.getD 1 []) "Failed to convert FLAG to std::size_t type!"
    let rname := parts.getD 2 []
    if qname.length = 0 then throw "RNAME is empty!"
    let pos ← convertSizeOr (parts.getD 3 []) "Failed to convert POS to std::size_t type!"
    let mapq ← convertSizeOr (parts.getD 4 []) "Failed to convert MAPQ to std::size_t type!"
    let cigar := parts.getD 5 []
    if qname.length = 0 then throw "CIGAR is empty!"
    let rnext := parts.getD 6 []
    if qname.length = 0 then throw "RNEXT is empty!"
    let pnext ← convertSizeOr (parts.getD 7 []) "Failed to convert PNEXT to std::size_t type!"
    let tlen ← convertLongLongOr (parts.getD 8 []) "Failed to convert TLEN to long long type!"
    let seq := parts.getD 9 []
    if qname.length = 0 then throw "SEQ is empty!"
    let qual := parts.getD 10 []
    if qname.length = 0 then throw "QUAL is empty!"
    let mand_fields ← SAMAlignmentMandatoryFieldsTypeOps.ctor qname flag rname pos mapq cigar
      rnext pnext tlen seq qual al.parse_mand_fields al.flush_ostream
    let opts ← (parts.drop 11).mapM (parseOptionalToken optCtor al)
    pure { al with mand_fields := mand_fields, opt_fields := al.opt_fields ++ opts.flatten }
  else
    throw "Alignment line must have all 11 mandatory fields!"

/-- Constructor `SAMAlignmentLine(line_val, parse_line, parse_mand_fields, parse_opt_fields,
parse_opt_fields_attribs, pref_opt_fields_tags, flush_ostream)`. -/
def ctor (optCtor : CppString → Bool → Bool → Bool → Bool → Bool → Except String F)
    (line_val : CppString) (parse_line parse_mand_fields parse_opt_fields
      parse_opt_fields_attribs : Bool)
    (pref_opt_fields_tags : List CppString) (flush_ostream : Bool) :
    Except String (SAMAlignmentLine M F) :=
  let al : SAMAlignmentLine M F :=
    { line := line_val, mand_fields := SAMAlignmentMandatoryFieldsTypeOps.defaultCtor,
      parse_line := parse_line, parse_mand_fields := parse_mand_fields,
      parse_opt_fields := parse_opt_fields,
      parse_opt_fields_attribs := parse_opt_fields_attribs,
      pref_opt_fields_tags := pref_opt_fields_tags, flush_ostream := flush_ostream }
  if parse_line then parseLine optCtor al else Except.ok al

end SAMAlignmentLine

end hts

/-! ## `hts::SAMAlignmentPipe` -/

namespace hts

namespace SAMHeaderLine

/-- Embedding of `SAMHeaderLine::beg_char`. -/
def beg_char : Char := '@'

/-- Embedding of `SAMHeaderLine::getBeginChar()`. -/
def getBeginChar : Char := beg_char

end SAMHeaderLine

namespace SAMHeaderCommentLine

/-- Embedding of `SAMHeaderCommentLine::std_sam_comment_header_record_type`. -/
def std_sam_comment_header_record_type : CppString := "@CO".toList

/-- Embedding of `SAMHeaderCommentLine::getStdSAMCommentHeaderRecordType()`. -/
def getStdSAMCommentHeaderRecordType : CppString := std_sam_comment_header_record_type

end SAMHeaderCommentLine

/-- What `SAMAlignmentPipe::run` uses of its template arguments
`SAMFileReaderType`, `SAMFileWriterType`, `SAMAlignmentLineType` and
`SAMAlignmentCounterType`.  `W` is the state of the writer, `C` the state of
the counter, `A`, `D` and `H` the types of alignment, header data and header
comment lines.  The three `read...` members are the reader's
`readAlignmentLine<false>(line, obj)`, `readHeaderDataLine<false>(line, obj)`
and `readHeaderCommentLine<false>(line, obj)`: the returned status and the
object built from the line.  The three `count...` members are the counter's
`count...(obj, aux_count)`: the counter afterwards, the returned decision and
the value left in `aux_count`.  The three `write...` members are the writer's
`writeLine(obj)`.  Every member may throw. -/
structure SAMAlignmentPipeOps (W C A D H : Type) where
  readAlignmentLine : CppString → Except String (Bool × A)
  readHeaderDataLine : CppString → Except String (Bool × D)
  readHeaderCommentLine : CppString → Except String (Bool × H)
  countAlignmentLine : C → A → Except String (C × Bool × Bool)
  countHeaderDataLine : C → D → Except String (C × Bool × Bool)
  countHeaderCommentLine : C → H → Except String (C × Bool × Bool)
  writeAlignmentLine : W → A → Except String W
  writeHeaderDataLine : W → D → Except String W
  writeHeaderCommentLine : W → H → Except String W

/-- The objects referenced by a `SAMAlignmentPipe` (`file_writer`,
`align_counter`) together with the local counters of `run()`. -/
structure SAMAlignmentPipe (W C : Type) where
  file_writer : W
  align_counter : C
  n_read_align_lines : Nat := 0
  n_read_aux_align_lines : Nat := 0
  n_write_align_lines : Nat := 0
  n_read_header_data_lines : Nat := 0
  n_read_aux_header_data_lines : Nat := 0
  n_write_header_data_lines : Nat := 0
  n_read_header_comment_lines : Nat := 0
  n_read_aux_header_comment_lines : Nat := 0
  n_write_header_comment_lines : Nat := 0

namespace SAMAlignmentPipe

variable {W C A D H : Type}

/-- The alignment branch of the loop body of `run()`. -/
def processAlignmentLine (ops : SAMAlignmentPipeOps W C A D H) (p : SAMAlignmentPipe W C)
    (line : CppString) : Except String (SAMAlignmentPipe W C) := do
  let (status, alignment_line) ← ops.readAlignmentLine line
  let p1 ← if status then do
      let (counter, count, aux_count) ← ops.countAlignmentLine p.align_counter alignment_line
      let pc := { p with align_counter := counter }
      let pw ← if count then do
          let writer ← ops.writeAlignmentLine pc.file_writer alignment_line
          pure { pc with file_writer := writer, n_write_align_lines := pc.n_write_align_lines + 1 }
        else pure pc
      pure (if aux_count then
        { pw with n_read_aux_align_lines := pw.n_read_aux_align_lines + 1 } else pw)
    else pure p
  pure { p1 with n_read_align_lines := p1.n_read_align_lines + 1 }

/-- The header data branch of the loop body of `run()`. -/
def processHeaderDataLine (ops : SAMAlignmentPipeOps W C A D H) (p : SAMAlignmentPipe W C)
    (line : CppString) : Except String (SAMAlignmentPipe W C) := do
  let (status, data_line) ← ops.readHeaderDataLine line
  let p1 ← if status then do
      let (counter, count, aux_count) ← ops.countHeaderDataLine p.align_counter data_line
      let pc := { p with align_counter := counter }
      let pw ← if count then do
          let writer ← ops.writeHeaderDataLine pc.file_writer data_line
          pure { pc with file_writer := writer,
                         n_write_header_data_lines := pc.n_write_header_data_lines + 1 }
        else pure pc
      pure (if aux_count then
        { pw with n_read_aux_header_data_lines := pw.n_read_aux_header_data_lines + 1 } else pw)
    else pure p
  pure { p1 with n_read_header_data_lines := p1.n_read_header_data_lines + 1 }

/-- The header comment branch of the loop body of `run()`. -/
def processHeaderCommentLine (ops : SAMAlignmentPipeOps W C A D H) (p : SAMAlignmentPipe W C)
    (line : CppString) : Except String (SAMAlignmentPipe W C) := do
  let (status, comment_line) ← ops.readHeaderCommentLine line
  let p1 ← if status then do
      let (counter, count, aux_count) ← ops.countHeaderCommentLine p.align_counter comment_line
      let pc := { p with align_counter := counter }
      let pw ← if count then do
          let writer ← ops.writeHeaderCommentLine pc.file_writer comment_line
          pure { pc with file_writer := writer,
                         n_write_header_comment_lines := pc.n_write_header_comment_lines + 1 }
        else pure pc
      pure (if aux_count then
        { pw with n_read_aux_header_comment_lines := pw.n_read_aux_header_comment_lines + 1 }
        else pw)
    else pure p
  pure { p1 with n_read_header_comment_lines := p1.n_read_header_comment_lines + 1 }

/-- The body of the `for` loop of `run()` for one line handed out by
`file_reader.readLine(line)`. -/
def processLine (ops : SAMAlignmentPipeOps W C A D H) (p : SAMAlignmentPipe W C)
    (line : CppString) : Except String (SAMAlignmentPipe W C) :=
  if CppString.front line != SAMHeaderLine.getBeginChar then
    processAlignmentLine ops p line
  else
    let comment_record_type := SAMHeaderCommentLine.getStdSAMCommentHeaderRecordType
    if CppString.substr line 0 comment_record_type.length != comment_record_type then
      processHeaderDataLine ops p line
    else
      processHeaderCommentLine ops p line

/-- The loop of `run()` over the lines that `file_reader.readLine` hands out, in
file order. -/
def processLines (ops : SAMAlignmentPipeOps W C A D H) :
    SAMAlignmentPipe W C → List CppString → Except String (SAMAlignmentPipe W C)
  | p, [] => Except.ok p
  | p, line :: rest => do
    let p1 ← processLine ops p line
    processLines ops p1 rest

/-- Embedding of `SAMAlignmentPipe::run()` on a reader that hands out `lines`: the returned
`n_read_lines` and the final state (writer, counter and the counters that the
function prints). -/
def run (ops : SAMAlignmentPipeOps W C A D H) (file_writer : W) (align_counter : C)
    (lines : List CppString) : Except String (Nat × SAMAlignmentPipe W C) := do
  let p ← processLines ops { file_writer := file_writer, align_counter := align_counter } lines
  let n_read_lines :=
    p.n_read_header_data_lines + p.n_read_header_comment_lines + p.n_read_align_lines
  pure (n_read_lines, p)

/-- A pass-through instantiation for examples: every line object is the line
itself, the counter counts the objects it is shown and selects all of them, the
writer collects what it is given. -/
def exampleOps : SAMAlignmentPipeOps (List CppString) Nat CppString CppString CppString where
  readAlignmentLine := fun line => Except.ok (true, line)
  readHeaderDataLine := fun line => Except.ok (true, line)
  readHeaderCommentLine := fun line => Except.ok (true, line)
  countAlignmentLine := fun counter _ => Except.ok (counter + 1, true, false)
  countHeaderDataLine := fun counter _ => Except.ok (counter + 1, true, false)
  countHeaderCommentLine := fun counter _ => Except.ok (counter + 1, true, false)
  writeAlignmentLine := fun writer line => Except.ok (writer ++ [line])
  writeHeaderDataLine := fun writer line => Except.ok (writer ++ [line])
  writeHeaderCommentLine := fun writer line => Except.ok (writer ++ [line])

/-- Four lines of a SAM file: a header data line, a header comment line and two
alignment lines. -/
def exampleLines : List CppString :=
  ["@HD\tVN:1.0".toList, "@CO\tmade by hand".toList,
   "r1\t0\tchr1\t100\t255\t4M\t=\t200\t-50\tACGT\tIIII".toList,
   "r2\t0\tchr1\t300\t255\t4M\t=\t400\t-50\tACGT\tIIII".toList]

end SAMAlignmentPipe

end hts

/-! ## `utk::splitString`, the loop of the source -/

namespace utk

/-- Characters with a special meaning in the ECMAScript pattern syntax of
`std::regex`; a separator that is none of them is a pattern matching itself. -/
def isSyntaxCharacter (c : Char) : Bool :=
  c ∈ ['^', '$', '\\', '.', '*', '+', '?', '(', ')', '[', ']', '{', '}', '|']

/-- The tokens of `std::sregex_token_iterator(str.begin(), str.end(), sep_regex, -1)` for
a non-empty `str` and a pattern that is the literal character `sep`: the text
before each occurrence of `sep`, then the text after the last occurrence unless
that text is empty; a string without occurrence is one token. -/
def sregex_token_iterator (sep : Char) : CppString → List CppString
  | [] => []
  | c :: cs =>
    if c = sep then [] :: sregex_token_iterator sep cs
    else
      match sregex_token_iterator sep cs with
      | [] => [[c]]
      | p :: ps => (c :: p) :: ps

/-- The body of `utk::splitString(str, sep)` as written in the source, for a separator that
is one literal character: nothing for an empty string; otherwise the tokens of
the token iterator, and one more empty part when `std::regex_search(str,
std::regex(sep+'$'))` finds the separator at the end of the string. -/
def splitStringLoop (str : CppString) (sep : Char) : List CppString :=
  if str.isEmpty then []
  else
    let parts := sregex_token_iterator sep str
    if str.getLast? = some sep then parts ++ [[]] else parts

/-- Embedding of `utk::toLowerString(str)`: `std::tolower` of the C locale on every character. -/
def toLowerString (str : CppString) : CppString := str.map Char.toLower

/-- Embedding of `utk::convert<bool>(str)`. -/
def convert_bool (str : CppString) : Except String Bool :=
  let str_lower := toLowerString str
  if str_lower = "true".toList then Except.ok true
  else if str_lower = "false".toList then Except.ok false
  else Except.error ("Cannot convert " ++ String.mk str ++ " to boolean")

end utk

/-! ## `hts::SAMFileReader` and the instantiation of the pipe in `main` -/

namespace hts

/-- Data members of `SAMFileReader<SAMAlignmentLineType>` that its `read...` members pass
on to the constructors of the line objects. -/
structure SAMFileReader where
  parse_header_line : Bool := false
  parse_header_fields : Bool := false
  parse_header_fields_attribs : Bool := false
  parse_align_line : Bool := false
  parse_mand_align_fields : Bool := false
  parse_opt_align_fields : Bool := false
  parse_opt_align_fields_attribs : Bool := false
  pref_opt_fields_tags : List CppString := []
  flush_ostream : Bool := false
  deriving DecidableEq, Repr

namespace SAMFileReader

variable {M F : Type} [SAMAlignmentMandatoryFieldsTypeOps M]

/-- Embedding of `SAMFileReader::readAlignmentLine<false>(line, alignment_line)`: the line object
is built by the constructor of `SAMAlignmentLineType` and the status is `true`;
an exception of the constructor leaves the function. -/
def readAlignmentLine (optCtor : CppString → Bool → Bool → Bool → Bool → Bool → Except String F)
    (reader : SAMFileReader) (line : CppString) : Except String (Bool × SAMAlignmentLine M F) := do
  let alignment_line ← SAMAlignmentLine.ctor optCtor line reader.parse_align_line
    reader.parse_mand_align_fields reader.parse_opt_align_fields
    reader.parse_opt_align_fields_attribs reader.pref_opt_fields_tags reader.flush_ostream
  pure (true, alignment_line)

end SAMFileReader

namespace SAMGeneUMIAlignmentCounter

/-- The operations of a `SAMAlignmentPipe` whose counter is a `SAMGeneUMIAlignmentCounter`
(the instantiation of `main`): the alignment count is
`SAMGeneUMIAlignmentCounter::countAlignmentLine`, called by `run()` with a fresh
`aux_count = false`; the reader, the writer and the two header counts are those
of `ops`. -/
def pipeOps {W D H : Type}
    (ops : SAMAlignmentPipeOps W SAMGeneUMIAlignmentCounter
      SAMCompositedDGEIlluminaSTARFeatureCountsAlignmentLine D H) :
    SAMAlignmentPipeOps W SAMGeneUMIAlignmentCounter
      SAMCompositedDGEIlluminaSTARFeatureCountsAlignmentLine D H :=
  { ops with
    countAlignmentLine := fun counter alignment_line => do
      let r ← countAlignmentLine counter alignment_line false
      pure (r.counter, r.status, r.aux_count) }

/-- A reader, a writer and header counts for examples: the first TAB-separated
token of an alignment line is its QNAME and the further tokens are the target
features it reports; header lines are passed through and selected; the writer
collects the QNAMEs and header lines it is given. -/
def exampleOps : SAMAlignmentPipeOps (List CppString) SAMGeneUMIAlignmentCounter
    SAMCompositedDGEIlluminaSTARFeatureCountsAlignmentLine CppString CppString :=
  pipeOps
    { readAlignmentLine := fun line =>
        let parts := utk.splitString line '\t'
        let features := parts.drop 1
        Except.ok (true,
          { qname := parts.headD [],
            opt_fields := { number_of_target_features := some features.length,
                            target_features := if features.isEmpty then none else some features } })
      readHeaderDataLine := fun line => Except.ok (true, line)
      readHeaderCommentLine := fun line => Except.ok (true, line)
      countAlignmentLine := fun counter _ => Except.ok (counter, true, false)
      countHeaderDataLine := fun counter _ => Except.ok (counter, true, false)
      countHeaderCommentLine := fun counter _ => Except.ok (counter, true, false)
      writeAlignmentLine := fun writer alignment_line => Except.ok (writer ++ [alignment_line.qname])
      writeHeaderDataLine := fun writer line => Except.ok (writer ++ [line])
      writeHeaderCommentLine := fun writer line => Except.ok (writer ++ [line]) }

/-- Five lines: a header data line, two alignment lines with the same gene and
UMI, one with two target features and one with none. -/
def exampleLines : List CppString :=
  ["@HD\tVN:1.0".toList,
   "HWI-D00704:48:C7302ANXX:1:1101:1103:2053:TAAGTACATAGCGTGG\tGAPDH".toList,
   "HWI-D00704:48:C7302ANXX:1:1101:2200:3100:TAAGTACATAGCGTGG\tGAPDH".toList,
   "HWI-D00704:48:C7302ANXX:1:1101:1500:2900:TAAGTAGGGGGGGGGG\tGAPDH\tACTB".toList,
   "HWI-D00704:48:C7302ANXX:1:1101:1700:2100:TAAGTAGGGGGGGGGG".toList]

end SAMGeneUMIAlignmentCounter

namespace SAMAlignmentPipe

/-- The operations of a pipe whose alignment lines are read by a `SAMFileReader`
with `parse_align_line = true` into `SAMAlignmentLine` objects with composite
mandatory fields; an optional field is kept as its text; header lines are
passed through; every line is selected and the writer collects the lines. -/
def exampleReaderOps : SAMAlignmentPipeOps (List CppString) Nat
    (SAMAlignmentLine SAMCompositedDGEIlluminaAlignmentMandatoryFields CppString)
    CppString CppString where
  readAlignmentLine :=
    SAMFileReader.readAlignmentLine (fun field _ _ _ _ _ => Except.ok field)
      { parse_header_line := true, parse_header_fields := true, parse_align_line := true,
        parse_opt_align_fields := true }
  readHeaderDataLine := fun line => Except.ok (true, line)
  readHeaderCommentLine := fun line => Except.ok (true, line)
  countAlignmentLine := fun counter _ => Except.ok (counter + 1, true, false)
  countHeaderDataLine := fun counter _ => Except.ok (counter + 1, true, false)
  countHeaderCommentLine := fun counter _ => Except.ok (counter + 1, true, false)
  writeAlignmentLine := fun writer alignment_line => Except.ok (writer ++ [alignment_line.line])
  writeHeaderDataLine := fun writer line => Except.ok (writer ++ [line])
  writeHeaderCommentLine := fun writer line => Except.ok (writer ++ [line])

/-- Three alignment lines: the second has only 10 TAB-separated columns, the
other two are well formed. -/
def exampleMalformedLines : List CppString :=
  ["r1\t0\tchr1\t100\t255\t4M\t=\t200\t-50\tACGT\tIIII".toList,
   "r2\t0\tchr1\t300\t255\t4M\t=\t400\t-50\tACGT".toList,
   "r3\t0\tchr1\t500\t255\t4M\t=\t600\t-50\tACGT\tIIII".toList]

end SAMAlignmentPipe

end hts

/-! ## Opening the output files of the demultiplexer -/

namespace hts

namespace FASTQFileGroupOutputStreams

/-- Constructor `FASTQFileGroupOutputStreams(main_file_name, file_dir, well_barcode_table)`
with the open state of the streams: for every entry of the table, in key order,
`operator[](well).open(file_path)`.  No statement of the constructor throws or
tests the stream, so the result is always `Except.ok`. -/
def ctorOpen (can_open : CppString → Bool) (main_file_name file_dir : CppString)
    (well_barcode_table : WellBarcodeTable) : Except String (StdMap std.ofstream) :=
  Except.ok (well_barcode_table.foldl (fun os well_barcode =>
    let file_name := main_file_name ++ ['.'] ++ well_barcode.2 ++ ['.'] ++ "fastq".toList
    let file_path := file_dir ++ [utk.FileSystem.path_sep] ++ file_name
    let stream := (StdMap.find os well_barcode.2).getD {}
    StdMap.assign os well_barcode.2 (std.ofstream.open_file can_open stream file_path)) [])

end FASTQFileGroupOutputStreams

namespace PairedFASTQFileGroupOutputStreams

/-- Constructor `PairedFASTQFileGroupOutputStreams(main_file_name, file_dir,
well_barcode_table)` with the open state of the streams: for every entry of the
table, in key order, `operator[](well) = PairedFileStreamType(FileStreamType(r1_file_path),
FileStreamType(r2_file_path))`.  No statement of the constructor throws or tests
the streams, so the result is always `Except.ok`. -/
def ctorOpen (can_open : CppString → Bool) (main_file_name file_dir : CppString)
    (well_barcode_table : WellBarcodeTable) :
    Except String (StdMap (std.ofstream × std.ofstream)) :=
  Except.ok (well_barcode_table.foldl (fun os well_barcode =>
    let r1_file_name := main_file_name ++ ['.'] ++ "R1".toList ++ ['.'] ++ well_barcode.2
      ++ ['.'] ++ "fastq".toList
    let r2_file_name := main_file_name ++ ['.'] ++ "R2".toList ++ ['.'] ++ well_barcode.2
      ++ ['.'] ++ "fastq".toList
    let r1_file_path := file_dir ++ [utk.FileSystem.path_sep] ++ r1_file_name
    let r2_file_path := file_dir ++ [utk.FileSystem.path_sep] ++ r2_file_name
    StdMap.assign os well_barcode.2
      (std.ofstream.ctor can_open r1_file_path, std.ofstream.ctor can_open r2_file_path)) [])

end PairedFASTQFileGroupOutputStreams

end hts

/-! ## `utk::DSVReader` and `hts::PairedFASTQFilePathReader` -/

namespace utk

/-- Data members of `DSVReader` and the state of its base `LineReader`: `lines` are the
lines that `readLine` still hands out, in file order, without their line
delimiters.  The value delimiter is one literal character (TAB in the callers). -/
structure DSVReader where
  lines : List CppString := []
  value_delim : Char := '\t'
  n_values : Nat := 0
  header_line : Bool := true
  deriving DecidableEq, Repr

namespace DSVReader

/-- Embedding of `LineReader::readLine(line)` on the remaining lines: the status, the line read
(empty when no line is left, since `std::getline` erases its argument first) and
the reader afterwards. -/
def readLine (r : DSVReader) : Bool × CppString × DSVReader :=
  match r.lines with
  | [] => (false, [], r)
  | line :: rest => (true, line, { r with lines := rest })

/-- Embedding of `DSVReader::checkHeaderLine()`. -/
def checkHeaderLine (r : DSVReader) : Except String DSVReader :=
  let (_, line, r1) := readLine r
  if !line.isEmpty then
    let header_fields := utk.splitString line r1.value_delim
    if !header_fields.isEmpty then Except.ok { r1 with n_values := header_fields.length }
    else Except.ok r1
  else Except.error "Empty header line"

/-- Embedding of `DSVReader::checkNumberOfValues()`. -/
def checkNumberOfValues (r : DSVReader) : Except String Unit :=
  if r.n_values = 0 then Except.error "The number of values must be greater than zero"
  else Except.ok ()

/-- Embedding of `DSVReader::checkHeaderValues()`. -/
def checkHeaderValues (r : DSVReader) : Except String DSVReader := do
  let r1 ← if r.header_line then checkHeaderLine r else Except.ok r
  checkNumberOfValues r1
  pure r1

/-- Constructor `DSVReader(file_name_arg, val_delim_arg, header_line_arg, n_vals_arg,
line_delim_type_arg)` on a file that was opened and holds `lines`. -/
def ctor (lines : List CppString) (val_delim_arg : Char) (header_line_arg : Bool)
    (n_vals_arg : Nat) : Except String DSVReader :=
  checkHeaderValues
    { lines := lines, value_delim := val_delim_arg, n_values := n_vals_arg,
      header_line := header_line_arg }

/-- Embedding of `DSVReader::readValue(arg_1, arg_2)` with two `std::string` arguments (their
conversion is a copy): the status, the values left in the two arguments and the
reader afterwards. -/
def readValue2 (r : DSVReader) (arg_1 arg_2 : CppString) :
    Except String (Bool × CppString × CppString × DSVReader) :=
  let n_args := 2
  if n_args ≠ r.n_values then
    Except.error "The number of data fields to read is different from the preset value"
  else
    let (status, line, r1) := readLine r
    if status && !line.isEmpty then
      let data_values := utk.splitString line r1.value_delim
      if data_values.length = r1.n_values then
        Except.ok (status, data_values.getD 0 [], data_values.getD 1 [], r1)
      else
        Except.error "The number of data fields available in file is different from the preset value"
    else Except.ok (status, arg_1, arg_2, r1)

end DSVReader

end utk

namespace hts

/-- Embedding of `PairedFASTQFilePath`. -/
abbrev PairedFASTQFilePath := CppString × CppString

/-- Embedding of `PairedFASTQFilePaths`. -/
abbrev PairedFASTQFilePaths := List PairedFASTQFilePath

namespace PairedFASTQFilePathReader

/-- Constructor `PairedFASTQFilePathReader(file_path, line_delim_type)` on a file that was
opened and holds `lines`: `utk::DSVReader(file_path, "\t", true, 0, line_delim_type)`. -/
def ctor (lines : List CppString) : Except String utk.DSVReader :=
  utk.DSVReader.ctor lines '\t' true 0

/-- The `while` loop of `read()`.  The recursion is on the lines that the reader still
holds, which are passed as `lines`: a call of `readValue` that returns `true`
consumes the first of them, and a call on a reader without lines returns
`false`, which ends the loop. -/
def readLoop (r : utk.DSVReader) :
    List CppString → CppString → CppString → Except String PairedFASTQFilePaths
  | [], file_path_1, file_path_2 => do
    let _ ← utk.DSVReader.readValue2 { r with lines := [] } file_path_1 file_path_2
    pure []
  | line :: rest, file_path_1, file_path_2 => do
    let (_, file_path_1, file_path_2, _) ←
      utk.DSVReader.readValue2 { r with lines := line :: rest } file_path_1 file_path_2
    let paired_file_paths ← readLoop r rest file_path_1 file_path_2
    pure ((file_path_1, file_path_2) :: paired_file_paths)

/-- Embedding of `PairedFASTQFilePathReader::read()`. -/
def read (r : utk.DSVReader) : Except String PairedFASTQFilePaths :=
  readLoop r r.lines [] []

end PairedFASTQFilePathReader

end hts

/-! ## `hts::SAMHeaderLine`, `hts::SAMHeaderDataField`, `hts::SAMHeaderDataLine` -/

namespace hts

/-- Data members of `SAMHeaderLine`. -/
structure SAMHeaderLine where
  line : CppString := []
  record_type : CppString := []
  parse_line : Bool := false
  parse_record_type : Bool := false
  flush_ostream : Bool := false
  deriving DecidableEq, Repr

namespace SAMHeaderLine

/-- Embedding of `SAMHeaderLine::tab_sep`. -/
def tab_sep : Char := '\t'

/-- Embedding of `SAMHeaderLine::std_sam_header_record_types`. -/
def std_sam_header_record_types : List CppString :=
  ["@HD".toList, "@SQ".toList, "@RG".toList, "@PG".toList, "@CO".toList]

/-- Embedding of `SAMHeaderLine::parseLine()`. -/
def parseLine (h : SAMHeaderLine) : Except String SAMHeaderLine :=
  let parts := utk.splitString h.line tab_sep
  if parts.length > 0 then Except.ok { h with record_type := parts.headD [] }
  else Except.error "Header line is empty!"

/-- Embedding of `SAMHeaderLine::parseRecordType()`. -/
def parseRecordType (h : SAMHeaderLine) : Except String Unit :=
  if h.record_type.length > 0 then
    if h.record_type ∉ std_sam_header_record_types then
      Except.error (String.mk h.record_type ++ " is not a standard record type for header line!")
    else Except.ok ()
  else Except.error "Record type is empty!"

/-- Constructor `SAMHeaderLine(line, parse_line, parse_record_type, flush_ostream)`.  The
initialiser list sets `line`, `parse_record_type` and `flush_ostream` (the
member `parse_line` keeps its default); the body tests the two arguments. -/
def ctor (line : CppString) (parse_line parse_record_type flush_ostream : Bool) :
    Except String SAMHeaderLine := do
  let h0 : SAMHeaderLine :=
    { line := line, parse_record_type := parse_record_type, flush_ostream := flush_ostream }
  let h1 ← if parse_line then parseLine h0 else Except.ok h0
  if parse_record_type then parseRecordType h1
  pure h1

end SAMHeaderLine

/-- Data members of `SAMHeaderDataField`. -/
structure SAMHeaderDataField where
  field : CppString := []
  tag : CppString := []
  value : CppString := []
  record_type : CppString := []
  parse_field : Bool := false
  parse_tag : Bool := false
  parse_value : Bool := false
  flush_ostream : Bool := false
  deriving DecidableEq, Repr

namespace SAMHeaderDataField

/-- Embedding of `SAMHeaderDataField::colon_sep`. -/
def colon_sep : Char := ':'

/-- Embedding of `SAMHeaderDataField::n_field_parts`. -/
def n_field_parts : Nat := 2

/-- Embedding of `SAMHeaderDataField::std_sam_header_data_field_tag_value_regexes`: per record type, the
value pattern of each standard tag (empty when the value is not checked). -/
def std_sam_header_data_field_tag_value_regexes : StdMap (StdMap CppString) :=
  [ ("@HD".toList,
      [ ("VN".toList, "^[0-9]+\\.[0-9]+$".toList),
        ("SO".toList, []),
        ("GO".toList, []) ]),
    ("@SQ".toList,
      [ ("SN".toList, "[!-)+-<>-~][!-~]*".toList),
        ("LN".toList, []),
        ("AH".toList, []),
        ("AN".toList,
          "^[0-9A-Za-z][0-9A-Za-z\\*+\\.@ |\\-]*(,[0-9A-Za-z][0-9A-Za-z\\*+\\.@ |\\-]*)*$".toList),
        ("AS".toList, []),
        ("M5".toList, "^[\\*0-9A-F]\x7b32\x7d$".toList),
        ("SP".toList, []),
        ("UR".toList, []) ]),
    ("@RG".toList,
      [ ("ID".toList, []),
        ("CN".toList, []),
        ("DS".toList, []),
        ("DT".toList, []),
        ("FO".toList, "\\*|[ACMGRSVTWYHKDBN]+".toList),
        ("KS".toList, []),
        ("LB".toList, []),
        ("PG".toList, []),
        ("PI".toList, []),
        ("PL".toList, "CAPILLARY|LS454|ILLUMINA|SOLID|HELICOS|IONTORRENT|ONT|PACBIO".toList),
        ("PM".toList, []),
        ("PU".toList, []),
        ("SM".toList, []) ]),
    ("@PG".toList,
      [ ("ID".toList, []),
        ("PN".toList, []),
        ("CL".toList, []),
        ("PP".toList, []),
        ("DS".toList, []),
        ("VN".toList, []) ]) ]

/-- Embedding of `SAMHeaderDataField::parseField()`. -/
def parseField (f : SAMHeaderDataField) : Except String SAMHeaderDataField :=
  let parts := utk.splitString f.field colon_sep
  if parts.length = n_field_parts then
    let tag := parts.getD 0 []
    if tag.length = 0 then
      Except.error ("Tag of " ++ String.mk f.field ++ " is empty!")
    else
      let value := parts.getD 1 []
      if value.length = 0 then
        Except.error ("Value of " ++ String.mk f.field ++ " is empty!")
      else Except.ok { f with tag := tag, value := value }
  else
    Except.error (String.mk f.field ++ " doesn't contain " ++ toString n_field_parts ++ " parts!")

/-- Embedding of `SAMHeaderDataField::parseRecordType()`. -/
def parseRecordType (f : SAMHeaderDataField) : Except String Unit :=
  if !f.record_type.isEmpty then
    match StdMap.find std_sam_header_data_field_tag_value_regexes f.record_type with
    | none =>
      Except.error (String.mk f.record_type
        ++ " is not a standard record type of data field of SAM header line!")
    | some _ => Except.ok ()
  else Except.error ("Record type of " ++ String.mk f.field ++ " is empty!")

/-- Embedding of `SAMHeaderDataField::parseTag()`; `map::at` of an absent record type throws
`std::out_of_range`. -/
def parseTag (f : SAMHeaderDataField) : Except String Unit :=
  if !f.tag.isEmpty then
    match StdMap.find std_sam_header_data_field_tag_value_regexes f.record_type with
    | none => Except.error "map::at"
    | some tag_value_regexes =>
      match StdMap.find tag_value_regexes f.tag with
      | none =>
        Except.error (String.mk f.tag ++ " is not a standard tag of record type "
          ++ String.mk f.record_type ++ " of data field of SAM header line!")
      | some _ => Except.ok ()
  else Except.error ("Tag of " ++ String.mk f.field ++ " is empty!")

/-- Embedding of `SAMHeaderDataField::parseTagValue()`; `regex_match value pattern` stands for
`std::regex_match(value, std::regex(pattern))`. -/
def parseTagValue (regex_match : CppString → CppString → Bool) (f : SAMHeaderDataField) :
    Except String Unit := do
  if !(f.value.isEmpty || f.tag.isEmpty) then
    match StdMap.find std_sam_header_data_field_tag_value_regexes f.record_type with
    | none => throw "map::at"
    | some tag_value_regexes =>
      match StdMap.find tag_value_regexes f.tag with
      | some value_regex_str =>
        if value_regex_str.length > 0 then
          if !regex_match f.value value_regex_str then
            throw (String.mk f.value ++ " doesn't match with required value pattern "
              ++ String.mk value_regex_str ++ " of tag " ++ String.mk f.tag
              ++ " of record type " ++ String.mk f.record_type ++ "!")
      | none =>
        throw (String.mk f.tag ++ " is not a standard tag of record type "
          ++ String.mk f.record_type ++ " of data field of SAM header line!")
  if f.tag.isEmpty then throw ("Tag of " ++ String.mk f.field ++ " is empty!")
  if f.value.isEmpty then throw ("Value of " ++ String.mk f.field ++ " is empty!")

/-- Embedding of `SAMHeaderDataField::parseParts()`. -/
def parseParts (regex_match : CppString → CppString → Bool) (f : SAMHeaderDataField) :
    Except String Unit := do
  if (!f.parse_field) && (f.parse_tag || f.parse_value) then
    throw "parse_field must be true if either of parse_tag and parse_value is true!"
  if f.parse_tag || f.parse_value then parseRecordType f
  if f.parse_value then parseTagValue regex_match f
  else if f.parse_tag then parseTag f

/-- Constructor `SAMHeaderDataField(field, record_type, parse_field, parse_tag, parse_value,
flush_ostream)` (from the entire field string). -/
def ctor (regex_match : CppString → CppString → Bool) (field record_type : CppString)
    (parse_field parse_tag parse_value flush_ostream : Bool) :
    Except String SAMHeaderDataField := do
  let f0 : SAMHeaderDataField :=
    { field := field, record_type := record_type, parse_field := parse_field,
      parse_tag := parse_tag, parse_value := parse_value, flush_ostream := flush_ostream }
  let f1 ← if parse_field then parseField f0 else Except.ok f0
  parseParts regex_match f1
  pure f1

end SAMHeaderDataField

end hts

namespace hts

/-- Data members of `SAMHeaderDataLine` (derived from `SAMHeaderLine`). -/
structure SAMHeaderDataLine extends SAMHeaderLine where
  mand_fields : List SAMHeaderDataField := []
  opt_fields : List SAMHeaderDataField := []
  parse_field : Bool := false
  parse_tag : Bool := false
  parse_value : Bool := false
  deriving DecidableEq, Repr

namespace SAMHeaderDataLine

/-- Embedding of `SAMHeaderDataLine::std_sam_data_header_type_tags`: per record type, the
mandatory and the optional tags. -/
def std_sam_data_header_type_tags : StdMap (List CppString × List CppString) :=
  [ ("@HD".toList, (["VN".toList], ["SO".toList, "GO".toList])),
    ("@SQ".toList, (["SN".toList, "LN".toList],
      ["AH".toList, "AN".toList, "AS".toList, "M5".toList, "SP".toList, "UR".toList])),
    ("@RG".toList, (["ID".toList],
      ["CN".toList, "DS".toList, "DT".toList, "FO".toList, "KS".toList, "LB".toList,
       "PG".toList, "PI".toList, "PL".toList, "PM".toList, "PU".toList, "SM".toList])),
    ("@PG".toList, (["ID".toList],
      ["PN".toList, "CL".toList, "PP".toList, "DS".toList, "VN".toList])) ]

/-- Embedding of `SAMHeaderDataLine::parseRecordType()`. -/
def parseRecordType (l : SAMHeaderDataLine) : Except String Unit :=
  if l.record_type.length > 0 then
    match StdMap.find std_sam_data_header_type_tags l.record_type with
    | none =>
      Except.error (String.mk l.record_type
        ++ " is not a standard record type for data header line!")
    | some _ => Except.ok ()
  else Except.error "Record type is empty!"

/-- The `for` loop of `SAMHeaderDataLine::parseLine()` over the parts after the first one:
`mand_data_field_tags` are the tags of the mandatory data fields found so far,
`l` holds the two field lists. -/
def parseFields (regex_match : CppString → CppString → Bool)
    (std_mand_fields std_opt_fields : List CppString) :
    List CppString → List CppString → SAMHeaderDataLine →
      Except String (List CppString × SAMHeaderDataLine)
  | [], mand_data_field_tags, l => Except.ok (mand_data_field_tags, l)
  | part :: rest, mand_data_field_tags, l => do
    let data_field ← SAMHeaderDataField.ctor regex_match part l.record_type l.parse_field
      l.parse_tag l.parse_value l.flush_ostream
    let data_field_tag := data_field.tag
    if data_field_tag ∈ std_mand_fields then
      parseFields regex_match std_mand_fields std_opt_fields rest
        (mand_data_field_tags ++ [data_field_tag])
        { l with mand_fields := l.mand_fields ++ [data_field] }
    else if data_field_tag ∈ std_opt_fields then
      parseFields regex_match std_mand_fields std_opt_fields rest mand_data_field_tags
        { l with opt_fields := l.opt_fields ++ [data_field] }
    else
      Except.error (String.mk data_field.field ++ " is not a standard data field of "
        ++ String.mk l.record_type ++ " type of SAM header line!")

/-- Embedding of `SAMHeaderDataLine::parseLine()`; `map::at` of an absent record type throws
`std::out_of_range`, and the two `std::set`s are compared by mutual inclusion. -/
def parseLine (regex_match : CppString → CppString → Bool) (l : SAMHeaderDataLine) :
    Except String SAMHeaderDataLine :=
  let parts := utk.splitString l.line SAMHeaderLine.tab_sep
  if parts.length > 0 then
    match StdMap.find std_sam_data_header_type_tags l.record_type with
    | none => Except.error "map::at"
    | some std_mand_opt_fields => do
      let std_mand_fields := std_mand_opt_fields.1
      let std_opt_fields := std_mand_opt_fields.2
      let (mand_data_field_tags, l1) ←
        parseFields regex_match std_mand_fields std_opt_fields (parts.drop 1) [] l
      if !(mand_data_field_tags.all (fun t => std_mand_fields.contains t)
          && std_mand_fields.all (fun t => mand_data_field_tags.contains t)) then
        throw ("The mandatory data fields of " ++ String.mk l.record_type
          ++ " doesn't match with the standard!")
      pure l1
  else Except.error "Header line is empty!"

/-- Constructor `SAMHeaderDataLine(line, parse_line, parse_record_type, parse_field, parse_tag,
parse_value, flush_ostream)` (both overloads, from the entire line string).  The
base constructor runs first, with the `parseLine` and `parseRecordType` of
`SAMHeaderLine`; the body then calls the overriding members. -/
def ctor (regex_match : CppString → CppString → Bool) (line : CppString)
    (parse_line parse_record_type parse_field parse_tag parse_value flush_ostream : Bool) :
    Except String SAMHeaderDataLine := do
  let base ← SAMHeaderLine.ctor line parse_line parse_record_type flush_ostream
  let l : SAMHeaderDataLine :=
    { toSAMHeaderLine := base, parse_field := parse_field, parse_tag := parse_tag,
      parse_value := parse_value }
  if parse_line && !parse_record_type then
    throw "parse_record_type must be true if parse_line is true!"
  if parse_record_type then parseRecordType l
  if parse_line then parseLine regex_match l else pure l

end SAMHeaderDataLine

namespace SAMFileReader

/-- Embedding of `SAMFileReader::readHeaderDataLine<false>(line, data_line)`. -/
def readHeaderDataLine (regex_match : CppString → CppString → Bool) (reader : SAMFileReader)
    (line : CppString) : Except String (Bool × SAMHeaderDataLine) := do
  let data_line ← SAMHeaderDataLine.ctor regex_match line reader.parse_header_line
    reader.parse_header_line reader.parse_header_fields reader.parse_header_fields_attribs
    reader.parse_header_fields_attribs reader.flush_ostream
  pure (true, data_line)

end SAMFileReader

end hts

/-! ## Parse-flag setters and assignment operators of the FASTQ sequence classes -/

namespace hts

namespace FASTQSequence

/-- Embedding of `FASTQSequence::setParseSequence(bool)`: the flag is assigned,
nothing else happens. -/
def setParseSequence (s : FASTQSequence) (parse_seq_val : Bool) : FASTQSequence :=
  { s with parse_seq := parse_seq_val }

/-- Copy assignment and move assignment `FASTQSequence::operator=` (the value
of the assigned object `self` afterwards): all five members are assigned. -/
def copyAssign (self seq : FASTQSequence) : FASTQSequence :=
  { self with lines := seq.lines, read_length := seq.read_length, group_id := seq.group_id,
              parse_seq := seq.parse_seq, flush_ostream := seq.flush_ostream }

end FASTQSequence

namespace IlluminaFASTQSequence

/-- The member `setParseSequence(bool)` of an `IlluminaFASTQSequence`: it is
inherited from `FASTQSequence` (not virtual, not overridden), so it assigns
`parse_seq` only. -/
def setParseSequence (s : IlluminaFASTQSequence) (parse_seq_val : Bool) :
    IlluminaFASTQSequence :=
  { s with toFASTQSequence := FASTQSequence.setParseSequence s.toFASTQSequence parse_seq_val }

/-- Embedding of `IlluminaFASTQSequence::setParseSequenceIdentifierLevel1(bool)`. -/
def setParseSequenceIdentifierLevel1 (s : IlluminaFASTQSequence)
    (parse_seq_id_level_1_val : Bool) : IlluminaFASTQSequence :=
  adjustParseOption { s with parse_seq_id_level_1 := parse_seq_id_level_1_val }

/-- Embedding of `IlluminaFASTQSequence::setParseSequenceIdentifierLevel2(bool)`. -/
def setParseSequenceIdentifierLevel2 (s : IlluminaFASTQSequence)
    (parse_seq_id_level_2_val : Bool) : IlluminaFASTQSequence :=
  adjustParseOption { s with parse_seq_id_level_2 := parse_seq_id_level_2_val }

/-- Embedding of `IlluminaFASTQSequence::setParseOption(bool, bool)`. -/
def setParseOption (s : IlluminaFASTQSequence)
    (parse_seq_id_level_1_val parse_seq_id_level_2_val : Bool) : IlluminaFASTQSequence :=
  adjustParseOption { s with parse_seq_id_level_1 := parse_seq_id_level_1_val,
                             parse_seq_id_level_2 := parse_seq_id_level_2_val }

/-- Default constructor `IlluminaFASTQSequence()`: every member has its default
member initialiser. -/
def defaultCtor : IlluminaFASTQSequence := {}

/-- Constructors `IlluminaFASTQSequence(const FASTQSequence& seq,
parse_seq_id_level_1, parse_seq_id_level_2)` and the `FASTQSequence&&` twin: the
base part is copy (move) constructed, then the options are adjusted and the
record is parsed when the copied `parse_seq` is set. -/
def ctorFromFASTQSequence (seq : FASTQSequence)
    (parse_seq_id_level_1 parse_seq_id_level_2 : Bool) : Except String IlluminaFASTQSequence := do
  let s : IlluminaFASTQSequence :=
    adjustParseOption { toFASTQSequence := FASTQSequence.copyCtor seq,
                        parse_seq_id_level_1 := parse_seq_id_level_1,
                        parse_seq_id_level_2 := parse_seq_id_level_2 }
  if s.parse_seq then do
    let s1 ← parse s
    pure (setGroupId s1)
  else pure s

/-- The parse-flag priority `parse_seq > parse_seq_id_level_1 >
parse_seq_id_level_2` named in the comment of `adjustParseOption`: level 2
needs level 1, and level 1 needs `parse_seq`. -/
def parseOptionPriority (s : IlluminaFASTQSequence) : Prop :=
  (s.parse_seq_id_level_2 = true → s.parse_seq_id_level_1 = true) ∧
  (s.parse_seq_id_level_1 = true → s.parse_seq = true)

instance (s : IlluminaFASTQSequence) : Decidable (parseOptionPriority s) := by
  unfold parseOptionPriority
  infer_instance

/-- Copy assignment and move assignment `IlluminaFASTQSequence::operator=` (the
value of the assigned object `self` afterwards). -/
def copyAssign (self seq : IlluminaFASTQSequence) : IlluminaFASTQSequence :=
  { self with
    toFASTQSequence := FASTQSequence.copyAssign self.toFASTQSequence seq.toFASTQSequence,
    seq_id_part_1 := seq.seq_id_part_1, seq_id_part_2 := seq.seq_id_part_2,
    instrument_id := seq.instrument_id, run_number := seq.run_number,
    flowcell_id := seq.flowcell_id, lane_number := seq.lane_number,
    tile_number := seq.tile_number, x_pos := seq.x_pos, y_pos := seq.y_pos,
    read_number := seq.read_number, is_filtered := seq.is_filtered,
    control_number := seq.control_number, index_sequence := seq.index_sequence,
    parse_seq_id_level_1 := seq.parse_seq_id_level_1,
    parse_seq_id_level_2 := seq.parse_seq_id_level_2 }

end IlluminaFASTQSequence

namespace DGEIlluminaFASTQSequence

/-- Copy assignment and move assignment `DGEIlluminaFASTQSequence::operator=`
(the value of the assigned object `self` afterwards). -/
def copyAssign (self seq : DGEIlluminaFASTQSequence) : DGEIlluminaFASTQSequence :=
  { self with
    toIlluminaFASTQSequence :=
      IlluminaFASTQSequence.copyAssign self.toIlluminaFASTQSequence seq.toIlluminaFASTQSequence,
    well_barcode := seq.well_barcode, umi_barcode := seq.umi_barcode }

end DGEIlluminaFASTQSequence

end hts

/-! ## `hts::SAMHeaderCommentLine` -/

namespace hts

/-- Data members of `SAMHeaderCommentLine` (derived from `SAMHeaderLine`). -/
structure SAMHeaderCommentLine extends SAMHeaderLine where
  comment_field : CppString := []
  deriving DecidableEq, Repr

namespace SAMHeaderCommentLine

/-- One pass of the loop body of `SAMHeaderCommentLine::parseLine()` for a part
other than the first: the part is appended to the comment, behind a TAB when
the comment gathered so far is not empty. -/
def addPart (comment_field it : CppString) : CppString :=
  if comment_field.length > 0 then comment_field ++ (SAMHeaderLine.tab_sep :: it)
  else comment_field ++ it

/-- Embedding of `SAMHeaderCommentLine::parseLine()`: the loop runs over all parts and skips
the first one. -/
def parseLine (h : SAMHeaderCommentLine) : Except String SAMHeaderCommentLine :=
  let parts := utk.splitString h.line SAMHeaderLine.tab_sep
  if parts.length > 0 then
    Except.ok { h with comment_field := parts.tail.foldl addPart h.comment_field }
  else Except.error "Header line is empty!"

/-- Embedding of `SAMHeaderCommentLine::parseRecordType()`. -/
def parseRecordType (h : SAMHeaderCommentLine) : Except String Unit :=
  if h.record_type.length > 0 then
    if h.record_type ≠ std_sam_comment_header_record_type then
      Except.error (String.mk h.record_type ++
        " is not a standard record type for comment header line!")
    else Except.ok ()
  else Except.error "Record type is empty!"

/-- Constructor `SAMHeaderCommentLine(line, parse_line, parse_record_type,
flush_ostream)`: the base constructor `SAMHeaderLine(line, parse_line,
parse_record_type, flush_ostream)` runs first, then the body. -/
def ctor (line : CppString) (parse_line parse_record_type flush_ostream : Bool) :
    Except String SAMHeaderCommentLine := do
  let base ← SAMHeaderLine.ctor line parse_line parse_record_type flush_ostream
  let h0 : SAMHeaderCommentLine := { toSAMHeaderLine := base }
  if parse_line && !parse_record_type then
    throw "parse_record_type must be true if parse_line is true!"
  let h1 ← if parse_line then parseLine h0 else Except.ok h0
  if parse_record_type then parseRecordType h1
  pure h1

end SAMHeaderCommentLine

end hts

/-! ## `utk::LineReader`, `hts::FASTQFileReader` and the two FASTQ pipes -/

namespace std

/-- State of a `std::ifstream` as far as `std::getline` is concerned: the characters of the
file that have not been read yet, and the `eofbit` and `failbit` of the stream
state. -/
structure ifstream where
  content : CppString := []
  eofbit : Bool := false
  failbit : Bool := false
  deriving DecidableEq, Repr

/-- Embedding of `std::getline(is, str, delim)`: the stream and the string afterwards.  When the
stream is not good on entry the sentry fails, `failbit` is set and `str` is left
alone.  Otherwise `str` is erased and characters are moved to it until the
delimiter is met (it is taken from the stream and dropped) or the end of the
file is hit (`eofbit` is set); `failbit` is set when nothing at all was taken
from the stream. -/
def getline (is : ifstream) (str : CppString) (delim : Char) : ifstream × CppString :=
  if is.eofbit || is.failbit then ({ is with failbit := true }, str)
  else
    match is.content.span (fun c => c != delim) with
    | (taken, []) => ({ content := [], eofbit := true, failbit := taken.isEmpty }, taken)
    | (taken, _ :: rest) => ({ is with content := rest }, taken)

end std

namespace utk

/-- Embedding of `utk::OperatingSystem::type` (the Unix value). -/
def OperatingSystem.type : CppString := "unix".toList

/-- Embedding of `utk::FileSystem::line_delims`. -/
def FileSystem.line_delims : List (CppString × Char) :=
  [("windows".toList, '\n'), ("unix".toList, '\n'), ("macintosh".toList, '\r'),
   ("unknown".toList, '\x00')]

/-- Embedding of `utk::FileSystem::pre_delims`. -/
def FileSystem.pre_delims : List (CppString × Char) :=
  [("windows".toList, '\r'), ("unix".toList, '\x00'), ("macintosh".toList, '\x00'),
   ("unknown".toList, '\x00')]

/-- Data members of `LineReader` and the state of its base `std::ifstream`. -/
structure LineReader extends std.ifstream where
  file_name : CppString := []
  line_delim_type : CppString := []
  line_delim : Char := '\x00'
  pre_delim : Char := '\x00'
  file_end : Bool := false
  read_failed : Bool := false
  deriving DecidableEq, Repr

namespace LineReader

/-- Constructor `LineReader(file_name_arg, line_delim_type_arg)` on a file that can be opened
and holds the characters `content`.  The two `std::map::at` calls throw for an
unknown delimiter type. -/
def ctor (content file_name_arg line_delim_type_arg : CppString) : Except String LineReader :=
  match FileSystem.line_delims.lookup line_delim_type_arg,
        FileSystem.pre_delims.lookup line_delim_type_arg with
  | some line_delim, some pre_delim =>
    Except.ok { content := content, file_name := file_name_arg,
                line_delim_type := line_delim_type_arg, line_delim := line_delim,
                pre_delim := pre_delim }
  | _, _ => Except.error "map::at"

/-- Embedding of `LineReader::isFileEnd()`. -/
def isFileEnd (r : LineReader) : Bool := r.file_end

/-- Embedding of `LineReader::readLine(line)`: the returned status, the string `line`
afterwards and the reader afterwards. -/
def readLine (r : LineReader) (line : CppString) : Bool × CppString × LineReader :=
  let got := std.getline r.toifstream line r.line_delim
  let status := !got.1.failbit
  let line1 :=
    if status && !got.2.isEmpty && r.pre_delim != '\x00'
        && r.line_delim_type != OperatingSystem.type then got.2.dropLast
    else got.2
  (status, line1,
    { r with toifstream := got.1, file_end := r.file_end || got.1.eofbit,
             read_failed := r.read_failed || got.1.failbit })

/-- The two loops of `LineReader::readLines`: at most `counts` calls of `readLine`, each on a
fresh empty string, stopping at the first call that returns false. -/
def readLinesLoop : Nat → LineReader → List CppString → List CppString × LineReader
  | 0, r, lines => (lines, r)
  | counts + 1, r, lines =>
    let read := readLine r []
    if read.1 then readLinesLoop counts read.2.2 (lines ++ [read.2.1])
    else (lines, read.2.2)

/-- Embedding of `LineReader::readLines(n_lines)`.  With `n_lines = 0` the source reads until
`readLine` returns false; a successful `readLine` takes a delimiter from the
unread characters or empties them, so that loop makes at most
`content.length + 1` calls. -/
def readLines (r : LineReader) (n_lines : Nat) : List CppString × LineReader :=
  if !r.file_end then
    if n_lines > 0 then readLinesLoop n_lines r []
    else readLinesLoop (r.content.length + 1) r []
  else ([], r)

end LineReader

end utk

namespace hts

/-- Embedding of `FASTQSequence::n_fastq_sequence_lines`. -/
def FASTQSequence.n_fastq_sequence_lines : Nat := 4

/-- Embedding of `operator<<(std::ostream& os, const FASTQSequence& seq)` on a stream
represented by the text written to it: the four lines, a line break after each
of the first three. -/
def FASTQSequence.output (os : CppString) (lines : FASTQSequenceLines) : CppString :=
  os ++ lines.identifier ++ ['\n'] ++ lines.sequence ++ ['\n'] ++ lines.option ++ ['\n']
    ++ lines.quality

/-- Data members of `FASTQFileReader<SeqType, ArgTypes...>` (derived from
`utk::LineReader`).  The stored constructor arguments `seq_args` are part of
the operation `makeSequence` of `FASTQFileReaderOps`. -/
structure FASTQFileReader extends utk.LineReader where
  seq_read : Bool := false
  deriving DecidableEq, Repr

/-- What `FASTQFileReader<SeqType, ArgTypes...>` uses of its template argument `SeqType`:
`makeSequence` is the member of that name (the constructor of `SeqType` on four
lines with the stored arguments), `defaultCtor` the default constructor,
`moveAssign self seq` the value of `self` after `self = std::move(seq)`, and
`moveCtor` the value of an object move-constructed from its argument.  The
vector that collects the records copy- or move-constructs its elements again
when it grows; `moveCtor_moveCtor` says that this changes nothing more. -/
structure FASTQFileReaderOps (SeqType : Type) where
  makeSequence : FASTQSequenceLines → Except String SeqType
  defaultCtor : SeqType
  moveAssign : SeqType → SeqType → SeqType
  moveCtor : SeqType → SeqType
  moveCtor_moveCtor : ∀ seq, moveCtor (moveCtor seq) = moveCtor seq

namespace FASTQFileReader

variable {SeqType : Type}

/-- Constructor `FASTQFileReader(file_name, line_delim_type, args...)` on a file that can be
opened and holds the characters `content`. -/
def ctor (content file_name line_delim_type : CppString) : Except String FASTQFileReader := do
  let base ← utk.LineReader.ctor content file_name line_delim_type
  pure { toLineReader := base }

/-- Embedding of `FASTQFileReader::readSequence(SeqType& seq)`: the returned flag, the object
`seq` afterwards and the reader afterwards.  The record made from four lines
is move-assigned to `seq`; a `std::logic_error` thrown by `makeSequence` is
caught here and leaves `seq` as it was. -/
def readSequence (ops : FASTQFileReaderOps SeqType) (r : FASTQFileReader) (seq : SeqType) :
    Bool × SeqType × FASTQFileReader :=
  let r0 : FASTQFileReader := { r with seq_read := false }
  if !r0.file_end then
    let read := utk.LineReader.readLines r0.toLineReader FASTQSequence.n_fastq_sequence_lines
    let r1 : FASTQFileReader := { r0 with toLineReader := read.2 }
    match read.1 with
    | [line1, line2, line3, line4] =>
      match ops.makeSequence ⟨line1, line2, line3, line4⟩ with
      | Except.ok made => (true, ops.moveAssign seq made, { r1 with seq_read := true })
      | Except.error _ => (false, seq, r1)
    | _ => (false, seq, r1)
  else (false, seq, r0)

/-- The loop of the branch `net_count = false` of `FASTQFileReader::readSequences`: every pass
default-constructs `seq`, calls `readSequence(seq)` and, when that returns true,
does `seq_buffer.push_back(std::move(seq))`, which move-constructs the stored
element. -/
def readSequencesLoop (ops : FASTQFileReaderOps SeqType) :
    Nat → FASTQFileReader → List SeqType → List SeqType × FASTQFileReader
  | 0, r, seq_buffer => (seq_buffer, r)
  | counts + 1, r, seq_buffer =>
    if !r.file_end then
      let read := readSequence ops r ops.defaultCtor
      if read.1 then readSequencesLoop ops counts read.2.2 (seq_buffer ++ [ops.moveCtor read.2.1])
      else readSequencesLoop ops counts read.2.2 seq_buffer
    else (seq_buffer, r)

/-- Embedding of `FASTQFileReader::readSequences(n_seqs)` with the default `net_count = false`,
as both pipes call it: the records read and the reader afterwards. -/
def readSequences (ops : FASTQFileReaderOps SeqType)
    (r : FASTQFileReader) (n_seqs : Nat) : List SeqType × FASTQFileReader :=
  readSequencesLoop ops n_seqs r []

end FASTQFileReader

namespace FASTQSequencePipe

variable {SeqType D : Type}

/-- The `for` loop of `FASTQSequencePipe::run` over one batch: every record is handed to
`addSequence` of the demultiplexer `d`; a `std::logic_error` thrown by the call
is caught and the loop goes on with the demultiplexer as it was before the
call. -/
def addSequences (addSequence : D → SeqType → Except String D) (d : D) (seqs : List SeqType) : D :=
  seqs.foldl (fun acc seq =>
    match addSequence acc seq with
    | Except.ok acc1 => acc1
    | Except.error _ => acc) d

/-- Embedding of `FASTQSequencePipe::run(n_read_seqs, args...)`: the `while` loop with at most
`fuel` evaluations of its condition.  The result is the reader and the
demultiplexer when the loop has ended, `none` when the loop is still running
after `fuel` evaluations. -/
def run (ops : FASTQFileReaderOps SeqType)
    (addSequence : D → SeqType → Except String D) (n_read_seqs : Nat) :
    Nat → FASTQFileReader → D → Option (FASTQFileReader × D)
  | 0, _, _ => none
  | fuel + 1, file_reader, seq_demuxer =>
    if !file_reader.file_end then
      let read := FASTQFileReader.readSequences ops file_reader n_read_seqs
      let seq_demuxer1 :=
        if read.1.length > 0 then addSequences addSequence seq_demuxer read.1 else seq_demuxer
      run ops addSequence n_read_seqs fuel read.2 seq_demuxer1
    else some (file_reader, seq_demuxer)

end FASTQSequencePipe

namespace PairedFASTQSequencePipe

variable {SeqType D : Type}

/-- The `for` loop of `PairedFASTQSequencePipe::run` over one pair of batches: the two
iterators advance together until either batch ends, and the two records under
them are handed to `addSequence`; a `std::logic_error` thrown by the call is
caught and the loop goes on with the demultiplexer as it was before the call. -/
def addSequences (addSequence : D → SeqType → SeqType → Except String D) (d : D) :
    List SeqType → List SeqType → D
  | seq_1 :: seqs_1, seq_2 :: seqs_2 =>
    let d1 :=
      match addSequence d seq_1 seq_2 with
      | Except.ok acc1 => acc1
      | Except.error _ => d
    addSequences addSequence d1 seqs_1 seqs_2
  | _, _ => d

/-- Embedding of `PairedFASTQSequencePipe::run(n_read_seqs, args...)`: the `while` loop with at
most `fuel` evaluations of its condition.  The result is the two readers and
the demultiplexer when the loop has ended, `none` when the loop is still
running after `fuel` evaluations. -/
def run (ops : FASTQFileReaderOps SeqType)
    (addSequence : D → SeqType → SeqType → Except String D) (n_read_seqs : Nat) :
    Nat → FASTQFileReader → FASTQFileReader → D → Option (FASTQFileReader × FASTQFileReader × D)
  | 0, _, _, _ => none
  | fuel + 1, file_reader_1, file_reader_2, seq_demuxer =>
    if !file_reader_1.file_end then
      let read_1 := FASTQFileReader.readSequences ops file_reader_1 n_read_seqs
      let read_2 := FASTQFileReader.readSequences ops file_reader_2 n_read_seqs
      let seq_demuxer1 :=
        if read_1.1.length > 0 && read_2.1.length > 0 then
          addSequences addSequence seq_demuxer read_1.1 read_2.1
        else seq_demuxer
      run ops addSequence n_read_seqs fuel read_1.2 read_2.2 seq_demuxer1
    else some (file_reader_1, file_reader_2, seq_demuxer)

/-- A demultiplexer stand-in that records the pairs handed to `addSequence`, in call
order, and never throws. -/
def recordPair (handed : List (SeqType × SeqType)) (seq_1 seq_2 : SeqType) :
    Except String (List (SeqType × SeqType)) :=
  Except.ok (handed ++ [(seq_1, seq_2)])

end PairedFASTQSequencePipe

end hts

namespace utk

namespace LineReader

/-- Size of what a reader can still read: 0 once `file_end` is set, otherwise one more than
the number of unread characters. -/
def unreadMeasure (r : LineReader) : Nat :=
  if r.file_end then 0 else r.content.length + 1

/-- State of a reader whose stream has been read through `readLine` only: as long as
`file_end` is not set, neither `eofbit` nor `failbit` is set. -/
def GoodUntilEnd (r : LineReader) : Prop :=
  r.file_end = false → r.eofbit = false ∧ r.failbit = false

end LineReader

end utk

/-! ## Text written by the output streams, and example FASTQ files -/

namespace hts

namespace FASTQFileGroupOutputStreams

/-- Embedding of `FASTQFileGroupOutputStreams::writeSequence(seq, group_id)` on streams that
are open and in good state, represented by the text written to them:
`operator[](group_id) << seq << '\n'`. -/
def writeSequenceText (os : StdMap CppString) (lines : FASTQSequenceLines)
    (group_id : CppString) : StdMap CppString :=
  StdMap.assign os group_id
    (FASTQSequence.output ((StdMap.find os group_id).getD []) lines ++ ['\n'])

end FASTQFileGroupOutputStreams

namespace PairedFASTQFileGroupOutputStreams

variable {SeqType : Type} [PairedSeqTypeOps SeqType]

/-- Embedding of `PairedFASTQFileGroupOutputStreams::writeSequence(seq, group_id)` on pairs of
streams that are open and in good state, represented by the text written to them:
`operator[](group_id).first << seq.getSequence1()` and
`operator[](group_id).second << seq.getSequence2()`.  `getLines` gives the four
lines of a record, which is what `operator<<` prints. -/
def writeSequence (getLines : SeqType → FASTQSequenceLines) (os : StdMap (CppString × CppString))
    (seq : PairedFASTQSequenceCreator SeqType) (group_id : CppString) :
    Except String (StdMap (CppString × CppString)) :=
  match (PairedSeqTypeOps.kind : PairedSeqKind SeqType) with
  | PairedSeqKind.isIlluminaDerived _ =>
    let streams := (StdMap.find os group_id).getD ([], [])
    Except.ok (StdMap.assign os group_id
      (FASTQSequence.output streams.1 (getLines seq.seq_1),
       FASTQSequence.output streams.2 (getLines seq.seq_2)))
  | _ => Except.error "Cannot write non-IlluminaFASTQSequence paired objects"

end PairedFASTQFileGroupOutputStreams

namespace DGEIlluminaFASTQFile

/-- The member `makeSequence` of `DGEIlluminaFASTQFile`
(`FASTQFileReader<DGEIlluminaFASTQSequence, bool, bool, bool, bool>`): the
constructor `DGEIlluminaFASTQSequence(lines, parse_seq, parse_seq_id_level_1,
parse_seq_id_level_2, flush_ostream)` with the four stored arguments. -/
def makeSequence (parse_seq parse_seq_id_level_1 parse_seq_id_level_2 flush_ostream : Bool)
    (lines : FASTQSequenceLines) : Except String DGEIlluminaFASTQSequence :=
  DGEIlluminaFASTQSequence.ctor lines.identifier lines.sequence lines.option lines.quality
    parse_seq parse_seq_id_level_1 parse_seq_id_level_2 flush_ostream

/-- What `DGEIlluminaFASTQFile` uses of `DGEIlluminaFASTQSequence`: `makeSequence` with the four
stored arguments, the default constructor, the move assignment operator and the
move constructor. -/
def ops (parse_seq parse_seq_id_level_1 parse_seq_id_level_2 flush_ostream : Bool) :
    FASTQFileReaderOps DGEIlluminaFASTQSequence where
  makeSequence := makeSequence parse_seq parse_seq_id_level_1 parse_seq_id_level_2 flush_ostream
  defaultCtor := {}
  moveAssign := DGEIlluminaFASTQSequence.copyAssign
  moveCtor := DGEIlluminaFASTQSequence.copyCtor
  moveCtor_moveCtor := fun _ => rfl

/-- First record of the example read-1 file: its quality line has 19 characters, its sequence
line 20, so the record is ill-formed. -/
def exampleRecordA1 : FASTQSequenceLines :=
  ⟨"@HWI-D00704:48:C7302ANXX:1:1101:1103:2053 1:N:0:ATCACG".toList,
   "AAAAAACATAGCGTGGTTTT".toList, ['+'], "IIIIIIIIIIIIIIIIIII".toList⟩

/-- Second record of the example read-1 file. -/
def exampleRecordB1 : FASTQSequenceLines :=
  ⟨"@HWI-D00704:48:C7302ANXX:1:1101:1200:2060 1:N:0:ATCACG".toList,
   "CCCCCCTTTTGCGTGGAAAA".toList, ['+'], "IIIIIIIIIIIIIIIIIIII".toList⟩

/-- First record of the example read-2 file. -/
def exampleRecordA2 : FASTQSequenceLines :=
  ⟨"@HWI-D00704:48:C7302ANXX:1:1101:1103:2053 2:N:0:ATCACG".toList,
   "GAGCTGCTATTTTATATTATGACT".toList, ['+'], "CCCBBGGGGGED1FFGG>GDFGEC".toList⟩

/-- Second record of the example read-2 file. -/
def exampleRecordB2 : FASTQSequenceLines :=
  ⟨"@HWI-D00704:48:C7302ANXX:1:1101:1200:2060 2:N:0:ATCACG".toList,
   "TTGCTGCTATTTTATATTATGAAA".toList, ['+'], "CCCBBGGGGGED1FFGG>GDFGEC".toList⟩

/-- Text of a FASTQ file with the given records, four lines each, every line ended by a
line feed. -/
def fileText (records : List FASTQSequenceLines) : CppString :=
  (records.map (fun lines => FASTQSequence.output [] lines ++ ['\n'])).flatten

/-- The example read-1 file: records A1 (ill-formed) and B1. -/
def exampleRead1Text : CppString := fileText [exampleRecordA1, exampleRecordB1]

/-- The example read-2 file: records A2 and B2. -/
def exampleRead2Text : CppString := fileText [exampleRecordA2, exampleRecordB2]

/-- A freshly opened Unix reader on a file that holds `content`. -/
def exampleReader (content : CppString) : FASTQFileReader :=
  { content := content, line_delim_type := "unix".toList, line_delim := '\n', pre_delim := '\x00' }

end DGEIlluminaFASTQFile

end hts

namespace hts

/-- No line of the record contains a line feed (as for every record whose lines were read by
`readLine` with the line feed as delimiter). -/
def FASTQSequenceLines.LineFeedFree (lines : FASTQSequenceLines) : Prop :=
  '\n' ∉ lines.identifier ∧ '\n' ∉ lines.sequence ∧ '\n' ∉ lines.option ∧ '\n' ∉ lines.quality

instance (lines : FASTQSequenceLines) : Decidable lines.LineFeedFree := by
  unfold FASTQSequenceLines.LineFeedFree
  infer_instance

namespace PairedFASTQFileGroupOutputStreams

/-- The stream pair of `group_id` after `writeSequence` has been called for each of `pairs`, in
order, on streams that were empty at the start. -/
def writeSequences (pairs : List (PairedFASTQSequenceCreator DGEIlluminaFASTQSequence))
    (group_id : CppString) : Except String (CppString × CppString) := do
  let os ← pairs.foldlM (fun os seq => writeSequence (fun s => s.lines) os seq group_id) []
  pure ((StdMap.find os group_id).getD ([], []))

/-- Two pairs of DGE records of one well: the example pair, and the pair of the records B1
and B2 of the example files. -/
def examplePairs : List (PairedFASTQSequenceCreator DGEIlluminaFASTQSequence) :=
  [{ seq_1 := DGEIlluminaFASTQSequenceDemuxer.exampleRead1,
     seq_2 := DGEIlluminaFASTQSequenceDemuxer.exampleRead2 },
   { seq_1 := (DGEIlluminaFASTQFile.makeSequence true true false false
                DGEIlluminaFASTQFile.exampleRecordB1).toOption.getD {},
     seq_2 := (DGEIlluminaFASTQFile.makeSequence true true false false
                DGEIlluminaFASTQFile.exampleRecordB2).toOption.getD {} }]

end PairedFASTQFileGroupOutputStreams

namespace FASTQFileGroupOutputStreams

/-- The stream of `group_id` after `writeSequence` has been called for each of `records`, in
order, on streams that were empty at the start. -/
def writeSequencesText (records : List FASTQSequenceLines) (group_id : CppString) : CppString :=
  (StdMap.find (records.foldl (fun os lines => writeSequenceText os lines group_id) []) group_id).getD []

end FASTQFileGroupOutputStreams

end hts

namespace hts

namespace FASTQFileGroupOutputStreams

/-- The path of the output file of a well, as the constructor builds it:
`file_dir + path_sep + main_file_name + '.' + well + '.' + "fastq"`. -/
def filePath (main_file_name file_dir well : CppString) : CppString :=
  file_dir ++ [utk.FileSystem.path_sep] ++ (main_file_name ++ ['.'] ++ well ++ ['.'] ++ "fastq".toList)

end FASTQFileGroupOutputStreams

namespace DGEIlluminaFASTQSequenceDemuxer

/-- The barcode table read from a file with the rows `P1 A1 AAAAAA` and `P2 A1 CCCCCC`
(plate, well, barcode): two barcodes of the well name `A1`. -/
def exampleTwoPlateTable : WellBarcodeTable :=
  [("AAAAAA".toList, "A1".toList), ("CCCCCC".toList, "A1".toList)]

end DGEIlluminaFASTQSequenceDemuxer

end hts

/-! # Theorems -/

/-! ## `std::map` -/

namespace StdMap

variable {V : Type}

theorem find_replace (m : StdMap V) (key : CppString) (v : V) (k : CppString) :
    find (replace m key v) k = if k = key then (find m key).map (fun _ => v) else find m k := by
  induction m with
  | nil => simp [replace, find]
  | cons e rest ih =>
    obtain ⟨k0, v0⟩ := e
    simp only [replace, find]
    by_cases h0 : k0 = key
    · subst h0
      by_cases hk : k = k0
      · subst hk
        simp [find]
      · have hk2 : ¬ k0 = k := fun h => hk h.symm
        simp [find, hk, hk2]
    · simp only [h0, if_false, find, ih]
      by_cases hk : k = key
      · subst hk
        simp [h0]
      · simp only [hk, if_false]

theorem find_insertSorted_ne (m : StdMap V) (key : CppString) (v : V) (k : CppString)
    (hk : k ≠ key) : find (insertSorted m key v) k = find m k := by
  have hk2 : ¬ key = k := fun h => hk h.symm
  induction m with
  | nil => simp [insertSorted, find, hk2]
  | cons e rest ih =>
    obtain ⟨k0, v0⟩ := e
    simp only [insertSorted]
    split_ifs
    · simp [find, hk2]
    · simp [find, ih]

theorem find_insertSorted_self (m : StdMap V) (key : CppString) (v : V)
    (h : find m key = none) : find (insertSorted m key v) key = some v := by
  induction m with
  | nil => simp [insertSorted, find]
  | cons e rest ih =>
    obtain ⟨k0, v0⟩ := e
    simp only [find] at h
    split_ifs at h with h0
    simp only [insertSorted]
    split_ifs
    · simp [find]
    · simp [find, h0, ih h]

theorem find_assign (m : StdMap V) (key : CppString) (v : V) (k : CppString) :
    find (assign m key v) k = if k = key then some v else find m k := by
  unfold assign
  cases h : find m key with
  | none =>
    by_cases hk : k = key
    · subst hk
      simp [find_insertSorted_self m k v h]
    · simp [hk, find_insertSorted_ne m key v k hk]
  | some w =>
    simp only [find_replace, h, Option.map_some']

theorem find_touch (m : StdMap V) (key : CppString) (dflt : V) (k : CppString) :
    find (touch m key dflt) k = if k = key then some ((find m key).getD dflt) else find m k := by
  unfold touch
  cases h : find m key with
  | none =>
    by_cases hk : k = key
    · subst hk
      simp [find_insertSorted_self m k dflt h]
    · simp [hk, find_insertSorted_ne m key dflt k hk]
  | some w =>
    by_cases hk : k = key
    · subst hk
      simp [h]
    · simp [hk]

theorem getD_find_touch (m : StdMap V) (key : CppString) (dflt : V) (k : CppString) :
    (find (touch m key dflt) k).getD dflt = (find m k).getD dflt := by
  rw [find_touch]
  by_cases hk : k = key
  · subst hk
    simp
  · simp [hk]

theorem touch_of_find_some (m : StdMap V) (key : CppString) (dflt : V)
    (h : (find m key).isSome) : touch m key dflt = m := by
  unfold touch
  cases hf : find m key with
  | none => rw [hf] at h; simp at h
  | some w => rfl

theorem keys_replace (m : StdMap V) (key : CppString) (v : V) :
    keys (replace m key v) = keys m := by
  induction m with
  | nil => rfl
  | cons e rest ih =>
    obtain ⟨k0, v0⟩ := e
    simp only [replace]
    split_ifs
    · simp [keys]
    · simp only [keys, List.map_cons] at ih ⊢
      rw [ih]

theorem keys_insertSorted_perm (m : StdMap V) (key : CppString) (v : V) :
    List.Perm (keys (insertSorted m key v)) (key :: keys m) := by
  induction m with
  | nil => simp [insertSorted, keys]
  | cons e rest ih =>
    obtain ⟨k0, v0⟩ := e
    simp only [insertSorted]
    split_ifs
    · simp [keys]
    · simp only [keys, List.map_cons] at ih ⊢
      exact (List.Perm.cons k0 ih).trans (List.Perm.swap key k0 _)

theorem mem_keys_iff (m : StdMap V) (k : CppString) : k ∈ keys m ↔ (find m k).isSome := by
  induction m with
  | nil => simp [keys, find]
  | cons e rest ih =>
    obtain ⟨k0, v0⟩ := e
    simp only [keys, List.map_cons, List.mem_cons, find] at ih ⊢
    by_cases h0 : k0 = k
    · subst h0
      simp only [true_or, if_true, Option.isSome_some]
    · have h1 : ¬ k = k0 := fun h => h0 h.symm
      simp only [h1, false_or, h0, if_false]
      exact ih

theorem nodup_keys_assign (m : StdMap V) (key : CppString) (v : V) (h : (keys m).Nodup) :
    (keys (assign m key v)).Nodup := by
  unfold assign
  cases hf : find m key with
  | none =>
    have hk : key ∉ keys m := by
      rw [mem_keys_iff, hf]
      simp
    exact (keys_insertSorted_perm m key v).nodup_iff.mpr (List.nodup_cons.mpr ⟨hk, h⟩)
  | some w =>
    simp only [keys_replace]
    exact h

theorem mem_keys_assign (m : StdMap V) (key : CppString) (v : V) (k : CppString) :
    k ∈ keys (assign m key v) ↔ k = key ∨ k ∈ keys m := by
  rw [mem_keys_iff, mem_keys_iff, find_assign]
  by_cases hk : k = key
  · simp [hk]
  · simp [hk]

end StdMap

namespace hts

/-! ## FASTQ record parsing -/

theorem fastq_parse_eq (s : FASTQSequence) :
    FASTQSequence.parse s =
      if s.lines.identifier.head? ≠ some '@' then
        Except.error "Identifier line doesn't start with @"
      else if s.lines.option.head? ≠ some '+' then
        Except.error "Option line doesn't start with +"
      else if s.lines.sequence.length = s.lines.quality.length then
        Except.ok { s with read_length := s.lines.sequence.length }
      else Except.error "The lengths of sequence line and quality line are not equal" := by
  unfold FASTQSequence.parse CppString.front FASTQSequence.id_line_beg_char
    FASTQSequence.opt_line_beg_char CppString.nul
  cases h1 : s.lines.identifier <;> cases h3 : s.lines.option <;> simp

theorem fastq_parse_lines {s s1 : FASTQSequence} (h : FASTQSequence.parse s = Except.ok s1) :
    s1.lines = s.lines ∧ s1.read_length = s.lines.sequence.length ∧ s1.group_id = s.group_id ∧
      s1.parse_seq = s.parse_seq ∧ s1.flush_ostream = s.flush_ostream := by
  rw [fastq_parse_eq] at h
  split_ifs at h
  all_goals simp at h
  subst h
  simp

/-- C9: `FASTQSequence::parse` (run by the constructor when `parse_seq` is true)
succeeds exactly when line 1 starts with `@`, line 3 starts with `+` and lines
2 and 4 have the same length; otherwise it raises a logic error; on success the
read length is that common length and the four lines are kept. -/
theorem fastq_ctor_parse_iff (line1 line2 line3 line4 : CppString) (flush_ostream : Bool) :
    ((∃ s, FASTQSequence.ctor line1 line2 line3 line4 true flush_ostream = Except.ok s) ↔
      (line1.head? = some '@' ∧ line3.head? = some '+' ∧ line2.length = line4.length)) ∧
    ((∃ msg, FASTQSequence.ctor line1 line2 line3 line4 true flush_ostream = Except.error msg) ↔
      ¬ (line1.head? = some '@' ∧ line3.head? = some '+' ∧ line2.length = line4.length)) ∧
    (∀ s, FASTQSequence.ctor line1 line2 line3 line4 true flush_ostream = Except.ok s →
      s.read_length = line2.length ∧ s.read_length = line4.length ∧
      s.lines = ⟨line1, line2, line3, line4⟩) := by
  simp only [FASTQSequence.ctor, if_true, fastq_parse_eq]
  refine ⟨?_, ?_, ?_⟩
  · split_ifs <;> simp_all
  · split_ifs <;> simp_all
  · intro s h
    split_ifs at h
    all_goals simp at h
    subst h
    simp_all

/-! ## DGE barcodes -/

theorem stoulOr_ok {str : CppString} {msg : String} {v : Nat}
    (h : IlluminaFASTQSequence.stoulOr str msg = Except.ok v) : std.stoul str = some v := by
  unfold IlluminaFASTQSequence.stoulOr at h
  split at h
  · simp_all
  · simp at h

theorem illumina_parsePart1_base {s s1 : IlluminaFASTQSequence}
    (h : IlluminaFASTQSequence.parsePart1 s = Except.ok s1) :
    s1.toFASTQSequence = s.toFASTQSequence := by
  unfold IlluminaFASTQSequence.parsePart1 at h
  split at h
  · simp only [bind, Except.bind, pure, Except.pure] at h
    repeat' split at h
    all_goals simp at h
    subst h
    rfl
  · simp at h

theorem illumina_parsePart2_base {s s1 : IlluminaFASTQSequence}
    (h : IlluminaFASTQSequence.parsePart2 s = Except.ok s1) :
    s1.toFASTQSequence = s.toFASTQSequence := by
  unfold IlluminaFASTQSequence.parsePart2 at h
  split at h
  · simp only [bind, Except.bind, pure, Except.pure] at h
    repeat' split at h
    all_goals simp at h
    subst h
    rfl
  · simp at h

theorem illumina_parse_base {s s1 : IlluminaFASTQSequence}
    (h : IlluminaFASTQSequence.parse s = Except.ok s1) :
    s1.toFASTQSequence = s.toFASTQSequence := by
  unfold IlluminaFASTQSequence.parse at h
  split_ifs at h with h1
  · split at h
    · simp only at h
      split_ifs at h with h2
      · simp only [bind, Except.bind] at h
        split at h
        · simp at h
        · rename_i s2 hs2
          rw [illumina_parsePart2_base h, illumina_parsePart1_base hs2]
      · simp at h
        subst h
        rfl
    · simp at h
  · simp at h
    subst h
    rfl

theorem illumina_adjustParseOption_base (s : IlluminaFASTQSequence) :
    (IlluminaFASTQSequence.adjustParseOption s).toFASTQSequence = s.toFASTQSequence := by
  unfold IlluminaFASTQSequence.adjustParseOption
  split_ifs <;> rfl

theorem illumina_ctor_lines {line1 line2 line3 line4 : CppString}
    {parse_seq level_1 level_2 flush_ostream : Bool} {s : IlluminaFASTQSequence}
    (h : IlluminaFASTQSequence.ctor line1 line2 line3 line4 parse_seq level_1 level_2
      flush_ostream = Except.ok s) :
    s.lines = ⟨line1, line2, line3, line4⟩ := by
  unfold IlluminaFASTQSequence.ctor at h
  simp only [bind, Except.bind, pure, Except.pure] at h
  split at h
  · simp at h
  · rename_i base hbase
    have hb : base.lines = ⟨line1, line2, line3, line4⟩ := by
      unfold FASTQSequence.ctor at hbase
      split_ifs at hbase
      · rw [(fastq_parse_lines hbase).1]
      · simp at hbase
        subst hbase
        rfl
    split_ifs at h
    · split at h
      · simp at h
      · rename_i s1 hs1
        simp at h
        subst h
        have := illumina_parse_base hs1
        rw [illumina_adjustParseOption_base] at this
        simp only [IlluminaFASTQSequence.setGroupId]
        rw [this]
        exact hb
    · simp at h
      subst h
      rw [illumina_adjustParseOption_base]
      exact hb

theorem dge_ctor_eq {line1 line2 line3 line4 : CppString}
    {parse_seq level_1 level_2 flush_ostream : Bool} {base : IlluminaFASTQSequence}
    (hbase : IlluminaFASTQSequence.ctor line1 line2 line3 line4 parse_seq level_1 level_2
      flush_ostream = Except.ok base) :
    DGEIlluminaFASTQSequence.ctor line1 line2 line3 line4 parse_seq level_1 level_2 flush_ostream =
      if line2.length < 16 then
        Except.error "The length of barcode part of SeqId line of composited DGE Illumina FASTQ sequence must be equal to or greater than the sum of the lengths of well and UMI barcodes!"
      else
        Except.ok
          { toIlluminaFASTQSequence :=
              { base with toFASTQSequence := { base.toFASTQSequence with group_id := line2.take 6 } },
            well_barcode := line2.take 6,
            umi_barcode := (line2.drop 6).take 10 } := by
  have hl := illumina_ctor_lines hbase
  unfold DGEIlluminaFASTQSequence.ctor
  rw [hbase]
  simp only [bind, Except.bind, DGEIlluminaFASTQSequence.setBarcode,
    DGEIlluminaFASTQSequence.setGroupId, hl, CppString.substr,
    DGEIlluminaFASTQSequence.well_barcode_length, DGEIlluminaFASTQSequence.umi_barcode_length,
    DGEIlluminaFASTQSequence.well_barcode_beg_pos, DGEIlluminaFASTQSequence.well_barcode_end_pos,
    DGEIlluminaFASTQSequence.umi_barcode_beg_pos, DGEIlluminaFASTQSequence.umi_barcode_end_pos]
  simp

/-- C10: when the requested FASTQ/Illumina parsing of the four lines succeeds,
constructing a `DGEIlluminaFASTQSequence` succeeds exactly when the sequence
line has at least 16 characters and raises a logic error otherwise; on success
the well barcode is characters 0..5 of the sequence line, the UMI barcode is
characters 6..15, and the group ID equals the well barcode. -/
theorem dge_ctor_succeeds_iff_sixteen (line1 line2 line3 line4 : CppString)
    (parse_seq level_1 level_2 flush_ostream : Bool) (base : IlluminaFASTQSequence)
    (hbase : IlluminaFASTQSequence.ctor line1 line2 line3 line4 parse_seq level_1 level_2
      flush_ostream = Except.ok base) :
    ((∃ s, DGEIlluminaFASTQSequence.ctor line1 line2 line3 line4 parse_seq level_1 level_2
        flush_ostream = Except.ok s) ↔ 16 ≤ line2.length) ∧
    ((∃ msg, DGEIlluminaFASTQSequence.ctor line1 line2 line3 line4 parse_seq level_1 level_2
        flush_ostream = Except.error msg) ↔ line2.length < 16) ∧
    (∀ s, DGEIlluminaFASTQSequence.ctor line1 line2 line3 line4 parse_seq level_1 level_2
        flush_ostream = Except.ok s →
      s.well_barcode = CppString.substr line2 0 6 ∧ s.umi_barcode = CppString.substr line2 6 10 ∧
      s.well_barcode.length = 6 ∧ s.umi_barcode.length = 10 ∧
      s.group_id = s.well_barcode ∧ s.lines.sequence = line2) := by
  rw [dge_ctor_eq hbase]
  refine ⟨?_, ?_, ?_⟩
  · split_ifs with h
    · simp
      omega
    · simp
      omega
  · split_ifs with h
    · simp [h]
    · simp [h]
  · intro s hs
    split_ifs at hs with h
    have hl := illumina_ctor_lines hbase
    simp only [Except.ok.injEq] at hs
    subst hs
    simp [CppString.substr, hl]
    omega

/-- C10 witness: with `parse_seq = false` nothing is parsed, a 20-character
sequence line is accepted. -/
theorem dge_ctor_succeeds_iff_sixteen_witness :
    ((∃ s, DGEIlluminaFASTQSequence.ctor ['x'] "AAAAAACCCCCCCCCCTTTT".toList [] ['I'] false false
        false false = Except.ok s) ↔ 16 ≤ "AAAAAACCCCCCCCCCTTTT".toList.length) ∧
    ((∃ msg, DGEIlluminaFASTQSequence.ctor ['x'] "AAAAAACCCCCCCCCCTTTT".toList [] ['I'] false false
        false false = Except.error msg) ↔ "AAAAAACCCCCCCCCCTTTT".toList.length < 16) ∧
    (∀ s, DGEIlluminaFASTQSequence.ctor ['x'] "AAAAAACCCCCCCCCCTTTT".toList [] ['I'] false false
        false false = Except.ok s →
      s.well_barcode = CppString.substr "AAAAAACCCCCCCCCCTTTT".toList 0 6 ∧
      s.umi_barcode = CppString.substr "AAAAAACCCCCCCCCCTTTT".toList 6 10 ∧
      s.well_barcode.length = 6 ∧ s.umi_barcode.length = 10 ∧
      s.group_id = s.well_barcode ∧ s.lines.sequence = "AAAAAACCCCCCCCCCTTTT".toList) :=
  dge_ctor_succeeds_iff_sixteen ['x'] "AAAAAACCCCCCCCCCTTTT".toList [] ['I'] false false false false
    _ rfl

/-! ## Gene + UMI deduplication -/

open SAMGeneUMIAlignmentCounter in
/-- C2: a line whose optional fields report a number of target features other
than 1, or none at all, is never counted: `countAlignmentLine` returns false
whatever the QNAME and the pool are, raises no error, and leaves the pool (and
the auxiliary flag) as they were, so the outcome of every later line is the
same as if the line had not been there. -/
theorem countAlignmentLine_not_unique (counter : SAMGeneUMIAlignmentCounter)
    (alignment_line : SAMCompositedDGEIlluminaSTARFeatureCountsAlignmentLine) (aux_count : Bool)
    (h : alignment_line.opt_fields.number_of_target_features ≠ some 1) :
    countAlignmentLine counter alignment_line aux_count =
        Except.ok { status := false, aux_count := aux_count, counter := counter } ∧
      ∀ later, countAlignmentLines counter (alignment_line :: later) =
        (countAlignmentLines counter later).map (fun r => (false :: r.1, r.2)) := by
  have h1 : countAlignmentLine counter alignment_line aux_count =
      Except.ok { status := false, aux_count := aux_count, counter := counter } := by
    unfold countAlignmentLine
    cases hn : alignment_line.opt_fields.number_of_target_features with
    | none => rfl
    | some n =>
      have : n ≠ 1 := fun hn1 => h (by rw [hn, hn1])
      simp [this]
      rfl
  have h2 : countAlignmentLine counter alignment_line false =
      Except.ok { status := false, aux_count := false, counter := counter } := by
    unfold countAlignmentLine
    cases hn : alignment_line.opt_fields.number_of_target_features with
    | none => rfl
    | some n =>
      have : n ≠ 1 := fun hn1 => h (by rw [hn, hn1])
      simp [this]
      rfl
  refine ⟨h1, ?_⟩
  intro later
  simp only [countAlignmentLines, h2, bind, Except.bind, pure, Except.pure, Except.map]

theorem composited_parse_umi_length {s c : CompositedDGEIlluminaFASTQSequence}
    (h : CompositedDGEIlluminaFASTQSequence.parse s = Except.ok c) :
    c.umi_barcode.length = 10 ∧ c.well_barcode.length = 6 := by
  unfold CompositedDGEIlluminaFASTQSequence.parse at h
  split at h
  · rename_i p0 p1 p2 p3 p4 p5 p6 barcode hsplit
    simp only [bind, Except.bind, pure, Except.pure] at h
    repeat' split at h
    all_goals try simp at h
    rename_i hlen
    subst h
    simp [CompositedDGEIlluminaFASTQSequence.setGroupId, CppString.substr,
      DGEIlluminaFASTQSequence.well_barcode_length, DGEIlluminaFASTQSequence.umi_barcode_length,
      DGEIlluminaFASTQSequence.well_barcode_beg_pos, DGEIlluminaFASTQSequence.well_barcode_end_pos,
      DGEIlluminaFASTQSequence.umi_barcode_beg_pos, DGEIlluminaFASTQSequence.umi_barcode_end_pos]
      at hlen ⊢
    omega
  · simp at h

theorem composited_ctor_umi_length {qname : CppString} {c : CompositedDGEIlluminaFASTQSequence}
    (h : CompositedDGEIlluminaFASTQSequence.ctor qname [] [] [] true false false = Except.ok c) :
    c.umi_barcode.length = 10 := by
  unfold CompositedDGEIlluminaFASTQSequence.ctor FASTQSequence.ctor at h
  simp only [bind, Except.bind, if_true] at h
  exact (composited_parse_umi_length h).1

open SAMGeneUMIAlignmentCounter in
theorem geneUMI_umi_length {l : SAMCompositedDGEIlluminaSTARFeatureCountsAlignmentLine}
    {g u : CppString} (h : geneUMI l = some (g, u)) : u.length = 10 := by
  unfold geneUMI at h
  split at h
  · rename_i c _ hc
    simp only [Option.some.injEq, Prod.mk.injEq] at h
    rw [← h.2]
    exact composited_ctor_umi_length hc
  · simp at h

theorem gene_umi_combo_inj {g1 u1 g2 u2 : CppString} (h1 : u1.length = 10) (h2 : u2.length = 10) :
    g1 ++ u1 = g2 ++ u2 ↔ (g1, u1) = (g2, u2) := by
  constructor
  · intro h
    have := List.append_inj' h (by rw [h1, h2])
    rw [this.1, this.2]
  · intro h
    simp only [Prod.mk.injEq] at h
    rw [h.1, h.2]

open SAMGeneUMIAlignmentCounter in
theorem countAlignmentLine_unique {counter : SAMGeneUMIAlignmentCounter}
    {l : SAMCompositedDGEIlluminaSTARFeatureCountsAlignmentLine} {g u : CppString}
    (aux_count : Bool) (hn : l.opt_fields.number_of_target_features = some 1)
    (hg : geneUMI l = some (g, u)) :
    countAlignmentLine counter l aux_count =
      Except.ok { status := decide (g ++ u ∉ counter.gene_umi_pool), aux_count := true,
                  counter := { gene_umi_pool :=
                    if g ++ u ∈ counter.gene_umi_pool then counter.gene_umi_pool
                    else (g ++ u) :: counter.gene_umi_pool } } := by
  unfold geneUMI at hg
  unfold countAlignmentLine
  rw [hn]
  split at hg
  · rename_i tg rest c htf hc
    simp only [Option.some.injEq, Prod.mk.injEq] at hg
    simp only [htf, hc, if_true, bind, Except.bind, pure, Except.pure, poolInsert, hg.1, hg.2]
    by_cases hmem : g ++ u ∈ counter.gene_umi_pool <;> simp [hmem]
  · simp at hg

open SAMGeneUMIAlignmentCounter in
theorem countAlignmentLines_from_pool
    (ls : List SAMCompositedDGEIlluminaSTARFeatureCountsAlignmentLine)
    (h : ∀ l ∈ ls, l.opt_fields.number_of_target_features = some 1 ∧ (geneUMI l).isSome) :
    ∀ counter : SAMGeneUMIAlignmentCounter,
      ∃ statuses counter1, countAlignmentLines counter ls = Except.ok (statuses, counter1) ∧
        statuses.length = ls.length ∧
        ∀ i l b, ls[i]? = some l → statuses[i]? = some b →
          (b = true ↔
            (∀ g u, geneUMI l = some (g, u) → g ++ u ∉ counter.gene_umi_pool) ∧
              geneUMI l ∉ (ls.take i).map geneUMI) := by
  induction ls with
  | nil =>
    intro counter
    exact ⟨[], counter, rfl, rfl, by simp⟩
  | cons l0 rest ih =>
    intro counter
    have h0 := h l0 (List.mem_cons_self _ _)
    obtain ⟨p0, hp0⟩ := Option.isSome_iff_exists.mp h0.2
    obtain ⟨g0, u0⟩ := p0
    have hstep := @countAlignmentLine_unique counter l0 g0 u0 false h0.1 hp0
    have hrest : ∀ l ∈ rest, l.opt_fields.number_of_target_features = some 1 ∧
        (geneUMI l).isSome := fun l hl => h l (List.mem_cons_of_mem _ hl)
    obtain ⟨statuses, counter1, hrun, hlen, hspec⟩ := ih hrest
      { gene_umi_pool := if g0 ++ u0 ∈ counter.gene_umi_pool then counter.gene_umi_pool
                         else (g0 ++ u0) :: counter.gene_umi_pool }
    refine ⟨decide (g0 ++ u0 ∉ counter.gene_umi_pool) :: statuses, counter1, ?_, ?_, ?_⟩
    · simp only [countAlignmentLines, hstep, bind, Except.bind, hrun, pure, Except.pure]
    · simp [hlen]
    · intro i l b hl hb
      cases i with
      | zero =>
        simp only [List.getElem?_cons_zero, Option.some.injEq] at hl hb
        subst hl
        subst hb
        simp [hp0]
      | succ i =>
        simp only [List.getElem?_cons_succ] at hl hb
        have hlmem : l ∈ rest := List.getElem?_mem hl
        obtain ⟨p, hp⟩ := Option.isSome_iff_exists.mp (hrest l hlmem).2
        obtain ⟨g, u⟩ := p
        have hu := geneUMI_umi_length hp
        have hu0 := geneUMI_umi_length hp0
        rw [hspec i l b hl hb]
        simp only [hp, Option.some.injEq, Prod.mk.injEq, and_imp, List.take_succ_cons,
          List.map_cons, List.mem_cons, hp0, not_or]
        have hinj := @gene_umi_combo_inj g u g0 u0 hu hu0
        constructor
        · rintro ⟨hpool, hearlier⟩
          have hx := hpool g u rfl rfl
          by_cases hmem : g0 ++ u0 ∈ counter.gene_umi_pool
          · simp only [hmem, if_true] at hx
            refine ⟨?_, ?_, hearlier⟩
            · intro g1 u1 hg1 hu1
              subst hg1
              subst hu1
              exact hx
            · intro heq
              rw [heq.1, heq.2] at hx
              exact hx hmem
          · simp only [hmem, if_false, List.mem_cons, not_or] at hx
            refine ⟨?_, ?_, hearlier⟩
            · intro g1 u1 hg1 hu1
              subst hg1
              subst hu1
              exact hx.2
            · intro heq
              exact hx.1 (by rw [heq.1, heq.2])
        · rintro ⟨hpool, hne, hearlier⟩
          refine ⟨?_, hearlier⟩
          intro g1 u1 hg1 hu1
          have hx := hpool g1 u1 hg1 hu1
          rw [← hg1, ← hu1] at hx ⊢
          by_cases hmem : g0 ++ u0 ∈ counter.gene_umi_pool
          · simpa [hmem] using hx
          · simp only [hmem, if_false, List.mem_cons, not_or]
            refine ⟨?_, hx⟩
            intro heq
            exact hne (by simpa using hinj.mp heq)

open SAMGeneUMIAlignmentCounter in
/-- C1: for every sequence of alignment lines given in input order to one
counter that starts with an empty pool, where every line reports exactly one
target feature and has a QNAME that parses as a composite DGE identifier,
every call returns (no error is raised) and the call for a line returns true
exactly when no earlier line carries the same (target gene, UMI barcode) pair:
true for the first line of a pair, false for every later one. -/
theorem countAlignmentLines_first_occurrence
    (ls : List SAMCompositedDGEIlluminaSTARFeatureCountsAlignmentLine)
    (h : ∀ l ∈ ls, l.opt_fields.number_of_target_features = some 1 ∧ (geneUMI l).isSome) :
    ∃ statuses counter1,
      countAlignmentLines { gene_umi_pool := [] } ls = Except.ok (statuses, counter1) ∧
      statuses.length = ls.length ∧
      ∀ i l b, ls[i]? = some l → statuses[i]? = some b →
        (b = true ↔ geneUMI l ∉ (ls.take i).map geneUMI) := by
  obtain ⟨statuses, counter1, hrun, hlen, hspec⟩ :=
    countAlignmentLines_from_pool ls h { gene_umi_pool := [] }
  refine ⟨statuses, counter1, hrun, hlen, ?_⟩
  intro i l b hl hb
  rw [hspec i l b hl hb]
  simp

open SAMGeneUMIAlignmentCounter in
/-- C1 witness: three lines for one gene, the second repeating the UMI of the first. -/
theorem countAlignmentLines_first_occurrence_witness :
    ∃ statuses counter1,
      countAlignmentLines { gene_umi_pool := [] } exampleAlignmentLines =
        Except.ok (statuses, counter1) ∧
      statuses.length = exampleAlignmentLines.length ∧
      ∀ i l b, exampleAlignmentLines[i]? = some l → statuses[i]? = some b →
        (b = true ↔ geneUMI l ∉ (exampleAlignmentLines.take i).map geneUMI) :=
  countAlignmentLines_first_occurrence exampleAlignmentLines (by decide)

open SAMGeneUMIAlignmentCounter in
/-- C2 witness: a line reporting two target features, offered to a pool that
already holds a key. -/
theorem countAlignmentLine_not_unique_witness :
    countAlignmentLine { gene_umi_pool := ["GAPDHCATAGCGTGG".toList] }
        { qname := "HWI-D00704:48:C7302ANXX:1:1101:1103:2053:TAAGTACATAGCGTGG".toList,
          opt_fields := { number_of_target_features := some 2,
                          target_features := some ["ACTB".toList, "GAPDH".toList] } } true =
        Except.ok { status := false, aux_count := true,
                    counter := { gene_umi_pool := ["GAPDHCATAGCGTGG".toList] } } ∧
      ∀ later, countAlignmentLines { gene_umi_pool := ["GAPDHCATAGCGTGG".toList] }
          ({ qname := "HWI-D00704:48:C7302ANXX:1:1101:1103:2053:TAAGTACATAGCGTGG".toList,
             opt_fields := { number_of_target_features := some 2,
                             target_features := some ["ACTB".toList, "GAPDH".toList] } } :: later) =
        (countAlignmentLines { gene_umi_pool := ["GAPDHCATAGCGTGG".toList] } later).map
          (fun r => (false :: r.1, r.2)) :=
  countAlignmentLine_not_unique _ _ true (by decide)

/-! ## Demultiplexer -/

section Demuxer

open FASTQSequenceDemuxer

variable {SeqType : Type} [SeqTypeOps SeqType]

omit [SeqTypeOps SeqType] in
theorem stream_put_records (st : FASTQFileStream) (lines : FASTQSequenceLines) :
    (FASTQFileStream.put st lines).records =
      if st.good = true then st.records ++ [lines] else st.records := by
  unfold FASTQFileStream.put
  split_ifs <;> rfl

omit [SeqTypeOps SeqType] in
theorem stream_put_good (st : FASTQFileStream) (lines : FASTQSequenceLines) :
    (FASTQFileStream.put st lines).good = st.good := by
  unfold FASTQFileStream.put
  split_ifs with h
  · rfl
  · cases hg : st.good with
    | true => exact absurd hg h
    | false => simp [FASTQFileStream.good]

theorem demux_stream_fold (group_id : CppString) (l : List SeqType)
    (os : FASTQFileGroupOutputStreams) (w : CppString) :
    ((StdMap.find (l.foldl (fun os group_seq =>
        FASTQFileGroupOutputStreams.writeSequence os (SeqTypeOps.getLines group_seq) group_id) os)
      w).getD {}).records =
      (if w = group_id ∧ ((StdMap.find os group_id).getD {}).good = true then
        ((StdMap.find os group_id).getD {}).records ++ l.map SeqTypeOps.getLines
      else ((StdMap.find os w).getD {}).records) ∧
    ((StdMap.find (l.foldl (fun os group_seq =>
        FASTQFileGroupOutputStreams.writeSequence os (SeqTypeOps.getLines group_seq) group_id) os)
      w).getD {}).good = ((StdMap.find os w).getD {}).good := by
  induction l generalizing os with
  | nil =>
    refine ⟨?_, rfl⟩
    by_cases hw : w = group_id
    · subst hw
      by_cases hg : ((StdMap.find os w).getD {}).good = true <;> simp [hg]
    · simp [hw]
  | cons x rest ih =>
    rw [List.foldl_cons]
    obtain ⟨i1, i2⟩ := ih (FASTQFileGroupOutputStreams.writeSequence os
      (SeqTypeOps.getLines x) group_id)
    rw [i1, i2]
    simp only [FASTQFileGroupOutputStreams.writeSequence, StdMap.find_assign, if_true,
      Option.getD_some, stream_put_good, stream_put_records]
    by_cases hw : w = group_id
    · subst hw
      simp only [if_true, Option.getD_some, stream_put_good, stream_put_records, true_and,
        and_true]
      by_cases hg : ((StdMap.find os w).getD {}).good = true
      · simp [hg]
      · simp [hg]
    · simp [hw]

theorem demux_written_writeGroup (d : FASTQSequenceDemuxer SeqType) (group_id : CppString)
    (flush : Bool) (w : CppString) :
    written (writeSequencesGroup d group_id flush) w =
      if w = group_id ∧ streamGood d group_id = true then
        written d group_id ++ (groupSeqs d group_id).map SeqTypeOps.getLines
      else written d w := by
  simp only [written, streamGood, writeSequencesGroup]
  exact (demux_stream_fold group_id _ d.output_streams w).1

theorem demux_streamGood_writeGroup (d : FASTQSequenceDemuxer SeqType) (group_id : CppString)
    (flush : Bool) (w : CppString) :
    streamGood (writeSequencesGroup d group_id flush) w = streamGood d w := by
  simp only [streamGood, writeSequencesGroup]
  exact (demux_stream_fold group_id _ d.output_streams w).2

theorem demux_groupSeqs_writeGroup (d : FASTQSequenceDemuxer SeqType) (group_id : CppString)
    (flush : Bool) (w : CppString) :
    groupSeqs (writeSequencesGroup d group_id flush) w =
      if w = group_id then [] else groupSeqs d w := by
  simp only [groupSeqs, writeSequencesGroup, StdMap.find_replace]
  by_cases hw : w = group_id
  · simp only [hw, if_true]
    cases StdMap.find d.seq_groups group_id <;> rfl
  · simp only [hw, if_false]

omit [SeqTypeOps SeqType] in
theorem demux_groupSeqs_touch (d : FASTQSequenceDemuxer SeqType) (group_id w : CppString) :
    groupSeqs { d with seq_groups := StdMap.touch d.seq_groups group_id [] } w = groupSeqs d w := by
  simp only [groupSeqs, StdMap.getD_find_touch]

omit [SeqTypeOps SeqType] in
theorem demux_groupSeqs_replace (d : FASTQSequenceDemuxer SeqType) (group_id w : CppString)
    (v : List SeqType) (n : Nat) (hpresent : (StdMap.find d.seq_groups group_id).isSome) :
    groupSeqs { d with seq_groups := StdMap.replace d.seq_groups group_id v,
                       n_grouped_seqs := n } w =
      if w = group_id then v else groupSeqs d w := by
  simp only [groupSeqs, StdMap.find_replace]
  by_cases hw : w = group_id
  · simp only [hw, if_true]
    cases hf : StdMap.find d.seq_groups group_id with
    | none => rw [hf] at hpresent; simp at hpresent
    | some x => rfl
  · simp only [hw, if_false]

/-- The two shapes of `addSequence` for a record whose group ID is a key of the
table: with a buffer at capacity the group is written first. -/
theorem demux_addSequence_eq (d : FASTQSequenceDemuxer SeqType) (seq : SeqType)
    (group_id : CppString)
    (h : StdMap.find d.well_barcode_table (SeqTypeOps.getGroupId seq) = some group_id) :
    addSequence d seq =
      if d.n_max_seqs ≤ (groupSeqs d group_id).length then
        { writeSequencesGroup { d with seq_groups := StdMap.touch d.seq_groups group_id [] }
            group_id d.flush_ostream with
          seq_groups := StdMap.replace
            (writeSequencesGroup { d with seq_groups := StdMap.touch d.seq_groups group_id [] }
              group_id d.flush_ostream).seq_groups group_id [SeqTypeOps.moveCtor seq],
          n_grouped_seqs := d.n_grouped_seqs + 1 }
      else
        { d with
          seq_groups := StdMap.replace (StdMap.touch d.seq_groups group_id []) group_id
            (groupSeqs d group_id ++ [SeqTypeOps.moveCtor seq]),
          n_grouped_seqs := d.n_grouped_seqs + 1 } := by
  unfold addSequence
  simp only [h, demux_groupSeqs_touch, ge_iff_le]
  by_cases hfull : d.n_max_seqs ≤ (groupSeqs d group_id).length
  · simp only [hfull, if_true]
    have hempty : groupSeqs (writeSequencesGroup
        { d with seq_groups := StdMap.touch d.seq_groups group_id [] } group_id d.flush_ostream)
        group_id = [] := by
      rw [demux_groupSeqs_writeGroup]
      simp
    rw [hempty]
    have hn : (writeSequencesGroup
        { d with seq_groups := StdMap.touch d.seq_groups group_id [] } group_id
        d.flush_ostream).n_max_seqs = d.n_max_seqs := rfl
    have hc : (writeSequencesGroup
        { d with seq_groups := StdMap.touch d.seq_groups group_id [] } group_id
        d.flush_ostream).n_grouped_seqs = d.n_grouped_seqs := rfl
    rw [hn, hc]
    have hgate : d.n_max_seqs = 0 ∨ (d.n_max_seqs > 0 ∧ ([] : List SeqType).length < d.n_max_seqs) := by
      simp only [List.length_nil]
      omega
    rw [if_pos hgate]
    rfl
  · simp only [hfull, if_false, demux_groupSeqs_touch]
    have hgate : d.n_max_seqs = 0 ∨ (d.n_max_seqs > 0 ∧
        (groupSeqs d group_id).length < d.n_max_seqs) := by omega
    rw [if_pos hgate]

/-- What `addSequence` does for a record whose group ID is a key of the table. -/
theorem demux_addSequence_hit (d : FASTQSequenceDemuxer SeqType) (seq : SeqType)
    (group_id : CppString)
    (h : StdMap.find d.well_barcode_table (SeqTypeOps.getGroupId seq) = some group_id) :
    (∀ w, written (addSequence d seq) w =
      if w = group_id ∧ d.n_max_seqs ≤ (groupSeqs d group_id).length
          ∧ streamGood d group_id = true then
        written d group_id ++ (groupSeqs d group_id).map SeqTypeOps.getLines
      else written d w) ∧
    (∀ w, groupSeqs (addSequence d seq) w =
      if w = group_id then
        (if d.n_max_seqs ≤ (groupSeqs d group_id).length then [] else groupSeqs d group_id)
          ++ [SeqTypeOps.moveCtor seq]
      else groupSeqs d w) ∧
    (addSequence d seq).n_grouped_seqs = d.n_grouped_seqs + 1 ∧
    (addSequence d seq).n_ungrouped_seqs = d.n_ungrouped_seqs ∧
    (addSequence d seq).well_barcode_table = d.well_barcode_table ∧
    (addSequence d seq).n_max_seqs = d.n_max_seqs ∧
    (addSequence d seq).flush_ostream = d.flush_ostream ∧
    StdMap.keys (addSequence d seq).seq_groups =
      StdMap.keys (StdMap.touch d.seq_groups group_id []) := by
  have hpresent : (StdMap.find (StdMap.touch d.seq_groups group_id []) group_id).isSome := by
    simp [StdMap.find_touch]
  by_cases hfull : d.n_max_seqs ≤ (groupSeqs d group_id).length
  · have e := demux_addSequence_eq d seq group_id h
    rw [if_pos hfull] at e
    rw [e]
    refine ⟨?_, ?_, rfl, rfl, rfl, rfl, rfl, ?_⟩
    · intro w
      have := demux_written_writeGroup
        { d with seq_groups := StdMap.touch d.seq_groups group_id [] } group_id d.flush_ostream w
      have hfull2 : d.n_max_seqs ≤ ((StdMap.find d.seq_groups group_id).getD []).length := hfull
      simp only [written, streamGood, writeSequencesGroup, groupSeqs, StdMap.getD_find_touch,
        hfull2, true_and] at this ⊢
      exact this
    · intro w
      have hp2 : (StdMap.find (writeSequencesGroup
          { d with seq_groups := StdMap.touch d.seq_groups group_id [] } group_id
          d.flush_ostream).seq_groups group_id).isSome := by
        simp only [writeSequencesGroup, StdMap.find_replace, if_true]
        cases hf : StdMap.find (StdMap.touch d.seq_groups group_id []) group_id with
        | none => rw [hf] at hpresent; simp at hpresent
        | some x => rfl
      rw [demux_groupSeqs_replace _ group_id w _ _ hp2, demux_groupSeqs_writeGroup,
        demux_groupSeqs_touch]
      by_cases hw : w = group_id <;> simp [hw, hfull]
    · simp only [StdMap.keys_replace, writeSequencesGroup]
  · have e := demux_addSequence_eq d seq group_id h
    rw [if_neg hfull] at e
    rw [e]
    refine ⟨?_, ?_, rfl, rfl, rfl, rfl, rfl, ?_⟩
    · intro w
      simp only [hfull, false_and, and_false, if_false]
      rfl
    · intro w
      have := demux_groupSeqs_replace
        { d with seq_groups := StdMap.touch d.seq_groups group_id [] } group_id w
        (groupSeqs d group_id ++ [SeqTypeOps.moveCtor seq]) (d.n_grouped_seqs + 1) hpresent
      rw [demux_groupSeqs_touch] at this
      simp only [hfull, if_false]
      exact this
    · simp only [StdMap.keys_replace]

/-- What `addSequence` does for a record whose group ID is not a key of the table. -/
theorem demux_addSequence_miss (d : FASTQSequenceDemuxer SeqType) (seq : SeqType)
    (h : StdMap.find d.well_barcode_table (SeqTypeOps.getGroupId seq) = none) :
    addSequence d seq = { d with n_ungrouped_seqs := d.n_ungrouped_seqs + 1 } := by
  unfold addSequence
  simp only [h]

theorem demux_writeStep (d : FASTQSequenceDemuxer SeqType) (group_id : CppString) (flush : Bool) :
    (∀ w, groupSeqs (if (groupSeqs d group_id).length > 0 then writeSequencesGroup d group_id flush
        else d) w = if w = group_id then [] else groupSeqs d w) ∧
    (∀ w, written (if (groupSeqs d group_id).length > 0 then writeSequencesGroup d group_id flush
        else d) w =
      if w = group_id ∧ streamGood d group_id = true then
        written d group_id ++ (groupSeqs d group_id).map SeqTypeOps.getLines
      else written d w) ∧
    (if (groupSeqs d group_id).length > 0 then writeSequencesGroup d group_id flush
        else d).n_grouped_seqs = d.n_grouped_seqs ∧
    (if (groupSeqs d group_id).length > 0 then writeSequencesGroup d group_id flush
        else d).n_ungrouped_seqs = d.n_ungrouped_seqs ∧
    (if (groupSeqs d group_id).length > 0 then writeSequencesGroup d group_id flush
        else d).well_barcode_table = d.well_barcode_table ∧
    (if (groupSeqs d group_id).length > 0 then writeSequencesGroup d group_id flush
        else d).n_max_seqs = d.n_max_seqs ∧
    (if (groupSeqs d group_id).length > 0 then writeSequencesGroup d group_id flush
        else d).flush_ostream = d.flush_ostream ∧
    StdMap.keys (if (groupSeqs d group_id).length > 0 then writeSequencesGroup d group_id flush
        else d).seq_groups = StdMap.keys d.seq_groups := by
  by_cases hpos : (groupSeqs d group_id).length > 0
  · simp only [hpos, if_true]
    refine ⟨fun w => demux_groupSeqs_writeGroup d group_id flush w,
      fun w => demux_written_writeGroup d group_id flush w, rfl, rfl, rfl, rfl, rfl, ?_⟩
    simp only [writeSequencesGroup, StdMap.keys_replace]
  · simp only [hpos, if_false]
    have hnil : groupSeqs d group_id = [] := by
      cases hg : groupSeqs d group_id with
      | nil => rfl
      | cons x xs => rw [hg] at hpos; simp at hpos
    refine ⟨?_, ?_, trivial, trivial, trivial, trivial, trivial, trivial⟩
    · intro w
      by_cases hw : w = group_id
      · simp [hw, hnil]
      · simp [hw]
    · intro w
      by_cases hw : w = group_id
      · simp [hw, hnil]
      · simp [hw]

theorem demux_writeStep_good (d : FASTQSequenceDemuxer SeqType) (group_id : CppString)
    (flush : Bool) (w : CppString) :
    streamGood (if (groupSeqs d group_id).length > 0 then writeSequencesGroup d group_id flush
        else d) w = streamGood d w := by
  split_ifs
  · exact demux_streamGood_writeGroup d group_id flush w
  · rfl

theorem demux_writeFold_good (l : List CppString) (flush : Bool) (d : FASTQSequenceDemuxer SeqType)
    (w : CppString) :
    streamGood (l.foldl (fun acc group_id =>
        if (groupSeqs acc group_id).length > 0 then writeSequencesGroup acc group_id flush
        else acc) d) w = streamGood d w := by
  induction l generalizing d with
  | nil => rfl
  | cons g rest ih =>
    simp only [List.foldl_cons]
    rw [ih, demux_writeStep_good]

theorem demux_writeFold (l : List CppString) (flush : Bool) (d : FASTQSequenceDemuxer SeqType) :
    (∀ w, groupSeqs (l.foldl (fun acc group_id =>
        if (groupSeqs acc group_id).length > 0 then writeSequencesGroup acc group_id flush
        else acc) d) w = if w ∈ l then [] else groupSeqs d w) ∧
    (∀ w, written (l.foldl (fun acc group_id =>
        if (groupSeqs acc group_id).length > 0 then writeSequencesGroup acc group_id flush
        else acc) d) w =
      if w ∈ l ∧ streamGood d w = true then
        written d w ++ (groupSeqs d w).map SeqTypeOps.getLines
      else written d w) ∧
    (l.foldl (fun acc group_id =>
        if (groupSeqs acc group_id).length > 0 then writeSequencesGroup acc group_id flush
        else acc) d).n_grouped_seqs = d.n_grouped_seqs ∧
    (l.foldl (fun acc group_id =>
        if (groupSeqs acc group_id).length > 0 then writeSequencesGroup acc group_id flush
        else acc) d).n_ungrouped_seqs = d.n_ungrouped_seqs ∧
    (l.foldl (fun acc group_id =>
        if (groupSeqs acc group_id).length > 0 then writeSequencesGroup acc group_id flush
        else acc) d).well_barcode_table = d.well_barcode_table ∧
    (l.foldl (fun acc group_id =>
        if (groupSeqs acc group_id).length > 0 then writeSequencesGroup acc group_id flush
        else acc) d).n_max_seqs = d.n_max_seqs ∧
    (l.foldl (fun acc group_id =>
        if (groupSeqs acc group_id).length > 0 then writeSequencesGroup acc group_id flush
        else acc) d).flush_ostream = d.flush_ostream ∧
    StdMap.keys (l.foldl (fun acc group_id =>
        if (groupSeqs acc group_id).length > 0 then writeSequencesGroup acc group_id flush
        else acc) d).seq_groups = StdMap.keys d.seq_groups := by
  induction l generalizing d with
  | nil => simp
  | cons g rest ih =>
    simp only [List.foldl_cons]
    obtain ⟨s1, s2, s3, s4, s5, s6, s7, s8⟩ := demux_writeStep d g flush
    obtain ⟨r1, r2, r3, r4, r5, r6, r7, r8⟩ :=
      ih (if (groupSeqs d g).length > 0 then writeSequencesGroup d g flush else d)
    refine ⟨?_, ?_, r3.trans s3, r4.trans s4, r5.trans s5, r6.trans s6, r7.trans s7,
      r8.trans s8⟩
    · intro w
      rw [r1 w, s1 w]
      by_cases hw : w = g
      · simp [hw]
      · simp [hw]
    · intro w
      rw [r2 w, s1 w, s2 w, demux_writeStep_good]
      by_cases hw : w = g
      · subst hw
        by_cases hg : streamGood d w = true
        · simp [hg]
        · simp [hg]
      · simp [hw]

/-- What `writeSequences(flush)` does: every buffer is sent to its stream and emptied; the
records reach the file when the stream is good. -/
theorem demux_writeSequences (d : FASTQSequenceDemuxer SeqType) (flush : Bool) :
    (∀ w, groupSeqs (writeSequences d flush) w = []) ∧
    (∀ w, written (writeSequences d flush) w =
      written d w ++
        (if streamGood d w = true then (groupSeqs d w).map SeqTypeOps.getLines else [])) ∧
    (writeSequences d flush).n_grouped_seqs = d.n_grouped_seqs ∧
    (writeSequences d flush).n_ungrouped_seqs = d.n_ungrouped_seqs ∧
    (writeSequences d flush).well_barcode_table = d.well_barcode_table ∧
    (writeSequences d flush).n_max_seqs = d.n_max_seqs ∧
    (writeSequences d flush).flush_ostream = d.flush_ostream ∧
    StdMap.keys (writeSequences d flush).seq_groups = StdMap.keys d.seq_groups := by
  obtain ⟨r1, r2, r3, r4, r5, r6, r7, r8⟩ := demux_writeFold (StdMap.keys d.seq_groups) flush d
  have habsent : ∀ w, w ∉ StdMap.keys d.seq_groups → groupSeqs d w = [] := by
    intro w hw
    rw [StdMap.mem_keys_iff] at hw
    simp only [groupSeqs]
    cases hf : StdMap.find d.seq_groups w with
    | none => rfl
    | some x => rw [hf] at hw; simp at hw
  refine ⟨?_, ?_, r3, r4, r5, r6, r7, r8⟩
  · intro w
    show groupSeqs (List.foldl _ d (StdMap.keys d.seq_groups)) w = []
    rw [r1 w]
    by_cases hw : w ∈ StdMap.keys d.seq_groups
    · simp [hw]
    · simp [hw, habsent w hw]
  · intro w
    show written (List.foldl _ d (StdMap.keys d.seq_groups)) w = _
    rw [r2 w]
    by_cases hw : w ∈ StdMap.keys d.seq_groups
    · by_cases hg : streamGood d w = true
      · simp [hw, hg]
      · simp [hw, hg]
    · by_cases hg : streamGood d w = true
      · simp [hw, hg, habsent w hw]
      · simp [hw, hg]

theorem demux_streamGood_writeSequences (d : FASTQSequenceDemuxer SeqType) (flush : Bool)
    (w : CppString) : streamGood (writeSequences d flush) w = streamGood d w :=
  demux_writeFold_good (StdMap.keys d.seq_groups) flush d w

theorem demux_streamGood_addSequence (d : FASTQSequenceDemuxer SeqType) (seq : SeqType)
    (w : CppString) : streamGood (addSequence d seq) w = streamGood d w := by
  cases hfind : StdMap.find d.well_barcode_table (SeqTypeOps.getGroupId seq) with
  | none =>
    rw [demux_addSequence_miss d seq hfind]
    rfl
  | some g =>
    rw [demux_addSequence_eq d seq g hfind]
    split_ifs
    · exact demux_streamGood_writeGroup
        { d with seq_groups := StdMap.touch d.seq_groups g [] } g d.flush_ostream w
    · rfl

theorem demux_streamGood_run (calls : List (Call SeqType)) (d : FASTQSequenceDemuxer SeqType)
    (w : CppString) : streamGood (run d calls) w = streamGood d w := by
  induction calls generalizing d with
  | nil => rfl
  | cons c rest ih =>
    have hrun : run d (c :: rest) = run (step d c) rest := rfl
    rw [hrun, ih]
    cases c with
    | addSequence seq => exact demux_streamGood_addSequence d seq w
    | writeSequences flush => exact demux_streamGood_writeSequences d flush w

theorem demux_run_counters (calls : List (Call SeqType)) (d : FASTQSequenceDemuxer SeqType) :
    (run d calls).n_grouped_seqs + (run d calls).n_ungrouped_seqs =
      d.n_grouped_seqs + d.n_ungrouped_seqs + (addedSeqs calls).length := by
  induction calls generalizing d with
  | nil => simp [run, addedSeqs]
  | cons c rest ih =>
    have hrun : run d (c :: rest) = run (step d c) rest := rfl
    rw [hrun, ih]
    cases c with
    | addSequence seq =>
      simp only [step, addedSeqs, List.length_cons]
      cases hfind : StdMap.find d.well_barcode_table (SeqTypeOps.getGroupId seq) with
      | none =>
        rw [demux_addSequence_miss d seq hfind]
        simp only
        omega
      | some g =>
        obtain ⟨_, _, h3, h4, _⟩ := demux_addSequence_hit d seq g hfind
        rw [h3, h4]
        omega
    | writeSequences flush =>
      obtain ⟨_, _, h3, h4, _⟩ := demux_writeSequences d flush
      simp only [step, addedSeqs, h3, h4]

/-- C5: `addSequence` is total (it raises no error).  If the group ID of the
record is not a key of the well-barcode table, the call adds 1 to the ungrouped
counter and changes nothing else (grouped counter, buffers, output streams).
If it is a key mapping to well `w`, the call adds 1 to the grouped counter,
leaves the ungrouped counter unchanged and makes the stored record (same four
lines) the last element of the buffer of `w`.  Hence after any sequence of
calls on a constructed demultiplexer grouped + ungrouped equals the number of
`addSequence` calls. -/
theorem demux_addSequence_frame (d : FASTQSequenceDemuxer SeqType) (seq : SeqType) :
    (StdMap.find d.well_barcode_table (SeqTypeOps.getGroupId seq) = none →
      addSequence d seq = { d with n_ungrouped_seqs := d.n_ungrouped_seqs + 1 }) ∧
    (∀ w, StdMap.find d.well_barcode_table (SeqTypeOps.getGroupId seq) = some w →
      (addSequence d seq).n_grouped_seqs = d.n_grouped_seqs + 1 ∧
      (addSequence d seq).n_ungrouped_seqs = d.n_ungrouped_seqs ∧
      (groupSeqs (addSequence d seq) w).getLast? = some (SeqTypeOps.moveCtor seq) ∧
      SeqTypeOps.getLines (SeqTypeOps.moveCtor seq) = SeqTypeOps.getLines seq ∧
      ∀ w1, w1 ≠ w → groupSeqs (addSequence d seq) w1 = groupSeqs d w1 ∧
        written (addSequence d seq) w1 = written d w1) ∧
    (∀ (table : WellBarcodeTable) (ostreams : FASTQFileGroupOutputStreams) (max_seqs : Nat)
        (flush verb : Bool) (calls : List (Call SeqType)),
      (run (ctor table ostreams max_seqs flush verb) calls).n_grouped_seqs +
        (run (ctor table ostreams max_seqs flush verb) calls).n_ungrouped_seqs =
        (addedSeqs calls).length) := by
  refine ⟨demux_addSequence_miss d seq, ?_, ?_⟩
  · intro w hw
    obtain ⟨h1, h2, h3, h4, _⟩ := demux_addSequence_hit d seq w hw
    refine ⟨h3, h4, ?_, SeqTypeOps.getLines_moveCtor seq, ?_⟩
    · rw [h2 w]
      simp
    · intro w1 hw1
      rw [h2 w1, h1 w1]
      simp [hw1]
  · intro table ostreams max_seqs flush verb calls
    rw [demux_run_counters]
    simp [ctor, initSequenceGroups]

theorem demux_step_capacity (n : Nat) (hn : 1 ≤ n) (d : FASTQSequenceDemuxer SeqType)
    (c : Call SeqType)
    (h : d.n_max_seqs = n ∧ ∀ w, (groupSeqs d w).length ≤ n) :
    (step d c).n_max_seqs = n ∧ ∀ w, (groupSeqs (step d c) w).length ≤ n := by
  obtain ⟨hcap, hbuf⟩ := h
  cases c with
  | addSequence seq =>
    simp only [step]
    cases hfind : StdMap.find d.well_barcode_table (SeqTypeOps.getGroupId seq) with
    | none =>
      rw [demux_addSequence_miss d seq hfind]
      exact ⟨hcap, hbuf⟩
    | some g =>
      obtain ⟨_, h2, _, _, _, h6, _⟩ := demux_addSequence_hit d seq g hfind
      refine ⟨h6.trans hcap, ?_⟩
      intro w
      rw [h2 w]
      by_cases hw : w = g
      · simp only [hw, if_true]
        by_cases hfull : d.n_max_seqs ≤ (groupSeqs d g).length
        · simp only [hfull, if_true, List.nil_append, List.length_singleton]
          exact hn
        · simp only [hfull, if_false, List.length_append, List.length_singleton]
          omega
      · simp only [hw, if_false]
        exact hbuf w
  | writeSequences flush =>
    obtain ⟨h1, _, _, _, _, h6, _⟩ := demux_writeSequences d flush
    refine ⟨h6.trans hcap, ?_⟩
    intro w
    simp only [step, h1 w, List.length_nil]
    omega

theorem demux_run_capacity (n : Nat) (hn : 1 ≤ n) (calls : List (Call SeqType))
    (d : FASTQSequenceDemuxer SeqType)
    (h : d.n_max_seqs = n ∧ ∀ w, (groupSeqs d w).length ≤ n) :
    (run d calls).n_max_seqs = n ∧ ∀ w, (groupSeqs (run d calls) w).length ≤ n := by
  induction calls generalizing d with
  | nil => exact h
  | cons c rest ih =>
    have hrun : run d (c :: rest) = run (step d c) rest := rfl
    rw [hrun]
    exact ih (step d c) (demux_step_capacity n hn d c h)

theorem stdmap_fold_assign_values {V : Type} (v : V) (l : List (CppString × CppString))
    (m : StdMap V) (hm : ∀ k, (StdMap.find m k).getD v = v) :
    ∀ k, (StdMap.find (l.foldl (fun groups well_barcode =>
      StdMap.assign groups well_barcode.2 v) m) k).getD v = v := by
  induction l generalizing m with
  | nil => exact hm
  | cons e rest ih =>
    simp only [List.foldl_cons]
    apply ih
    intro k
    rw [StdMap.find_assign]
    by_cases hk : k = e.2
    · simp [hk]
    · simp only [hk, if_false]
      exact hm k

omit [SeqTypeOps SeqType] in
theorem demux_ctor_groupSeqs (table : WellBarcodeTable) (ostreams : FASTQFileGroupOutputStreams)
    (max_seqs : Nat) (flush verb : Bool) (w : CppString) :
    groupSeqs (ctor table ostreams max_seqs flush verb : FASTQSequenceDemuxer SeqType) w = [] := by
  simp only [groupSeqs, ctor, initSequenceGroups]
  exact stdmap_fold_assign_values [] table [] (fun k => rfl) w

/-- C6: for every capacity `n >= 1`, when a matching record is added to a well
whose buffer holds exactly `n` records, the `n` records are sent to the stream
of the well in buffer order, once, the buffer is cleared and then receives the
new record, so that it holds exactly that one record (no other well is
touched); the `n` records reach the file of the well when its stream is good,
and are dropped when the stream is closed or failed.  When the buffer holds
fewer than `n` records nothing is written and the record is appended.
Consequently, on a constructed demultiplexer, no buffer ever holds more than
`n` records. -/
theorem demux_capacity_flush_then_append (n : Nat) (hn : 1 ≤ n) :
    (∀ (d : FASTQSequenceDemuxer SeqType) (seq : SeqType) (w : CppString),
      d.n_max_seqs = n →
      StdMap.find d.well_barcode_table (SeqTypeOps.getGroupId seq) = some w →
      ((groupSeqs d w).length = n →
        written (addSequence d seq) w =
          written d w ++
            (if streamGood d w = true then (groupSeqs d w).map SeqTypeOps.getLines else []) ∧
        groupSeqs (addSequence d seq) w = [SeqTypeOps.moveCtor seq] ∧
        ∀ w1, w1 ≠ w → written (addSequence d seq) w1 = written d w1 ∧
          groupSeqs (addSequence d seq) w1 = groupSeqs d w1) ∧
      ((groupSeqs d w).length < n →
        (∀ w1, written (addSequence d seq) w1 = written d w1) ∧
        groupSeqs (addSequence d seq) w = groupSeqs d w ++ [SeqTypeOps.moveCtor seq])) ∧
    (∀ (table : WellBarcodeTable) (ostreams : FASTQFileGroupOutputStreams) (flush verb : Bool)
        (calls : List (Call SeqType)) (w : CppString),
      (groupSeqs (run (ctor table ostreams n flush verb) calls) w).length ≤ n) := by
  constructor
  · intro d seq w hcap hfind
    obtain ⟨h1, h2, _⟩ := demux_addSequence_hit d seq w hfind
    constructor
    · intro hlen
      have hfull : d.n_max_seqs ≤ (groupSeqs d w).length := by omega
      refine ⟨?_, ?_, ?_⟩
      · rw [h1 w]
        by_cases hg : streamGood d w = true
        · simp [hfull, hg]
        · simp [hfull, hg]
      · rw [h2 w]
        simp [hfull]
      · intro w1 hw1
        rw [h1 w1, h2 w1]
        simp [hw1]
    · intro hlen
      have hfull : ¬ d.n_max_seqs ≤ (groupSeqs d w).length := by omega
      refine ⟨?_, ?_⟩
      · intro w1
        rw [h1 w1]
        simp [hfull]
      · rw [h2 w]
        simp [hfull]
  · intro table ostreams flush verb calls w
    have h0 : (ctor table ostreams n flush verb : FASTQSequenceDemuxer SeqType).n_max_seqs = n ∧
        ∀ w, (groupSeqs (ctor table ostreams n flush verb : FASTQSequenceDemuxer SeqType)
          w).length ≤ n := by
      refine ⟨rfl, ?_⟩
      intro w
      rw [demux_ctor_groupSeqs]
      simp
    exact (demux_run_capacity n hn calls _ h0).2 w

theorem stdmap_find_mem {V : Type} (m : StdMap V) (k : CppString) (v : V)
    (h : StdMap.find m k = some v) : (k, v) ∈ m := by
  induction m with
  | nil => simp [StdMap.find] at h
  | cons e rest ih =>
    obtain ⟨k0, v0⟩ := e
    simp only [StdMap.find] at h
    split_ifs at h with h0
    · simp only [Option.some.injEq] at h
      subst h0
      subst h
      exact List.mem_cons_self _ _
    · exact List.mem_cons_of_mem _ (ih h)

theorem stdmap_fold_assign_keys {V : Type} (v : V) (l : List (CppString × CppString))
    (m : StdMap V) (hm : (StdMap.keys m).Nodup) :
    (StdMap.keys (l.foldl (fun groups well_barcode =>
      StdMap.assign groups well_barcode.2 v) m)).Nodup ∧
    ∀ w, w ∈ StdMap.keys (l.foldl (fun groups well_barcode =>
      StdMap.assign groups well_barcode.2 v) m) ↔ w ∈ StdMap.keys m ∨ w ∈ l.map Prod.snd := by
  induction l generalizing m with
  | nil => simp [hm]
  | cons e rest ih =>
    simp only [List.foldl_cons]
    obtain ⟨h1, h2⟩ := ih (StdMap.assign m e.2 v) (StdMap.nodup_keys_assign m e.2 v hm)
    refine ⟨h1, ?_⟩
    intro w
    rw [h2 w, StdMap.mem_keys_assign]
    simp only [List.map_cons, List.mem_cons]
    tauto

theorem demux_step_keys (d : FASTQSequenceDemuxer SeqType) (c : Call SeqType)
    (hdecl : ∀ b g, StdMap.find d.well_barcode_table b = some g → g ∈ StdMap.keys d.seq_groups) :
    (step d c).well_barcode_table = d.well_barcode_table ∧
    StdMap.keys (step d c).seq_groups = StdMap.keys d.seq_groups := by
  cases c with
  | addSequence seq =>
    simp only [step]
    cases hfind : StdMap.find d.well_barcode_table (SeqTypeOps.getGroupId seq) with
    | none =>
      rw [demux_addSequence_miss d seq hfind]
      exact ⟨rfl, rfl⟩
    | some g =>
      obtain ⟨_, _, _, _, h5, _, _, h8⟩ := demux_addSequence_hit d seq g hfind
      refine ⟨h5, ?_⟩
      rw [h8, StdMap.touch_of_find_some]
      exact (StdMap.mem_keys_iff _ _).mp (hdecl _ g hfind)
  | writeSequences flush =>
    obtain ⟨_, _, _, _, h5, _, _, h8⟩ := demux_writeSequences d flush
    exact ⟨h5, h8⟩

theorem demux_run_keys (calls : List (Call SeqType)) (d : FASTQSequenceDemuxer SeqType)
    (hdecl : ∀ b g, StdMap.find d.well_barcode_table b = some g → g ∈ StdMap.keys d.seq_groups) :
    (run d calls).well_barcode_table = d.well_barcode_table ∧
    StdMap.keys (run d calls).seq_groups = StdMap.keys d.seq_groups := by
  induction calls generalizing d with
  | nil => exact ⟨rfl, rfl⟩
  | cons c rest ih =>
    have hrun : run d (c :: rest) = run (step d c) rest := rfl
    obtain ⟨s1, s2⟩ := demux_step_keys d c hdecl
    have hdecl1 : ∀ b g, StdMap.find (step d c).well_barcode_table b = some g →
        g ∈ StdMap.keys (step d c).seq_groups := by
      intro b g hb
      rw [s1] at hb
      rw [s2]
      exact hdecl b g hb
    obtain ⟨r1, r2⟩ := ih (step d c) hdecl1
    rw [hrun]
    exact ⟨r1.trans s1, r2.trans s2⟩

/-- C8: right after construction from a barcode table the buffer map has
exactly one entry per well number occurring in the table (no key twice, a key
for every well of the table and for nothing else) and every buffer is empty;
after any sequence of `addSequence` and `writeSequences` calls the keys of the
buffer map are still the same. -/
theorem demux_groups_are_table_wells (table : WellBarcodeTable)
    (ostreams : FASTQFileGroupOutputStreams) (max_seqs : Nat) (flush verb : Bool) :
    (StdMap.keys (ctor table ostreams max_seqs flush verb :
      FASTQSequenceDemuxer SeqType).seq_groups).Nodup ∧
    (∀ w, w ∈ StdMap.keys (ctor table ostreams max_seqs flush verb :
      FASTQSequenceDemuxer SeqType).seq_groups ↔ w ∈ table.map Prod.snd) ∧
    (∀ w, w ∈ table.map Prod.snd →
      StdMap.find (ctor table ostreams max_seqs flush verb :
        FASTQSequenceDemuxer SeqType).seq_groups w = some []) ∧
    (∀ w, groupSeqs (ctor table ostreams max_seqs flush verb :
      FASTQSequenceDemuxer SeqType) w = []) ∧
    (∀ calls : List (Call SeqType),
      StdMap.keys (run (ctor table ostreams max_seqs flush verb) calls).seq_groups =
        StdMap.keys (ctor table ostreams max_seqs flush verb :
          FASTQSequenceDemuxer SeqType).seq_groups) := by
  have hk := stdmap_fold_assign_keys ([] : List SeqType) table [] (by simp [StdMap.keys])
  have hkeys : ∀ w, w ∈ StdMap.keys (ctor table ostreams max_seqs flush verb :
      FASTQSequenceDemuxer SeqType).seq_groups ↔ w ∈ table.map Prod.snd := by
    intro w
    have := hk.2 w
    simp only [StdMap.keys, List.map_nil, List.not_mem_nil, false_or] at this
    exact this
  refine ⟨hk.1, hkeys, ?_, demux_ctor_groupSeqs table ostreams max_seqs flush verb, ?_⟩
  · intro w hw
    have hmem := (StdMap.mem_keys_iff _ _).mp ((hkeys w).mpr hw)
    have hempty := @demux_ctor_groupSeqs SeqType table ostreams max_seqs flush verb w
    simp only [groupSeqs] at hempty
    cases hf : StdMap.find (ctor table ostreams max_seqs flush verb :
        FASTQSequenceDemuxer SeqType).seq_groups w with
    | none => rw [hf] at hmem; simp at hmem
    | some x =>
      rw [hf] at hempty
      simp only [Option.getD_some] at hempty
      rw [hempty]
  · intro calls
    apply (demux_run_keys calls _ _).2
    intro b g hb
    apply (hkeys g).mpr
    have hmem := stdmap_find_mem table b g hb
    exact List.mem_map.mpr ⟨(b, g), hmem, rfl⟩

theorem recordsOfWell_append (table : WellBarcodeTable) (l1 l2 : List SeqType) (w : CppString) :
    recordsOfWell table (l1 ++ l2) w = recordsOfWell table l1 w ++ recordsOfWell table l2 w := by
  simp [recordsOfWell]

theorem demux_step_nothingLost (table : WellBarcodeTable)
    (written0 : CppString → List FASTQSequenceLines) (d : FASTQSequenceDemuxer SeqType)
    (added : List SeqType) (c : Call SeqType) (h : NothingLost table written0 d added) :
    NothingLost table written0 (step d c) (added ++ addedSeqs [c]) := by
  obtain ⟨htable, hinv⟩ := h
  cases c with
  | addSequence seq =>
    simp only [step, addedSeqs]
    cases hfind : StdMap.find d.well_barcode_table (SeqTypeOps.getGroupId seq) with
    | none =>
      rw [demux_addSequence_miss d seq hfind]
      refine ⟨htable, ?_⟩
      intro w
      obtain ⟨pre, hw1, hw2⟩ := hinv w
      refine ⟨pre, hw1, ?_⟩
      rw [recordsOfWell_append, List.map_append, hw2]
      rw [htable] at hfind
      simp [recordsOfWell, hfind, groupSeqs]
    | some g =>
      obtain ⟨h1, h2, _, _, h5, _⟩ := demux_addSequence_hit d seq g hfind
      refine ⟨h5.trans htable, ?_⟩
      intro w
      obtain ⟨pre, hw1, hw2⟩ := hinv w
      rw [htable] at hfind
      rw [h1 w, h2 w, recordsOfWell_append, List.map_append, hw2, demux_streamGood_addSequence]
      by_cases hw : w = g
      · subst hw
        have hsel : recordsOfWell table [seq] w = [seq] := by simp [recordsOfWell, hfind]
        rw [hsel]
        by_cases hfull : d.n_max_seqs ≤ (groupSeqs d w).length
        · refine ⟨pre ++ groupSeqs d w, ?_, ?_⟩
          · by_cases hg : streamGood d w = true
            · simp only [hfull, hg, and_self, if_true, hw1, List.map_append, List.append_assoc]
            · simp [hfull, hg, hw1]
          · simp [hfull]
        · refine ⟨pre, ?_, ?_⟩
          · simp only [hfull, false_and, and_false, if_false, hw1]
          · simp [hfull]
      · have hsel : recordsOfWell table [seq] w = [] := by
          simp only [recordsOfWell, List.filter_cons, List.filter_nil, hfind, Option.some.injEq]
          have : ¬ g = w := fun e => hw e.symm
          simp [this]
        refine ⟨pre, ?_, ?_⟩
        · simp only [hw, false_and, if_false, hw1]
        · simp [hw, hsel]
  | writeSequences flush =>
    obtain ⟨h1, h2, _, _, h5, _⟩ := demux_writeSequences d flush
    refine ⟨h5.trans htable, ?_⟩
    intro w
    obtain ⟨pre, hw1, hw2⟩ := hinv w
    refine ⟨pre ++ groupSeqs d w, ?_, ?_⟩
    · simp only [step, h2 w, hw1, demux_streamGood_writeSequences]
      by_cases hg : streamGood d w = true
      · simp only [hg, if_true, List.map_append, List.append_assoc]
      · simp [hg]
    · simp only [step, h1 w, addedSeqs, List.append_nil, hw2]

omit [SeqTypeOps SeqType] in
theorem addedSeqs_cons (c : Call SeqType) (rest : List (Call SeqType)) :
    addedSeqs (c :: rest) = addedSeqs [c] ++ addedSeqs rest := by
  cases c <;> simp [addedSeqs]

theorem demux_run_nothingLost (table : WellBarcodeTable)
    (written0 : CppString → List FASTQSequenceLines) (calls : List (Call SeqType))
    (d : FASTQSequenceDemuxer SeqType) (added : List SeqType)
    (h : NothingLost table written0 d added) :
    NothingLost table written0 (run d calls) (added ++ addedSeqs calls) := by
  induction calls generalizing d added with
  | nil => simpa [run, addedSeqs] using h
  | cons c rest ih =>
    have hrun : run d (c :: rest) = run (step d c) rest := rfl
    rw [hrun, addedSeqs_cons, ← List.append_assoc]
    exact ih (step d c) (added ++ addedSeqs [c]) (demux_step_nothingLost table written0 d added c h)

omit [SeqTypeOps SeqType] in
theorem streams_ctor_iterate (can_open : CppString → Bool) (main_file_name file_dir : CppString)
    (w : CppString) (l : List (CppString × CppString)) :
    ∀ os : FASTQFileGroupOutputStreams,
      (StdMap.find (l.foldl (fun os well_barcode =>
        let file_name := main_file_name ++ ['.'] ++ well_barcode.2 ++ ['.'] ++ "fastq".toList
        let file_path := file_dir ++ [utk.FileSystem.path_sep] ++ file_name
        let stream := (StdMap.find os well_barcode.2).getD {}
        StdMap.assign os well_barcode.2 (FASTQFileStream.open_file can_open stream file_path))
        os) w).getD {} =
      (fun st => FASTQFileStream.open_file can_open st
        (FASTQFileGroupOutputStreams.filePath main_file_name file_dir w))^[
          (l.map Prod.snd).count w] ((StdMap.find os w).getD {}) := by
  induction l with
  | nil => intro os; rfl
  | cons e rest ih =>
    intro os
    simp only [List.foldl_cons, List.map_cons]
    rw [ih, StdMap.find_assign]
    by_cases hw : w = e.2
    · subst hw
      simp only [if_true, Option.getD_some, List.count_cons_self, Function.iterate_succ,
        Function.comp_apply]
      rfl
    · simp only [hw, if_false]
      rw [List.count_cons_of_ne hw]

omit [SeqTypeOps SeqType] in
theorem stream_open_iterate (can_open : CppString → Bool) (file_path : CppString) (n : Nat) :
    (fun st => FASTQFileStream.open_file can_open st file_path)^[n + 1] {} =
      if can_open file_path = true then
        { is_open := true, failbit := decide (1 ≤ n), file_path := file_path, records := [] }
      else { is_open := false, failbit := true, file_path := [], records := [] } := by
  induction n with
  | zero =>
    simp only [Function.iterate_succ, Function.iterate_zero, Function.comp_apply, id_eq]
    by_cases hc : can_open file_path = true
    · simp [FASTQFileStream.open_file, std.ofstream.open_file, hc]
    · simp [FASTQFileStream.open_file, std.ofstream.open_file, hc]
  | succ k ih =>
    rw [Function.iterate_succ_apply', ih]
    by_cases hc : can_open file_path = true
    · simp [FASTQFileStream.open_file, std.ofstream.open_file, hc]
    · simp [FASTQFileStream.open_file, std.ofstream.open_file, hc]

omit [SeqTypeOps SeqType] in
/-- The output stream of a well right after construction: it is good exactly when the well
occurs once among the wells of the table and its file can be opened; its file
is empty in any case. -/
theorem demux_ctorFromTable_stream (can_open : CppString → Bool)
    (main_file_name file_dir : CppString) (table : WellBarcodeTable) (max_seqs : Nat)
    (flush verb : Bool) (w : CppString) :
    streamGood (ctorFromTable can_open main_file_name file_dir table max_seqs flush verb :
        FASTQSequenceDemuxer SeqType) w =
      (decide ((table.map Prod.snd).count w = 1) &&
        can_open (FASTQFileGroupOutputStreams.filePath main_file_name file_dir w)) ∧
    written (ctorFromTable can_open main_file_name file_dir table max_seqs flush verb :
        FASTQSequenceDemuxer SeqType) w = [] := by
  have key := streams_ctor_iterate can_open main_file_name file_dir w table []
  have e0 : (StdMap.find ([] : FASTQFileGroupOutputStreams) w).getD {} = {} := rfl
  rw [e0] at key
  have hs : streamGood (ctorFromTable can_open main_file_name file_dir table max_seqs flush verb :
        FASTQSequenceDemuxer SeqType) w =
      ((fun st => FASTQFileStream.open_file can_open st
        (FASTQFileGroupOutputStreams.filePath main_file_name file_dir w))^[
          (table.map Prod.snd).count w] {}).good := by
    rw [← key]
    rfl
  have hr : written (ctorFromTable can_open main_file_name file_dir table max_seqs flush verb :
        FASTQSequenceDemuxer SeqType) w =
      ((fun st => FASTQFileStream.open_file can_open st
        (FASTQFileGroupOutputStreams.filePath main_file_name file_dir w))^[
          (table.map Prod.snd).count w] {}).records := by
    rw [← key]
    rfl
  rw [hs, hr]
  cases hn : (table.map Prod.snd).count w with
  | zero => exact ⟨rfl, rfl⟩
  | succ n =>
    rw [stream_open_iterate]
    by_cases hc : can_open (FASTQFileGroupOutputStreams.filePath main_file_name file_dir w) = true
    · cases n with
      | zero => simp [hc, FASTQFileStream.good]
      | succ m => simp [hc, FASTQFileStream.good]
    · simp [hc, FASTQFileStream.good]

omit [SeqTypeOps SeqType] in
theorem demux_ctorFromTable_written (can_open : CppString → Bool)
    (main_file_name file_dir : CppString) (table : WellBarcodeTable) (max_seqs : Nat)
    (flush verb : Bool) (w : CppString) :
    written (ctorFromTable can_open main_file_name file_dir table max_seqs flush verb :
      FASTQSequenceDemuxer SeqType) w = [] :=
  (demux_ctorFromTable_stream can_open main_file_name file_dir table max_seqs flush verb w).2

/-- C3: for every barcode table, every buffer capacity and every sequence of
`addSequence` calls (also with `writeSequences` calls in between) on a
demultiplexer constructed for the table, at every point and for each well `w`:
the added records whose group ID maps to `w`, each once and in the order in
which they were added, split into a first part that has been sent to the
stream of `w` and a last part that the buffer of `w` holds (as stored copies);
after a final `writeSequences` the buffer is empty and all of them have been
sent.  What has been sent is in the file of `w` when the stream of `w` is
good; when it is not, the file stays empty and the records sent are lost.  The
stream of `w` is good exactly when `w` occurs once among the wells of the
table and its file could be opened. -/
theorem demux_nothing_lost_nothing_duplicated (can_open : CppString → Bool)
    (main_file_name file_dir : CppString) (table : WellBarcodeTable) (max_seqs : Nat)
    (flush verb : Bool) (calls : List (Call SeqType)) (w : CppString) :
    (∃ k,
      groupSeqs (run (ctorFromTable can_open main_file_name file_dir table max_seqs flush verb)
          calls) w =
        ((recordsOfWell table (addedSeqs calls) w).drop k).map SeqTypeOps.moveCtor ∧
      written (run (ctorFromTable can_open main_file_name file_dir table max_seqs flush verb)
          calls) w =
        if streamGood (ctorFromTable can_open main_file_name file_dir table max_seqs flush verb :
            FASTQSequenceDemuxer SeqType) w = true then
          ((recordsOfWell table (addedSeqs calls) w).take k).map SeqTypeOps.getLines
        else []) ∧
    (∀ final_flush,
      groupSeqs (writeSequences
        (run (ctorFromTable can_open main_file_name file_dir table max_seqs flush verb) calls)
        final_flush) w = [] ∧
      written (writeSequences
        (run (ctorFromTable can_open main_file_name file_dir table max_seqs flush verb) calls)
        final_flush) w =
        if streamGood (ctorFromTable can_open main_file_name file_dir table max_seqs flush verb :
            FASTQSequenceDemuxer SeqType) w = true then
          (recordsOfWell table (addedSeqs calls) w).map SeqTypeOps.getLines
        else []) ∧
    (streamGood (ctorFromTable can_open main_file_name file_dir table max_seqs flush verb :
        FASTQSequenceDemuxer SeqType) w = true →
      written (run (ctorFromTable can_open main_file_name file_dir table max_seqs flush verb)
          calls) w ++
        (groupSeqs (run (ctorFromTable can_open main_file_name file_dir table max_seqs flush verb)
          calls) w).map SeqTypeOps.getLines =
        (recordsOfWell table (addedSeqs calls) w).map SeqTypeOps.getLines) ∧
    streamGood (ctorFromTable can_open main_file_name file_dir table max_seqs flush verb :
        FASTQSequenceDemuxer SeqType) w =
      (decide ((table.map Prod.snd).count w = 1) &&
        can_open (FASTQFileGroupOutputStreams.filePath main_file_name file_dir w)) := by
  obtain ⟨hgood0, hwr0⟩ :=
    @demux_ctorFromTable_stream SeqType can_open main_file_name file_dir table max_seqs flush verb w
  have h0 : NothingLost table (fun _ => [])
      (ctorFromTable can_open main_file_name file_dir table max_seqs flush verb :
        FASTQSequenceDemuxer SeqType) [] := by
    refine ⟨rfl, ?_⟩
    intro w1
    refine ⟨[], ?_, ?_⟩
    · simp [demux_ctorFromTable_written]
    · simp [recordsOfWell, ctorFromTable, demux_ctor_groupSeqs]
  have hrun := demux_run_nothingLost table (fun _ => []) calls _ [] h0
  obtain ⟨_, hinv⟩ := hrun
  obtain ⟨pre, hw1, hw2⟩ := hinv w
  simp only [List.nil_append] at hw1 hw2
  rw [demux_streamGood_run] at hw1
  have hlines : ∀ l : List SeqType,
      (l.map SeqTypeOps.moveCtor).map SeqTypeOps.getLines = l.map SeqTypeOps.getLines := by
    intro l
    rw [List.map_map]
    apply List.map_congr_left
    intro x _
    exact SeqTypeOps.getLines_moveCtor x
  have hlen : pre.length ≤ (recordsOfWell table (addedSeqs calls) w).length := by
    have := congrArg List.length hw2
    simp only [List.length_map, List.length_append] at this
    omega
  have htake : ((recordsOfWell table (addedSeqs calls) w).take pre.length).map
      SeqTypeOps.getLines = pre.map SeqTypeOps.getLines := by
    rw [← hlines, List.map_take, hw2, List.take_left']
    rfl
  have hdrop : ((recordsOfWell table (addedSeqs calls) w).drop pre.length).map
      SeqTypeOps.moveCtor =
      groupSeqs (run (ctorFromTable can_open main_file_name file_dir table max_seqs flush verb)
        calls) w := by
    rw [List.map_drop, hw2]
    simp
  refine ⟨⟨pre.length, hdrop.symm, ?_⟩, ?_, ?_, hgood0⟩
  · rw [hw1, htake]
  · intro final_flush
    obtain ⟨f1, f2, _⟩ := demux_writeSequences
      (run (ctorFromTable can_open main_file_name file_dir table max_seqs flush verb) calls)
      final_flush
    refine ⟨f1 w, ?_⟩
    rw [f2 w, hw1, demux_streamGood_run]
    by_cases hg : streamGood (ctorFromTable can_open main_file_name file_dir table max_seqs
        flush verb : FASTQSequenceDemuxer SeqType) w = true
    · simp only [hg, if_true]
      rw [← List.map_append, ← hw2, hlines]
    · simp [hg]
  · intro hg
    rw [hw1]
    simp only [hg, if_true]
    rw [← List.map_append, ← hw2, hlines]

end Demuxer

open FASTQSequenceDemuxer DGEIlluminaFASTQSequenceDemuxer in
/-- C3 witness: the table with two barcodes of the well `A1`, all files openable, one record
of barcode `AAAAAA` added, then a final `writeSequences`: the record belongs to
`A1`, the buffer of `A1` is empty afterwards and the file of `A1` holds
nothing, because the second `open` on the stream of `A1` left it failed.  The
same happens to well `1` of the table `AAAAAA -> 1, CCCCCC -> 2` when no file
can be opened. -/
theorem demux_nothing_lost_nothing_duplicated_witness :
    recordsOfWell exampleTwoPlateTable
        [exampleRecord "@HWI-D00704:48:C7302ANXX:1:1101:1103:2053:AAAAAACATAGCGTGG"]
        "A1".toList =
      [exampleRecord "@HWI-D00704:48:C7302ANXX:1:1101:1103:2053:AAAAAACATAGCGTGG"] ∧
    groupSeqs (writeSequences
        (run (ctorFromTable (fun _ => true) "out".toList "/d".toList exampleTwoPlateTable
            131072 true false)
          [Call.addSequence
            (exampleRecord "@HWI-D00704:48:C7302ANXX:1:1101:1103:2053:AAAAAACATAGCGTGG")])
        true) "A1".toList = [] ∧
    written (writeSequences
        (run (ctorFromTable (fun _ => true) "out".toList "/d".toList exampleTwoPlateTable
            131072 true false)
          [Call.addSequence
            (exampleRecord "@HWI-D00704:48:C7302ANXX:1:1101:1103:2053:AAAAAACATAGCGTGG")])
        true) "A1".toList = [] ∧
    written (writeSequences
        (run (ctorFromTable (fun _ => false) "out".toList "/nodir".toList exampleTable
            131072 true false)
          [Call.addSequence
            (exampleRecord "@HWI-D00704:48:C7302ANXX:1:1101:1103:2053:AAAAAACATAGCGTGG")])
        true) ['1'] = [] ∧
    written (writeSequences
        (run (ctorFromTable (fun _ => true) "out".toList "/d".toList exampleTable
            131072 true false)
          [Call.addSequence
            (exampleRecord "@HWI-D00704:48:C7302ANXX:1:1101:1103:2053:AAAAAACATAGCGTGG")])
        true) ['1'] =
      [(exampleRecord "@HWI-D00704:48:C7302ANXX:1:1101:1103:2053:AAAAAACATAGCGTGG").lines] :=
  ⟨by decide,
   ((demux_nothing_lost_nothing_duplicated (fun _ => true) "out".toList "/d".toList
      exampleTwoPlateTable 131072 true false
      [Call.addSequence
        (exampleRecord "@HWI-D00704:48:C7302ANXX:1:1101:1103:2053:AAAAAACATAGCGTGG")]
      "A1".toList).2.1 true).1,
   ((demux_nothing_lost_nothing_duplicated (fun _ => true) "out".toList "/d".toList
      exampleTwoPlateTable 131072 true false
      [Call.addSequence
        (exampleRecord "@HWI-D00704:48:C7302ANXX:1:1101:1103:2053:AAAAAACATAGCGTGG")]
      "A1".toList).2.1 true).2.trans (by decide),
   ((demux_nothing_lost_nothing_duplicated (fun _ => false) "out".toList "/nodir".toList
      exampleTable 131072 true false
      [Call.addSequence
        (exampleRecord "@HWI-D00704:48:C7302ANXX:1:1101:1103:2053:AAAAAACATAGCGTGG")]
      ['1']).2.1 true).2.trans (by decide),
   ((demux_nothing_lost_nothing_duplicated (fun _ => true) "out".toList "/d".toList
      exampleTable 131072 true false
      [Call.addSequence
        (exampleRecord "@HWI-D00704:48:C7302ANXX:1:1101:1103:2053:AAAAAACATAGCGTGG")]
      ['1']).2.1 true).2.trans (by decide)⟩

open FASTQSequenceDemuxer DGEIlluminaFASTQSequenceDemuxer in
/-- C6 witness: capacity 2, no output file can be opened, the buffer of well 1 holds two
records when a third record of well 1 arrives: the two records are sent to the
failed stream and reach no file, the buffer holds the third.  With openable
files the two records are in the file of well 1 afterwards. -/
theorem demux_capacity_flush_then_append_witness :
    (groupSeqs (addSequences
        (ctorFromTable (fun _ => false) "out".toList "/nodir".toList exampleTable 2 true false)
        (exampleRecords.take 2)) ['1']).length = 2 ∧
    written (addSequence
        (addSequences
          (ctorFromTable (fun _ => false) "out".toList "/nodir".toList exampleTable 2 true false)
          (exampleRecords.take 2))
        (exampleRecord "@HWI-D00704:48:C7302ANXX:1:1101:1400:2080:AAAAAAGGGGGCGTGG")) ['1'] =
      [] ∧
    groupSeqs (addSequence
        (addSequences
          (ctorFromTable (fun _ => false) "out".toList "/nodir".toList exampleTable 2 true false)
          (exampleRecords.take 2))
        (exampleRecord "@HWI-D00704:48:C7302ANXX:1:1101:1400:2080:AAAAAAGGGGGCGTGG")) ['1'] =
      [SeqTypeOps.moveCtor
        (exampleRecord "@HWI-D00704:48:C7302ANXX:1:1101:1400:2080:AAAAAAGGGGGCGTGG")] ∧
    written (addSequence
        (addSequences
          (ctorFromTable (fun _ => true) "out".toList "/d".toList exampleTable 2 true false)
          (exampleRecords.take 2))
        (exampleRecord "@HWI-D00704:48:C7302ANXX:1:1101:1400:2080:AAAAAAGGGGGCGTGG")) ['1'] =
      [(exampleRecord "@HWI-D00704:48:C7302ANXX:1:1101:1103:2053:AAAAAACATAGCGTGG").lines,
       (exampleRecord "@HWI-D00704:48:C7302ANXX:1:1101:1200:2060:AAAAAATTTTGCGTGG").lines] :=
  have h := ((demux_capacity_flush_then_append 2 (by decide)).1
    (addSequences
      (ctorFromTable (fun _ => false) "out".toList "/nodir".toList exampleTable 2 true false)
      (exampleRecords.take 2))
    (exampleRecord "@HWI-D00704:48:C7302ANXX:1:1101:1400:2080:AAAAAAGGGGGCGTGG") ['1']
    (by decide) (by decide)).1 (by decide)
  have h2 := ((demux_capacity_flush_then_append 2 (by decide)).1
    (addSequences
      (ctorFromTable (fun _ => true) "out".toList "/d".toList exampleTable 2 true false)
      (exampleRecords.take 2))
    (exampleRecord "@HWI-D00704:48:C7302ANXX:1:1101:1400:2080:AAAAAAGGGGGCGTGG") ['1']
    (by decide) (by decide)).1 (by decide)
  ⟨by decide, h.1.trans (by decide), h.2.1, h2.1.trans (by decide)⟩

open FASTQSequenceDemuxer DGEIlluminaFASTQSequenceDemuxer in
/-- C7, the code at capacity 0: after two records of well 1 have been added to
a fresh demultiplexer with openable output files, the first one has already
been written to the stream of well 1 and the buffer holds only the second,
although `writeSequences` was never called. -/
theorem demux_capacity_zero_writes_on_add :
    written (addSequences
        (ctorFromTable (fun _ => true) "out".toList "/d".toList exampleTable 0 true false)
        (exampleRecords.take 2))
        ['1'] =
      [(exampleRecord "@HWI-D00704:48:C7302ANXX:1:1101:1103:2053:AAAAAACATAGCGTGG").lines] ∧
    groupSeqs (addSequences
        (ctorFromTable (fun _ => true) "out".toList "/d".toList exampleTable 0 true false)
        (exampleRecords.take 2))
        ['1'] =
      [CompositedDGEIlluminaFASTQSequence.copyCtor
        (exampleRecord "@HWI-D00704:48:C7302ANXX:1:1101:1200:2060:AAAAAATTTTGCGTGG")] := by
  decide

theorem dge_ctor_fields {line1 line2 line3 line4 : CppString}
    {parse_seq level_1 level_2 flush_ostream : Bool} {r : DGEIlluminaFASTQSequence}
    (h : DGEIlluminaFASTQSequence.ctor line1 line2 line3 line4 parse_seq level_1 level_2
      flush_ostream = Except.ok r) :
    16 ≤ line2.length ∧ r.well_barcode = line2.take 6 ∧ r.umi_barcode = (line2.drop 6).take 10 ∧
      r.lines = ⟨line1, line2, line3, line4⟩ := by
  cases hbase : IlluminaFASTQSequence.ctor line1 line2 line3 line4 parse_seq level_1 level_2
      flush_ostream with
  | error msg =>
    unfold DGEIlluminaFASTQSequence.ctor at h
    rw [hbase] at h
    simp [bind, Except.bind] at h
  | ok base =>
    have hl := illumina_ctor_lines hbase
    rw [dge_ctor_eq hbase] at h
    split_ifs at h with hlen
    simp only [Except.ok.injEq] at h
    subst h
    exact ⟨by omega, rfl, rfl, hl⟩

theorem composited_ctorPair_default (read1 read2 : DGEIlluminaFASTQSequence) :
    ∃ c, CompositedDGEIlluminaFASTQSequence.ctorPair read1 read2 false false false =
        Except.ok c ∧
      c.group_id = read1.well_barcode ∧ c.well_barcode = read1.well_barcode ∧
      c.umi_barcode = read1.umi_barcode ∧
      c.lines = { identifier := read1.seq_id_part_1 ++ [':'] ++ read1.well_barcode ++
                    read1.umi_barcode,
                  sequence := read2.lines.sequence,
                  option := ['+'],
                  quality := read2.lines.quality } :=
  ⟨_, rfl, rfl, rfl, rfl, rfl⟩

open FASTQSequenceDemuxer DGEIlluminaFASTQSequenceDemuxer in
/-- C4: for every barcode table, every read 1 constructed from four lines (so
its sequence line has at least 16 characters) whose first 6 sequence characters
are a table key mapping to well `w`, and every read 2: `addSequence(read1,
read2)` on a freshly constructed DGE demultiplexer succeeds and stores exactly
one composite record in well `w`, carrying the sequence and quality lines of
read 2 and the barcodes of read 1; every other well receives no record,
nothing is written yet, the grouped counter is 1 and the ungrouped counter
is 0. -/
theorem dge_demux_one_pair (can_open : CppString → Bool) (main_file_name file_dir : CppString)
    (table : WellBarcodeTable) (max_seqs : Nat) (flush verb : Bool)
    (line1 line2 line3 line4 : CppString) (parse_seq level_1 level_2 flush_ostream : Bool)
    (read1 read2 : DGEIlluminaFASTQSequence) (w : CppString)
    (h1 : DGEIlluminaFASTQSequence.ctor line1 line2 line3 line4 parse_seq level_1 level_2
      flush_ostream = Except.ok read1)
    (hkey : StdMap.find table (line2.take 6) = some w) :
    16 ≤ line2.length ∧
    ∃ d seq, addSequencePair
        (ctorFromTable can_open main_file_name file_dir table max_seqs flush verb) read1 read2
        = Except.ok d ∧
      groupSeqs d w = [seq] ∧
      seq.lines.sequence = read2.lines.sequence ∧ seq.lines.quality = read2.lines.quality ∧
      seq.well_barcode = line2.take 6 ∧ seq.umi_barcode = (line2.drop 6).take 10 ∧
      (∀ w1, w1 ≠ w → groupSeqs d w1 = []) ∧
      (∀ w1, written d w1 = []) ∧
      d.n_grouped_seqs = 1 ∧ d.n_ungrouped_seqs = 0 := by
  obtain ⟨hlen, hwell, humi, _⟩ := dge_ctor_fields h1
  refine ⟨hlen, ?_⟩
  obtain ⟨c, hc, hgid, hcwell, hcumi, hclines⟩ := composited_ctorPair_default read1 read2
  unfold addSequencePair
  rw [hc]
  simp only [bind, Except.bind, pure, Except.pure]
  refine ⟨_, SeqTypeOps.moveCtor c, rfl, ?_⟩
  have hfind : StdMap.find
      (ctorFromTable can_open main_file_name file_dir table max_seqs flush verb :
        DGEIlluminaFASTQSequenceDemuxer).well_barcode_table
      (SeqTypeOps.getGroupId c) = some w := by
    show StdMap.find table c.group_id = some w
    rw [hgid, hwell]
    exact hkey
  obtain ⟨e1, e2, e3, e4, _⟩ := demux_addSequence_hit _ _ w hfind
  have hbuf0 : ∀ w1, groupSeqs
      (ctorFromTable can_open main_file_name file_dir table max_seqs flush verb :
        DGEIlluminaFASTQSequenceDemuxer) w1 = [] :=
    fun w1 => demux_ctor_groupSeqs table _ max_seqs flush verb w1
  have hwr0 : ∀ w1, written
      (ctorFromTable can_open main_file_name file_dir table max_seqs flush verb :
        DGEIlluminaFASTQSequenceDemuxer) w1 = [] :=
    fun w1 => demux_ctorFromTable_written can_open main_file_name file_dir table max_seqs flush
      verb w1
  refine ⟨?_, ?_, ?_, ?_, ?_, ?_, ?_, ?_, ?_⟩
  · rw [e2 w]
    simp only [if_true, hbuf0, ite_self, List.nil_append]
  · show c.lines.sequence = read2.lines.sequence
    rw [hclines]
  · show c.lines.quality = read2.lines.quality
    rw [hclines]
  · show c.well_barcode = line2.take 6
    rw [hcwell, hwell]
  · show c.umi_barcode = (line2.drop 6).take 10
    rw [hcumi, humi]
  · intro w1 hw1
    rw [e2 w1]
    simp [hw1, hbuf0]
  · intro w1
    rw [e1 w1]
    simp [hwr0, hbuf0]
  · rw [e3]
    rfl
  · rw [e4]
    rfl

open FASTQSequenceDemuxer DGEIlluminaFASTQSequenceDemuxer in
/-- C4 witness: table `AAAAAA -> 1, CCCCCC -> 2`, read 1 starting with `AAAAAA`:
well 1 receives the one composite record, well 2 none. -/
theorem dge_demux_one_pair_witness :
    16 ≤ "AAAAAACATAGCGTGGTTTT".toList.length ∧
    ∃ d seq, addSequencePair
        (ctorFromTable (fun _ => true) "out".toList "/d".toList exampleTable 131072 true false)
        exampleRead1 exampleRead2 = Except.ok d ∧
      groupSeqs d ['1'] = [seq] ∧
      seq.lines.sequence = exampleRead2.lines.sequence ∧
      seq.lines.quality = exampleRead2.lines.quality ∧
      seq.well_barcode = "AAAAAACATAGCGTGGTTTT".toList.take 6 ∧
      seq.umi_barcode = ("AAAAAACATAGCGTGGTTTT".toList.drop 6).take 10 ∧
      (∀ w1, w1 ≠ ['1'] → groupSeqs d w1 = []) ∧
      (∀ w1, written d w1 = []) ∧
      d.n_grouped_seqs = 1 ∧ d.n_ungrouped_seqs = 0 :=
  dge_demux_one_pair (fun _ => true) "out".toList "/d".toList exampleTable 131072 true false
    "@HWI-D00704:48:C7302ANXX:1:1101:1103:2053 1:N:0:ATCACG".toList
    "AAAAAACATAGCGTGGTTTT".toList ['+'] "IIIIIIIIIIIIIIIIIIII".toList
    true true true false exampleRead1 exampleRead2 ['1'] rfl (by decide)

/-! ## Composite records built from a pair -/

theorem composited_ctorPair_eq {read1 read2 : DGEIlluminaFASTQSequence}
    {parse_paired_seq parse_seq flush_ostream : Bool} {c : CompositedDGEIlluminaFASTQSequence}
    (h : CompositedDGEIlluminaFASTQSequence.ctorPair read1 read2 parse_paired_seq parse_seq
      flush_ostream = Except.ok c) :
    c = { lines := { identifier := read1.seq_id_part_1 ++ [':'] ++ read1.well_barcode ++
                       read1.umi_barcode,
                     sequence := read2.lines.sequence,
                     option := ['+'],
                     quality := read2.lines.quality },
          read_length := if parse_seq then read2.lines.sequence.length else read2.read_length,
          group_id := read1.well_barcode,
          parse_seq := parse_seq,
          flush_ostream := flush_ostream,
          instrument_id := read1.instrument_id,
          run_number := read1.run_number,
          flowcell_id := read1.flowcell_id,
          lane_number := read1.lane_number,
          tile_number := read1.tile_number,
          x_pos := read1.x_pos,
          y_pos := read1.y_pos,
          well_barcode := read1.well_barcode,
          umi_barcode := read1.umi_barcode,
          parse_compos_seq := false } := by
  unfold CompositedDGEIlluminaFASTQSequence.ctorPair at h
  simp only [bind, Except.bind] at h
  split at h
  · simp at h
  · rename_i paired hpaired
    have hp : paired.seq_1 = DGEIlluminaFASTQSequence.copyCtor read1 ∧
        paired.seq_2 = DGEIlluminaFASTQSequence.copyCtor read2 := by
      unfold PairedDGEIlluminaFASTQSequence.ctor at hpaired
      simp only [bind, Except.bind, pure, Except.pure] at hpaired
      split_ifs at hpaired
      · split at hpaired
        · simp at hpaired
        · simp only [Except.ok.injEq] at hpaired
          subst hpaired
          exact ⟨rfl, rfl⟩
      · simp only [Except.ok.injEq] at hpaired
        subst hpaired
        exact ⟨rfl, rfl⟩
    obtain ⟨hp1, hp2⟩ := hp
    unfold CompositedDGEIlluminaFASTQSequence.initializeFrom
      CompositedDGEIlluminaFASTQSequence.initializeAttributes at h
    simp only [bind, Except.bind, pure, Except.pure, hp1, hp2] at h
    cases parse_seq
    · simp only [Bool.false_eq_true, if_false, Except.ok.injEq] at h
      subst h
      rfl
    · simp only [if_true, fastq_parse_eq] at h
      split at h
      · simp at h
      · rename_i base hbase
        split_ifs at hbase
        simp only [Except.ok.injEq] at hbase h
        subst hbase
        subst h
        rfl

/-- C11 (amended): a composite record can always be built from a pair of DGE
sequences with the default flags, and whenever building it from read 1 and
read 2 succeeds the record is exactly this: identifier line = sequence-ID part 1
of read 1, a colon, the well barcode and the UMI barcode of read 1; sequence
and quality line = those of read 2; option line = `+`; group ID = well barcode
= well barcode of read 1; instrument, run, flowcell, lane, tile, x, y and UMI
barcode of read 1; read length = the read length of read 2 when the record is
built with `parse_seq = false`, and the length of the sequence line of read 2
when it is built with `parse_seq = true`.  Nothing else of the two reads
enters the record. -/
theorem composited_from_pair (read1 read2 : DGEIlluminaFASTQSequence) :
    (∃ c, CompositedDGEIlluminaFASTQSequence.ctorPair read1 read2 false false false =
      Except.ok c) ∧
    ∀ (parse_paired_seq parse_seq flush_ostream : Bool) (c : CompositedDGEIlluminaFASTQSequence),
      CompositedDGEIlluminaFASTQSequence.ctorPair read1 read2 parse_paired_seq parse_seq
        flush_ostream = Except.ok c →
      c = { lines := { identifier := read1.seq_id_part_1 ++ [':'] ++ read1.well_barcode ++
                         read1.umi_barcode,
                       sequence := read2.lines.sequence,
                       option := ['+'],
                       quality := read2.lines.quality },
            read_length := if parse_seq then read2.lines.sequence.length else read2.read_length,
            group_id := read1.well_barcode,
            parse_seq := parse_seq,
            flush_ostream := flush_ostream,
            instrument_id := read1.instrument_id,
            run_number := read1.run_number,
            flowcell_id := read1.flowcell_id,
            lane_number := read1.lane_number,
            tile_number := read1.tile_number,
            x_pos := read1.x_pos,
            y_pos := read1.y_pos,
            well_barcode := read1.well_barcode,
            umi_barcode := read1.umi_barcode,
            parse_compos_seq := false } :=
  ⟨⟨_, rfl⟩, fun _ _ _ _ h => composited_ctorPair_eq h⟩

open DGEIlluminaFASTQSequenceDemuxer in
/-- C11 witness: the example pair, composite built with FASTQ parsing. -/
theorem composited_from_pair_witness :
    ∃ c, CompositedDGEIlluminaFASTQSequence.ctorPair exampleRead1 exampleRead2 true true false =
        Except.ok c ∧
      c.lines.identifier = "@HWI-D00704:48:C7302ANXX:1:1101:1103:2053:AAAAAACATAGCGTGG".toList ∧
      c.lines.sequence = "GAGCTGCTATTTTATATTATGACT".toList ∧
      c.read_length = 24 ∧ c.group_id = "AAAAAA".toList := by
  refine ⟨_, rfl, ?_⟩
  have h := (composited_from_pair exampleRead1 exampleRead2).2 true true false _ rfl
  rw [h]
  decide

open DGEIlluminaFASTQSequenceDemuxer in
/-- C11 counterexample: read 2 constructed without parsing has read length 0;
the composite built from the pair with `parse_seq = true` has read length 24,
the length of the sequence line of read 2. -/
theorem composited_read_length_counterexample :
    exampleRead2Unparsed.read_length = 0 ∧
    ∃ c, CompositedDGEIlluminaFASTQSequence.ctorPair exampleRead1 exampleRead2Unparsed
        false true false = Except.ok c ∧
      c.read_length = 24 ∧ c.read_length ≠ exampleRead2Unparsed.read_length :=
  ⟨by decide, _, rfl, by decide, by decide⟩

theorem splitOnChar_ne_nil (sep : Char) (s : CppString) : utk.splitOnChar sep s ≠ [] := by
  induction s with
  | nil => simp [utk.splitOnChar]
  | cons c cs ih =>
    unfold utk.splitOnChar
    split_ifs
    · simp
    · split <;> simp

theorem splitOnChar_append (sep : Char) (a b : CppString) :
    utk.splitOnChar sep (a ++ sep :: b) = utk.splitOnChar sep a ++ utk.splitOnChar sep b := by
  induction a with
  | nil => simp [utk.splitOnChar]
  | cons c cs ih =>
    have e : (c :: cs) ++ sep :: b = c :: (cs ++ sep :: b) := rfl
    rw [e]
    simp only [utk.splitOnChar]
    split_ifs with hc
    · rw [ih]
      simp
    · rw [ih]
      cases hs : utk.splitOnChar sep cs with
      | nil => exact absurd hs (splitOnChar_ne_nil sep cs)
      | cons p ps => simp

theorem splitOnChar_no_sep (sep : Char) (b : CppString) (h : sep ∉ b) :
    utk.splitOnChar sep b = [b] := by
  induction b with
  | nil => simp [utk.splitOnChar]
  | cons c cs ih =>
    simp only [List.mem_cons, not_or] at h
    have hc : ¬ c = sep := fun e => h.1 e.symm
    simp only [utk.splitOnChar, hc, if_false, ih h.2]

theorem splitString_append_no_sep (sep : Char) (a b : CppString) (ha : a ≠ []) (hb : sep ∉ b) :
    utk.splitString (a ++ sep :: b) sep = utk.splitString a sep ++ [b] := by
  unfold utk.splitString
  cases a with
  | nil => exact absurd rfl ha
  | cons c cs =>
    simp only [List.cons_append, List.isEmpty_cons, Bool.false_eq_true, if_false]
    rw [← List.cons_append, splitOnChar_append, splitOnChar_no_sep sep b hb]

theorem stoulOr_of_stoul {str : CppString} (msg : String) {v : Nat}
    (h : std.stoul str = some v) : IlluminaFASTQSequence.stoulOr str msg = Except.ok v := by
  unfold IlluminaFASTQSequence.stoulOr
  rw [h]



theorem illumina_parsePart1_fields {s s1 : IlluminaFASTQSequence}
    (h : IlluminaFASTQSequence.parsePart1 s = Except.ok s1) :
    ∃ p0 p1 p2 p3 p4 p5 p6 v1 v3 v4 v5 v6,
      utk.splitString s.seq_id_part_1 ':' = [p0, p1, p2, p3, p4, p5, p6] ∧
      std.stoul p1 = some v1 ∧ std.stoul p3 = some v3 ∧ std.stoul p4 = some v4 ∧
      std.stoul p5 = some v5 ∧ std.stoul p6 = some v6 ∧
      s1 = { s with instrument_id := IlluminaFASTQSequence.stripAt p0, run_number := v1,
                    flowcell_id := p2, lane_number := v3, tile_number := v4,
                    x_pos := v5, y_pos := v6 } := by
  unfold IlluminaFASTQSequence.parsePart1 at h
  split at h
  · rename_i p0 p1 p2 p3 p4 p5 p6 hsplit
    simp only [bind, Except.bind, pure, Except.pure] at h
    split at h
    · simp at h
    rename_i v1 h1
    split at h
    · simp at h
    rename_i v3 h3
    split at h
    · simp at h
    rename_i v4 h4
    split at h
    · simp at h
    rename_i v5 h5
    split at h
    · simp at h
    rename_i v6 h6
    simp only [Except.ok.injEq] at h
    exact ⟨p0, p1, p2, p3, p4, p5, p6, v1, v3, v4, v5, v6, hsplit, stoulOr_ok h1, stoulOr_ok h3,
      stoulOr_ok h4, stoulOr_ok h5, stoulOr_ok h6, h.symm⟩
  · simp at h

theorem illumina_parsePart2_fields {s s1 : IlluminaFASTQSequence}
    (h : IlluminaFASTQSequence.parsePart2 s = Except.ok s1) :
    ∃ q0 q1 q2 q3 w0 w2,
      utk.splitString s.seq_id_part_2 ':' = [q0, q1, q2, q3] ∧
      std.stoul q0 = some w0 ∧ std.stoul q2 = some w2 ∧
      s1 = { s with read_number := w0, is_filtered := CppString.front (CppString.c_str q1),
                    control_number := w2, index_sequence := q3 } := by
  unfold IlluminaFASTQSequence.parsePart2 at h
  split at h
  · rename_i q0 q1 q2 q3 hsplit
    simp only [bind, Except.bind, pure, Except.pure] at h
    split at h
    · simp at h
    rename_i w0 h0
    split at h
    · simp at h
    rename_i w2 h2
    simp only [Except.ok.injEq] at h
    exact ⟨q0, q1, q2, q3, w0, w2, hsplit, stoulOr_ok h0, stoulOr_ok h2, h.symm⟩
  · simp at h

theorem illumina_ctor_level2_fields {line1 line2 line3 line4 : CppString} {flush_ostream : Bool}
    {s : IlluminaFASTQSequence}
    (h : IlluminaFASTQSequence.ctor line1 line2 line3 line4 true true true flush_ostream =
      Except.ok s) :
    ∃ part1 part2 p0 p1 p2 p3 p4 p5 p6 q0 q1 q2 q3,
      utk.splitStringSpaces line1 = [part1, part2] ∧
      utk.splitString part1 ':' = [p0, p1, p2, p3, p4, p5, p6] ∧
      utk.splitString part2 ':' = [q0, q1, q2, q3] ∧
      s.seq_id_part_1 = part1 ∧ s.seq_id_part_2 = part2 ∧
      s.instrument_id = IlluminaFASTQSequence.stripAt p0 ∧
      std.stoul p1 = some s.run_number ∧ s.flowcell_id = p2 ∧
      std.stoul p3 = some s.lane_number ∧ std.stoul p4 = some s.tile_number ∧
      std.stoul p5 = some s.x_pos ∧ std.stoul p6 = some s.y_pos ∧
      std.stoul q0 = some s.read_number ∧
      s.is_filtered = CppString.front (CppString.c_str q1) ∧
      std.stoul q2 = some s.control_number ∧
      s.index_sequence = q3 ∧ s.group_id = q3 ∧
      line1.head? = some '@' ∧ line3.head? = some '+' ∧ line2.length = line4.length := by
  unfold IlluminaFASTQSequence.ctor at h
  simp only [bind, Except.bind, pure, Except.pure] at h
  split at h
  · simp at h
  rename_i base hbase
  simp only [FASTQSequence.ctor, if_true, fastq_parse_eq] at hbase
  split_ifs at hbase with ha hb hc
  simp only [Except.ok.injEq] at hbase
  subst hbase
  simp only [IlluminaFASTQSequence.adjustParseOption, if_true, Bool.not_true, Bool.false_eq_true,
    if_false] at h
  split at h
  · simp at h
  rename_i s1 hs1
  simp only [Except.ok.injEq] at h
  subst h
  unfold IlluminaFASTQSequence.parse at hs1
  simp only [if_true] at hs1
  split at hs1
  · rename_i part1 part2 hparts
    simp only [if_true, bind, Except.bind] at hs1
    split at hs1
    · simp at hs1
    rename_i s2 hs2
    obtain ⟨p0, p1, p2, p3, p4, p5, p6, v1, v3, v4, v5, v6, hsp1, e1, e3, e4, e5, e6, es2⟩ :=
      illumina_parsePart1_fields hs2
    obtain ⟨q0, q1, q2, q3, w0, w2, hsp2, f0, f2, es1⟩ := illumina_parsePart2_fields hs1
    subst es2
    subst es1
    refine ⟨part1, part2, p0, p1, p2, p3, p4, p5, p6, q0, q1, q2, q3, hparts, hsp1, hsp2,
      rfl, rfl, rfl, e1, rfl, e3, e4, e5, e6, f0, rfl, f2, rfl, rfl, ?_, ?_, hc⟩
    · simpa using ha
    · simpa using hb
  · simp at hs1

theorem splitStringSpaces_head {line1 part1 : CppString} {rest : List CppString}
    (h1 : line1.head? = some '@') (h : utk.splitStringSpaces line1 = part1 :: rest) :
    part1.head? = some '@' := by
  cases line1 with
  | nil => simp at h1
  | cons c cs =>
    simp only [List.head?_cons, Option.some.injEq] at h1
    subst h1
    simp only [utk.splitStringSpaces, List.isEmpty_cons, Bool.false_eq_true, if_false,
      utk.splitOnSpaceRuns] at h
    rw [if_neg (by decide)] at h
    split at h
    · simp only [List.cons.injEq] at h
      rw [← h.1]
      rfl
    · simp only [List.cons.injEq] at h
      rw [← h.1]
      rfl

/-- C12 (amended): round trip of the composite identifier.  Read 1 is
constructed from four lines with all three parse flags on (parsed at identifier
level 2), `c` is a composite built from read 1 and any read 2, and the first
sixteen characters of the sequence line of read 1 (well and UMI barcode)
contain no colon.  Then constructing a composite from the four lines of `c`
with `parse_compos_seq = true` succeeds (with `parse_seq = true` as well when
the sequence and quality line of read 2 have the same length) and yields the
same instrument id, run number, flowcell id, lane, tile, x, y, well barcode
and UMI barcode as `c`, which are those of read 1. -/
theorem composited_round_trip (line1 line2 line3 line4 : CppString) (flush_1 : Bool)
    (read1 read2 : DGEIlluminaFASTQSequence) (parse_paired_seq parse_seq flush_ostream : Bool)
    (c : CompositedDGEIlluminaFASTQSequence) (parse_seq_2 flush_2 : Bool)
    (h1 : DGEIlluminaFASTQSequence.ctor line1 line2 line3 line4 true true true flush_1 =
      Except.ok read1)
    (hc : CompositedDGEIlluminaFASTQSequence.ctorPair read1 read2 parse_paired_seq parse_seq
      flush_ostream = Except.ok c)
    (hcolon : ':' ∉ line2.take 16)
    (hlen : parse_seq_2 = true → read2.lines.sequence.length = read2.lines.quality.length) :
    ∃ c2, CompositedDGEIlluminaFASTQSequence.ctor c.lines.identifier c.lines.sequence
        c.lines.option c.lines.quality true parse_seq_2 flush_2 = Except.ok c2 ∧
      c2.instrument_id = c.instrument_id ∧ c2.run_number = c.run_number ∧
      c2.flowcell_id = c.flowcell_id ∧ c2.lane_number = c.lane_number ∧
      c2.tile_number = c.tile_number ∧ c2.x_pos = c.x_pos ∧ c2.y_pos = c.y_pos ∧
      c2.well_barcode = c.well_barcode ∧ c2.umi_barcode = c.umi_barcode ∧
      c.instrument_id = read1.instrument_id ∧ c.run_number = read1.run_number ∧
      c.flowcell_id = read1.flowcell_id ∧ c.lane_number = read1.lane_number ∧
      c.tile_number = read1.tile_number ∧ c.x_pos = read1.x_pos ∧ c.y_pos = read1.y_pos ∧
      c.well_barcode = read1.well_barcode ∧ c.umi_barcode = read1.umi_barcode := by
  have hcEq := composited_ctorPair_eq hc
  cases hbase : IlluminaFASTQSequence.ctor line1 line2 line3 line4 true true true flush_1 with
  | error msg =>
    unfold DGEIlluminaFASTQSequence.ctor at h1
    rw [hbase] at h1
    simp [bind, Except.bind] at h1
  | ok base =>
    rw [dge_ctor_eq hbase] at h1
    split_ifs at h1 with h16
    simp only [Except.ok.injEq] at h1
    obtain ⟨part1, part2, p0, p1, p2, p3, p4, p5, p6, q0, q1, q2, q3, hparts, hsp1, hsp2,
      e1, e2, ei, er, ef, el, et, ex, ey, -, -, -, -, -, hat, -, -⟩ :=
      illumina_ctor_level2_fields hbase
    have hp1ne : part1 ≠ [] := by
      intro e
      rw [e] at hsp1
      simp [utk.splitString] at hsp1
    have hp1head : part1.head? = some '@' := splitStringSpaces_head hat hparts
    have hid : c.lines.identifier = part1 ++ ':' :: line2.take 16 := by
      rw [hcEq, ← h1]
      simp only [e1]
      have : line2.take 16 = line2.take 6 ++ (line2.drop 6).take 10 := by
        rw [← List.take_add]
      rw [this]
      simp
    have hsplit : utk.splitString c.lines.identifier ':' =
        [p0, p1, p2, p3, p4, p5, p6, line2.take 16] := by
      rw [hid, splitString_append_no_sep ':' part1 (line2.take 16) hp1ne hcolon, hsp1]
      rfl
    have hbl : (line2.take 16).length = 16 := by
      rw [List.length_take]
      omega
    have hfastq : FASTQSequence.ctor c.lines.identifier c.lines.sequence c.lines.option
        c.lines.quality parse_seq_2 flush_2 =
        Except.ok { lines := c.lines,
                    read_length := if parse_seq_2 then c.lines.sequence.length else 0,
                    parse_seq := parse_seq_2, flush_ostream := flush_2 } := by
      cases parse_seq_2
      · rfl
      · have hl := hlen rfl
        simp only [FASTQSequence.ctor, if_true, fastq_parse_eq]
        have a1 : c.lines.identifier.head? = some '@' := by
          rw [hid]
          cases part1 with
          | nil => exact absurd rfl hp1ne
          | cons x xs => simpa using hp1head
        have a2 : c.lines.option.head? = some '+' := by
          rw [hcEq]
          rfl
        have a3 : c.lines.sequence.length = c.lines.quality.length := by
          rw [hcEq]
          exact hl
        simp [a1, a2, a3]
    unfold CompositedDGEIlluminaFASTQSequence.ctor
    rw [hfastq]
    simp only [bind, Except.bind, if_true]
    unfold CompositedDGEIlluminaFASTQSequence.parse
    simp only [IlluminaFASTQSequence.colon_sep, hsplit]
    simp only [bind, Except.bind, pure, Except.pure, stoulOr_of_stoul _ er, stoulOr_of_stoul _ el,
      stoulOr_of_stoul _ et, stoulOr_of_stoul _ ex, stoulOr_of_stoul _ ey, hbl,
      DGEIlluminaFASTQSequence.well_barcode_length, DGEIlluminaFASTQSequence.umi_barcode_length,
      DGEIlluminaFASTQSequence.well_barcode_beg_pos, DGEIlluminaFASTQSequence.well_barcode_end_pos,
      DGEIlluminaFASTQSequence.umi_barcode_beg_pos, DGEIlluminaFASTQSequence.umi_barcode_end_pos]
    refine ⟨_, rfl, ?_⟩
    rw [hcEq, ← h1]
    simp only [CompositedDGEIlluminaFASTQSequence.setGroupId, CppString.substr, ei, ef]
    simp [List.take_take, List.take_drop]

open DGEIlluminaFASTQSequenceDemuxer in
/-- C12 witness: the example pair; the barcode `AAAAAACATAGCGTGG` has no colon. -/
theorem composited_round_trip_witness :
    ∃ c2, CompositedDGEIlluminaFASTQSequence.ctor
        "@HWI-D00704:48:C7302ANXX:1:1101:1103:2053:AAAAAACATAGCGTGG".toList
        "GAGCTGCTATTTTATATTATGACT".toList ['+'] "CCCBBGGGGGED1FFGG>GDFGEC".toList
        true true false = Except.ok c2 ∧
      c2.instrument_id = "HWI-D00704".toList ∧ c2.run_number = 48 ∧
      c2.flowcell_id = "C7302ANXX".toList ∧ c2.lane_number = 1 ∧ c2.tile_number = 1101 ∧
      c2.x_pos = 1103 ∧ c2.y_pos = 2053 ∧
      c2.well_barcode = "AAAAAA".toList ∧ c2.umi_barcode = "CATAGCGTGG".toList := by
  obtain ⟨c2, h, h1, h2, h3, h4, h5, h6, h7, h8, h9, -⟩ :=
    composited_round_trip
      "@HWI-D00704:48:C7302ANXX:1:1101:1103:2053 1:N:0:ATCACG".toList
      "AAAAAACATAGCGTGGTTTT".toList ['+'] "IIIIIIIIIIIIIIIIIIII".toList false
      exampleRead1 exampleRead2 true true false _ true false rfl rfl (by decide)
      (fun _ => by decide)
  exact ⟨c2, h, h1, h2, h3, h4, h5, h6, h7, h8, h9⟩

open DGEIlluminaFASTQSequenceDemuxer in
/-- C12 counterexample: read 1 is parsed at identifier level 2 and its
sequence line is `AAAAAA:ATAGCGTGGTTTT`; the composite built from the pair has
the identifier `@HWI-D00704:48:C7302ANXX:1:1101:1103:2053:AAAAAA:ATAGCGTGG`,
which splits into nine fields, and constructing a composite from its four
lines with `parse_compos_seq = true` raises a logic error. -/
theorem composited_round_trip_counterexample :
    DGEIlluminaFASTQSequence.ctor
        "@HWI-D00704:48:C7302ANXX:1:1101:1103:2053 1:N:0:ATCACG".toList
        "AAAAAA:ATAGCGTGGTTTT".toList ['+'] "IIIIIIIIIIIIIIIIIIII".toList
        true true true false = Except.ok exampleRead1Colon ∧
    ∃ c, CompositedDGEIlluminaFASTQSequence.ctorPair exampleRead1Colon exampleRead2
        false false false = Except.ok c ∧
      c.lines.identifier =
        "@HWI-D00704:48:C7302ANXX:1:1101:1103:2053:AAAAAA:ATAGCGTGG".toList ∧
      CompositedDGEIlluminaFASTQSequence.ctor c.lines.identifier c.lines.sequence
        c.lines.option c.lines.quality true false false =
        Except.error "Sequence Identifier line must have 8 elements!" :=
  ⟨rfl, _, rfl, by decide, rfl⟩

/-! ## Paired sequences -/

theorem paired_ctor_fastq (s1 s2 : FASTQSequence) (parse_seq : Bool) :
    PairedFASTQSequenceCreator.ctor s1 s2 parse_seq =
      if parse_seq = true ∧ s1.lines.identifier ≠ s2.lines.identifier then
        Except.error "Two FASTQ sequences cannot be paird: their Sequence Identifier lines are different"
      else
        Except.ok { seq_1 := FASTQSequence.copyCtor s1, seq_2 := FASTQSequence.copyCtor s2,
                    group_id := [], parse_seq := parse_seq } := by
  cases parse_seq
  · rfl
  · simp only [PairedFASTQSequenceCreator.ctor, PairedFASTQSequenceCreator.parse,
      PairedSeqTypeOps.kind, PairedSeqTypeOps.copyCtor, FASTQSequence.copyCtor, if_true, bind,
      Except.bind, pure, Except.pure, true_and]
    by_cases h : s1.lines.identifier = s2.lines.identifier
    · simp [h]
      rfl
    · simp [h]

theorem paired_ctor_illumina_derived {SeqType : Type} [PairedSeqTypeOps SeqType]
    (getSequenceIdentifierPart1 : SeqType → CppString)
    (hk : (PairedSeqTypeOps.kind : PairedSeqKind SeqType) =
      PairedSeqKind.isIlluminaDerived getSequenceIdentifierPart1)
    (hcopy : ∀ s : SeqType, getSequenceIdentifierPart1 (PairedSeqTypeOps.copyCtor s) =
      getSequenceIdentifierPart1 s)
    (s1 s2 : SeqType) (parse_seq : Bool) :
    PairedFASTQSequenceCreator.ctor s1 s2 parse_seq =
      if parse_seq = true ∧ (getSequenceIdentifierPart1 s1 = [] ∨
          getSequenceIdentifierPart1 s2 = []) then
        Except.error "Two Illumina FASTQ sequences cannot be paird: the first part of Sequence Identifier line of one or both of two sequences are empty"
      else if parse_seq = true ∧
          getSequenceIdentifierPart1 s1 ≠ getSequenceIdentifierPart1 s2 then
        Except.error "Two Illumina FASTQ sequences cannot be paird: the first part of the Sequence Identifier line of two sequences are different"
      else
        Except.ok { seq_1 := PairedSeqTypeOps.copyCtor s1, seq_2 := PairedSeqTypeOps.copyCtor s2,
                    group_id := PairedSeqTypeOps.getGroupId
                      (PairedSeqTypeOps.copyCtor s1 : SeqType),
                    parse_seq := parse_seq } := by
  unfold PairedFASTQSequenceCreator.ctor PairedFASTQSequenceCreator.parse
  rw [hk]
  cases parse_seq
  · rfl
  · simp only [if_true, bind, Except.bind, pure, Except.pure, true_and, hcopy]
    by_cases h1 : getSequenceIdentifierPart1 s1 = []
    · simp [h1]
    · by_cases h2 : getSequenceIdentifierPart1 s2 = []
      · simp [h2]
      · by_cases h : getSequenceIdentifierPart1 s1 = getSequenceIdentifierPart1 s2
        · simp [h1, h2, h, List.isEmpty_iff]
          rfl
        · simp [h1, h2, h, List.isEmpty_iff]



theorem paired_validity_illumina_derived {SeqType : Type} [PairedSeqTypeOps SeqType]
    (getSequenceIdentifierPart1 : SeqType → CppString)
    (hk : (PairedSeqTypeOps.kind : PairedSeqKind SeqType) =
      PairedSeqKind.isIlluminaDerived getSequenceIdentifierPart1)
    (hcopy : ∀ s : SeqType, getSequenceIdentifierPart1 (PairedSeqTypeOps.copyCtor s) =
      getSequenceIdentifierPart1 s)
    (s1 s2 : SeqType) :
    ((∃ p, PairedFASTQSequenceCreator.ctor s1 s2 true = Except.ok p) ↔
      (getSequenceIdentifierPart1 s1 ≠ [] ∧ getSequenceIdentifierPart1 s2 ≠ [] ∧
        getSequenceIdentifierPart1 s1 = getSequenceIdentifierPart1 s2)) ∧
    ((∃ msg, PairedFASTQSequenceCreator.ctor s1 s2 true = Except.error msg) ↔
      ¬ (getSequenceIdentifierPart1 s1 ≠ [] ∧ getSequenceIdentifierPart1 s2 ≠ [] ∧
        getSequenceIdentifierPart1 s1 = getSequenceIdentifierPart1 s2)) ∧
    (∃ p, PairedFASTQSequenceCreator.ctor s1 s2 false = Except.ok p) := by
  rw [paired_ctor_illumina_derived getSequenceIdentifierPart1 hk hcopy,
    paired_ctor_illumina_derived getSequenceIdentifierPart1 hk hcopy]
  refine ⟨?_, ?_, ?_⟩
  · split_ifs with a b
    · simp only [true_and] at a
      constructor
      · rintro ⟨p, hp⟩
        simp at hp
      · rintro ⟨c1, c2, -⟩
        rcases a with a | a
        · exact absurd a c1
        · exact absurd a c2
    · simp only [true_and] at b
      constructor
      · rintro ⟨p, hp⟩
        simp at hp
      · rintro ⟨-, -, c3⟩
        exact absurd c3 b
    · simp only [true_and, not_or] at a
      simp only [true_and, not_not] at b
      exact ⟨fun _ => ⟨a.1, a.2, b⟩, fun _ => ⟨_, rfl⟩⟩
  · split_ifs with a b
    · simp only [true_and] at a
      constructor
      · rintro - ⟨c1, c2, -⟩
        rcases a with a | a
        · exact absurd a c1
        · exact absurd a c2
      · exact fun _ => ⟨_, rfl⟩
    · simp only [true_and] at b
      constructor
      · rintro - ⟨-, -, c3⟩
        exact absurd c3 b
      · exact fun _ => ⟨_, rfl⟩
    · simp only [true_and, not_or] at a
      simp only [true_and, not_not] at b
      constructor
      · rintro ⟨msg, hm⟩
        simp at hm
      · intro hn
        exact absurd ⟨a.1, a.2, b⟩ hn
  · simp

/-- C13: `PairedFASTQSequenceCreator<T>(s1, s2, parse_seq = true)` succeeds for
`T = FASTQSequence` exactly when the two identifier lines are equal, and for
`T` = `IlluminaFASTQSequence`, `ConvIlluminaFASTQSequence` or
`DGEIlluminaFASTQSequence` exactly when part 1 of the sequence identifier of
both sequences is non-empty and the two are equal; otherwise it raises a logic
error.  With `parse_seq = false` it always succeeds. -/
theorem paired_ctor_validity :
    (∀ s1 s2 : FASTQSequence,
      ((∃ p, PairedFASTQSequenceCreator.ctor s1 s2 true = Except.ok p) ↔
        s1.lines.identifier = s2.lines.identifier) ∧
      ((∃ msg, PairedFASTQSequenceCreator.ctor s1 s2 true = Except.error msg) ↔
        ¬ s1.lines.identifier = s2.lines.identifier) ∧
      (∃ p, PairedFASTQSequenceCreator.ctor s1 s2 false = Except.ok p)) ∧
    (∀ s1 s2 : IlluminaFASTQSequence,
      ((∃ p, PairedFASTQSequenceCreator.ctor s1 s2 true = Except.ok p) ↔
        (s1.seq_id_part_1 ≠ [] ∧ s2.seq_id_part_1 ≠ [] ∧ s1.seq_id_part_1 = s2.seq_id_part_1)) ∧
      ((∃ msg, PairedFASTQSequenceCreator.ctor s1 s2 true = Except.error msg) ↔
        ¬ (s1.seq_id_part_1 ≠ [] ∧ s2.seq_id_part_1 ≠ [] ∧
          s1.seq_id_part_1 = s2.seq_id_part_1)) ∧
      (∃ p, PairedFASTQSequenceCreator.ctor s1 s2 false = Except.ok p)) ∧
    (∀ s1 s2 : ConvIlluminaFASTQSequence,
      ((∃ p, PairedFASTQSequenceCreator.ctor s1 s2 true = Except.ok p) ↔
        (s1.seq_id_part_1 ≠ [] ∧ s2.seq_id_part_1 ≠ [] ∧ s1.seq_id_part_1 = s2.seq_id_part_1)) ∧
      ((∃ msg, PairedFASTQSequenceCreator.ctor s1 s2 true = Except.error msg) ↔
        ¬ (s1.seq_id_part_1 ≠ [] ∧ s2.seq_id_part_1 ≠ [] ∧
          s1.seq_id_part_1 = s2.seq_id_part_1)) ∧
      (∃ p, PairedFASTQSequenceCreator.ctor s1 s2 false = Except.ok p)) ∧
    (∀ s1 s2 : DGEIlluminaFASTQSequence,
      ((∃ p, PairedFASTQSequenceCreator.ctor s1 s2 true = Except.ok p) ↔
        (s1.seq_id_part_1 ≠ [] ∧ s2.seq_id_part_1 ≠ [] ∧ s1.seq_id_part_1 = s2.seq_id_part_1)) ∧
      ((∃ msg, PairedFASTQSequenceCreator.ctor s1 s2 true = Except.error msg) ↔
        ¬ (s1.seq_id_part_1 ≠ [] ∧ s2.seq_id_part_1 ≠ [] ∧
          s1.seq_id_part_1 = s2.seq_id_part_1)) ∧
      (∃ p, PairedFASTQSequenceCreator.ctor s1 s2 false = Except.ok p)) := by
  refine ⟨?_, ?_, ?_, ?_⟩
  · intro s1 s2
    rw [paired_ctor_fastq, paired_ctor_fastq]
    refine ⟨?_, ?_, ?_⟩
    · by_cases h : s1.lines.identifier = s2.lines.identifier <;> simp [h]
    · by_cases h : s1.lines.identifier = s2.lines.identifier <;> simp [h]
    · simp
  · exact fun s1 s2 =>
      paired_validity_illumina_derived (fun seq => seq.seq_id_part_1) rfl (fun _ => rfl) s1 s2
  · exact fun s1 s2 =>
      paired_validity_illumina_derived (fun seq => seq.seq_id_part_1) rfl (fun _ => rfl) s1 s2
  · exact fun s1 s2 =>
      paired_validity_illumina_derived (fun seq => seq.seq_id_part_1) rfl (fun _ => rfl) s1 s2

theorem paired_dge_ctor_generic (seq_1 seq_2 : DGEIlluminaFASTQSequence) (parse_seq : Bool) :
    PairedDGEIlluminaFASTQSequence.ctor seq_1 seq_2 parse_seq =
      (PairedFASTQSequenceCreator.ctor seq_1 seq_2 parse_seq).map
        (fun p => { seq_1 := p.seq_1, seq_2 := p.seq_2, group_id := p.group_id,
                    parse_seq := p.parse_seq }) := by
  rw [paired_ctor_illumina_derived (fun seq : DGEIlluminaFASTQSequence => seq.seq_id_part_1) rfl
    (fun _ => rfl)]
  unfold PairedDGEIlluminaFASTQSequence.ctor PairedDGEIlluminaFASTQSequence.parse
  cases parse_seq
  · rfl
  · simp only [if_true, bind, Except.bind, pure, Except.pure, true_and]
    have e1 : (DGEIlluminaFASTQSequence.copyCtor seq_1).seq_id_part_1 = seq_1.seq_id_part_1 := rfl
    have e2 : (DGEIlluminaFASTQSequence.copyCtor seq_2).seq_id_part_1 = seq_2.seq_id_part_1 := rfl
    rw [e1, e2]
    by_cases h1 : seq_1.seq_id_part_1 = []
    · simp [h1, Except.map]
    · by_cases h2 : seq_2.seq_id_part_1 = []
      · simp [h2, Except.map]
      · by_cases h : seq_1.seq_id_part_1 = seq_2.seq_id_part_1
        · simp [h1, h2, h, List.isEmpty_iff, Except.map]
          rfl
        · simp [h1, h2, h, List.isEmpty_iff, Except.map]

theorem paired_group_id_of_copy {SeqType : Type} [PairedSeqTypeOps SeqType]
    (s1 s2 : SeqType) (parse_seq : Bool) (p : PairedFASTQSequenceCreator SeqType)
    (h : PairedFASTQSequenceCreator.ctor s1 s2 parse_seq = Except.ok p) :
    p.group_id = PairedSeqTypeOps.getGroupId (PairedSeqTypeOps.copyCtor s1 : SeqType) := by
  unfold PairedFASTQSequenceCreator.ctor at h
  split at h
  · simp at h
  · simp only [bind, Except.bind, pure, Except.pure] at h
    split_ifs at h
    · split at h
      · simp at h
      · simp only [Except.ok.injEq] at h
        subst h
        rfl
    · simp only [Except.ok.injEq] at h
      subst h
      rfl

open DGEIlluminaFASTQSequenceDemuxer in
/-- C14: the pair built from the example reads.  Read 1 has group ID `AAAAAA`
(its well barcode) when it is passed in; the pair has the empty group ID,
because the member `seq_1` is copy-constructed and the copy constructor does
not take over the group ID. -/
theorem paired_dge_group_id_lost :
    exampleRead1.group_id = "AAAAAA".toList ∧ exampleRead1.well_barcode = "AAAAAA".toList ∧
    ∃ p, PairedFASTQSequenceCreator.ctor exampleRead1 exampleRead2 false = Except.ok p ∧
      p.group_id = [] ∧ p.seq_1.well_barcode = "AAAAAA".toList ∧ p.seq_1.group_id = [] :=
  ⟨by decide, by decide, _, rfl, rfl, by decide, rfl⟩

/-! ## Illumina identifier fields -/

theorem splitOnChar_head (sep c : Char) (cs : CppString) (p : CppString) (ps : List CppString)
    (hc : c ≠ sep) (h : utk.splitOnChar sep (c :: cs) = p :: ps) : p.head? = some c := by
  simp only [utk.splitOnChar, hc, if_false] at h
  split at h
  · simp only [List.cons.injEq] at h
    rw [← h.1]
    rfl
  · simp only [List.cons.injEq] at h
    rw [← h.1]
    rfl

theorem illumina_instrument_field {line1 part1 p0 : CppString} {rest ps : List CppString}
    (h1 : line1.head? = some '@') (hparts : utk.splitStringSpaces line1 = part1 :: rest)
    (hsp : utk.splitString part1 ':' = p0 :: ps) :
    p0.head? = some '@' ∧ IlluminaFASTQSequence.stripAt p0 = p0.drop 1 := by
  have hp1 := splitStringSpaces_head h1 hparts
  cases part1 with
  | nil => simp at hp1
  | cons c cs =>
    simp only [List.head?_cons, Option.some.injEq] at hp1
    subst hp1
    simp only [utk.splitString, List.isEmpty_cons, Bool.false_eq_true, if_false] at hsp
    have hp0 := splitOnChar_head ':' '@' cs p0 ps (by decide) hsp
    refine ⟨hp0, ?_⟩
    cases p0 with
    | nil => simp at hp0
    | cons d ds =>
      simp only [List.head?_cons, Option.some.injEq] at hp0
      subst hp0
      rfl

/-- C15: if constructing an `IlluminaFASTQSequence` or a
`ConvIlluminaFASTQSequence` with `parse_seq`, level 1 and level 2 all enabled
succeeds, then the identifier line splits on runs of spaces into exactly two
parts, part 1 has exactly 7 colon-separated fields and part 2 exactly 4; field 1
of part 1 starts with `@` and the instrument id is that field without it; run,
lane, tile, x and y are the numeric values (`std::stoul`) of fields 2, 4, 5, 6
and 7; the flowcell id is field 3; the index sequence is field 4 of part 2; the
group ID, and for Conv also the well barcode, equals that index sequence. -/
theorem illumina_level2_parse (line1 line2 line3 line4 : CppString) (flush_ostream : Bool) :
    (∀ s, IlluminaFASTQSequence.ctor line1 line2 line3 line4 true true true flush_ostream =
        Except.ok s →
      ∃ part1 part2 p0 p1 p2 p3 p4 p5 p6 q0 q1 q2 q3,
        utk.splitStringSpaces line1 = [part1, part2] ∧
        utk.splitString part1 ':' = [p0, p1, p2, p3, p4, p5, p6] ∧
        utk.splitString part2 ':' = [q0, q1, q2, q3] ∧
        p0.head? = some '@' ∧ s.instrument_id = p0.drop 1 ∧
        std.stoul p1 = some s.run_number ∧ s.flowcell_id = p2 ∧
        std.stoul p3 = some s.lane_number ∧ std.stoul p4 = some s.tile_number ∧
        std.stoul p5 = some s.x_pos ∧ std.stoul p6 = some s.y_pos ∧
        s.index_sequence = q3 ∧ s.group_id = q3) ∧
    (∀ s, ConvIlluminaFASTQSequence.ctor line1 line2 line3 line4 true true true flush_ostream =
        Except.ok s →
      ∃ part1 part2 p0 p1 p2 p3 p4 p5 p6 q0 q1 q2 q3,
        utk.splitStringSpaces line1 = [part1, part2] ∧
        utk.splitString part1 ':' = [p0, p1, p2, p3, p4, p5, p6] ∧
        utk.splitString part2 ':' = [q0, q1, q2, q3] ∧
        p0.head? = some '@' ∧ s.instrument_id = p0.drop 1 ∧
        std.stoul p1 = some s.run_number ∧ s.flowcell_id = p2 ∧
        std.stoul p3 = some s.lane_number ∧ std.stoul p4 = some s.tile_number ∧
        std.stoul p5 = some s.x_pos ∧ std.stoul p6 = some s.y_pos ∧
        s.index_sequence = q3 ∧ s.group_id = q3 ∧ s.well_barcode = q3) := by
  constructor
  · intro s h
    obtain ⟨part1, part2, p0, p1, p2, p3, p4, p5, p6, q0, q1, q2, q3, hparts, hsp1, hsp2,
      -, -, ei, er, ef, el, et, ex, ey, -, -, -, eidx, eg, hat, -, -⟩ :=
      illumina_ctor_level2_fields h
    obtain ⟨hp0, hstrip⟩ := illumina_instrument_field hat hparts hsp1
    exact ⟨part1, part2, p0, p1, p2, p3, p4, p5, p6, q0, q1, q2, q3, hparts, hsp1, hsp2,
      hp0, by rw [ei, hstrip], er, ef, el, et, ex, ey, eidx, eg⟩
  · intro s h
    unfold ConvIlluminaFASTQSequence.ctor at h
    simp only [bind, Except.bind, pure, Except.pure] at h
    split at h
    · simp at h
    rename_i base hbase
    simp only [Except.ok.injEq] at h
    subst h
    obtain ⟨part1, part2, p0, p1, p2, p3, p4, p5, p6, q0, q1, q2, q3, hparts, hsp1, hsp2,
      -, -, ei, er, ef, el, et, ex, ey, -, -, -, eidx, eg, hat, -, -⟩ :=
      illumina_ctor_level2_fields hbase
    obtain ⟨hp0, hstrip⟩ := illumina_instrument_field hat hparts hsp1
    exact ⟨part1, part2, p0, p1, p2, p3, p4, p5, p6, q0, q1, q2, q3, hparts, hsp1, hsp2,
      hp0, by rw [← hstrip]; exact ei, er, ef, el, et, ex, ey, eidx, eidx, eidx⟩

/-- C15 witness: the identifier `@HWI-D00704:48:C7302ANXX:1:1101:1103:2053
1:N:0:ATCACG`, as a Conv sequence. -/
theorem illumina_level2_parse_witness :
    ∃ s, ConvIlluminaFASTQSequence.ctor
        "@HWI-D00704:48:C7302ANXX:1:1101:1103:2053 1:N:0:ATCACG".toList
        "GAGCTGCTATTTTATATTATGACT".toList ['+'] "CCCBBGGGGGED1FFGG>GDFGEC".toList
        true true true false = Except.ok s ∧
      s.instrument_id = "HWI-D00704".toList ∧ s.run_number = 48 ∧
      s.flowcell_id = "C7302ANXX".toList ∧ s.lane_number = 1 ∧ s.tile_number = 1101 ∧
      s.x_pos = 1103 ∧ s.y_pos = 2053 ∧ s.index_sequence = "ATCACG".toList ∧
      s.group_id = "ATCACG".toList ∧ s.well_barcode = "ATCACG".toList ∧
      ∃ part1 part2 p0 p1 p2 p3 p4 p5 p6 q0 q1 q2 q3,
        utk.splitStringSpaces "@HWI-D00704:48:C7302ANXX:1:1101:1103:2053 1:N:0:ATCACG".toList =
          [part1, part2] ∧
        utk.splitString part1 ':' = [p0, p1, p2, p3, p4, p5, p6] ∧
        utk.splitString part2 ':' = [q0, q1, q2, q3] ∧
        p0.head? = some '@' ∧ s.instrument_id = p0.drop 1 ∧
        std.stoul p1 = some s.run_number ∧ s.flowcell_id = p2 ∧
        std.stoul p3 = some s.lane_number ∧ std.stoul p4 = some s.tile_number ∧
        std.stoul p5 = some s.x_pos ∧ std.stoul p6 = some s.y_pos ∧
        s.index_sequence = q3 ∧ s.group_id = q3 ∧ s.well_barcode = q3 :=
  ⟨_, rfl, by decide, by decide, by decide, by decide, by decide, by decide, by decide,
    by decide, by decide, by decide,
    (illumina_level2_parse
      "@HWI-D00704:48:C7302ANXX:1:1101:1103:2053 1:N:0:ATCACG".toList
      "GAGCTGCTATTTTATATTATGACT".toList ['+'] "CCCBBGGGGGED1FFGG>GDFGEC".toList false).2 _ rfl⟩

/-! ## Mandatory fields of an alignment line -/

theorem parseMasks_set_test :
    ParseMasks.test ParseMasks.set 0 = true ∧ ParseMasks.test ParseMasks.set 1 = true ∧
    ParseMasks.test ParseMasks.set 2 = true ∧ ParseMasks.test ParseMasks.set 3 = true ∧
    ParseMasks.test ParseMasks.set 4 = true ∧ ParseMasks.test ParseMasks.set 5 = true ∧
    ParseMasks.test ParseMasks.set 6 = true ∧ ParseMasks.test ParseMasks.set 7 = true ∧
    ParseMasks.test ParseMasks.set 8 = true ∧ ParseMasks.test ParseMasks.set 9 = true ∧
    ParseMasks.test ParseMasks.set 10 = true ∧ ParseMasks.test ParseMasks.set 11 = true := by
  decide

theorem parseMasks_reset_test (pos : Nat) : ParseMasks.test ParseMasks.reset pos = false := by
  simp [ParseMasks.test, ParseMasks.reset]

theorem mandatory_parse_reset (m : SAMAlignmentMandatoryFields) (h : m.parse_masks = 0) :
    SAMAlignmentMandatoryFields.parse m = Except.ok m := by
  unfold SAMAlignmentMandatoryFields.parse
  simp [h, ParseMasks.test]

theorem mandatory_ctor_full (qname : CppString) (flag : Nat) (rname : CppString) (pos mapq : Nat)
    (cigar rnext : CppString) (pnext : Nat) (tlen : Int) (seq qual : CppString)
    (flush_ostream : Bool)
    (hq : SAMAlignmentMandatoryFields.regex_match_QNAME qname = true)
    (hr : SAMAlignmentMandatoryFields.regex_match_RNAME rname = true)
    (hc : SAMAlignmentMandatoryFields.regex_match_CIGAR cigar = true)
    (hn : SAMAlignmentMandatoryFields.regex_match_RNEXT rnext = true)
    (hs : SAMAlignmentMandatoryFields.regex_match_SEQ seq = true)
    (hl : SAMAlignmentMandatoryFields.regex_match_QUAL qual = true)
    (hlen : seq.length = qual.length) :
    SAMAlignmentMandatoryFields.ctor qname flag rname pos mapq cigar rnext pnext tlen seq qual
        true flush_ostream =
      if flag > 65535 then Except.error ("FLAG " ++ toString flag ++ " is greater than 65535!")
      else if pos > 2147483647 then
        Except.error ("POS " ++ toString pos ++ " is greater than 2147483647!")
      else if mapq > 255 then Except.error ("MAPQ " ++ toString mapq ++ " is greater than 255!")
      else if pnext > 2147483647 then
        Except.error ("PNEXT " ++ toString pnext ++ " is greater than 2147483647!")
      else if tlen < -2147483647 ∨ tlen > 2147483647 then
        Except.error ("TLEN " ++ toString tlen ++ " is greater than 2147483647!")
      else
        Except.ok { qname := qname, flag := flag, rname := rname, pos := pos, mapq := mapq,
                    cigar := cigar, rnext := rnext, pnext := pnext, tlen := tlen, seq := seq,
                    qual := qual, read_length := seq.length, parse_masks := ParseMasks.set,
                    flush_ostream := flush_ostream } := by
  obtain ⟨m0, m1, m2, m3, m4, m5, m6, m7, m8, m9, m10, m11⟩ := parseMasks_set_test
  unfold SAMAlignmentMandatoryFields.ctor SAMAlignmentMandatoryFields.parse
  simp only [if_true, m0, m1, m2, m3, m4, m5, m6, m7, m8, m9, m10, m11, hq, hr, hc, hn, hs, hl,
    hlen, Bool.not_true, Bool.and_false, Bool.false_eq_true, if_false, Bool.true_and,
    decide_eq_true_eq, Bool.or_eq_true]



/-- C17: for mandatory-field values whose string fields match their patterns and
whose SEQ and QUAL have equal length, `SAMAlignmentMandatoryFields` built with
`parse_fields = true` is accepted if and only if FLAG <= 65535,
POS <= 2147483647, MAPQ <= 255, PNEXT <= 2147483647 and
-2147483647 <= TLEN <= 2147483647, and raises a logic error otherwise; an
accepted object holds the given values and the common length as read length. -/
theorem mandatory_fields_range_checks (qname : CppString) (flag : Nat) (rname : CppString)
    (pos mapq : Nat) (cigar rnext : CppString) (pnext : Nat) (tlen : Int) (seq qual : CppString)
    (flush_ostream : Bool)
    (hq : SAMAlignmentMandatoryFields.regex_match_QNAME qname = true)
    (hr : SAMAlignmentMandatoryFields.regex_match_RNAME rname = true)
    (hc : SAMAlignmentMandatoryFields.regex_match_CIGAR cigar = true)
    (hn : SAMAlignmentMandatoryFields.regex_match_RNEXT rnext = true)
    (hs : SAMAlignmentMandatoryFields.regex_match_SEQ seq = true)
    (hl : SAMAlignmentMandatoryFields.regex_match_QUAL qual = true)
    (hlen : seq.length = qual.length) :
    ((∃ m, SAMAlignmentMandatoryFields.ctor qname flag rname pos mapq cigar rnext pnext tlen
        seq qual true flush_ostream = Except.ok m) ↔
      (flag ≤ 65535 ∧ pos ≤ 2147483647 ∧ mapq ≤ 255 ∧ pnext ≤ 2147483647 ∧
        -2147483647 ≤ tlen ∧ tlen ≤ 2147483647)) ∧
    ((∃ msg, SAMAlignmentMandatoryFields.ctor qname flag rname pos mapq cigar rnext pnext tlen
        seq qual true flush_ostream = Except.error msg) ↔
      ¬ (flag ≤ 65535 ∧ pos ≤ 2147483647 ∧ mapq ≤ 255 ∧ pnext ≤ 2147483647 ∧
        -2147483647 ≤ tlen ∧ tlen ≤ 2147483647)) ∧
    (∀ m, SAMAlignmentMandatoryFields.ctor qname flag rname pos mapq cigar rnext pnext tlen
        seq qual true flush_ostream = Except.ok m →
      m.qname = qname ∧ m.flag = flag ∧ m.rname = rname ∧ m.pos = pos ∧ m.mapq = mapq ∧
      m.cigar = cigar ∧ m.rnext = rnext ∧ m.pnext = pnext ∧ m.tlen = tlen ∧ m.seq = seq ∧
      m.qual = qual ∧ m.read_length = seq.length) := by
  rw [mandatory_ctor_full qname flag rname pos mapq cigar rnext pnext tlen seq qual flush_ostream
    hq hr hc hn hs hl hlen]
  refine ⟨?_, ?_, ?_⟩
  · split_ifs with h1 h2 h3 h4 h5
    · simp only [exists_false, false_iff, reduceCtorEq]
      omega
    · simp only [exists_false, false_iff, reduceCtorEq]
      omega
    · simp only [exists_false, false_iff, reduceCtorEq]
      omega
    · simp only [exists_false, false_iff, reduceCtorEq]
      omega
    · simp only [exists_false, false_iff, reduceCtorEq]
      omega
    · simp only [Except.ok.injEq, exists_eq', true_iff]
      omega
  · split_ifs with h1 h2 h3 h4 h5
    · simp only [Except.error.injEq, exists_eq', true_iff]
      omega
    · simp only [Except.error.injEq, exists_eq', true_iff]
      omega
    · simp only [Except.error.injEq, exists_eq', true_iff]
      omega
    · simp only [Except.error.injEq, exists_eq', true_iff]
      omega
    · simp only [Except.error.injEq, exists_eq', true_iff]
      omega
    · simp only [exists_false, false_iff, reduceCtorEq, not_not]
      omega
  · intro m hm
    split_ifs at hm
    simp only [Except.ok.injEq] at hm
    subst hm
    exact ⟨rfl, rfl, rfl, rfl, rfl, rfl, rfl, rfl, rfl, rfl, rfl, rfl⟩

/-- C17 witness: the boundary values.  FLAG = 65535 with TLEN = -2147483647 is
accepted; FLAG = 65536, POS = 2147483648 and TLEN = -2147483648 are each
rejected with a logic error. -/
theorem mandatory_fields_range_checks_witness :
    (∃ m, SAMAlignmentMandatoryFields.ctor "r1".toList 65535 "chr1".toList 2147483647 255
        "4M".toList "=".toList 2147483647 (-2147483647) "ACGT".toList "IIII".toList true false =
        Except.ok m) ∧
    (∃ msg, SAMAlignmentMandatoryFields.ctor "r1".toList 65536 "chr1".toList 1 0
        "4M".toList "=".toList 1 0 "ACGT".toList "IIII".toList true false = Except.error msg) ∧
    (∃ msg, SAMAlignmentMandatoryFields.ctor "r1".toList 0 "chr1".toList 2147483648 0
        "4M".toList "=".toList 1 0 "ACGT".toList "IIII".toList true false = Except.error msg) ∧
    (∃ msg, SAMAlignmentMandatoryFields.ctor "r1".toList 0 "chr1".toList 1 0
        "4M".toList "=".toList 1 (-2147483648) "ACGT".toList "IIII".toList true false =
        Except.error msg) :=
  ⟨(mandatory_fields_range_checks "r1".toList 65535 "chr1".toList 2147483647 255 "4M".toList
      "=".toList 2147483647 (-2147483647) "ACGT".toList "IIII".toList false
      (by decide) (by decide) (by decide) (by decide) (by decide) (by decide) (by decide)).1.2
      (by decide),
   (mandatory_fields_range_checks "r1".toList 65536 "chr1".toList 1 0 "4M".toList
      "=".toList 1 0 "ACGT".toList "IIII".toList false
      (by decide) (by decide) (by decide) (by decide) (by decide) (by decide) (by decide)).2.1.2
      (by decide),
   (mandatory_fields_range_checks "r1".toList 0 "chr1".toList 2147483648 0 "4M".toList
      "=".toList 1 0 "ACGT".toList "IIII".toList false
      (by decide) (by decide) (by decide) (by decide) (by decide) (by decide) (by decide)).2.1.2
      (by decide),
   (mandatory_fields_range_checks "r1".toList 0 "chr1".toList 1 0 "4M".toList
      "=".toList 1 (-2147483648) "ACGT".toList "IIII".toList false
      (by decide) (by decide) (by decide) (by decide) (by decide) (by decide) (by decide)).2.1.2
      (by decide)⟩

/-- C18: constructing `SAMAlignmentMandatoryFields` with `parse_fields = false`,
or with an empty mask string, never fails, stores the eleven given values
unchanged whatever they are, and leaves the read length at 0. -/
theorem mandatory_fields_lazy (qname : CppString) (flag : Nat) (rname : CppString)
    (pos mapq : Nat) (cigar rnext : CppString) (pnext : Nat) (tlen : Int) (seq qual : CppString)
    (flush_ostream : Bool) :
    SAMAlignmentMandatoryFields.ctor qname flag rname pos mapq cigar rnext pnext tlen seq qual
        false flush_ostream =
      Except.ok { qname := qname, flag := flag, rname := rname, pos := pos, mapq := mapq,
                  cigar := cigar, rnext := rnext, pnext := pnext, tlen := tlen, seq := seq,
                  qual := qual, read_length := 0, parse_masks := 0,
                  flush_ostream := flush_ostream } ∧
    SAMAlignmentMandatoryFields.ctorMask qname flag rname pos mapq cigar rnext pnext tlen seq qual
        [] flush_ostream =
      Except.ok { qname := qname, flag := flag, rname := rname, pos := pos, mapq := mapq,
                  cigar := cigar, rnext := rnext, pnext := pnext, tlen := tlen, seq := seq,
                  qual := qual, read_length := 0, parse_masks := 0,
                  flush_ostream := flush_ostream } := by
  constructor
  · unfold SAMAlignmentMandatoryFields.ctor
    rw [mandatory_parse_reset _ rfl]
    rfl
  · unfold SAMAlignmentMandatoryFields.ctorMask SAMAlignmentMandatoryFields.makeParseMasks
    simp only [List.length_nil, gt_iff_lt, Nat.lt_irrefl, if_false, bind, Except.bind,
      ParseMasks.ofString, List.foldl_nil]
    rw [mandatory_parse_reset _ rfl]

/-! ## Alignment lines -/

theorem ite_error_eq_ok {α : Type} {c : Prop} [Decidable c] {e : String} {x : Except String α}
    {y : α} (h : (if c then Except.error e else x) = Except.ok y) : x = Except.ok y := by
  by_cases hc : c
  · rw [if_pos hc] at h
    cases h
  · rw [if_neg hc] at h
    exact h

theorem mandatory_parse_fields {m m1 : SAMAlignmentMandatoryFields}
    (h : SAMAlignmentMandatoryFields.parse m = Except.ok m1) :
    m1.qname = m.qname ∧ m1.flag = m.flag ∧ m1.rname = m.rname ∧ m1.pos = m.pos ∧
    m1.mapq = m.mapq ∧ m1.cigar = m.cigar ∧ m1.rnext = m.rnext ∧ m1.pnext = m.pnext ∧
    m1.tlen = m.tlen ∧ m1.seq = m.seq ∧ m1.qual = m.qual := by
  unfold SAMAlignmentMandatoryFields.parse at h
  have h := ite_error_eq_ok (ite_error_eq_ok (ite_error_eq_ok (ite_error_eq_ok
    (ite_error_eq_ok (ite_error_eq_ok (ite_error_eq_ok (ite_error_eq_ok (ite_error_eq_ok
    (ite_error_eq_ok (ite_error_eq_ok h))))))))))
  by_cases c11 : ParseMasks.test m.parse_masks 11 = true
  · rw [if_pos c11] at h
    by_cases cl : m.seq.length = m.qual.length
    · rw [if_pos cl] at h
      cases h
      exact ⟨rfl, rfl, rfl, rfl, rfl, rfl, rfl, rfl, rfl, rfl, rfl⟩
    · rw [if_neg cl] at h
      cases h
  · rw [if_neg c11] at h
    cases h
    exact ⟨rfl, rfl, rfl, rfl, rfl, rfl, rfl, rfl, rfl, rfl, rfl⟩

theorem mandatory_ctor_fields {qname : CppString} {flag : Nat} {rname : CppString}
    {pos mapq : Nat} {cigar rnext : CppString} {pnext : Nat} {tlen : Int} {seq qual : CppString}
    {parse_fields flush_ostream : Bool} {m : SAMAlignmentMandatoryFields}
    (h : SAMAlignmentMandatoryFields.ctor qname flag rname pos mapq cigar rnext pnext tlen seq
      qual parse_fields flush_ostream = Except.ok m) :
    m.qname = qname ∧ m.flag = flag ∧ m.rname = rname ∧ m.pos = pos ∧ m.mapq = mapq ∧
    m.cigar = cigar ∧ m.rnext = rnext ∧ m.pnext = pnext ∧ m.tlen = tlen ∧ m.seq = seq ∧
    m.qual = qual := by
  unfold SAMAlignmentMandatoryFields.ctor at h
  exact mandatory_parse_fields h

theorem composited_mandatory_ctor_fields {qname : CppString} {flag : Nat} {rname : CppString}
    {pos mapq : Nat} {cigar rnext : CppString} {pnext : Nat} {tlen : Int} {seq qual : CppString}
    {parse_fields flush_ostream : Bool} {m : SAMCompositedDGEIlluminaAlignmentMandatoryFields}
    (h : SAMCompositedDGEIlluminaAlignmentMandatoryFields.ctor qname flag rname pos mapq cigar
      rnext pnext tlen seq qual parse_fields flush_ostream = Except.ok m) :
    m.qname = qname ∧ m.flag = flag ∧ m.rname = rname ∧ m.pos = pos ∧ m.mapq = mapq ∧
    m.cigar = cigar ∧ m.rnext = rnext ∧ m.pnext = pnext ∧ m.tlen = tlen ∧ m.seq = seq ∧
    m.qual = qual := by
  unfold SAMCompositedDGEIlluminaAlignmentMandatoryFields.ctor at h
  simp only [bind, Except.bind] at h
  split at h
  · simp at h
  rename_i base hbase
  unfold SAMCompositedDGEIlluminaAlignmentMandatoryFields.parse at h
  have hb := mandatory_ctor_fields hbase
  by_cases c0 : ParseMasks.test base.parse_masks 0 = true
  · rw [if_pos c0] at h
    have h := ite_error_eq_ok h
    cases h
    exact hb
  · rw [if_neg c0] at h
    cases h
    exact hb

theorem list_exists_cons_of_succ_le {α : Type} {n : Nat} (l : List α) (h : n + 1 ≤ l.length) :
    ∃ a t, l = a :: t ∧ n ≤ t.length := by
  cases l with
  | nil => simp at h
  | cons a t => exact ⟨a, t, rfl, by simpa using h⟩

theorem list_eleven_tokens {α : Type} (l : List α) (h : 11 ≤ l.length) :
    ∃ t0 t1 t2 t3 t4 t5 t6 t7 t8 t9 t10 rest,
      l = t0 :: t1 :: t2 :: t3 :: t4 :: t5 :: t6 :: t7 :: t8 :: t9 :: t10 :: rest := by
  obtain ⟨t0, l0, rfl, h0⟩ := list_exists_cons_of_succ_le l h
  obtain ⟨t1, l1, rfl, h1⟩ := list_exists_cons_of_succ_le l0 h0
  obtain ⟨t2, l2, rfl, h2⟩ := list_exists_cons_of_succ_le l1 h1
  obtain ⟨t3, l3, rfl, h3⟩ := list_exists_cons_of_succ_le l2 h2
  obtain ⟨t4, l4, rfl, h4⟩ := list_exists_cons_of_succ_le l3 h3
  obtain ⟨t5, l5, rfl, h5⟩ := list_exists_cons_of_succ_le l4 h4
  obtain ⟨t6, l6, rfl, h6⟩ := list_exists_cons_of_succ_le l5 h5
  obtain ⟨t7, l7, rfl, h7⟩ := list_exists_cons_of_succ_le l6 h6
  obtain ⟨t8, l8, rfl, h8⟩ := list_exists_cons_of_succ_le l7 h7
  obtain ⟨t9, l9, rfl, h9⟩ := list_exists_cons_of_succ_le l8 h8
  obtain ⟨t10, l10, rfl, -⟩ := list_exists_cons_of_succ_le l9 h9
  exact ⟨t0, t1, t2, t3, t4, t5, t6, t7, t8, t9, t10, l10, rfl⟩

theorem convertSizeOr_ok {str : CppString} {msg : String} {v : Nat}
    (h : SAMAlignmentLine.convertSizeOr str msg = Except.ok v) : std.stoul str = some v := by
  unfold SAMAlignmentLine.convertSizeOr utk.convert_size_t at h
  split at h
  · simp_all
  · simp at h

theorem convertLongLongOr_ok {str : CppString} {msg : String} {v : Int}
    (h : SAMAlignmentLine.convertLongLongOr str msg = Except.ok v) : std.stoll str = some v := by
  unfold SAMAlignmentLine.convertLongLongOr utk.convert_long_long at h
  split at h
  · simp_all
  · simp at h

theorem parseLine_short {M F : Type} [SAMAlignmentMandatoryFieldsTypeOps M]
    (optCtor : CppString → Bool → Bool → Bool → Bool → Bool → Except String F)
    (al : SAMAlignmentLine M F) (h : (utk.splitString al.line '\t').length < 11) :
    SAMAlignmentLine.parseLine optCtor al =
      Except.error "Alignment line must have all 11 mandatory fields!" := by
  unfold SAMAlignmentLine.parseLine
  simp only [SAMAlignmentLine.tab_sep, SAMAlignmentMandatoryFields.getNumberOfMandatoryFields,
    SAMAlignmentMandatoryFields.n_mand_fields, ge_iff_le]
  rw [if_neg (by omega)]
  rfl

theorem parseLine_eq {M F : Type} [SAMAlignmentMandatoryFieldsTypeOps M]
    (optCtor : CppString → Bool → Bool → Bool → Bool → Bool → Except String F)
    (al : SAMAlignmentLine M F)
    {t0 t1 t2 t3 t4 t5 t6 t7 t8 t9 t10 : CppString} {rest : List CppString}
    (hparts : utk.splitString al.line '\t' =
      t0 :: t1 :: t2 :: t3 :: t4 :: t5 :: t6 :: t7 :: t8 :: t9 :: t10 :: rest)
    (hq : t0 ≠ []) :
    SAMAlignmentLine.parseLine optCtor al = (do
      let flag ← SAMAlignmentLine.convertSizeOr t1 "Failed to convert FLAG to std::size_t type!"
      let pos ← SAMAlignmentLine.convertSizeOr t3 "Failed to convert POS to std::size_t type!"
      let mapq ← SAMAlignmentLine.convertSizeOr t4 "Failed to convert MAPQ to std::size_t type!"
      let pnext ← SAMAlignmentLine.convertSizeOr t7 "Failed to convert PNEXT to std::size_t type!"
      let tlen ← SAMAlignmentLine.convertLongLongOr t8 "Failed to convert TLEN to long long type!"
      let mand_fields ← SAMAlignmentMandatoryFieldsTypeOps.ctor t0 flag t2 pos mapq t5 t6 pnext
        tlen t9 t10 al.parse_mand_fields al.flush_ostream
      let opts ← rest.mapM (SAMAlignmentLine.parseOptionalToken optCtor al)
      pure { al with mand_fields := mand_fields, opt_fields := al.opt_fields ++ opts.flatten }) := by
  unfold SAMAlignmentLine.parseLine
  simp only [SAMAlignmentLine.tab_sep, SAMAlignmentMandatoryFields.getNumberOfMandatoryFields,
    SAMAlignmentMandatoryFields.n_mand_fields, ge_iff_le]
  have hlen : 11 ≤ (utk.splitString al.line '\t').length := by
    rw [hparts]
    simp
  rw [if_pos hlen, hparts]
  have hq0 : ¬ t0.length = 0 := by
    intro e
    exact hq (List.length_eq_zero.mp e)
  simp only [List.getD_cons_zero, List.getD_cons_succ, hq0, if_false, bind, Except.bind, pure,
    Except.pure, List.drop_succ_cons, List.drop_zero]

theorem parseLine_fields {M F : Type} [SAMAlignmentMandatoryFieldsTypeOps M]
    (optCtor : CppString → Bool → Bool → Bool → Bool → Bool → Except String F)
    (al al1 : SAMAlignmentLine M F)
    (h : SAMAlignmentLine.parseLine optCtor al = Except.ok al1) :
    ∃ t0 t1 t2 t3 t4 t5 t6 t7 t8 t9 t10 rest flag pos mapq pnext tlen,
      utk.splitString al.line '\t' =
        t0 :: t1 :: t2 :: t3 :: t4 :: t5 :: t6 :: t7 :: t8 :: t9 :: t10 :: rest ∧
      t0 ≠ [] ∧
      std.stoul t1 = some flag ∧ std.stoul t3 = some pos ∧ std.stoul t4 = some mapq ∧
      std.stoul t7 = some pnext ∧ std.stoll t8 = some tlen ∧
      SAMAlignmentMandatoryFieldsTypeOps.ctor t0 flag t2 pos mapq t5 t6 pnext tlen t9 t10
        al.parse_mand_fields al.flush_ostream = Except.ok al1.mand_fields := by
  by_cases hlen : 11 ≤ (utk.splitString al.line '\t').length
  · obtain ⟨t0, t1, t2, t3, t4, t5, t6, t7, t8, t9, t10, rest, hparts⟩ :=
      list_eleven_tokens _ hlen
    by_cases hq : t0 = []
    · unfold SAMAlignmentLine.parseLine at h
      simp only [SAMAlignmentLine.tab_sep,
        SAMAlignmentMandatoryFields.getNumberOfMandatoryFields,
        SAMAlignmentMandatoryFields.n_mand_fields, ge_iff_le] at h
      rw [if_pos hlen, hparts, hq] at h
      simp only [List.getD_cons_zero, List.length_nil, if_true, bind, Except.bind, throw,
        throwThe, MonadExceptOf.throw] at h
      cases h
    · rw [parseLine_eq optCtor al hparts hq] at h
      simp only [bind, Except.bind, pure, Except.pure] at h
      split at h
      · cases h
      rename_i flag hflag
      split at h
      · cases h
      rename_i pos hpos
      split at h
      · cases h
      rename_i mapq hmapq
      split at h
      · cases h
      rename_i pnext hpnext
      split at h
      · cases h
      rename_i tlen htlen
      split at h
      · cases h
      rename_i mand hmand
      split at h
      · cases h
      cases h
      exact ⟨t0, t1, t2, t3, t4, t5, t6, t7, t8, t9, t10, rest, flag, pos, mapq, pnext, tlen,
        hparts, hq, convertSizeOr_ok hflag, convertSizeOr_ok hpos, convertSizeOr_ok hmapq,
        convertSizeOr_ok hpnext, convertLongLongOr_ok htlen, hmand⟩
  · rw [parseLine_short optCtor al (by omega)] at h
    cases h

/-- C16: `SAMAlignmentLine::parseLine` raises a logic error for every line with
fewer than 11 TAB-separated tokens; when it succeeds, the line has at least 11
tokens and the mandatory fields are the first eleven in order: QNAME = token 1,
FLAG = numeric value (`std::stoul`) of token 2, RNAME = token 3, POS, MAPQ =
numeric values of tokens 4 and 5, CIGAR = token 6, RNEXT = token 7, PNEXT =
numeric value of token 8, TLEN = numeric value (`std::stoll`) of token 9, SEQ =
token 10, QUAL = token 11.  Stated for both mandatory-field types of the
library; `optCtor` is the constructor of the optional-field type. -/
theorem parseLine_mandatory_tokens {F : Type}
    (optCtor : CppString → Bool → Bool → Bool → Bool → Bool → Except String F) :
    (∀ al : SAMAlignmentLine SAMAlignmentMandatoryFields F,
      ((utk.splitString al.line '\t').length < 11 →
        SAMAlignmentLine.parseLine optCtor al =
          Except.error "Alignment line must have all 11 mandatory fields!") ∧
      (∀ al1, SAMAlignmentLine.parseLine optCtor al = Except.ok al1 →
        ∃ t0 t1 t2 t3 t4 t5 t6 t7 t8 t9 t10 rest,
          utk.splitString al.line '\t' =
            t0 :: t1 :: t2 :: t3 :: t4 :: t5 :: t6 :: t7 :: t8 :: t9 :: t10 :: rest ∧
          al1.mand_fields.qname = t0 ∧ std.stoul t1 = some al1.mand_fields.flag ∧
          al1.mand_fields.rname = t2 ∧ std.stoul t3 = some al1.mand_fields.pos ∧
          std.stoul t4 = some al1.mand_fields.mapq ∧ al1.mand_fields.cigar = t5 ∧
          al1.mand_fields.rnext = t6 ∧ std.stoul t7 = some al1.mand_fields.pnext ∧
          std.stoll t8 = some al1.mand_fields.tlen ∧ al1.mand_fields.seq = t9 ∧
          al1.mand_fields.qual = t10)) ∧
    (∀ al : SAMAlignmentLine SAMCompositedDGEIlluminaAlignmentMandatoryFields F,
      ((utk.splitString al.line '\t').length < 11 →
        SAMAlignmentLine.parseLine optCtor al =
          Except.error "Alignment line must have all 11 mandatory fields!") ∧
      (∀ al1, SAMAlignmentLine.parseLine optCtor al = Except.ok al1 →
        ∃ t0 t1 t2 t3 t4 t5 t6 t7 t8 t9 t10 rest,
          utk.splitString al.line '\t' =
            t0 :: t1 :: t2 :: t3 :: t4 :: t5 :: t6 :: t7 :: t8 :: t9 :: t10 :: rest ∧
          al1.mand_fields.qname = t0 ∧ std.stoul t1 = some al1.mand_fields.flag ∧
          al1.mand_fields.rname = t2 ∧ std.stoul t3 = some al1.mand_fields.pos ∧
          std.stoul t4 = some al1.mand_fields.mapq ∧ al1.mand_fields.cigar = t5 ∧
          al1.mand_fields.rnext = t6 ∧ std.stoul t7 = some al1.mand_fields.pnext ∧
          std.stoll t8 = some al1.mand_fields.tlen ∧ al1.mand_fields.seq = t9 ∧
          al1.mand_fields.qual = t10)) := by
  constructor
  · intro al
    refine ⟨parseLine_short optCtor al, ?_⟩
    intro al1 h
    obtain ⟨t0, t1, t2, t3, t4, t5, t6, t7, t8, t9, t10, rest, flag, pos, mapq, pnext, tlen,
      hparts, -, e1, e3, e4, e7, e8, hm⟩ := parseLine_fields optCtor al al1 h
    obtain ⟨a0, a1, a2, a3, a4, a5, a6, a7, a8, a9, a10⟩ := mandatory_ctor_fields hm
    exact ⟨t0, t1, t2, t3, t4, t5, t6, t7, t8, t9, t10, rest, hparts, a0, by rw [a1]; exact e1,
      a2, by rw [a3]; exact e3, by rw [a4]; exact e4, a5, a6, by rw [a7]; exact e7,
      by rw [a8]; exact e8, a9, a10⟩
  · intro al
    refine ⟨parseLine_short optCtor al, ?_⟩
    intro al1 h
    obtain ⟨t0, t1, t2, t3, t4, t5, t6, t7, t8, t9, t10, rest, flag, pos, mapq, pnext, tlen,
      hparts, -, e1, e3, e4, e7, e8, hm⟩ := parseLine_fields optCtor al al1 h
    obtain ⟨a0, a1, a2, a3, a4, a5, a6, a7, a8, a9, a10⟩ := composited_mandatory_ctor_fields hm
    exact ⟨t0, t1, t2, t3, t4, t5, t6, t7, t8, t9, t10, rest, hparts, a0, by rw [a1]; exact e1,
      a2, by rw [a3]; exact e3, by rw [a4]; exact e4, a5, a6, by rw [a7]; exact e7,
      by rw [a8]; exact e8, a9, a10⟩

/-- C16 witness: a line of ten tokens is rejected; the line
`r1 0 chr1 100 255 4M = 200 -50 ACGT IIII` (TAB-separated) is parsed into its
eleven tokens.  No optional field is present, so the optional-field
constructor is never called. -/
theorem parseLine_mandatory_tokens_witness :
    SAMAlignmentLine.parseLine (fun field _ _ _ _ _ => Except.ok field)
        ({ line := "r1\t0\tchr1\t100\t255\t4M\t=\t200\t-50\tACGT".toList, mand_fields := {} } :
          SAMAlignmentLine SAMAlignmentMandatoryFields CppString) =
      Except.error "Alignment line must have all 11 mandatory fields!" ∧
    ∃ al1, SAMAlignmentLine.parseLine (fun field _ _ _ _ _ => Except.ok field)
        ({ line := "r1\t0\tchr1\t100\t255\t4M\t=\t200\t-50\tACGT\tIIII".toList,
           mand_fields := {} } : SAMAlignmentLine SAMAlignmentMandatoryFields CppString) =
        Except.ok al1 ∧
      al1.mand_fields.qname = "r1".toList ∧ al1.mand_fields.flag = 0 ∧
      al1.mand_fields.rname = "chr1".toList ∧ al1.mand_fields.pos = 100 ∧
      al1.mand_fields.mapq = 255 ∧ al1.mand_fields.cigar = "4M".toList ∧
      al1.mand_fields.rnext = "=".toList ∧ al1.mand_fields.pnext = 200 ∧
      al1.mand_fields.tlen = -50 ∧ al1.mand_fields.seq = "ACGT".toList ∧
      al1.mand_fields.qual = "IIII".toList ∧
      ∃ t0 t1 t2 t3 t4 t5 t6 t7 t8 t9 t10 rest,
        utk.splitString "r1\t0\tchr1\t100\t255\t4M\t=\t200\t-50\tACGT\tIIII".toList '\t' =
          t0 :: t1 :: t2 :: t3 :: t4 :: t5 :: t6 :: t7 :: t8 :: t9 :: t10 :: rest ∧
        al1.mand_fields.qname = t0 ∧ std.stoul t1 = some al1.mand_fields.flag ∧
        al1.mand_fields.rname = t2 ∧ std.stoul t3 = some al1.mand_fields.pos ∧
        std.stoul t4 = some al1.mand_fields.mapq ∧ al1.mand_fields.cigar = t5 ∧
        al1.mand_fields.rnext = t6 ∧ std.stoul t7 = some al1.mand_fields.pnext ∧
        std.stoll t8 = some al1.mand_fields.tlen ∧ al1.mand_fields.seq = t9 ∧
        al1.mand_fields.qual = t10 :=
  ⟨((parseLine_mandatory_tokens (fun field _ _ _ _ _ => Except.ok field)).1
      { line := "r1\t0\tchr1\t100\t255\t4M\t=\t200\t-50\tACGT".toList, mand_fields := {} }).1
      (by decide),
   _, rfl, by decide, by decide, by decide, by decide, by decide, by decide, by decide,
   by decide, by decide, by decide, by decide,
   ((parseLine_mandatory_tokens (fun field _ _ _ _ _ => Except.ok field)).1
      { line := "r1\t0\tchr1\t100\t255\t4M\t=\t200\t-50\tACGT\tIIII".toList,
        mand_fields := {} }).2 _ rfl⟩

/-! ## Numeric conversions -/

theorem stoul_eq_subject (str : CppString) :
    std.stoul str =
      if (std.subjectSequence str).2 = [] ∨
          std.digitsValue (std.subjectSequence str).2 > std.ULONG_MAX then none
      else some (if (std.subjectSequence str).1 then
                   (2 ^ 64 - std.digitsValue (std.subjectSequence str).2) % 2 ^ 64
                 else std.digitsValue (std.subjectSequence str).2) := by
  have key : ∀ (b : Bool) (ds : CppString),
      (if ds.isEmpty then none
       else if std.digitsValue ds > std.ULONG_MAX then none
       else some (if b then (2 ^ 64 - std.digitsValue ds) % 2 ^ 64 else std.digitsValue ds)) =
      (if ds = [] ∨ std.digitsValue ds > std.ULONG_MAX then none
       else some (if b then (2 ^ 64 - std.digitsValue ds) % 2 ^ 64
                  else std.digitsValue ds) : Option Nat) := by
    intro b ds
    cases ds with
    | nil => simp
    | cons d ds => simp
  exact key (std.subjectSequence str).1 (std.subjectSequence str).2

theorem stoll_eq_subject (str : CppString) :
    std.stoll str =
      if (std.subjectSequence str).2 = [] then none
      else if (std.subjectSequence str).1 then
        (if -(std.digitsValue (std.subjectSequence str).2 : Int) < std.LLONG_MIN then none
         else some (-(std.digitsValue (std.subjectSequence str).2 : Int)))
      else
        (if (std.digitsValue (std.subjectSequence str).2 : Int) > std.LLONG_MAX then none
         else some (std.digitsValue (std.subjectSequence str).2 : Int)) := by
  unfold std.stoll std.subjectSequence
  simp only [List.isEmpty_iff]



theorem stoulOr_of_none {str : CppString} (msg : String) (h : std.stoul str = none) :
    IlluminaFASTQSequence.stoulOr str msg = Except.error msg := by
  unfold IlluminaFASTQSequence.stoulOr
  rw [h]

theorem convertSizeOr_eq (str : CppString) (msg : String) :
    SAMAlignmentLine.convertSizeOr str msg =
      match std.stoul str with
      | some v => Except.ok v
      | none => Except.error msg := rfl

theorem convertLongLongOr_eq (str : CppString) (msg : String) :
    SAMAlignmentLine.convertLongLongOr str msg =
      match std.stoll str with
      | some v => Except.ok v
      | none => Except.error msg := rfl

theorem illumina_parsePart1_error (s : IlluminaFASTQSequence) (p0 p1 p2 p3 p4 p5 p6 : CppString)
    (hsplit : utk.splitString s.seq_id_part_1 ':' = [p0, p1, p2, p3, p4, p5, p6])
    (hnone : std.stoul p1 = none ∨ std.stoul p3 = none ∨ std.stoul p4 = none ∨
      std.stoul p5 = none ∨ std.stoul p6 = none) :
    IlluminaFASTQSequence.parsePart1 s = Except.error
      (if std.stoul p1 = none then "Failed to convert run number to unsigned long type"
       else if std.stoul p3 = none then "Failed to convert lane number to unsigned long type"
       else if std.stoul p4 = none then "Failed to convert tile number to unsigned long type"
       else if std.stoul p5 = none then "Failed to convert X position to unsigned long type"
       else "Failed to convert Y position to unsigned long type") := by
  unfold IlluminaFASTQSequence.parsePart1
  simp only [IlluminaFASTQSequence.colon_sep, hsplit, bind, Except.bind, pure, Except.pure]
  cases h1 : std.stoul p1 with
  | none => rw [stoulOr_of_none _ h1, if_pos rfl]
  | some v1 =>
    rw [stoulOr_of_stoul _ h1, if_neg (by simp)]
    cases h3 : std.stoul p3 with
    | none => rw [stoulOr_of_none _ h3, if_pos rfl]
    | some v3 =>
      rw [stoulOr_of_stoul _ h3, if_neg (by simp)]
      cases h4 : std.stoul p4 with
      | none => rw [stoulOr_of_none _ h4, if_pos rfl]
      | some v4 =>
        rw [stoulOr_of_stoul _ h4, if_neg (by simp)]
        cases h5 : std.stoul p5 with
        | none => rw [stoulOr_of_none _ h5, if_pos rfl]
        | some v5 =>
          rw [stoulOr_of_stoul _ h5, if_neg (by simp)]
          cases h6 : std.stoul p6 with
          | none => rw [stoulOr_of_none _ h6]
          | some v6 =>
            rw [h1, h3, h4, h5, h6] at hnone
            simp at hnone

theorem illumina_parse_conversion_error (s : IlluminaFASTQSequence)
    (part1 part2 p0 p1 p2 p3 p4 p5 p6 : CppString)
    (h1 : s.parse_seq_id_level_1 = true) (h2 : s.parse_seq_id_level_2 = true)
    (hparts : utk.splitStringSpaces s.lines.identifier = [part1, part2])
    (hsplit : utk.splitString part1 ':' = [p0, p1, p2, p3, p4, p5, p6])
    (hnone : std.stoul p1 = none ∨ std.stoul p3 = none ∨ std.stoul p4 = none ∨
      std.stoul p5 = none ∨ std.stoul p6 = none) :
    IlluminaFASTQSequence.parse s = Except.error
      (if std.stoul p1 = none then "Failed to convert run number to unsigned long type"
       else if std.stoul p3 = none then "Failed to convert lane number to unsigned long type"
       else if std.stoul p4 = none then "Failed to convert tile number to unsigned long type"
       else if std.stoul p5 = none then "Failed to convert X position to unsigned long type"
       else "Failed to convert Y position to unsigned long type") := by
  have herr := illumina_parsePart1_error
    { s with seq_id_part_1 := part1, seq_id_part_2 := part2 } p0 p1 p2 p3 p4 p5 p6 hsplit hnone
  unfold IlluminaFASTQSequence.parse
  simp only [h1, if_true, hparts, h2, bind, Except.bind]
  simp only [h1, h2] at herr
  rw [herr]

theorem parseLine_conversion_error {M F : Type} [SAMAlignmentMandatoryFieldsTypeOps M]
    (optCtor : CppString → Bool → Bool → Bool → Bool → Bool → Except String F)
    (al : SAMAlignmentLine M F)
    (t0 t1 t2 t3 t4 t5 t6 t7 t8 t9 t10 : CppString) (rest : List CppString)
    (hparts : utk.splitString al.line '\t' =
      t0 :: t1 :: t2 :: t3 :: t4 :: t5 :: t6 :: t7 :: t8 :: t9 :: t10 :: rest)
    (hq : t0 ≠ [])
    (hnone : std.stoul t1 = none ∨ std.stoul t3 = none ∨ std.stoul t4 = none ∨
      std.stoul t7 = none ∨ std.stoll t8 = none) :
    SAMAlignmentLine.parseLine optCtor al = Except.error
      (if std.stoul t1 = none then "Failed to convert FLAG to std::size_t type!"
       else if std.stoul t3 = none then "Failed to convert POS to std::size_t type!"
       else if std.stoul t4 = none then "Failed to convert MAPQ to std::size_t type!"
       else if std.stoul t7 = none then "Failed to convert PNEXT to std::size_t type!"
       else "Failed to convert TLEN to long long type!") := by
  rw [parseLine_eq optCtor al hparts hq]
  simp only [bind, Except.bind, pure, Except.pure, convertSizeOr_eq, convertLongLongOr_eq]
  cases h1 : std.stoul t1 with
  | none => rw [if_pos rfl]
  | some v1 =>
    rw [if_neg (by simp)]
    cases h3 : std.stoul t3 with
    | none => rw [if_pos rfl]
    | some v3 =>
      rw [if_neg (by simp)]
      cases h4 : std.stoul t4 with
      | none => rw [if_pos rfl]
      | some v4 =>
        rw [if_neg (by simp)]
        cases h7 : std.stoul t7 with
        | none => rw [if_pos rfl]
        | some v7 =>
          rw [if_neg (by simp)]
          cases h8 : std.stoll t8 with
          | none => rfl
          | some v8 =>
            rw [h1, h3, h4, h7, h8] at hnone
            simp at hnone

/-- C19 (amended): the numeric conversions are `std::stoul` and `std::stoll`.
A token is converted from its subject sequence: leading white space and an
optional sign are skipped, the longest run of digits is taken and whatever
follows is ignored.  The conversion fails exactly when that run is empty or its
value is out of range (above `ULONG_MAX`, or outside `LLONG_MIN .. LLONG_MAX`);
otherwise it yields the value of the run, negated modulo `2^64` for an unsigned
field with a minus sign.  Whenever the conversion of the run, lane, tile, x or y
token of an identifier fails, `IlluminaFASTQSequence::parse` raises the logic
error that names the first such field (in that order) and `unsigned long`;
whenever the conversion of the FLAG, POS, MAPQ, PNEXT or TLEN token of an
alignment line fails, `SAMAlignmentLine::parseLine` raises the logic error
that names the first such field (in that order) and its type, `std::size_t`
for FLAG, POS, MAPQ and PNEXT and `long long` for TLEN. -/
theorem numeric_conversion_semantics {M F : Type} [SAMAlignmentMandatoryFieldsTypeOps M]
    (optCtor : CppString → Bool → Bool → Bool → Bool → Bool → Except String F) :
    (∀ tok, utk.convert_size_t tok =
      if (std.subjectSequence tok).2 = [] ∨
          std.digitsValue (std.subjectSequence tok).2 > std.ULONG_MAX then none
      else some (if (std.subjectSequence tok).1 then
                   (2 ^ 64 - std.digitsValue (std.subjectSequence tok).2) % 2 ^ 64
                 else std.digitsValue (std.subjectSequence tok).2)) ∧
    (∀ tok, utk.convert_long_long tok =
      if (std.subjectSequence tok).2 = [] then none
      else if (std.subjectSequence tok).1 then
        (if -(std.digitsValue (std.subjectSequence tok).2 : Int) < std.LLONG_MIN then none
         else some (-(std.digitsValue (std.subjectSequence tok).2 : Int)))
      else
        (if (std.digitsValue (std.subjectSequence tok).2 : Int) > std.LLONG_MAX then none
         else some (std.digitsValue (std.subjectSequence tok).2 : Int))) ∧
    (∀ (s : IlluminaFASTQSequence) (part1 part2 p0 p1 p2 p3 p4 p5 p6 : CppString),
      s.parse_seq_id_level_1 = true → s.parse_seq_id_level_2 = true →
      utk.splitStringSpaces s.lines.identifier = [part1, part2] →
      utk.splitString part1 ':' = [p0, p1, p2, p3, p4, p5, p6] →
      (std.stoul p1 = none ∨ std.stoul p3 = none ∨ std.stoul p4 = none ∨
        std.stoul p5 = none ∨ std.stoul p6 = none) →
      IlluminaFASTQSequence.parse s = Except.error
        (if std.stoul p1 = none then "Failed to convert run number to unsigned long type"
         else if std.stoul p3 = none then "Failed to convert lane number to unsigned long type"
         else if std.stoul p4 = none then "Failed to convert tile number to unsigned long type"
         else if std.stoul p5 = none then "Failed to convert X position to unsigned long type"
         else "Failed to convert Y position to unsigned long type")) ∧
    (∀ (al : SAMAlignmentLine M F) (t0 t1 t2 t3 t4 t5 t6 t7 t8 t9 t10 : CppString)
        (rest : List CppString),
      utk.splitString al.line '\t' =
        t0 :: t1 :: t2 :: t3 :: t4 :: t5 :: t6 :: t7 :: t8 :: t9 :: t10 :: rest →
      t0 ≠ [] →
      (utk.convert_size_t t1 = none ∨ utk.convert_size_t t3 = none ∨
        utk.convert_size_t t4 = none ∨ utk.convert_size_t t7 = none ∨
        utk.convert_long_long t8 = none) →
      SAMAlignmentLine.parseLine optCtor al = Except.error
        (if utk.convert_size_t t1 = none then "Failed to convert FLAG to std::size_t type!"
         else if utk.convert_size_t t3 = none then "Failed to convert POS to std::size_t type!"
         else if utk.convert_size_t t4 = none then "Failed to convert MAPQ to std::size_t type!"
         else if utk.convert_size_t t7 = none then
           "Failed to convert PNEXT to std::size_t type!"
         else "Failed to convert TLEN to long long type!")) :=
  ⟨stoul_eq_subject, stoll_eq_subject, illumina_parse_conversion_error,
    fun al t0 t1 t2 t3 t4 t5 t6 t7 t8 t9 t10 rest hparts hq hnone =>
      parseLine_conversion_error optCtor al t0 t1 t2 t3 t4 t5 t6 t7 t8 t9 t10 rest hparts hq hnone⟩

/-- C19 witness: the run token `x48` of an identifier has no digit to convert and the error
names the run number and `unsigned long`; the TLEN token `abc` of an alignment
line has no digit to convert and the error names TLEN and `long long`; the POS
token `99999999999999999999` is out of range and the error names POS and
`std::size_t`. -/
theorem numeric_conversion_semantics_witness :
    IlluminaFASTQSequence.parse
        { lines := { identifier := "@HWI-D00704:x48:C7302ANXX:1:1101:1103:2053 1:N:0:ATCACG".toList,
                     sequence := [], option := ['+'], quality := [] },
          parse_seq := true, parse_seq_id_level_1 := true, parse_seq_id_level_2 := true } =
        Except.error "Failed to convert run number to unsigned long type" ∧
    SAMAlignmentLine.parseLine (fun field _ _ _ _ _ => Except.ok field)
        ({ line := "r1\t0\tchr1\t100\t255\t4M\t=\t200\tabc\tACGT\tIIII".toList,
           mand_fields := {} } : SAMAlignmentLine SAMAlignmentMandatoryFields CppString) =
        Except.error "Failed to convert TLEN to long long type!" ∧
    SAMAlignmentLine.parseLine (fun field _ _ _ _ _ => Except.ok field)
        ({ line := "r1\t0\tchr1\t99999999999999999999\t255\t4M\t=\t200\t-50\tACGT\tIIII".toList,
           mand_fields := {} } : SAMAlignmentLine SAMAlignmentMandatoryFields CppString) =
        Except.error "Failed to convert POS to std::size_t type!" :=
  ⟨((@numeric_conversion_semantics SAMAlignmentMandatoryFields CppString _
      (fun field _ _ _ _ _ => Except.ok field)).2.2.1
      { lines := { identifier := "@HWI-D00704:x48:C7302ANXX:1:1101:1103:2053 1:N:0:ATCACG".toList,
                   sequence := [], option := ['+'], quality := [] },
        parse_seq := true, parse_seq_id_level_1 := true, parse_seq_id_level_2 := true }
      "@HWI-D00704:x48:C7302ANXX:1:1101:1103:2053".toList "1:N:0:ATCACG".toList
      "@HWI-D00704".toList "x48".toList "C7302ANXX".toList "1".toList "1101".toList
      "1103".toList "2053".toList rfl rfl (by decide) (by decide) (Or.inl (by decide))).trans
      (congrArg Except.error (by decide)),
   ((@numeric_conversion_semantics SAMAlignmentMandatoryFields CppString _
      (fun field _ _ _ _ _ => Except.ok field)).2.2.2
      ({ line := "r1\t0\tchr1\t100\t255\t4M\t=\t200\tabc\tACGT\tIIII".toList,
         mand_fields := {} } : SAMAlignmentLine SAMAlignmentMandatoryFields CppString)
      "r1".toList "0".toList "chr1".toList "100".toList "255".toList "4M".toList "=".toList
      "200".toList "abc".toList "ACGT".toList "IIII".toList [] (by decide) (by decide)
      (Or.inr (Or.inr (Or.inr (Or.inr (by decide)))))).trans
      (congrArg Except.error (by decide)),
   ((@numeric_conversion_semantics SAMAlignmentMandatoryFields CppString _
      (fun field _ _ _ _ _ => Except.ok field)).2.2.2
      ({ line := "r1\t0\tchr1\t99999999999999999999\t255\t4M\t=\t200\t-50\tACGT\tIIII".toList,
         mand_fields := {} } : SAMAlignmentLine SAMAlignmentMandatoryFields CppString)
      "r1".toList "0".toList "chr1".toList "99999999999999999999".toList "255".toList
      "4M".toList "=".toList
      "200".toList "-50".toList "ACGT".toList "IIII".toList [] (by decide) (by decide)
      (Or.inr (Or.inl (by decide)))).trans
      (congrArg Except.error (by decide))⟩

/-- C19 counterexample: tokens that are not entirely a decimal integer of the
target type are converted silently.  The identifier with run token `48abc` and
lane token `-1` is parsed with run number 48 and lane number `2^64 - 1`; the
alignment line with FLAG `12abc`, POS ` 7` (leading space), PNEXT `-1` and TLEN
`5x` is parsed with FLAG 12, POS 7, PNEXT `2^64 - 1` and TLEN 5. -/
theorem numeric_conversion_counterexample :
    (∃ s, IlluminaFASTQSequence.ctor
        "@HWI-D00704:48abc:C7302ANXX:-1:1101:1103:2053 1:N:0:ATCACG".toList
        "GAGCTGCTATTTTATATTATGACT".toList ['+'] "CCCBBGGGGGED1FFGG>GDFGEC".toList
        true true true false = Except.ok s ∧
      s.run_number = 48 ∧ s.lane_number = 18446744073709551615) ∧
    (∃ al1, SAMAlignmentLine.parseLine (fun field _ _ _ _ _ => Except.ok field)
        ({ line := "r1\t12abc\tchr1\t 7\t255\t4M\t=\t-1\t5x\tACGT\tIIII".toList,
           mand_fields := {} } : SAMAlignmentLine SAMAlignmentMandatoryFields CppString) =
        Except.ok al1 ∧
      al1.mand_fields.flag = 12 ∧ al1.mand_fields.pos = 7 ∧
      al1.mand_fields.pnext = 18446744073709551615 ∧ al1.mand_fields.tlen = 5) :=
  ⟨⟨_, rfl, by decide, by decide⟩, ⟨_, rfl, by decide, by decide, by decide, by decide⟩⟩

/-! ## The alignment pipe -/

section Pipe

open SAMAlignmentPipe

variable {W C A D H : Type}

theorem pipe_processAlignmentLine_counters (ops : SAMAlignmentPipeOps W C A D H)
    (p p1 : SAMAlignmentPipe W C) (line : CppString)
    (h : processAlignmentLine ops p line = Except.ok p1) :
    p1.n_read_align_lines = p.n_read_align_lines + 1 ∧
    p1.n_read_header_data_lines = p.n_read_header_data_lines ∧
    p1.n_read_header_comment_lines = p.n_read_header_comment_lines := by
  unfold processAlignmentLine at h
  simp only [bind, Except.bind, pure, Except.pure] at h
  repeat' split at h
  all_goals cases h
  all_goals exact ⟨rfl, rfl, rfl⟩

theorem pipe_processHeaderDataLine_counters (ops : SAMAlignmentPipeOps W C A D H)
    (p p1 : SAMAlignmentPipe W C) (line : CppString)
    (h : processHeaderDataLine ops p line = Except.ok p1) :
    p1.n_read_align_lines = p.n_read_align_lines ∧
    p1.n_read_header_data_lines = p.n_read_header_data_lines + 1 ∧
    p1.n_read_header_comment_lines = p.n_read_header_comment_lines := by
  unfold processHeaderDataLine at h
  simp only [bind, Except.bind, pure, Except.pure] at h
  repeat' split at h
  all_goals cases h
  all_goals exact ⟨rfl, rfl, rfl⟩

theorem pipe_processHeaderCommentLine_counters (ops : SAMAlignmentPipeOps W C A D H)
    (p p1 : SAMAlignmentPipe W C) (line : CppString)
    (h : processHeaderCommentLine ops p line = Except.ok p1) :
    p1.n_read_align_lines = p.n_read_align_lines ∧
    p1.n_read_header_data_lines = p.n_read_header_data_lines ∧
    p1.n_read_header_comment_lines = p.n_read_header_comment_lines + 1 := by
  unfold processHeaderCommentLine at h
  simp only [bind, Except.bind, pure, Except.pure] at h
  repeat' split at h
  all_goals cases h
  all_goals exact ⟨rfl, rfl, rfl⟩

theorem pipe_front_ne_iff (line : CppString) :
    (CppString.front line != SAMHeaderLine.getBeginChar) = (line.head? != some '@') := by
  cases line with
  | nil => rfl
  | cons c cs =>
    simp only [CppString.front, List.headD_cons, SAMHeaderLine.getBeginChar,
      SAMHeaderLine.beg_char, List.head?_cons]
    by_cases hc : c = '@'
    · subst hc
      rfl
    · simp [bne, hc]

theorem pipe_substr_ne_iff (line : CppString) :
    (CppString.substr line 0 SAMHeaderCommentLine.getStdSAMCommentHeaderRecordType.length
      != SAMHeaderCommentLine.getStdSAMCommentHeaderRecordType) =
      !("@CO".toList.isPrefixOf line) := by
  have e : CppString.substr line 0 SAMHeaderCommentLine.getStdSAMCommentHeaderRecordType.length
      = line.take 3 := rfl
  have e2 : SAMHeaderCommentLine.getStdSAMCommentHeaderRecordType = "@CO".toList := rfl
  rw [e, e2]
  by_cases hp : "@CO".toList <+: line
  · have h1 : "@CO".toList.isPrefixOf line = true := List.isPrefixOf_iff_prefix.mpr hp
    have h2 : line.take 3 = "@CO".toList := (List.prefix_iff_eq_take.mp hp).symm
    rw [h1, h2]
    rfl
  · have h1 : "@CO".toList.isPrefixOf line = false := by
      cases hb : "@CO".toList.isPrefixOf line with
      | false => rfl
      | true => exact absurd (List.isPrefixOf_iff_prefix.mp hb) hp
    have h2 : line.take 3 ≠ "@CO".toList := by
      intro e3
      apply hp
      rw [List.prefix_iff_eq_take]
      exact e3.symm
    rw [h1]
    show (!(line.take 3 == "@CO".toList)) = (!false)
    rw [beq_false_of_ne h2]

theorem pipe_processLine_counters (ops : SAMAlignmentPipeOps W C A D H)
    (p p1 : SAMAlignmentPipe W C) (line : CppString)
    (h : processLine ops p line = Except.ok p1) :
    p1.n_read_align_lines =
      p.n_read_align_lines + (if (line.head? != some '@') = true then 1 else 0) ∧
    p1.n_read_header_comment_lines =
      p.n_read_header_comment_lines +
        (if (line.head? == some '@' && "@CO".toList.isPrefixOf line) = true then 1 else 0) ∧
    p1.n_read_header_data_lines =
      p.n_read_header_data_lines +
        (if (line.head? == some '@' && !("@CO".toList.isPrefixOf line)) = true then 1 else 0) := by
  unfold processLine at h
  simp only [pipe_front_ne_iff, pipe_substr_ne_iff] at h
  cases ha : (line.head? != some '@')
  · have hb : (line.head? == some '@') = true := by
      simpa [bne] using ha
    rw [ha] at h
    simp only [Bool.false_eq_true, if_false] at h
    cases hc : "@CO".toList.isPrefixOf line
    · rw [hc] at h
      simp only [Bool.not_false, if_true] at h
      obtain ⟨h1, h2, h3⟩ := pipe_processHeaderDataLine_counters ops p p1 line h
      simp [hb, h1, h2, h3]
    · rw [hc] at h
      simp only [Bool.not_true, Bool.false_eq_true, if_false] at h
      obtain ⟨h1, h2, h3⟩ := pipe_processHeaderCommentLine_counters ops p p1 line h
      simp [hb, h1, h2, h3]
  · have hb : (line.head? == some '@') = false := by
      simpa [bne] using ha
    rw [ha] at h
    simp only [if_true] at h
    obtain ⟨h1, h2, h3⟩ := pipe_processAlignmentLine_counters ops p p1 line h
    simp [hb, h1, h2, h3]

theorem pipe_processLines_counters (ops : SAMAlignmentPipeOps W C A D H)
    (lines : List CppString) (p p1 : SAMAlignmentPipe W C)
    (h : processLines ops p lines = Except.ok p1) :
    p1.n_read_align_lines =
      p.n_read_align_lines + lines.countP (fun line => line.head? != some '@') ∧
    p1.n_read_header_comment_lines =
      p.n_read_header_comment_lines +
        lines.countP (fun line => line.head? == some '@' && "@CO".toList.isPrefixOf line) ∧
    p1.n_read_header_data_lines =
      p.n_read_header_data_lines +
        lines.countP (fun line => line.head? == some '@' && !("@CO".toList.isPrefixOf line)) := by
  induction lines generalizing p with
  | nil =>
    simp only [processLines, Except.ok.injEq] at h
    subst h
    simp
  | cons line rest ih =>
    simp only [processLines, bind, Except.bind] at h
    split at h
    · cases h
    rename_i p2 hp2
    obtain ⟨a1, a2, a3⟩ := pipe_processLine_counters ops p p2 line hp2
    obtain ⟨b1, b2, b3⟩ := ih p2 h
    rw [b1, b2, b3, a1, a2, a3]
    simp only [List.countP_cons]
    omega

theorem pipe_count_partition (lines : List CppString) :
    lines.countP (fun line => line.head? == some '@' && !("@CO".toList.isPrefixOf line)) +
      lines.countP (fun line => line.head? == some '@' && "@CO".toList.isPrefixOf line) +
      lines.countP (fun line => line.head? != some '@') = lines.length := by
  induction lines with
  | nil => rfl
  | cons line rest ih =>
    have h3 : (line.head? != some '@') = !(line.head? == some '@') := rfl
    simp only [List.countP_cons, List.length_cons]
    cases h1 : (line.head? == some '@') <;> cases h2 : "@CO".toList.isPrefixOf line <;>
      simp only [h3, h1, h2, Bool.false_and, Bool.true_and, Bool.not_true, Bool.not_false,
        Bool.false_eq_true, if_false, if_true] <;> omega

end Pipe

section PipeRun

open SAMAlignmentPipe

variable {W C A D H : Type}

theorem pipe_comment_start (line : CppString) :
    (line.head? == some '@' && "@CO".toList.isPrefixOf line) = "@CO".toList.isPrefixOf line := by
  cases line with
  | nil => rfl
  | cons c cs =>
    by_cases hc : c = '@'
    · subst hc
      rfl
    · have h1 : ((c :: cs).head? == some '@') = false := by simp [hc]
      have h2 : "@CO".toList.isPrefixOf (c :: cs) = false := by
        have hc2 : ¬ '@' = c := fun e => hc e.symm
        simp [List.isPrefixOf, hc2]
      rw [h1, h2]
      rfl

theorem pipe_processAlignmentLine_total (ops : SAMAlignmentPipeOps W C A D H)
    (hra : ∀ line, ∃ r, ops.readAlignmentLine line = Except.ok r)
    (hca : ∀ counter obj, ∃ r, ops.countAlignmentLine counter obj = Except.ok r)
    (hwa : ∀ writer obj, ∃ r, ops.writeAlignmentLine writer obj = Except.ok r)
    (p : SAMAlignmentPipe W C) (line : CppString) :
    ∃ p1, processAlignmentLine ops p line = Except.ok p1 := by
  unfold processAlignmentLine
  obtain ⟨⟨status, obj⟩, e1⟩ := hra line
  simp only [e1, bind, Except.bind, pure, Except.pure]
  cases status
  · exact ⟨_, rfl⟩
  · obtain ⟨⟨counter, count, aux_count⟩, e2⟩ := hca p.align_counter obj
    simp only [e2, if_true]
    cases count
    · exact ⟨_, rfl⟩
    · obtain ⟨writer, e3⟩ := hwa p.file_writer obj
      simp only [e3, if_true]
      exact ⟨_, rfl⟩

theorem pipe_processHeaderDataLine_total (ops : SAMAlignmentPipeOps W C A D H)
    (hrd : ∀ line, ∃ r, ops.readHeaderDataLine line = Except.ok r)
    (hcd : ∀ counter obj, ∃ r, ops.countHeaderDataLine counter obj = Except.ok r)
    (hwd : ∀ writer obj, ∃ r, ops.writeHeaderDataLine writer obj = Except.ok r)
    (p : SAMAlignmentPipe W C) (line : CppString) :
    ∃ p1, processHeaderDataLine ops p line = Except.ok p1 := by
  unfold processHeaderDataLine
  obtain ⟨⟨status, obj⟩, e1⟩ := hrd line
  simp only [e1, bind, Except.bind, pure, Except.pure]
  cases status
  · exact ⟨_, rfl⟩
  · obtain ⟨⟨counter, count, aux_count⟩, e2⟩ := hcd p.align_counter obj
    simp only [e2, if_true]
    cases count
    · exact ⟨_, rfl⟩
    · obtain ⟨writer, e3⟩ := hwd p.file_writer obj
      simp only [e3, if_true]
      exact ⟨_, rfl⟩

theorem pipe_processHeaderCommentLine_total (ops : SAMAlignmentPipeOps W C A D H)
    (hrc : ∀ line, ∃ r, ops.readHeaderCommentLine line = Except.ok r)
    (hcc : ∀ counter obj, ∃ r, ops.countHeaderCommentLine counter obj = Except.ok r)
    (hwc : ∀ writer obj, ∃ r, ops.writeHeaderCommentLine writer obj = Except.ok r)
    (p : SAMAlignmentPipe W C) (line : CppString) :
    ∃ p1, processHeaderCommentLine ops p line = Except.ok p1 := by
  unfold processHeaderCommentLine
  obtain ⟨⟨status, obj⟩, e1⟩ := hrc line
  simp only [e1, bind, Except.bind, pure, Except.pure]
  cases status
  · exact ⟨_, rfl⟩
  · obtain ⟨⟨counter, count, aux_count⟩, e2⟩ := hcc p.align_counter obj
    simp only [e2, if_true]
    cases count
    · exact ⟨_, rfl⟩
    · obtain ⟨writer, e3⟩ := hwc p.file_writer obj
      simp only [e3, if_true]
      exact ⟨_, rfl⟩

theorem pipe_processLine_total (ops : SAMAlignmentPipeOps W C A D H)
    (hra : ∀ line, ∃ r, ops.readAlignmentLine line = Except.ok r)
    (hrd : ∀ line, ∃ r, ops.readHeaderDataLine line = Except.ok r)
    (hrc : ∀ line, ∃ r, ops.readHeaderCommentLine line = Except.ok r)
    (hca : ∀ counter obj, ∃ r, ops.countAlignmentLine counter obj = Except.ok r)
    (hcd : ∀ counter obj, ∃ r, ops.countHeaderDataLine counter obj = Except.ok r)
    (hcc : ∀ counter obj, ∃ r, ops.countHeaderCommentLine counter obj = Except.ok r)
    (hwa : ∀ writer obj, ∃ r, ops.writeAlignmentLine writer obj = Except.ok r)
    (hwd : ∀ writer obj, ∃ r, ops.writeHeaderDataLine writer obj = Except.ok r)
    (hwc : ∀ writer obj, ∃ r, ops.writeHeaderCommentLine writer obj = Except.ok r)
    (p : SAMAlignmentPipe W C) (line : CppString) :
    ∃ p1, processLine ops p line = Except.ok p1 := by
  unfold processLine
  by_cases h1 : (CppString.front line != SAMHeaderLine.getBeginChar) = true
  · rw [if_pos h1]
    exact pipe_processAlignmentLine_total ops hra hca hwa p line
  · rw [if_neg h1]
    dsimp only
    by_cases h2 : (CppString.substr line 0
        SAMHeaderCommentLine.getStdSAMCommentHeaderRecordType.length
        != SAMHeaderCommentLine.getStdSAMCommentHeaderRecordType) = true
    · rw [if_pos h2]
      exact pipe_processHeaderDataLine_total ops hrd hcd hwd p line
    · rw [if_neg h2]
      exact pipe_processHeaderCommentLine_total ops hrc hcc hwc p line

theorem pipe_processLines_total (ops : SAMAlignmentPipeOps W C A D H)
    (hstep : ∀ p line, ∃ p1, processLine ops p line = Except.ok p1)
    (lines : List CppString) (p : SAMAlignmentPipe W C) :
    ∃ p1, processLines ops p lines = Except.ok p1 := by
  induction lines generalizing p with
  | nil => exact ⟨p, rfl⟩
  | cons line rest ih =>
    obtain ⟨p2, h2⟩ := hstep p line
    obtain ⟨p3, h3⟩ := ih p2
    exact ⟨p3, by simp only [processLines, bind, Except.bind, h2, h3]⟩

/-- C20: `SAMAlignmentPipe::run` classifies every line by its prefix alone.  For
one line, whenever the loop body completes, exactly one of the three read
counters grows by one: the alignment counter iff the first character is not
`@`, the header comment counter iff the line starts with `@CO`, the header data
counter iff the line starts with `@` but not with `@CO`.  Whenever `run`
returns, the three read counters are the numbers of lines of the three kinds
and the returned total is the number of lines read; and it does return when
none of the reader, counter and writer operations throws. -/
theorem pipe_run_classification (ops : SAMAlignmentPipeOps W C A D H) :
    (∀ (p p1 : SAMAlignmentPipe W C) (line : CppString),
      processLine ops p line = Except.ok p1 →
      p1.n_read_align_lines =
        p.n_read_align_lines + (if (line.head? != some '@') = true then 1 else 0) ∧
      p1.n_read_header_comment_lines =
        p.n_read_header_comment_lines +
          (if "@CO".toList.isPrefixOf line = true then 1 else 0) ∧
      p1.n_read_header_data_lines =
        p.n_read_header_data_lines +
          (if (line.head? == some '@' && !("@CO".toList.isPrefixOf line)) = true
            then 1 else 0)) ∧
    (∀ (file_writer : W) (align_counter : C) (lines : List CppString) (n : Nat)
        (p : SAMAlignmentPipe W C),
      run ops file_writer align_counter lines = Except.ok (n, p) →
      p.n_read_align_lines = lines.countP (fun line => line.head? != some '@') ∧
      p.n_read_header_comment_lines =
        lines.countP (fun line => "@CO".toList.isPrefixOf line) ∧
      p.n_read_header_data_lines =
        lines.countP (fun line => line.head? == some '@' && !("@CO".toList.isPrefixOf line)) ∧
      n = p.n_read_header_data_lines + p.n_read_header_comment_lines + p.n_read_align_lines ∧
      n = lines.length) ∧
    ((∀ line, ∃ r, ops.readAlignmentLine line = Except.ok r) →
      (∀ line, ∃ r, ops.readHeaderDataLine line = Except.ok r) →
      (∀ line, ∃ r, ops.readHeaderCommentLine line = Except.ok r) →
      (∀ counter obj, ∃ r, ops.countAlignmentLine counter obj = Except.ok r) →
      (∀ counter obj, ∃ r, ops.countHeaderDataLine counter obj = Except.ok r) →
      (∀ counter obj, ∃ r, ops.countHeaderCommentLine counter obj = Except.ok r) →
      (∀ writer obj, ∃ r, ops.writeAlignmentLine writer obj = Except.ok r) →
      (∀ writer obj, ∃ r, ops.writeHeaderDataLine writer obj = Except.ok r) →
      (∀ writer obj, ∃ r, ops.writeHeaderCommentLine writer obj = Except.ok r) →
      ∀ (file_writer : W) (align_counter : C) (lines : List CppString),
        ∃ p, run ops file_writer align_counter lines = Except.ok (lines.length, p)) := by
  have hrun : ∀ (file_writer : W) (align_counter : C) (lines : List CppString) (n : Nat)
      (p : SAMAlignmentPipe W C),
      run ops file_writer align_counter lines = Except.ok (n, p) →
      p.n_read_align_lines = lines.countP (fun line => line.head? != some '@') ∧
      p.n_read_header_comment_lines =
        lines.countP (fun line => "@CO".toList.isPrefixOf line) ∧
      p.n_read_header_data_lines =
        lines.countP (fun line => line.head? == some '@' && !("@CO".toList.isPrefixOf line)) ∧
      n = p.n_read_header_data_lines + p.n_read_header_comment_lines + p.n_read_align_lines ∧
      n = lines.length := by
    intro file_writer align_counter lines n p h
    unfold run at h
    simp only [bind, Except.bind, pure, Except.pure] at h
    split at h
    · cases h
    rename_i p2 hp2
    simp only [Except.ok.injEq, Prod.mk.injEq] at h
    obtain ⟨hn, hp⟩ := h
    subst hp
    obtain ⟨a1, a2, a3⟩ := pipe_processLines_counters ops lines _ _ hp2
    simp only [Nat.zero_add, pipe_comment_start] at a1 a2 a3
    have hpart := pipe_count_partition lines
    simp only [pipe_comment_start] at hpart
    refine ⟨a1, a2, a3, hn.symm, ?_⟩
    rw [← hn, a1, a2, a3]
    exact hpart
  refine ⟨?_, hrun, ?_⟩
  · intro p p1 line h
    have := pipe_processLine_counters ops p p1 line h
    simpa only [pipe_comment_start] using this
  · intro hra hrd hrc hca hcd hcc hwa hwd hwc file_writer align_counter lines
    obtain ⟨p1, h1⟩ := pipe_processLines_total ops
      (pipe_processLine_total ops hra hrd hrc hca hcd hcc hwa hwd hwc) lines
      { file_writer := file_writer, align_counter := align_counter }
    have hr : run ops file_writer align_counter lines =
        Except.ok (p1.n_read_header_data_lines + p1.n_read_header_comment_lines +
          p1.n_read_align_lines, p1) := by
      simp only [run, bind, Except.bind, pure, Except.pure, h1]
    obtain ⟨-, -, -, -, hlen⟩ := hrun file_writer align_counter lines _ p1 hr
    rw [hlen] at hr
    exact ⟨p1, hr⟩

/-- C20 witness: four lines (one header data line, one header comment line, two
alignment lines) through the pass-through instantiation. -/
theorem pipe_run_classification_witness :
    ∃ p, run exampleOps [] 0 exampleLines = Except.ok (4, p) ∧
      p.n_read_align_lines = 2 ∧ p.n_read_header_comment_lines = 1 ∧
      p.n_read_header_data_lines = 1 ∧
      p.n_read_align_lines = exampleLines.countP (fun line => line.head? != some '@') ∧
      p.n_read_header_comment_lines =
        exampleLines.countP (fun line => "@CO".toList.isPrefixOf line) ∧
      p.n_read_header_data_lines =
        exampleLines.countP
          (fun line => line.head? == some '@' && !("@CO".toList.isPrefixOf line)) ∧
      4 = p.n_read_header_data_lines + p.n_read_header_comment_lines + p.n_read_align_lines ∧
      4 = exampleLines.length :=
  ⟨_, rfl, rfl, rfl, rfl, (pipe_run_classification exampleOps).2.1 [] 0 exampleLines 4 _ rfl⟩

end PipeRun

theorem splitOnChar_cons_ne (sep c : Char) (cs : CppString) (hc : c ≠ sep) :
    ∃ p ps, utk.splitOnChar sep cs = p :: ps ∧ utk.splitOnChar sep (c :: cs) = (c :: p) :: ps := by
  cases h : utk.splitOnChar sep cs with
  | nil => exact absurd h (splitOnChar_ne_nil sep cs)
  | cons p ps =>
    refine ⟨p, ps, rfl, ?_⟩
    simp only [utk.splitOnChar, hc, if_false, h]

theorem splitOnChar_sep_free (sep : Char) (s : CppString) :
    ∀ p ∈ utk.splitOnChar sep s, sep ∉ p := by
  induction s with
  | nil => simp [utk.splitOnChar]
  | cons c cs ih =>
    by_cases hc : c = sep
    · intro p hp
      simp only [utk.splitOnChar, hc, if_true, List.mem_cons] at hp
      rcases hp with rfl | hp
      · simp
      · exact ih p hp
    · obtain ⟨p0, ps, h1, h2⟩ := splitOnChar_cons_ne sep c cs hc
      intro p hp
      rw [h2] at hp
      rw [h1] at ih
      simp only [List.mem_cons] at hp
      rcases hp with rfl | hp
      · have := ih p0 (by simp)
        simp only [List.mem_cons, not_or]
        exact ⟨fun e => hc e.symm, this⟩
      · exact ih p (by simp [hp])

theorem splitOnChar_length (sep : Char) (s : CppString) :
    (utk.splitOnChar sep s).length = s.count sep + 1 := by
  induction s with
  | nil => simp [utk.splitOnChar]
  | cons c cs ih =>
    by_cases hc : c = sep
    · simp only [utk.splitOnChar, hc, if_true, List.length_cons, ih, List.count_cons_self]
    · obtain ⟨p0, ps, h1, h2⟩ := splitOnChar_cons_ne sep c cs hc
      have hc2 : ¬ sep = c := fun e => hc e.symm
      rw [h2, List.count_cons_of_ne hc2, ← ih, h1]
      simp

theorem splitOnChar_intercalate (sep : Char) (s : CppString) :
    [sep].intercalate (utk.splitOnChar sep s) = s := by
  induction s with
  | nil => simp [utk.splitOnChar, List.intercalate]
  | cons c cs ih =>
    by_cases hc : c = sep
    · simp only [utk.splitOnChar, hc, if_true]
      cases h : utk.splitOnChar sep cs with
      | nil => exact absurd h (splitOnChar_ne_nil sep cs)
      | cons p ps =>
        rw [h] at ih
        have : [sep].intercalate ([] :: p :: ps) = sep :: [sep].intercalate (p :: ps) := by
          simp [List.intercalate, List.intersperse]
        rw [this, ih]
    · obtain ⟨p0, ps, h1, h2⟩ := splitOnChar_cons_ne sep c cs hc
      rw [h2]
      rw [h1] at ih
      have : [sep].intercalate ((c :: p0) :: ps) = c :: [sep].intercalate (p0 :: ps) := by
        cases ps <;> simp [List.intercalate, List.intersperse]
      rw [this, ih]

theorem splitOnChar_of_intercalate (sep : Char) (parts : List CppString) (hne : parts ≠ [])
    (hfree : ∀ p ∈ parts, sep ∉ p) :
    utk.splitOnChar sep ([sep].intercalate parts) = parts := by
  induction parts with
  | nil => exact absurd rfl hne
  | cons p ps ih =>
    cases ps with
    | nil =>
      have : [sep].intercalate [p] = p := by simp [List.intercalate, List.intersperse]
      rw [this]
      exact splitOnChar_no_sep sep p (hfree p (by simp))
    | cons q qs =>
      have e : [sep].intercalate (p :: q :: qs) = p ++ sep :: [sep].intercalate (q :: qs) := by
        simp [List.intercalate, List.intersperse]
      rw [e, splitOnChar_append, splitOnChar_no_sep sep p (hfree p (by simp)),
        ih (by simp) (fun x hx => hfree x (by simp [hx]))]
      rfl

theorem sregex_token_iterator_eq (sep : Char) (s : CppString) (hs : s ≠ []) :
    (if s.getLast? = some sep then utk.sregex_token_iterator sep s ++ [[]]
      else utk.sregex_token_iterator sep s) = utk.splitOnChar sep s := by
  induction s with
  | nil => exact absurd rfl hs
  | cons c cs ih =>
    cases cs with
    | nil =>
      by_cases hc : c = sep
      · simp [utk.sregex_token_iterator, utk.splitOnChar, hc]
      · simp [utk.sregex_token_iterator, utk.splitOnChar, hc]
    | cons d ds =>
      have ih2 := ih (by simp)
      have hl : (c :: d :: ds).getLast? = (d :: ds).getLast? := by simp [List.getLast?_cons_cons]
      rw [hl]
      have hne : utk.sregex_token_iterator sep (d :: ds) ≠ [] := by
        unfold utk.sregex_token_iterator
        split_ifs
        · simp
        · split <;> simp
      by_cases hc : c = sep
      · rw [show utk.sregex_token_iterator sep (c :: d :: ds)
            = [] :: utk.sregex_token_iterator sep (d :: ds) by
              simp only [utk.sregex_token_iterator, hc, if_true]]
        rw [show utk.splitOnChar sep (c :: d :: ds) = [] :: utk.splitOnChar sep (d :: ds) by
              simp only [utk.splitOnChar, hc, if_true]]
        rw [← ih2]
        split_ifs <;> simp
      · cases ht : utk.sregex_token_iterator sep (d :: ds) with
        | nil => exact absurd ht hne
        | cons p ps =>
          rw [show utk.sregex_token_iterator sep (c :: d :: ds) = (c :: p) :: ps by
                rw [utk.sregex_token_iterator]
                simp only [hc, if_false, ht]]
          rw [ht] at ih2
          obtain ⟨p0, ps0, h1, h2⟩ := splitOnChar_cons_ne sep c (d :: ds) hc
          rw [h2]
          rw [h1] at ih2
          split_ifs at ih2 ⊢ with hlast
          · simp only [List.cons_append, List.cons.injEq] at ih2
            simp [ih2.1, ih2.2]
          · simp only [List.cons.injEq] at ih2
            simp [ih2.1, ih2.2]

/-- The loop of the source (token iterator, then the empty last part when the
string ends with the separator) computes the pieces that `utk.splitString`
returns. -/
theorem splitStringLoop_eq (str : CppString) (sep : Char) :
    utk.splitStringLoop str sep = utk.splitString str sep := by
  unfold utk.splitStringLoop utk.splitString
  cases str with
  | nil => rfl
  | cons c cs =>
    simp only [List.isEmpty_cons, Bool.false_eq_true, if_false]
    exact sregex_token_iterator_eq sep (c :: cs) (by simp)

/-- Claim C28: for a non-empty string `s` and a separator `c` that is no pattern
metacharacter, `utk::splitString(s, c)` (the loop of the source, which equals
`utk.splitString`) returns the `c`-free pieces of `s` in order: no part contains
`c`, there are (occurrences of `c` in `s`) + 1 parts, joining the parts with `c`
gives `s` back, and the result is the only non-empty list of `c`-free parts with
that property (so a leading, a trailing and two consecutive separators each
give an empty part); the empty string gives the empty list. -/
theorem splitString_pieces (s : CppString) (c : Char) (hs : s ≠ [])
    (_hc : utk.isSyntaxCharacter c = false) :
    utk.splitStringLoop s c = utk.splitString s c ∧
    (∀ p ∈ utk.splitString s c, c ∉ p) ∧
    (utk.splitString s c).length = s.count c + 1 ∧
    [c].intercalate (utk.splitString s c) = s ∧
    (∀ parts : List CppString, parts ≠ [] → (∀ p ∈ parts, c ∉ p) →
      [c].intercalate parts = s → utk.splitString s c = parts) ∧
    (∀ t, utk.splitString (c :: t) c = [] :: utk.splitOnChar c t) ∧
    (∀ t, utk.splitString (t ++ [c]) c = utk.splitOnChar c t ++ [[]]) ∧
    (∀ a b, utk.splitString (a ++ c :: c :: b) c
      = utk.splitOnChar c a ++ [] :: utk.splitOnChar c b) ∧
    utk.splitStringLoop [] c = [] ∧ utk.splitString [] c = [] := by
  have e : utk.splitString s c = utk.splitOnChar c s := by
    cases s with
    | nil => exact absurd rfl hs
    | cons x xs => rfl
  refine ⟨splitStringLoop_eq s c, ?_, ?_, ?_, ?_, ?_, ?_, ?_, rfl, rfl⟩
  · rw [e]; exact splitOnChar_sep_free c s
  · rw [e]; exact splitOnChar_length c s
  · rw [e]; exact splitOnChar_intercalate c s
  · intro parts hne hfree hj
    rw [e, ← hj]
    exact splitOnChar_of_intercalate c parts hne hfree
  · intro t
    simp [utk.splitString, utk.splitOnChar]
  · intro t
    have : utk.splitString (t ++ [c]) c = utk.splitOnChar c (t ++ [c]) := by
      cases t <;> rfl
    rw [this, splitOnChar_append]
    rfl
  · intro a b
    have : utk.splitString (a ++ c :: c :: b) c = utk.splitOnChar c (a ++ c :: c :: b) := by
      cases a <;> rfl
    rw [this, splitOnChar_append]
    simp [utk.splitOnChar]

theorem splitString_pieces_witness :
    utk.splitString ":a::b:".toList ':' = [[], ['a'], [], ['b'], []] ∧
    (utk.splitString ":a::b:".toList ':').length = (":a::b:".toList).count ':' + 1 ∧
    [':'].intercalate (utk.splitString ":a::b:".toList ':') = ":a::b:".toList :=
  ⟨by decide, (splitString_pieces ":a::b:".toList ':' (by decide) (by decide)).2.2.1,
    (splitString_pieces ":a::b:".toList ':' (by decide) (by decide)).2.2.2.1⟩

/-- Claim C27 (what the code does): `utk::convert<bool>` gives true exactly for the
texts that read "true" once every letter is lowered, false exactly for those
that read "false", and raises "Cannot convert ... to boolean" for every other
text. -/
theorem convert_bool_spellings (str : CppString) :
    (utk.convert_bool str = Except.ok true ↔ utk.toLowerString str = "true".toList) ∧
    (utk.convert_bool str = Except.ok false ↔ utk.toLowerString str = "false".toList) ∧
    (utk.toLowerString str ≠ "true".toList → utk.toLowerString str ≠ "false".toList →
      utk.convert_bool str =
        Except.error ("Cannot convert " ++ String.mk str ++ " to boolean")) := by
  have hne : "true".toList ≠ "false".toList := by decide
  unfold utk.convert_bool
  by_cases h1 : utk.toLowerString str = "true".toList
  · have h2 : ¬ utk.toLowerString str = "false".toList := fun e => hne (h1.symm.trans e)
    dsimp only
    rw [if_pos h1]
    exact ⟨⟨fun _ => h1, fun _ => rfl⟩, ⟨(fun h => by cases h), fun h => absurd h h2⟩,
      fun h => absurd h1 h⟩
  · by_cases h2 : utk.toLowerString str = "false".toList
    · dsimp only
      rw [if_neg h1, if_pos h2]
      exact ⟨⟨(fun h => by cases h), fun h => absurd h h1⟩, ⟨fun _ => h2, fun _ => rfl⟩,
        fun _ h => absurd h2 h⟩
    · dsimp only
      rw [if_neg h1, if_neg h2]
      exact ⟨⟨(fun h => by cases h), fun h => absurd h h1⟩,
        ⟨(fun h => by cases h), fun h => absurd h h2⟩, fun _ _ => rfl⟩

/-- Claim C27, counterexample: the texts "1" and "0" are not converted, both raise
the conversion error, while "true", "TRUE", "false" and "False" are converted. -/
theorem convert_bool_digit_counterexample :
    utk.convert_bool "1".toList = Except.error "Cannot convert 1 to boolean" ∧
    utk.convert_bool "0".toList = Except.error "Cannot convert 0 to boolean" ∧
    utk.convert_bool "1".toList ≠ Except.ok true ∧
    utk.convert_bool "0".toList ≠ Except.ok false ∧
    utk.convert_bool "true".toList = Except.ok true ∧
    utk.convert_bool "TRUE".toList = Except.ok true ∧
    utk.convert_bool "false".toList = Except.ok false ∧
    utk.convert_bool "False".toList = Except.ok false := by
  refine ⟨rfl, rfl, ?_, ?_, rfl, rfl, rfl, rfl⟩
  · intro h; cases h
  · intro h; cases h

theorem composited_parse_fields {s c : CompositedDGEIlluminaFASTQSequence}
    (h : CompositedDGEIlluminaFASTQSequence.parse s = Except.ok c) :
    ∃ p0 p1 p2 p3 p4 p5 p6 barcode v1 v3 v4 v5 v6,
      utk.splitString s.lines.identifier ':' = [p0, p1, p2, p3, p4, p5, p6, barcode] ∧
      std.stoul p1 = some v1 ∧ std.stoul p3 = some v3 ∧ std.stoul p4 = some v4 ∧
      std.stoul p5 = some v5 ∧ std.stoul p6 = some v6 ∧ barcode.length = 16 ∧
      c = CompositedDGEIlluminaFASTQSequence.setGroupId
        { s with instrument_id := IlluminaFASTQSequence.stripAt p0, run_number := v1,
                 flowcell_id := p2, lane_number := v3, tile_number := v4,
                 x_pos := v5, y_pos := v6,
                 well_barcode := barcode.take 6,
                 umi_barcode := barcode.drop 6 } := by
  unfold CompositedDGEIlluminaFASTQSequence.parse at h
  split at h
  · rename_i p0 p1 p2 p3 p4 p5 p6 barcode hsplit
    simp only [bind, Except.bind, pure, Except.pure] at h
    split at h
    · simp at h
    rename_i v1 h1
    split at h
    · simp at h
    rename_i v3 h3
    split at h
    · simp at h
    rename_i v4 h4
    split at h
    · simp at h
    rename_i v5 h5
    split at h
    · simp at h
    rename_i v6 h6
    split at h
    · simp at h
    rename_i hlen
    have hlen16 : barcode.length = 16 := by
      simpa [DGEIlluminaFASTQSequence.well_barcode_length,
        DGEIlluminaFASTQSequence.umi_barcode_length,
        DGEIlluminaFASTQSequence.well_barcode_beg_pos,
        DGEIlluminaFASTQSequence.well_barcode_end_pos,
        DGEIlluminaFASTQSequence.umi_barcode_beg_pos,
        DGEIlluminaFASTQSequence.umi_barcode_end_pos] using hlen
    refine ⟨p0, p1, p2, p3, p4, p5, p6, barcode, v1, v3, v4, v5, v6, hsplit,
      stoulOr_ok h1, stoulOr_ok h3, stoulOr_ok h4, stoulOr_ok h5, stoulOr_ok h6, hlen16, ?_⟩
    simp only [Except.ok.injEq] at h
    rw [← h]
    have e1 : CppString.substr barcode DGEIlluminaFASTQSequence.well_barcode_beg_pos
        DGEIlluminaFASTQSequence.well_barcode_length = barcode.take 6 := by
      simp [CppString.substr, DGEIlluminaFASTQSequence.well_barcode_length,
        DGEIlluminaFASTQSequence.well_barcode_beg_pos,
        DGEIlluminaFASTQSequence.well_barcode_end_pos]
    have e2 : CppString.substr barcode DGEIlluminaFASTQSequence.umi_barcode_beg_pos
        DGEIlluminaFASTQSequence.umi_barcode_length = barcode.drop 6 := by
      simp only [CppString.substr, DGEIlluminaFASTQSequence.umi_barcode_length,
        DGEIlluminaFASTQSequence.umi_barcode_beg_pos,
        DGEIlluminaFASTQSequence.umi_barcode_end_pos]
      apply List.take_of_length_le
      simp [hlen16]
    rw [e1, e2]
  · simp at h


theorem fastq_ctor_identifier {line1 line2 line3 line4 : CppString} {parse_seq flush_ostream : Bool}
    {base : FASTQSequence}
    (h : FASTQSequence.ctor line1 line2 line3 line4 parse_seq flush_ostream = Except.ok base) :
    base.lines.identifier = line1 := by
  unfold FASTQSequence.ctor at h
  cases parse_seq with
  | true =>
    simp only [if_true] at h
    rw [(fastq_parse_lines h).1]
  | false =>
    simp only [Bool.false_eq_true, if_false, Except.ok.injEq] at h
    rw [← h]

/-- Claim C30: the constructor `CompositedDGEIlluminaFASTQSequence(line1, line2, line3,
line4, parse_compos_seq = true, parse_seq, flush_ostream)` succeeds only if the
identifier `line1` has exactly 8 colon-separated parts, parts 2, 4, 5, 6 and 7
are converted by `std::stoul` and part 8 has 16 characters; then the well
barcode is the first 6 characters of part 8, the UMI barcode its last 10
characters, the instrument id is part 1 without a leading `'@'`, the numeric
fields are the converted values and the group ID is the well barcode.  When
the condition fails the constructor raises an error, and with `parse_seq =
false` (the call of the alignment counter) the condition is also sufficient. -/
theorem composited_ctor_identifier (line1 line2 line3 line4 : CppString)
    (parse_seq flush_ostream : Bool) :
    (∀ c, CompositedDGEIlluminaFASTQSequence.ctor line1 line2 line3 line4 true parse_seq
        flush_ostream = Except.ok c →
      ∃ p0 p1 p2 p3 p4 p5 p6 barcode v1 v3 v4 v5 v6,
        utk.splitString line1 ':' = [p0, p1, p2, p3, p4, p5, p6, barcode] ∧
        std.stoul p1 = some v1 ∧ std.stoul p3 = some v3 ∧ std.stoul p4 = some v4 ∧
        std.stoul p5 = some v5 ∧ std.stoul p6 = some v6 ∧ barcode.length = 16 ∧
        c.well_barcode = barcode.take 6 ∧
        c.umi_barcode = barcode.drop (barcode.length - 10) ∧
        c.well_barcode.length = 6 ∧ c.umi_barcode.length = 10 ∧
        c.well_barcode ++ c.umi_barcode = barcode ∧
        c.instrument_id = IlluminaFASTQSequence.stripAt p0 ∧
        c.run_number = v1 ∧ c.flowcell_id = p2 ∧ c.lane_number = v3 ∧
        c.tile_number = v4 ∧ c.x_pos = v5 ∧ c.y_pos = v6 ∧
        c.group_id = c.well_barcode ∧ c.lines.identifier = line1) ∧
    ((¬ ∃ p0 p1 p2 p3 p4 p5 p6 barcode v1 v3 v4 v5 v6,
        utk.splitString line1 ':' = [p0, p1, p2, p3, p4, p5, p6, barcode] ∧
        std.stoul p1 = some v1 ∧ std.stoul p3 = some v3 ∧ std.stoul p4 = some v4 ∧
        std.stoul p5 = some v5 ∧ std.stoul p6 = some v6 ∧ barcode.length = 16) →
      ∃ msg, CompositedDGEIlluminaFASTQSequence.ctor line1 line2 line3 line4 true parse_seq
        flush_ostream = Except.error msg) ∧
    (parse_seq = false →
      (∃ p0 p1 p2 p3 p4 p5 p6 barcode v1 v3 v4 v5 v6,
        utk.splitString line1 ':' = [p0, p1, p2, p3, p4, p5, p6, barcode] ∧
        std.stoul p1 = some v1 ∧ std.stoul p3 = some v3 ∧ std.stoul p4 = some v4 ∧
        std.stoul p5 = some v5 ∧ std.stoul p6 = some v6 ∧ barcode.length = 16) →
      ∃ c, CompositedDGEIlluminaFASTQSequence.ctor line1 line2 line3 line4 true parse_seq
        flush_ostream = Except.ok c) := by
  have part1 : ∀ c, CompositedDGEIlluminaFASTQSequence.ctor line1 line2 line3 line4 true parse_seq
        flush_ostream = Except.ok c →
      ∃ p0 p1 p2 p3 p4 p5 p6 barcode v1 v3 v4 v5 v6,
        utk.splitString line1 ':' = [p0, p1, p2, p3, p4, p5, p6, barcode] ∧
        std.stoul p1 = some v1 ∧ std.stoul p3 = some v3 ∧ std.stoul p4 = some v4 ∧
        std.stoul p5 = some v5 ∧ std.stoul p6 = some v6 ∧ barcode.length = 16 ∧
        c.well_barcode = barcode.take 6 ∧
        c.umi_barcode = barcode.drop (barcode.length - 10) ∧
        c.well_barcode.length = 6 ∧ c.umi_barcode.length = 10 ∧
        c.well_barcode ++ c.umi_barcode = barcode ∧
        c.instrument_id = IlluminaFASTQSequence.stripAt p0 ∧
        c.run_number = v1 ∧ c.flowcell_id = p2 ∧ c.lane_number = v3 ∧
        c.tile_number = v4 ∧ c.x_pos = v5 ∧ c.y_pos = v6 ∧
        c.group_id = c.well_barcode ∧ c.lines.identifier = line1 := by
    intro c h
    unfold CompositedDGEIlluminaFASTQSequence.ctor at h
    simp only [bind, Except.bind, if_true] at h
    split at h
    · simp at h
    rename_i base hbase
    have hid := fastq_ctor_identifier hbase
    obtain ⟨p0, p1, p2, p3, p4, p5, p6, barcode, v1, v3, v4, v5, v6, hsplit, h1, h3, h4, h5, h6,
      hlen, hc⟩ := composited_parse_fields h
    simp only [hid] at hsplit
    refine ⟨p0, p1, p2, p3, p4, p5, p6, barcode, v1, v3, v4, v5, v6, hsplit, h1, h3, h4, h5, h6,
      hlen, ?_⟩
    subst hc
    have e10 : barcode.length - 10 = 6 := by rw [hlen]
    rw [e10]
    refine ⟨rfl, rfl, ?_, ?_, ?_, rfl, rfl, rfl, rfl, rfl, rfl, rfl, rfl, hid⟩
    · simp [CompositedDGEIlluminaFASTQSequence.setGroupId, hlen]
    · simp [CompositedDGEIlluminaFASTQSequence.setGroupId, hlen]
    · exact List.take_append_drop 6 barcode
  refine ⟨part1, ?_, ?_⟩
  · intro hnot
    cases hres : CompositedDGEIlluminaFASTQSequence.ctor line1 line2 line3 line4 true parse_seq
        flush_ostream with
    | error msg => exact ⟨msg, rfl⟩
    | ok c =>
      exfalso
      apply hnot
      obtain ⟨p0, p1, p2, p3, p4, p5, p6, barcode, v1, v3, v4, v5, v6, hsplit, h1, h3, h4, h5, h6,
        hlen, _⟩ := part1 c hres
      exact ⟨p0, p1, p2, p3, p4, p5, p6, barcode, v1, v3, v4, v5, v6, hsplit, h1, h3, h4, h5, h6,
        hlen⟩
  · intro hps hex
    obtain ⟨p0, p1, p2, p3, p4, p5, p6, barcode, v1, v3, v4, v5, v6, hsplit, h1, h3, h4, h5, h6,
      hlen⟩ := hex
    subst hps
    unfold CompositedDGEIlluminaFASTQSequence.ctor FASTQSequence.ctor
    simp only [bind, Except.bind, if_true, Bool.false_eq_true, if_false]
    unfold CompositedDGEIlluminaFASTQSequence.parse
    simp only [IlluminaFASTQSequence.colon_sep, hsplit, bind, Except.bind, pure, Except.pure,
      stoulOr_of_stoul _ h1, stoulOr_of_stoul _ h3, stoulOr_of_stoul _ h4,
      stoulOr_of_stoul _ h5, stoulOr_of_stoul _ h6]
    have hl : (barcode.length != DGEIlluminaFASTQSequence.well_barcode_length
        + DGEIlluminaFASTQSequence.umi_barcode_length) = false := by
      rw [hlen]; rfl
    rw [hl]
    exact ⟨_, rfl⟩


theorem composited_ctor_identifier_witness :
    ∃ c, CompositedDGEIlluminaFASTQSequence.ctor "@NS500:12:HXYZ:1:1101:2345:6789:AAAAAACCCCCCCCCC".toList
      [] [] [] true false false = Except.ok c :=
  (composited_ctor_identifier "@NS500:12:HXYZ:1:1101:2345:6789:AAAAAACCCCCCCCCC".toList
    [] [] [] false false).2.2 rfl
    ⟨"@NS500".toList, "12".toList, "HXYZ".toList, "1".toList, "1101".toList, "2345".toList,
      "6789".toList, "AAAAAACCCCCCCCCC".toList, 12, 1, 1101, 2345, 6789,
      by decide, by decide, by decide, by decide, by decide, by decide, by decide⟩

section PipeAux

open SAMAlignmentPipe

variable {W C A D H : Type}

theorem pipe_processAlignmentLine_aux (ops : SAMAlignmentPipeOps W C A D H)
    (hcount : ∀ c a c1 aux, ops.countAlignmentLine c a = Except.ok (c1, true, aux) → aux = true)
    (p p1 : SAMAlignmentPipe W C) (line : CppString)
    (h : processAlignmentLine ops p line = Except.ok p1)
    (hp : p.n_write_align_lines ≤ p.n_read_aux_align_lines ∧
      p.n_read_aux_align_lines ≤ p.n_read_align_lines) :
    p1.n_write_align_lines ≤ p1.n_read_aux_align_lines ∧
      p1.n_read_aux_align_lines ≤ p1.n_read_align_lines := by
  unfold processAlignmentLine at h
  cases hr : ops.readAlignmentLine line with
  | error e =>
    simp only [hr, bind, Except.bind] at h
    cases h
  | ok r =>
    obtain ⟨status, alignment_line⟩ := r
    cases status with
    | false =>
      simp only [hr, bind, Except.bind, pure, Except.pure, Bool.false_eq_true, if_false,
        Except.ok.injEq] at h
      subst h
      simp only
      omega
    | true =>
      cases hc : ops.countAlignmentLine p.align_counter alignment_line with
      | error e =>
        simp only [hr, hc, bind, Except.bind, pure, Except.pure, if_true] at h
        cases h
      | ok r3 =>
        obtain ⟨c1, count, aux⟩ := r3
        cases count with
        | false =>
          simp only [hr, hc, bind, Except.bind, pure, Except.pure, if_true, Bool.false_eq_true,
            if_false, Except.ok.injEq] at h
          subst h
          cases aux with
          | true =>
            simp only [if_true]
            omega
          | false =>
            simp only [Bool.false_eq_true, if_false]
            omega
        | true =>
          have haux := hcount _ _ _ _ hc
          subst haux
          cases hw : ops.writeAlignmentLine p.file_writer alignment_line with
          | error e =>
            simp only [hr, hc, hw, bind, Except.bind, pure, Except.pure, if_true] at h
            cases h
          | ok writer =>
            simp only [hr, hc, hw, bind, Except.bind, pure, Except.pure, if_true,
              Except.ok.injEq] at h
            subst h
            simp only
            omega

theorem pipe_processHeaderDataLine_align (ops : SAMAlignmentPipeOps W C A D H)
    (p p1 : SAMAlignmentPipe W C) (line : CppString)
    (h : processHeaderDataLine ops p line = Except.ok p1) :
    p1.n_write_align_lines = p.n_write_align_lines ∧
    p1.n_read_aux_align_lines = p.n_read_aux_align_lines ∧
    p1.n_read_align_lines = p.n_read_align_lines := by
  unfold processHeaderDataLine at h
  simp only [bind, Except.bind, pure, Except.pure] at h
  repeat' split at h
  all_goals cases h
  all_goals exact ⟨rfl, rfl, rfl⟩

theorem pipe_processHeaderCommentLine_align (ops : SAMAlignmentPipeOps W C A D H)
    (p p1 : SAMAlignmentPipe W C) (line : CppString)
    (h : processHeaderCommentLine ops p line = Except.ok p1) :
    p1.n_write_align_lines = p.n_write_align_lines ∧
    p1.n_read_aux_align_lines = p.n_read_aux_align_lines ∧
    p1.n_read_align_lines = p.n_read_align_lines := by
  unfold processHeaderCommentLine at h
  simp only [bind, Except.bind, pure, Except.pure] at h
  repeat' split at h
  all_goals cases h
  all_goals exact ⟨rfl, rfl, rfl⟩

theorem pipe_processLine_aux (ops : SAMAlignmentPipeOps W C A D H)
    (hcount : ∀ c a c1 aux, ops.countAlignmentLine c a = Except.ok (c1, true, aux) → aux = true)
    (p p1 : SAMAlignmentPipe W C) (line : CppString)
    (h : processLine ops p line = Except.ok p1)
    (hp : p.n_write_align_lines ≤ p.n_read_aux_align_lines ∧
      p.n_read_aux_align_lines ≤ p.n_read_align_lines) :
    p1.n_write_align_lines ≤ p1.n_read_aux_align_lines ∧
      p1.n_read_aux_align_lines ≤ p1.n_read_align_lines := by
  unfold processLine at h
  by_cases h1 : (CppString.front line != SAMHeaderLine.getBeginChar) = true
  · rw [if_pos h1] at h
    exact pipe_processAlignmentLine_aux ops hcount p p1 line h hp
  · rw [if_neg h1] at h
    dsimp only at h
    by_cases h2 : (CppString.substr line 0
        SAMHeaderCommentLine.getStdSAMCommentHeaderRecordType.length
        != SAMHeaderCommentLine.getStdSAMCommentHeaderRecordType) = true
    · rw [if_pos h2] at h
      obtain ⟨a, b, c⟩ := pipe_processHeaderDataLine_align ops p p1 line h
      rw [a, b, c]
      exact hp
    · rw [if_neg h2] at h
      obtain ⟨a, b, c⟩ := pipe_processHeaderCommentLine_align ops p p1 line h
      rw [a, b, c]
      exact hp

theorem pipe_processLines_aux (ops : SAMAlignmentPipeOps W C A D H)
    (hcount : ∀ c a c1 aux, ops.countAlignmentLine c a = Except.ok (c1, true, aux) → aux = true)
    (lines : List CppString) (p p1 : SAMAlignmentPipe W C)
    (h : processLines ops p lines = Except.ok p1)
    (hp : p.n_write_align_lines ≤ p.n_read_aux_align_lines ∧
      p.n_read_aux_align_lines ≤ p.n_read_align_lines) :
    p1.n_write_align_lines ≤ p1.n_read_aux_align_lines ∧
      p1.n_read_aux_align_lines ≤ p1.n_read_align_lines := by
  induction lines generalizing p with
  | nil =>
    simp only [processLines, Except.ok.injEq] at h
    subst h
    exact hp
  | cons line rest ih =>
    simp only [processLines, bind, Except.bind] at h
    split at h
    · cases h
    rename_i p2 hp2
    exact ih p2 h (pipe_processLine_aux ops hcount p p2 line hp2 hp)

end PipeAux

open SAMGeneUMIAlignmentCounter in
theorem countAlignmentLine_aux_of_return (counter : SAMGeneUMIAlignmentCounter)
    (l : SAMCompositedDGEIlluminaSTARFeatureCountsAlignmentLine) (aux : Bool) (r : CountResult)
    (h : countAlignmentLine counter l aux = Except.ok r) :
    (r.aux_count = true ↔ aux = true ∨ (l.opt_fields.number_of_target_features = some 1 ∧
      ∃ tf, l.opt_fields.target_features = some tf)) ∧
    (r.status = true → l.opt_fields.number_of_target_features = some 1 ∧
      ∃ tf, l.opt_fields.target_features = some tf) := by
  unfold countAlignmentLine at h
  cases hn : l.opt_fields.number_of_target_features with
  | none =>
    simp only [hn, pure, Except.pure, Except.ok.injEq] at h
    subst h
    simp
  | some n =>
    by_cases h1 : n = 1
    · subst h1
      cases ht : l.opt_fields.target_features with
      | none =>
        simp only [hn, ht, if_true, pure, Except.pure, Except.ok.injEq] at h
        subst h
        simp
      | some tf =>
        cases tf with
        | nil =>
          simp only [hn, ht, if_true] at h
          cases h
        | cons g rest =>
          simp only [hn, ht, if_true, bind, Except.bind, pure, Except.pure] at h
          split at h
          · cases h
          simp only [Except.ok.injEq] at h
          subst h
          simp
    · simp only [hn, h1, if_false, pure, Except.pure, Except.ok.injEq] at h
      subst h
      simp [h1]

open SAMGeneUMIAlignmentCounter in
theorem pipeOps_count_aux {W D H : Type}
    (ops : SAMAlignmentPipeOps W SAMGeneUMIAlignmentCounter
      SAMCompositedDGEIlluminaSTARFeatureCountsAlignmentLine D H) :
    ∀ c a c1 aux, (pipeOps ops).countAlignmentLine c a = Except.ok (c1, true, aux) →
      aux = true := by
  intro c a c1 aux h
  simp only [pipeOps, bind, Except.bind, pure, Except.pure] at h
  split at h
  · cases h
  rename_i r hr
  simp only [Except.ok.injEq, Prod.mk.injEq] at h
  obtain ⟨-, hs, ha⟩ := h
  obtain ⟨h1, h2⟩ := countAlignmentLine_aux_of_return c a false r hr
  rw [← ha]
  exact h1.mpr (Or.inr (h2 hs))

open SAMGeneUMIAlignmentCounter SAMAlignmentPipe in
/-- Claim C29: `SAMGeneUMIAlignmentCounter::countAlignmentLine` returns with the auxiliary flag
set to true for every line that reports one target feature with a retrievable
(non-empty) feature list and a QNAME of the composite form, whether the line is
accepted (its gene-UMI key is new, status true) or rejected (the key is already
in the pool, status false); for every other line it returns status false and
leaves the flag as it was.  So, called with the flag false as `run()` does, a
returning call has the flag true exactly for the lines with one target feature
and a retrievable list, and an accepted line always has it.  Consequently,
whenever `SAMAlignmentPipe::run` returns, written alignment lines <= auxiliary alignment
lines <= alignment lines read. -/
theorem countAlignmentLine_aux_flag {W D H : Type} (counter : SAMGeneUMIAlignmentCounter)
    (l : SAMCompositedDGEIlluminaSTARFeatureCountsAlignmentLine) :
    (∀ aux g rest c, l.opt_fields.number_of_target_features = some 1 →
      l.opt_fields.target_features = some (g :: rest) →
      CompositedDGEIlluminaFASTQSequence.ctor l.qname [] [] [] true false false = Except.ok c →
      countAlignmentLine counter l aux = Except.ok
        { status := decide (g ++ c.umi_barcode ∉ counter.gene_umi_pool),
          aux_count := true,
          counter := { gene_umi_pool := (poolInsert counter.gene_umi_pool
            (g ++ c.umi_barcode)).1 } }) ∧
    (∀ aux, ¬ (l.opt_fields.number_of_target_features = some 1 ∧
        ∃ tf, l.opt_fields.target_features = some tf) →
      countAlignmentLine counter l aux =
        Except.ok { status := false, aux_count := aux, counter := counter }) ∧
    (∀ r, countAlignmentLine counter l false = Except.ok r →
      (r.aux_count = true ↔ (l.opt_fields.number_of_target_features = some 1 ∧
        ∃ tf, l.opt_fields.target_features = some tf)) ∧
      (r.status = true → r.aux_count = true)) ∧
    (∀ (ops : SAMAlignmentPipeOps W SAMGeneUMIAlignmentCounter
        SAMCompositedDGEIlluminaSTARFeatureCountsAlignmentLine D H)
        (file_writer : W) (lines : List CppString) (n : Nat)
        (p : SAMAlignmentPipe W SAMGeneUMIAlignmentCounter),
      run (pipeOps ops) file_writer counter lines = Except.ok (n, p) →
      p.n_write_align_lines ≤ p.n_read_aux_align_lines ∧
      p.n_read_aux_align_lines ≤ p.n_read_align_lines) := by
  refine ⟨?_, ?_, ?_, ?_⟩
  · intro aux g rest c hn ht hc
    unfold countAlignmentLine
    simp only [hn, ht, if_true, hc, bind, Except.bind, pure, Except.pure,
      CompositedDGEIlluminaFASTQSequence.getUMIBarcode, poolInsert]
    by_cases hmem : g ++ c.umi_barcode ∈ counter.gene_umi_pool
    · simp [hmem]
    · simp [hmem]
  · intro aux hnot
    unfold countAlignmentLine
    cases hn : l.opt_fields.number_of_target_features with
    | none => rfl
    | some n =>
      by_cases h1 : n = 1
      · subst h1
        cases ht : l.opt_fields.target_features with
        | none => rfl
        | some tf => exact absurd ⟨hn, tf, ht⟩ hnot
      · simp only [h1, if_false]
        rfl
  · intro r hr
    obtain ⟨h1, h2⟩ := countAlignmentLine_aux_of_return counter l false r hr
    refine ⟨?_, fun hs => h1.mpr (Or.inr (h2 hs))⟩
    rw [h1]
    simp
  · intro ops file_writer lines n p h
    unfold run at h
    simp only [bind, Except.bind, pure, Except.pure] at h
    split at h
    · cases h
    rename_i p1 hp1
    simp only [Except.ok.injEq, Prod.mk.injEq] at h
    rw [← h.2]
    exact pipe_processLines_aux (pipeOps ops) (pipeOps_count_aux ops) lines _ p1 hp1
      ⟨Nat.le_refl _, Nat.le_refl _⟩

open SAMGeneUMIAlignmentCounter SAMAlignmentPipe in
/-- Claim C29, witness: five lines (one header line, a first occurrence, a duplicate, a
line with two target features, a line with none) give 4 alignment lines read,
2 auxiliary and 1 written. -/
theorem countAlignmentLine_aux_flag_witness :
    ∃ p, run SAMGeneUMIAlignmentCounter.exampleOps [] {} SAMGeneUMIAlignmentCounter.exampleLines
        = Except.ok (5, p) ∧
      p.n_read_align_lines = 4 ∧ p.n_read_aux_align_lines = 2 ∧ p.n_write_align_lines = 1 ∧
      p.n_write_align_lines ≤ p.n_read_aux_align_lines ∧
      p.n_read_aux_align_lines ≤ p.n_read_align_lines :=
  have key : ∃ p, run SAMGeneUMIAlignmentCounter.exampleOps [] {}
        SAMGeneUMIAlignmentCounter.exampleLines = Except.ok (5, p) ∧
      p.n_read_align_lines = 4 ∧ p.n_read_aux_align_lines = 2 ∧ p.n_write_align_lines = 1 :=
    ⟨_, rfl, rfl, rfl, rfl⟩
  key.elim (fun p hp => ⟨p, hp.1, hp.2.1, hp.2.2.1, hp.2.2.2,
    (@countAlignmentLine_aux_flag (List CppString) CppString CppString {} {}).2.2.2
      _ [] SAMGeneUMIAlignmentCounter.exampleLines 5 p hp.1⟩)

section PipeAbort

open SAMAlignmentPipe

variable {W C A D H : Type}

theorem pipe_processLines_append (ops : SAMAlignmentPipeOps W C A D H)
    (pre rest : List CppString) (p p1 : SAMAlignmentPipe W C)
    (h : processLines ops p pre = Except.ok p1) :
    processLines ops p (pre ++ rest) = processLines ops p1 rest := by
  induction pre generalizing p with
  | nil =>
    simp only [processLines, Except.ok.injEq] at h
    subst h
    rfl
  | cons line more ih =>
    simp only [processLines, bind, Except.bind] at h
    split at h
    · cases h
    rename_i p2 hp2
    simp only [List.cons_append, processLines, bind, Except.bind, hp2]
    exact ih p2 h

theorem pipe_processLine_read_error (ops : SAMAlignmentPipeOps W C A D H)
    (p : SAMAlignmentPipe W C) (line : CppString) (e : String)
    (hline : line.head? ≠ some '@') (hread : ops.readAlignmentLine line = Except.error e) :
    processLine ops p line = Except.error e := by
  unfold processLine
  have h1 : (CppString.front line != SAMHeaderLine.getBeginChar) = true := by
    rw [pipe_front_ne_iff]
    simpa [bne] using hline
  rw [if_pos h1]
  unfold processAlignmentLine
  simp only [hread, bind, Except.bind]

/-- Claim C24 (what the code does): `SAMAlignmentPipe::run` has no handler around the loop
body.  When the reader builds the alignment lines with `parse_align_line = true`
and a line that is not a header line has fewer than 11 TAB-separated columns,
the exception of the line constructor leaves `run`: whatever lines precede it
(processed without error) and whatever lines follow it, the run ends with the
error "Alignment line must have all 11 mandatory fields!" and no later line is
read, counted or written. -/
theorem pipe_run_aborts_on_malformed_line {M F : Type} [SAMAlignmentMandatoryFieldsTypeOps M]
    (optCtor : CppString → Bool → Bool → Bool → Bool → Bool → Except String F)
    (reader : SAMFileReader) (ops : SAMAlignmentPipeOps W C (SAMAlignmentLine M F) D H)
    (hops : ops.readAlignmentLine = SAMFileReader.readAlignmentLine optCtor reader)
    (hparse : reader.parse_align_line = true)
    (file_writer : W) (align_counter : C) (pre : List CppString) (line : CppString)
    (rest : List CppString) (n : Nat) (p : SAMAlignmentPipe W C)
    (hpre : run ops file_writer align_counter pre = Except.ok (n, p))
    (hline : line.head? ≠ some '@')
    (hshort : (utk.splitString line '\t').length < 11) :
    run ops file_writer align_counter (pre ++ line :: rest) =
      Except.error "Alignment line must have all 11 mandatory fields!" := by
  have hread : ops.readAlignmentLine line =
      Except.error "Alignment line must have all 11 mandatory fields!" := by
    rw [hops]
    unfold SAMFileReader.readAlignmentLine SAMAlignmentLine.ctor
    simp only [hparse, if_true]
    rw [parseLine_short optCtor _ hshort]
    rfl
  unfold run at hpre ⊢
  simp only [bind, Except.bind, pure, Except.pure] at hpre
  split at hpre
  · cases hpre
  rename_i p1 hp1
  rw [pipe_processLines_append ops pre (line :: rest) _ p1 hp1]
  simp only [processLines, bind, Except.bind,
    pipe_processLine_read_error ops p1 line _ hline hread]

/-- Claim C24, failing input: three alignment lines of which the second has 10 columns;
the run ends with the error of the second line and the third line, which is
well formed, is not processed (alone, the first line is read and written). -/
theorem pipe_run_aborts_on_malformed_line_witness :
    run exampleReaderOps [] 0 exampleMalformedLines =
      Except.error "Alignment line must have all 11 mandatory fields!" ∧
    (∃ p, run exampleReaderOps [] 0 (exampleMalformedLines.take 1) = Except.ok (1, p) ∧
      p.n_write_align_lines = 1) :=
  ⟨pipe_run_aborts_on_malformed_line (fun field _ _ _ _ _ => Except.ok field)
      { parse_header_line := true, parse_header_fields := true, parse_align_line := true,
        parse_opt_align_fields := true }
      exampleReaderOps rfl rfl [] 0
      ["r1\t0\tchr1\t100\t255\t4M\t=\t200\t-50\tACGT\tIIII".toList]
      "r2\t0\tchr1\t300\t255\t4M\t=\t400\t-50\tACGT".toList
      ["r3\t0\tchr1\t500\t255\t4M\t=\t600\t-50\tACGT\tIIII".toList]
      1 _ rfl (by decide) (by decide),
    ⟨_, rfl, rfl⟩⟩

end PipeAbort

/-- Claim C25, failing input: with a well barcode table of two wells and an output
directory in which no file can be opened, both stream constructors return
normally; the streams of the declared wells are not open and carry `failbit`.
When only the read-2 file of well A1 cannot be opened, the paired constructor
also returns, with that stream closed. -/
theorem output_streams_open_failure_not_fatal :
    FASTQFileGroupOutputStreams.ctorOpen (fun _ => false) "out".toList "/nodir".toList
        [("AAAAAA".toList, "A1".toList), ("CCCCCC".toList, "A2".toList)] =
      Except.ok [("A1".toList, { is_open := false, failbit := true, file_path := [] }),
                 ("A2".toList, { is_open := false, failbit := true, file_path := [] })] ∧
    PairedFASTQFileGroupOutputStreams.ctorOpen (fun _ => false) "out".toList "/nodir".toList
        [("AAAAAA".toList, "A1".toList), ("CCCCCC".toList, "A2".toList)] =
      Except.ok [("A1".toList, ({ is_open := false, failbit := true, file_path := [] },
                               { is_open := false, failbit := true, file_path := [] })),
                 ("A2".toList, ({ is_open := false, failbit := true, file_path := [] },
                               { is_open := false, failbit := true, file_path := [] }))] ∧
    PairedFASTQFileGroupOutputStreams.ctorOpen (fun p => p != "/d/out.R2.A1.fastq".toList)
        "out".toList "/d".toList [("AAAAAA".toList, "A1".toList)] =
      Except.ok [("A1".toList,
        ({ is_open := true, failbit := false, file_path := "/d/out.R1.A1.fastq".toList },
         { is_open := false, failbit := true, file_path := [] }))] ∧
    (∀ can_open main_file_name file_dir well_barcode_table,
      (∃ streams, FASTQFileGroupOutputStreams.ctorOpen can_open main_file_name file_dir
        well_barcode_table = Except.ok streams) ∧
      (∃ streams, PairedFASTQFileGroupOutputStreams.ctorOpen can_open main_file_name file_dir
        well_barcode_table = Except.ok streams)) := by
  refine ⟨rfl, rfl, rfl, ?_⟩
  intro can_open main_file_name file_dir well_barcode_table
  exact ⟨⟨_, rfl⟩, ⟨_, rfl⟩⟩

theorem dsv_readValue2_nil (r : utk.DSVReader) (a b : CppString) (h : r.n_values = 2) :
    utk.DSVReader.readValue2 { r with lines := [] } a b =
      Except.ok (false, a, b, { r with lines := [] }) := by
  simp [utk.DSVReader.readValue2, utk.DSVReader.readLine, h]

theorem dsv_readValue2_cons (r : utk.DSVReader) (a b line : CppString) (rest : List CppString)
    (h : r.n_values = 2) (hd : r.value_delim = '\t')
    (hline : (utk.splitString line '\t').length = 2) :
    utk.DSVReader.readValue2 { r with lines := line :: rest } a b =
      Except.ok (true, (utk.splitString line '\t').getD 0 [], (utk.splitString line '\t').getD 1 [],
        { r with lines := rest }) := by
  have hne : line.isEmpty = false := by
    cases line with
    | nil => simp [utk.splitString] at hline
    | cons c cs => rfl
  simp [utk.DSVReader.readValue2, utk.DSVReader.readLine, h, hd, hne, hline]

theorem path_reader_readLoop (r : utk.DSVReader) (h : r.n_values = 2) (hd : r.value_delim = '\t')
    (lines : List CppString) (hlines : ∀ l ∈ lines, (utk.splitString l '\t').length = 2)
    (a b : CppString) :
    PairedFASTQFilePathReader.readLoop r lines a b =
      Except.ok (lines.map (fun l =>
        ((utk.splitString l '\t').getD 0 [], (utk.splitString l '\t').getD 1 []))) := by
  induction lines generalizing a b with
  | nil =>
    simp only [PairedFASTQFilePathReader.readLoop, dsv_readValue2_nil r a b h, bind, Except.bind,
      pure, Except.pure, List.map_nil]
  | cons line rest ih =>
    have hl := hlines line (by simp)
    simp only [PairedFASTQFilePathReader.readLoop, dsv_readValue2_cons r a b line rest h hd hl,
      bind, Except.bind, pure, Except.pure, List.map_cons,
      ih (fun l hl2 => hlines l (by simp [hl2]))]

/-- Claim C26 (what the code does): `PairedFASTQFilePathReader` always consumes the first line of
the list file as the header row, which fixes the number of columns.  For every
list file whose first line has two TAB-separated fields and whose following `k`
lines each consist of two TAB-separated paths, the constructor succeeds and
`read` returns exactly `k` pairs, the i-th pair being (first column, second
column) of the i-th line after the header. -/
theorem path_reader_read_after_header (header : CppString) (lines : List CppString)
    (hheader : (utk.splitString header '\t').length = 2)
    (hlines : ∀ l ∈ lines, (utk.splitString l '\t').length = 2) :
    ∃ r, PairedFASTQFilePathReader.ctor (header :: lines) = Except.ok r ∧
      PairedFASTQFilePathReader.read r = Except.ok (lines.map (fun l =>
        ((utk.splitString l '\t').getD 0 [], (utk.splitString l '\t').getD 1 []))) ∧
      (∀ paths, PairedFASTQFilePathReader.read r = Except.ok paths →
        paths.length = lines.length) := by
  have hne : header.isEmpty = false := by
    cases header with
    | nil => simp [utk.splitString] at hheader
    | cons c cs => rfl
  have hparts : (utk.splitString header '\t').isEmpty = false := by
    cases hs : utk.splitString header '\t' with
    | nil => rw [hs] at hheader; simp at hheader
    | cons p ps => rfl
  have hctor : PairedFASTQFilePathReader.ctor (header :: lines) =
      Except.ok { lines := lines, value_delim := '\t', n_values := 2, header_line := true } := by
    simp [PairedFASTQFilePathReader.ctor, utk.DSVReader.ctor, utk.DSVReader.checkHeaderValues,
      utk.DSVReader.checkHeaderLine, utk.DSVReader.readLine, utk.DSVReader.checkNumberOfValues,
      hne, hparts, hheader, bind, Except.bind, pure, Except.pure]
  have hread : PairedFASTQFilePathReader.read
      { lines := lines, value_delim := '\t', n_values := 2, header_line := true } =
      Except.ok (lines.map (fun l =>
        ((utk.splitString l '\t').getD 0 [], (utk.splitString l '\t').getD 1 []))) :=
    path_reader_readLoop _ rfl rfl lines hlines [] []
  refine ⟨_, hctor, hread, ?_⟩
  intro paths hp
  rw [hread] at hp
  simp only [Except.ok.injEq] at hp
  rw [← hp, List.length_map]

/-- Claim C26, witness: a header row and two lines of paths give two pairs. -/
theorem path_reader_read_after_header_witness :
    ∃ r, PairedFASTQFilePathReader.ctor
        ["Read1\tRead2".toList, "/d/a_R1.fastq\t/d/a_R2.fastq".toList,
          "/d/b_R1.fastq\t/d/b_R2.fastq".toList] = Except.ok r ∧
      PairedFASTQFilePathReader.read r =
        Except.ok [("/d/a_R1.fastq".toList, "/d/a_R2.fastq".toList),
                   ("/d/b_R1.fastq".toList, "/d/b_R2.fastq".toList)] :=
  have key := path_reader_read_after_header "Read1\tRead2".toList
    ["/d/a_R1.fastq\t/d/a_R2.fastq".toList, "/d/b_R1.fastq\t/d/b_R2.fastq".toList]
    (by decide) (by decide)
  key.elim (fun r hr => ⟨r, hr.1, hr.2.1⟩)

/-- Claim C26, counterexample: a list file without header row whose 2 lines each consist
of two TAB-separated paths gives 1 pair, that of line 2 (line 1 is consumed as
the header row); with 1 such line, no pair; and an empty list file is rejected
with "Empty header line". -/
theorem path_reader_headerless_counterexample :
    (∃ r, PairedFASTQFilePathReader.ctor
        ["/d/a_R1.fastq\t/d/a_R2.fastq".toList, "/d/b_R1.fastq\t/d/b_R2.fastq".toList]
        = Except.ok r ∧
      PairedFASTQFilePathReader.read r =
        Except.ok [("/d/b_R1.fastq".toList, "/d/b_R2.fastq".toList)]) ∧
    (∃ r, PairedFASTQFilePathReader.ctor ["/d/a_R1.fastq\t/d/a_R2.fastq".toList] = Except.ok r ∧
      PairedFASTQFilePathReader.read r = Except.ok []) ∧
    PairedFASTQFilePathReader.ctor [] = Except.error "Empty header line" :=
  ⟨⟨_, rfl, rfl⟩, ⟨_, rfl, rfl⟩, rfl⟩


/-- A returning call of `readValue` reports `true` exactly when the reader still
held a line, and then the reader has dropped that line: this is the recursion
scheme of `PairedFASTQFilePathReader.readLoop`. -/
theorem dsv_readValue2_status (r r1 : utk.DSVReader) (a b x y : CppString) (s : Bool)
    (h : utk.DSVReader.readValue2 r a b = Except.ok (s, x, y, r1)) :
    s = !r.lines.isEmpty ∧ r1 = { r with lines := r.lines.tail } := by
  unfold utk.DSVReader.readValue2 utk.DSVReader.readLine at h
  cases hl : r.lines with
  | nil =>
    simp only [hl] at h
    split_ifs at h
    all_goals
      simp only [Except.ok.injEq, Prod.mk.injEq] at h
      obtain ⟨h1, -, -, h4⟩ := h
      refine ⟨by rw [← h1]; rfl, ?_⟩
      rw [← h4]
      cases r
      simp_all
  | cons line rest =>
    simp only [hl] at h
    split_ifs at h
    all_goals
      simp only [Except.ok.injEq, Prod.mk.injEq] at h
      obtain ⟨h1, -, -, h4⟩ := h
      refine ⟨by rw [← h1]; rfl, ?_⟩
      rw [← h4]
      rfl

theorem header_parseField_ok {f f1 : SAMHeaderDataField}
    (h : SAMHeaderDataField.parseField f = Except.ok f1) :
    ∃ tag value, utk.splitString f.field ':' = [tag, value] ∧ tag ≠ [] ∧ value ≠ [] ∧
      f1 = { f with tag := tag, value := value } := by
  unfold SAMHeaderDataField.parseField at h
  simp only [SAMHeaderDataField.colon_sep, SAMHeaderDataField.n_field_parts] at h
  by_cases h1 : (utk.splitString f.field ':').length = 2
  · rw [if_pos h1] at h
    match hs : utk.splitString f.field ':', h1 with
    | [tag, value], _ =>
      rw [hs] at h
      simp only [List.getD_cons_zero, List.getD_cons_succ] at h
      by_cases h2 : tag.length = 0
      · rw [if_pos h2] at h
        cases h
      · rw [if_neg h2] at h
        by_cases h3 : value.length = 0
        · rw [if_pos h3] at h
          cases h
        · rw [if_neg h3] at h
          simp only [Except.ok.injEq] at h
          refine ⟨tag, value, rfl, ?_, ?_, h.symm⟩
          · intro e; exact h2 (by rw [e]; rfl)
          · intro e; exact h3 (by rw [e]; rfl)
  · rw [if_neg h1] at h
    cases h

theorem header_parseField_of_split (f : SAMHeaderDataField) (tag value : CppString)
    (hsplit : utk.splitString f.field ':' = [tag, value]) (ht : tag ≠ []) (hv : value ≠ []) :
    SAMHeaderDataField.parseField f = Except.ok { f with tag := tag, value := value } := by
  unfold SAMHeaderDataField.parseField
  have ht2 : ¬ tag.length = 0 := fun e => ht (List.length_eq_zero.mp e)
  have hv2 : ¬ value.length = 0 := fun e => hv (List.length_eq_zero.mp e)
  simp only [SAMHeaderDataField.colon_sep, SAMHeaderDataField.n_field_parts, hsplit,
    List.length_cons, List.length_nil, List.getD_cons_zero, List.getD_cons_succ]
  rw [if_pos trivial, if_neg ht2, if_neg hv2]

theorem header_field_ctor_structural (rm : CppString → CppString → Bool)
    (field record_type : CppString) (flush_ostream : Bool) :
    SAMHeaderDataField.ctor rm field record_type true false false flush_ostream =
      SAMHeaderDataField.parseField
        { field := field, record_type := record_type, parse_field := true,
          flush_ostream := flush_ostream } := by
  unfold SAMHeaderDataField.ctor
  simp only [if_true, bind, Except.bind, pure, Except.pure]
  cases h : SAMHeaderDataField.parseField
      { field := field, record_type := record_type, parse_field := true,
        flush_ostream := flush_ostream } with
  | error e => rfl
  | ok f1 =>
    obtain ⟨tag, value, -, -, -, hf⟩ := header_parseField_ok h
    subst hf
    simp [SAMHeaderDataField.parseParts, bind, Except.bind, pure, Except.pure]

theorem header_field_ctor_ok (rm : CppString → CppString → Bool)
    (field record_type tag value : CppString) (flush_ostream : Bool)
    (hsplit : utk.splitString field ':' = [tag, value]) (ht : tag ≠ []) (hv : value ≠ []) :
    SAMHeaderDataField.ctor rm field record_type true false false flush_ostream =
      Except.ok { field := field, tag := tag, value := value, record_type := record_type,
                  parse_field := true, flush_ostream := flush_ostream } := by
  rw [header_field_ctor_structural]
  exact header_parseField_of_split _ tag value hsplit ht hv

theorem header_field_ctor_ok_inv (rm : CppString → CppString → Bool)
    (field record_type : CppString) (flush_ostream : Bool) (d : SAMHeaderDataField)
    (h : SAMHeaderDataField.ctor rm field record_type true false false flush_ostream =
      Except.ok d) :
    ∃ tag value, utk.splitString field ':' = [tag, value] ∧ tag ≠ [] ∧ value ≠ [] ∧
      d = { field := field, tag := tag, value := value, record_type := record_type,
            parse_field := true, flush_ostream := flush_ostream } := by
  rw [header_field_ctor_structural] at h
  obtain ⟨tag, value, h1, h2, h3, h4⟩ := header_parseField_ok h
  exact ⟨tag, value, h1, h2, h3, h4⟩

theorem header_parseField_parse_tag (f : SAMHeaderDataField) (b : Bool) :
    SAMHeaderDataField.parseField { f with parse_tag := b } =
      (SAMHeaderDataField.parseField f).map (fun g => { g with parse_tag := b }) := by
  unfold SAMHeaderDataField.parseField
  dsimp only
  split_ifs <;> rfl

theorem header_parseParts_value (rm : CppString → CppString → Bool) (g : SAMHeaderDataField)
    (b : Bool) (hf : g.parse_field = true) (hv : g.parse_value = true) :
    SAMHeaderDataField.parseParts rm { g with parse_tag := b } =
      SAMHeaderDataField.parseParts rm g := by
  unfold SAMHeaderDataField.parseParts
  simp only [hf, hv, Bool.not_true, Bool.false_and, Bool.or_true, Bool.false_eq_true, if_false,
    if_true]
  rfl

/-- Claim C23 (what the code does): the only configuration check of `SAMHeaderDataField` is that of
`parseParts`: a field built from a field string with `parse_tag` or `parse_value`
on and `parse_field` off is rejected with "parse_field must be true if either of
parse_tag and parse_value is true!".  With `parse_field` on, `parse_value` without
`parse_tag` is no configuration error: the constructor gives the result of the
constructor with both flags on (the value check tests the tag itself), up to
the stored `parse_tag` flag.  With all three flags off nothing is checked. -/
theorem header_field_depth_order (rm : CppString → CppString → Bool)
    (field record_type : CppString) (flush_ostream : Bool) :
    (∀ parse_tag parse_value, (parse_tag = true ∨ parse_value = true) →
      SAMHeaderDataField.ctor rm field record_type false parse_tag parse_value flush_ostream =
        Except.error
          "parse_field must be true if either of parse_tag and parse_value is true!") ∧
    SAMHeaderDataField.ctor rm field record_type true false true flush_ostream =
      (SAMHeaderDataField.ctor rm field record_type true true true flush_ostream).map
        (fun f => { f with parse_tag := false }) ∧
    ((∃ f, SAMHeaderDataField.ctor rm field record_type true false true flush_ostream
        = Except.ok f) ↔
      (∃ f, SAMHeaderDataField.ctor rm field record_type true true true flush_ostream
        = Except.ok f)) ∧
    SAMHeaderDataField.ctor rm field record_type false false false flush_ostream =
      Except.ok { field := field, record_type := record_type, flush_ostream := flush_ostream } := by
  have h2 : SAMHeaderDataField.ctor rm field record_type true false true flush_ostream =
      (SAMHeaderDataField.ctor rm field record_type true true true flush_ostream).map
        (fun f => { f with parse_tag := false }) := by
    unfold SAMHeaderDataField.ctor
    simp only [if_true, bind, Except.bind, pure, Except.pure]
    have e := header_parseField_parse_tag
      { field := field, record_type := record_type, parse_field := true, parse_tag := true,
        parse_value := true, flush_ostream := flush_ostream } false
    simp only at e
    rw [e]
    cases h : SAMHeaderDataField.parseField
        { field := field, record_type := record_type, parse_field := true, parse_tag := true,
          parse_value := true, flush_ostream := flush_ostream } with
    | error msg => rfl
    | ok g =>
      obtain ⟨tag, value, -, -, -, hg⟩ := header_parseField_ok h
      have hgf : g.parse_field = true := by rw [hg]
      have hgv : g.parse_value = true := by rw [hg]
      simp only [Except.map]
      rw [header_parseParts_value rm g false hgf hgv]
      cases SAMHeaderDataField.parseParts rm g <;> rfl
  refine ⟨?_, h2, ?_, ?_⟩
  · intro parse_tag parse_value hor
    unfold SAMHeaderDataField.ctor
    simp only [Bool.false_eq_true, if_false, bind, Except.bind, pure, Except.pure,
      SAMHeaderDataField.parseParts]
    rcases hor with h | h
    · subst h
      rfl
    · subst h
      cases parse_tag <;> rfl
  · rw [h2]
    cases SAMHeaderDataField.ctor rm field record_type true true true flush_ostream with
    | error msg => simp [Except.map]
    | ok g => simp [Except.map]
  · rfl

/-- Claim C23, counterexample: the field "SO:coordinate" of an `@HD` line with `parse_field` and
`parse_value` on and `parse_tag` off is accepted (whatever the pattern matcher
answers), while with `parse_field` off and `parse_value` on it is rejected with
the configuration error. -/
theorem header_field_value_without_tag_counterexample :
    SAMHeaderDataField.ctor (fun _ _ => false) "SO:coordinate".toList "@HD".toList
        true false true false =
      Except.ok { field := "SO:coordinate".toList, tag := "SO".toList,
                  value := "coordinate".toList, record_type := "@HD".toList,
                  parse_field := true, parse_tag := false, parse_value := true,
                  flush_ostream := false } ∧
    SAMHeaderDataField.ctor (fun _ _ => true) "SO:coordinate".toList "@HD".toList
        true false true false =
      Except.ok { field := "SO:coordinate".toList, tag := "SO".toList,
                  value := "coordinate".toList, record_type := "@HD".toList,
                  parse_field := true, parse_tag := false, parse_value := true,
                  flush_ostream := false } ∧
    SAMHeaderDataField.ctor (fun _ _ => false) "SO:coordinate".toList "@HD".toList
        false false true false =
      Except.error "parse_field must be true if either of parse_tag and parse_value is true!" :=
  ⟨rfl, rfl, rfl⟩

theorem header_type_tags_find {rt : CppString} {p : List CppString × List CppString}
    (h : StdMap.find SAMHeaderDataLine.std_sam_data_header_type_tags rt = some p) :
    (rt, p) ∈ SAMHeaderDataLine.std_sam_data_header_type_tags := by
  unfold SAMHeaderDataLine.std_sam_data_header_type_tags at h ⊢
  simp only [StdMap.find] at h
  split_ifs at h with h1 h2 h3 h4
  · simp only [Option.some.injEq] at h; subst h; subst h1; simp
  · simp only [Option.some.injEq] at h; subst h; subst h2; simp
  · simp only [Option.some.injEq] at h; subst h; subst h3; simp
  · simp only [Option.some.injEq] at h; subst h; subst h4; simp

theorem header_type_tags_facts {rt : CppString} {p : List CppString × List CppString}
    (h : StdMap.find SAMHeaderDataLine.std_sam_data_header_type_tags rt = some p) :
    rt ∈ ["@HD".toList, "@SQ".toList, "@RG".toList, "@PG".toList] ∧
    p.1 ≠ [] ∧ [] ∉ p.1 ∧ [] ∉ p.2 := by
  have hm := header_type_tags_find h
  unfold SAMHeaderDataLine.std_sam_data_header_type_tags at hm
  simp only [List.mem_cons, Prod.mk.injEq, List.mem_singleton, List.not_mem_nil, or_false] at hm
  rcases hm with ⟨h1, h2⟩ | ⟨h1, h2⟩ | ⟨h1, h2⟩ | ⟨h1, h2⟩
  all_goals
    subst h1
    subst h2
    decide

theorem header_type_tags_find_of_mem {rt : CppString}
    (h : rt ∈ ["@HD".toList, "@SQ".toList, "@RG".toList, "@PG".toList]) :
    ∃ p, StdMap.find SAMHeaderDataLine.std_sam_data_header_type_tags rt = some p := by
  simp only [List.mem_cons, List.mem_singleton, List.not_mem_nil, or_false] at h
  rcases h with h | h | h | h
  all_goals
    subst h
    exact ⟨_, rfl⟩

theorem header_line_ctor_of_split (line rt : CppString) (fields : List CppString)
    (flush_ostream : Bool)
    (hsplit : utk.splitString line '\t' = rt :: fields)
    (hrt : rt ∈ ["@HD".toList, "@SQ".toList, "@RG".toList, "@PG".toList]) :
    SAMHeaderLine.ctor line true true flush_ostream =
      Except.ok { line := line, record_type := rt, parse_record_type := true,
                  flush_ostream := flush_ostream } := by
  unfold SAMHeaderLine.ctor SAMHeaderLine.parseLine SAMHeaderLine.parseRecordType
  simp only [SAMHeaderLine.tab_sep, hsplit, if_true, List.length_cons, List.headD_cons,
    bind, Except.bind, pure, Except.pure]
  simp only [List.mem_cons, List.mem_singleton, List.not_mem_nil, or_false] at hrt
  rw [if_pos (Nat.succ_pos _)]
  rcases hrt with h | h | h | h
  all_goals
    subst h
    rfl

theorem header_data_line_ctor_eq (rm : CppString → CppString → Bool) (line rt : CppString)
    (fields : List CppString) (p : List CppString × List CppString)
    (parse_field parse_tag parse_value flush_ostream : Bool)
    (hsplit : utk.splitString line '\t' = rt :: fields)
    (hfind : StdMap.find SAMHeaderDataLine.std_sam_data_header_type_tags rt = some p) :
    SAMHeaderDataLine.ctor rm line true true parse_field parse_tag parse_value flush_ostream =
      match SAMHeaderDataLine.parseFields rm p.1 p.2 fields []
          { line := line, record_type := rt, parse_record_type := true,
            flush_ostream := flush_ostream, parse_field := parse_field,
            parse_tag := parse_tag, parse_value := parse_value } with
      | Except.error e => Except.error e
      | Except.ok r =>
        if (r.1.all (fun t => p.1.contains t) && p.1.all (fun t => r.1.contains t)) = true then
          Except.ok r.2
        else Except.error ("The mandatory data fields of " ++ String.mk rt
          ++ " doesn't match with the standard!") := by
  have hfacts := header_type_tags_facts hfind
  have hlen : rt.length > 0 := by
    have := hfacts.1
    simp only [List.mem_cons, List.mem_singleton, List.not_mem_nil, or_false] at this
    rcases this with h | h | h | h <;> subst h <;> decide
  unfold SAMHeaderDataLine.ctor
  rw [header_line_ctor_of_split line rt fields flush_ostream hsplit hfacts.1]
  simp only [bind, Except.bind, pure, Except.pure, Bool.not_true, Bool.and_false,
    Bool.false_eq_true, if_false, if_true, SAMHeaderDataLine.parseRecordType, hlen, hfind,
    SAMHeaderDataLine.parseLine, SAMHeaderLine.tab_sep, hsplit, List.length_cons,
    List.drop_succ_cons, List.drop_zero]
  simp only [Nat.zero_lt_succ, if_true]
  cases SAMHeaderDataLine.parseFields rm p.1 p.2 fields []
      { line := line, record_type := rt, parse_record_type := true,
        flush_ostream := flush_ostream, parse_field := parse_field,
        parse_tag := parse_tag, parse_value := parse_value } with
  | error e => rfl
  | ok r =>
    obtain ⟨tags, l1⟩ := r
    simp only
    cases hc : (tags.all (fun t => p.1.contains t) && p.1.all (fun t => tags.contains t))
    · simp
    · simp

theorem header_data_line_ctor_no_type (rm : CppString → CppString → Bool) (line : CppString)
    (parse_field parse_tag parse_value flush_ostream : Bool)
    (h : ∀ rt fields, utk.splitString line '\t' = rt :: fields →
      StdMap.find SAMHeaderDataLine.std_sam_data_header_type_tags rt = none) :
    ∃ msg, SAMHeaderDataLine.ctor rm line true true parse_field parse_tag parse_value
      flush_ostream = Except.error msg := by
  unfold SAMHeaderDataLine.ctor
  cases hb : SAMHeaderLine.ctor line true true flush_ostream with
  | error e => exact ⟨e, rfl⟩
  | ok base =>
    have hrt : ∃ fields, utk.splitString line '\t' = base.record_type :: fields := by
      unfold SAMHeaderLine.ctor SAMHeaderLine.parseLine at hb
      simp only [SAMHeaderLine.tab_sep, if_true, bind, Except.bind, pure, Except.pure] at hb
      cases hs : utk.splitString line '\t' with
      | nil =>
        rw [hs] at hb
        simp at hb
      | cons rt fields =>
        rw [hs] at hb
        simp only [List.length_cons, Nat.zero_lt_succ, if_true, List.headD_cons] at hb
        split at hb
        · cases hb
        simp only [Except.ok.injEq] at hb
        rw [← hb]
        exact ⟨fields, rfl⟩
    obtain ⟨fields, hs⟩ := hrt
    have hnone := h _ _ hs
    simp only [bind, Except.bind, pure, Except.pure, Bool.not_true, Bool.and_false,
      Bool.false_eq_true, if_false, if_true, SAMHeaderDataLine.parseRecordType, hnone]
    split_ifs
    · exact ⟨_, rfl⟩
    · exact ⟨_, rfl⟩

theorem header_parseFields_ok (rm : CppString → CppString → Bool)
    (mand opt : List CppString) (toks tags : List CppString) (l : SAMHeaderDataLine)
    (hpf : l.parse_field = true) (hpt : l.parse_tag = false) (hpv : l.parse_value = false)
    (h : ∀ f ∈ toks, ∃ tag value, utk.splitString f ':' = [tag, value] ∧ tag ≠ [] ∧
      value ≠ [] ∧ (tag ∈ mand ∨ tag ∈ opt)) :
    SAMHeaderDataLine.parseFields rm mand opt toks tags l =
      Except.ok
        (tags ++ (toks.map (fun f => (utk.splitString f ':').headD [])).filter
            (fun t => decide (t ∈ mand)),
         { l with
           mand_fields := l.mand_fields ++
             (toks.filter (fun f => decide ((utk.splitString f ':').headD [] ∈ mand))).map
               (fun f => { field := f, tag := (utk.splitString f ':').getD 0 [],
                           value := (utk.splitString f ':').getD 1 [],
                           record_type := l.record_type, parse_field := true,
                           flush_ostream := l.flush_ostream }),
           opt_fields := l.opt_fields ++
             (toks.filter (fun f => !decide ((utk.splitString f ':').headD [] ∈ mand))).map
               (fun f => { field := f, tag := (utk.splitString f ':').getD 0 [],
                           value := (utk.splitString f ':').getD 1 [],
                           record_type := l.record_type, parse_field := true,
                           flush_ostream := l.flush_ostream }) }) := by
  induction toks generalizing tags l with
  | nil => simp [SAMHeaderDataLine.parseFields]
  | cons tok rest ih =>
    obtain ⟨tag, value, hs, ht, hv, hmem⟩ := h tok (by simp)
    have hctor := header_field_ctor_ok rm tok l.record_type tag value l.flush_ostream hs ht hv
    have hrest : ∀ f ∈ rest, ∃ tag value, utk.splitString f ':' = [tag, value] ∧ tag ≠ [] ∧
        value ≠ [] ∧ (tag ∈ mand ∨ tag ∈ opt) := fun f hf => h f (by simp [hf])
    unfold SAMHeaderDataLine.parseFields
    simp only [hpf, hpt, hpv, hctor, bind, Except.bind]
    by_cases hm : tag ∈ mand
    · rw [if_pos hm]
      rw [ih _ _ rfl rfl rfl hrest]
      simp [hs, hm, List.filter_cons]
    · have ho : tag ∈ opt := hmem.resolve_left hm
      rw [if_neg hm, if_pos ho]
      rw [ih _ _ rfl rfl rfl hrest]
      simp [hs, hm, List.filter_cons]

theorem header_parseFields_inv (rm : CppString → CppString → Bool)
    (mand opt : List CppString) (toks tags : List CppString) (l : SAMHeaderDataLine)
    (hpf : l.parse_field = true) (hpt : l.parse_tag = false) (hpv : l.parse_value = false)
    (r : List CppString × SAMHeaderDataLine)
    (h : SAMHeaderDataLine.parseFields rm mand opt toks tags l = Except.ok r) :
    ∀ f ∈ toks, ∃ tag value, utk.splitString f ':' = [tag, value] ∧ tag ≠ [] ∧
      value ≠ [] ∧ (tag ∈ mand ∨ tag ∈ opt) := by
  induction toks generalizing tags l with
  | nil => simp
  | cons tok rest ih =>
    unfold SAMHeaderDataLine.parseFields at h
    simp only [hpf, hpt, hpv, bind, Except.bind] at h
    cases hc : SAMHeaderDataField.ctor rm tok l.record_type true false false l.flush_ostream with
    | error e =>
      rw [hc] at h
      cases h
    | ok d =>
      rw [hc] at h
      obtain ⟨tag, value, hs, ht, hv, hd⟩ :=
        header_field_ctor_ok_inv rm tok l.record_type l.flush_ostream d hc
      have hdt : d.tag = tag := by rw [hd]
      simp only [hdt] at h
      intro f hf
      simp only [List.mem_cons] at hf
      by_cases hm : tag ∈ mand
      · rw [if_pos hm] at h
        rcases hf with rfl | hf
        · exact ⟨tag, value, hs, ht, hv, Or.inl hm⟩
        · exact ih _ _ rfl rfl rfl h f hf
      · rw [if_neg hm] at h
        by_cases ho : tag ∈ opt
        · rw [if_pos ho] at h
          rcases hf with rfl | hf
          · exact ⟨tag, value, hs, ht, hv, Or.inr ho⟩
          · exact ih _ _ rfl rfl rfl h f hf
        · rw [if_neg ho] at h
          cases h

theorem header_parseFields_structural_only (rm : CppString → CppString → Bool)
    (mand opt : List CppString) (tok : CppString) (rest tags : List CppString)
    (l : SAMHeaderDataLine)
    (hpf : l.parse_field = false) (hpt : l.parse_tag = false) (hpv : l.parse_value = false)
    (hm : [] ∉ mand) (ho : [] ∉ opt) :
    SAMHeaderDataLine.parseFields rm mand opt (tok :: rest) tags l =
      Except.error (String.mk tok ++ " is not a standard data field of "
        ++ String.mk l.record_type ++ " type of SAM header line!") := by
  have hctor : SAMHeaderDataField.ctor rm tok l.record_type false false false l.flush_ostream =
      Except.ok { field := tok, record_type := l.record_type,
                  flush_ostream := l.flush_ostream } := rfl
  unfold SAMHeaderDataLine.parseFields
  simp only [hpf, hpt, hpv, hctor, bind, Except.bind]
  rw [if_neg hm, if_neg ho]

theorem header_data_line_ctor_fields (rm : CppString → CppString → Bool) (line rt : CppString)
    (fields : List CppString) (mand opt : List CppString) (flush_ostream : Bool)
    (hsplit : utk.splitString line '\t' = rt :: fields)
    (hfind : StdMap.find SAMHeaderDataLine.std_sam_data_header_type_tags rt = some (mand, opt))
    (hfields : ∀ f ∈ fields, ∃ tag value, utk.splitString f ':' = [tag, value] ∧ tag ≠ [] ∧
      value ≠ [] ∧ (tag ∈ mand ∨ tag ∈ opt)) :
    SAMHeaderDataLine.ctor rm line true true true false false flush_ostream =
      if ∀ t ∈ mand, ∃ f ∈ fields, (utk.splitString f ':').headD [] = t then
        Except.ok
          { line := line, record_type := rt, parse_record_type := true,
            flush_ostream := flush_ostream, parse_field := true,
            mand_fields :=
              (fields.filter (fun f => decide ((utk.splitString f ':').headD [] ∈ mand))).map
                (fun f => { field := f, tag := (utk.splitString f ':').getD 0 [],
                            value := (utk.splitString f ':').getD 1 [],
                            record_type := rt, parse_field := true,
                            flush_ostream := flush_ostream }),
            opt_fields :=
              (fields.filter (fun f => !decide ((utk.splitString f ':').headD [] ∈ mand))).map
                (fun f => { field := f, tag := (utk.splitString f ':').getD 0 [],
                            value := (utk.splitString f ':').getD 1 [],
                            record_type := rt, parse_field := true,
                            flush_ostream := flush_ostream }) }
      else Except.error ("The mandatory data fields of " ++ String.mk rt
        ++ " doesn't match with the standard!") := by
  rw [header_data_line_ctor_eq rm line rt fields (mand, opt) true false false flush_ostream
    hsplit hfind]
  rw [header_parseFields_ok rm mand opt fields [] _ rfl rfl rfl hfields]
  simp only [List.nil_append]
  have h1 : (List.filter (fun t => decide (t ∈ mand))
      (List.map (fun f => (utk.splitString f ':').headD []) fields)).all
      (fun t => mand.contains t) = true := by
    rw [List.all_eq_true]
    intro t ht
    have := (List.mem_filter.mp ht).2
    simpa using this
  have h2 : (mand.all (fun t => (List.filter (fun t => decide (t ∈ mand))
      (List.map (fun f => (utk.splitString f ':').headD []) fields)).contains t) = true) ↔
      ∀ t ∈ mand, ∃ f ∈ fields, (utk.splitString f ':').headD [] = t := by
    rw [List.all_eq_true]
    constructor
    · intro h t ht
      have := h t ht
      simp only [List.contains, List.elem_iff, List.mem_filter, List.mem_map, decide_eq_true_eq] at this
      obtain ⟨⟨f, hf, hft⟩, -⟩ := this
      exact ⟨f, hf, hft⟩
    · intro h t ht
      obtain ⟨f, hf, hft⟩ := h t ht
      simp only [List.contains, List.elem_iff, List.mem_filter, List.mem_map, decide_eq_true_eq]
      exact ⟨⟨f, hf, hft⟩, ht⟩
  by_cases hc : ∀ t ∈ mand, ∃ f ∈ fields, (utk.splitString f ':').headD [] = t
  · rw [if_pos hc]
    have h3 := h2.mpr hc
    simp only [h1, h3, Bool.and_self, if_true]
  · rw [if_neg hc]
    have h3 : ¬ (mand.all (fun t => (List.filter (fun t => decide (t ∈ mand))
        (List.map (fun f => (utk.splitString f ':').headD []) fields)).contains t) = true) :=
      fun h => hc (h2.mp h)
    simp only [h1, Bool.true_and, h3, Bool.false_eq_true, if_false]

/-- Claim C21: with `parse_line`, `parse_record_type` and `parse_field` on and the tag and value
checks off, `SAMHeaderDataLine(line, ...)` is accepted if and only if the first
TAB-separated token is one of `@HD`, `@SQ`, `@RG`, `@PG`, every further token
splits at `':'` into exactly two non-empty parts whose tag is a mandatory or an
optional tag of that record type, and every mandatory tag of the record type
occurs (the mandatory tags found are mandatory by construction, so the two sets
are then equal).  On success the record type is the first token and the
further tokens are split, in order, into `mand_fields` (tag mandatory) and
`opt_fields` (the others), each with its tag and value.  The mandatory sets are
VN for `@HD`; SN, LN for `@SQ`; ID for `@RG`; ID for `@PG`. -/
theorem header_data_line_accepted_iff (rm : CppString → CppString → Bool) (line : CppString)
    (flush_ostream : Bool) :
    ((∃ l, SAMHeaderDataLine.ctor rm line true true true false false flush_ostream
        = Except.ok l) ↔
      ∃ rt fields mand opt, utk.splitString line '\t' = rt :: fields ∧
        rt ∈ ["@HD".toList, "@SQ".toList, "@RG".toList, "@PG".toList] ∧
        StdMap.find SAMHeaderDataLine.std_sam_data_header_type_tags rt = some (mand, opt) ∧
        (∀ f ∈ fields, ∃ tag value, utk.splitString f ':' = [tag, value] ∧ tag ≠ [] ∧
          value ≠ [] ∧ (tag ∈ mand ∨ tag ∈ opt)) ∧
        (∀ t ∈ mand, ∃ f ∈ fields, (utk.splitString f ':').headD [] = t)) ∧
    (∀ l rt fields mand opt,
      SAMHeaderDataLine.ctor rm line true true true false false flush_ostream = Except.ok l →
      utk.splitString line '\t' = rt :: fields →
      StdMap.find SAMHeaderDataLine.std_sam_data_header_type_tags rt = some (mand, opt) →
      l.line = line ∧ l.record_type = rt ∧
      l.mand_fields =
        (fields.filter (fun f => decide ((utk.splitString f ':').headD [] ∈ mand))).map
          (fun f => { field := f, tag := (utk.splitString f ':').getD 0 [],
                      value := (utk.splitString f ':').getD 1 [],
                      record_type := rt, parse_field := true,
                      flush_ostream := flush_ostream }) ∧
      l.opt_fields =
        (fields.filter (fun f => !decide ((utk.splitString f ':').headD [] ∈ mand))).map
          (fun f => { field := f, tag := (utk.splitString f ':').getD 0 [],
                      value := (utk.splitString f ':').getD 1 [],
                      record_type := rt, parse_field := true,
                      flush_ostream := flush_ostream })) ∧
    (∀ rt, (∃ p, StdMap.find SAMHeaderDataLine.std_sam_data_header_type_tags rt = some p) ↔
      rt ∈ ["@HD".toList, "@SQ".toList, "@RG".toList, "@PG".toList]) ∧
    StdMap.find SAMHeaderDataLine.std_sam_data_header_type_tags "@HD".toList =
      some (["VN".toList], ["SO".toList, "GO".toList]) ∧
    (StdMap.find SAMHeaderDataLine.std_sam_data_header_type_tags "@SQ".toList).map Prod.fst =
      some ["SN".toList, "LN".toList] ∧
    (StdMap.find SAMHeaderDataLine.std_sam_data_header_type_tags "@RG".toList).map Prod.fst =
      some ["ID".toList] ∧
    (StdMap.find SAMHeaderDataLine.std_sam_data_header_type_tags "@PG".toList).map Prod.fst =
      some ["ID".toList] := by
  have hinv : ∀ l, SAMHeaderDataLine.ctor rm line true true true false false flush_ostream
        = Except.ok l →
      ∃ rt fields mand opt, utk.splitString line '\t' = rt :: fields ∧
        StdMap.find SAMHeaderDataLine.std_sam_data_header_type_tags rt = some (mand, opt) ∧
        (∀ f ∈ fields, ∃ tag value, utk.splitString f ':' = [tag, value] ∧ tag ≠ [] ∧
          value ≠ [] ∧ (tag ∈ mand ∨ tag ∈ opt)) := by
    intro l hl
    cases hs : utk.splitString line '\t' with
    | nil =>
      obtain ⟨msg, hmsg⟩ := header_data_line_ctor_no_type rm line true false false flush_ostream
        (fun rt fields h => by rw [hs] at h; cases h)
      rw [hmsg] at hl
      cases hl
    | cons rt fields =>
      cases hf : StdMap.find SAMHeaderDataLine.std_sam_data_header_type_tags rt with
      | none =>
        obtain ⟨msg, hmsg⟩ := header_data_line_ctor_no_type rm line true false false
          flush_ostream (fun rt2 fields2 h => by
            rw [hs] at h
            simp only [List.cons.injEq] at h
            rw [← h.1]
            exact hf)
        rw [hmsg] at hl
        cases hl
      | some p =>
        obtain ⟨mand, opt⟩ := p
        refine ⟨rt, fields, mand, opt, rfl, hf, ?_⟩
        rw [header_data_line_ctor_eq rm line rt fields (mand, opt) true false false
          flush_ostream hs hf] at hl
        cases hp : SAMHeaderDataLine.parseFields rm mand opt fields []
            { line := line, record_type := rt, parse_record_type := true,
              flush_ostream := flush_ostream, parse_field := true,
              parse_tag := false, parse_value := false } with
        | error e =>
          simp only [hp] at hl
          cases hl
        | ok r => exact header_parseFields_inv rm mand opt fields [] _ rfl rfl rfl r hp
  refine ⟨⟨?_, ?_⟩, ?_, ?_, rfl, rfl, rfl, rfl⟩
  · rintro ⟨l, hl⟩
    obtain ⟨rt, fields, mand, opt, hs, hf, hfields⟩ := hinv l hl
    refine ⟨rt, fields, mand, opt, hs, (header_type_tags_facts hf).1, hf, hfields, ?_⟩
    rw [header_data_line_ctor_fields rm line rt fields mand opt flush_ostream hs hf hfields] at hl
    by_contra hc
    rw [if_neg hc] at hl
    cases hl
  · rintro ⟨rt, fields, mand, opt, hs, -, hf, hfields, hall⟩
    rw [header_data_line_ctor_fields rm line rt fields mand opt flush_ostream hs hf hfields,
      if_pos hall]
    exact ⟨_, rfl⟩
  · intro l rt fields mand opt hl hs hf
    obtain ⟨rt2, fields2, mand2, opt2, hs2, hf2, hfields⟩ := hinv l hl
    rw [hs] at hs2
    simp only [List.cons.injEq] at hs2
    obtain ⟨e1, e2⟩ := hs2
    subst e1
    subst e2
    rw [hf] at hf2
    simp only [Option.some.injEq, Prod.mk.injEq] at hf2
    obtain ⟨e3, e4⟩ := hf2
    subst e3
    subst e4
    rw [header_data_line_ctor_fields rm line rt fields mand opt flush_ostream hs hf hfields] at hl
    split_ifs at hl
    simp only [Except.ok.injEq] at hl
    rw [← hl]
    exact ⟨rfl, rfl, rfl, rfl⟩
  · intro rt
    exact ⟨fun ⟨p, hp⟩ => (header_type_tags_facts hp).1, header_type_tags_find_of_mem⟩

/-- Claim C21, an accepted line and four rejected lines: a mandatory tag missing, an
unknown tag, a field with three parts, a comment record type. -/
theorem header_data_line_accepted_iff_witness :
    (∃ l, SAMHeaderDataLine.ctor (fun _ _ => false) "@SQ\tSN:chr1\tUR:x\tLN:100".toList
        true true true false false false = Except.ok l ∧
      l.mand_fields.map (fun f => f.field) = ["SN:chr1".toList, "LN:100".toList] ∧
      l.opt_fields.map (fun f => f.field) = ["UR:x".toList]) ∧
    SAMHeaderDataLine.ctor (fun _ _ => false) "@SQ\tSN:chr1\tUR:x".toList
        true true true false false false =
      Except.error "The mandatory data fields of @SQ doesn't match with the standard!" ∧
    SAMHeaderDataLine.ctor (fun _ _ => false) "@HD\tVN:1.0\tXX:1".toList
        true true true false false false =
      Except.error "XX:1 is not a standard data field of @HD type of SAM header line!" ∧
    SAMHeaderDataLine.ctor (fun _ _ => false) "@HD\tVN:1:0".toList
        true true true false false false =
      Except.error "VN:1:0 doesn't contain 2 parts!" ∧
    SAMHeaderDataLine.ctor (fun _ _ => false) "@CO\tVN:1.0".toList
        true true true false false false =
      Except.error "@CO is not a standard record type for data header line!" :=
  ⟨(((header_data_line_accepted_iff (fun _ _ => false) "@SQ\tSN:chr1\tUR:x\tLN:100".toList
        false).1.mpr
      ⟨"@SQ".toList, ["SN:chr1".toList, "UR:x".toList, "LN:100".toList],
        ["SN".toList, "LN".toList],
        ["AH".toList, "AN".toList, "AS".toList, "M5".toList, "SP".toList, "UR".toList],
        by decide, by decide, by decide,
        (by
          intro f hf
          simp only [List.mem_cons, List.mem_singleton, List.not_mem_nil, or_false] at hf
          rcases hf with rfl | rfl | rfl
          · exact ⟨"SN".toList, "chr1".toList, by decide, by decide, by decide, by decide⟩
          · exact ⟨"UR".toList, "x".toList, by decide, by decide, by decide, by decide⟩
          · exact ⟨"LN".toList, "100".toList, by decide, by decide, by decide, by decide⟩),
        (by
          intro t ht
          simp only [List.mem_cons, List.mem_singleton, List.not_mem_nil, or_false] at ht
          rcases ht with rfl | rfl
          · exact ⟨"SN:chr1".toList, by decide, by decide⟩
          · exact ⟨"LN:100".toList, by decide, by decide⟩)⟩).elim
      (fun l hl => ⟨l, hl, by
        have h := hl
        have e : SAMHeaderDataLine.ctor (fun _ _ => false) "@SQ\tSN:chr1\tUR:x\tLN:100".toList
          true true true false false false = Except.ok _ := rfl
        rw [e] at h
        simp only [Except.ok.injEq] at h
        rw [← h]
        exact ⟨rfl, rfl⟩⟩)),
    rfl, rfl, rfl, rfl⟩

/-- Claim C22 (what the code does): with structural parsing only (`parse_line` and `parse_record_type`
on; `parse_field`, `parse_tag`, `parse_value` off) `SAMHeaderDataLine(line, ...)` accepts no line
at all.  The data fields are built without their tag, so a line with a further
token is rejected at its first field with "... is not a standard data field of
... type of SAM header line!", and a line that is only a record type is rejected
because its mandatory fields are missing.  In particular the lines
"@HD<TAB>VN:1.0" and "@HD<TAB>XX:1" are rejected. -/
theorem header_data_line_structural_only_rejected (rm : CppString → CppString → Bool)
    (line : CppString) (flush_ostream : Bool) :
    (∃ msg, SAMHeaderDataLine.ctor rm line true true false false false flush_ostream
      = Except.error msg) ∧
    (∀ rt tok rest, utk.splitString line '\t' = rt :: tok :: rest →
      rt ∈ ["@HD".toList, "@SQ".toList, "@RG".toList, "@PG".toList] →
      SAMHeaderDataLine.ctor rm line true true false false false flush_ostream =
        Except.error (String.mk tok ++ " is not a standard data field of "
          ++ String.mk rt ++ " type of SAM header line!")) ∧
    (∀ rt, utk.splitString line '\t' = [rt] →
      rt ∈ ["@HD".toList, "@SQ".toList, "@RG".toList, "@PG".toList] →
      SAMHeaderDataLine.ctor rm line true true false false false flush_ostream =
        Except.error ("The mandatory data fields of " ++ String.mk rt
          ++ " doesn't match with the standard!")) ∧
    SAMHeaderDataLine.ctor rm "@HD\tVN:1.0".toList true true false false false flush_ostream =
      Except.error "VN:1.0 is not a standard data field of @HD type of SAM header line!" ∧
    SAMHeaderDataLine.ctor rm "@HD\tXX:1".toList true true false false false flush_ostream =
      Except.error "XX:1 is not a standard data field of @HD type of SAM header line!" := by
  have h2 : ∀ rt tok rest, utk.splitString line '\t' = rt :: tok :: rest →
      rt ∈ ["@HD".toList, "@SQ".toList, "@RG".toList, "@PG".toList] →
      SAMHeaderDataLine.ctor rm line true true false false false flush_ostream =
        Except.error (String.mk tok ++ " is not a standard data field of "
          ++ String.mk rt ++ " type of SAM header line!") := by
    intro rt tok rest hs hrt
    obtain ⟨p, hf⟩ := header_type_tags_find_of_mem hrt
    obtain ⟨-, -, hm, ho⟩ := header_type_tags_facts hf
    rw [header_data_line_ctor_eq rm line rt (tok :: rest) p false false false flush_ostream
      hs hf]
    rw [header_parseFields_structural_only rm p.1 p.2 tok rest [] _ rfl rfl rfl hm ho]
  have h3 : ∀ rt, utk.splitString line '\t' = [rt] →
      rt ∈ ["@HD".toList, "@SQ".toList, "@RG".toList, "@PG".toList] →
      SAMHeaderDataLine.ctor rm line true true false false false flush_ostream =
        Except.error ("The mandatory data fields of " ++ String.mk rt
          ++ " doesn't match with the standard!") := by
    intro rt hs hrt
    obtain ⟨p, hf⟩ := header_type_tags_find_of_mem hrt
    obtain ⟨-, hne, -, -⟩ := header_type_tags_facts hf
    rw [header_data_line_ctor_eq rm line rt [] p false false false flush_ostream hs hf]
    simp only [SAMHeaderDataLine.parseFields, List.all_nil, Bool.true_and]
    have hall : (p.1.all (fun t => ([] : List CppString).contains t)) = false := by
      cases hp : p.1 with
      | nil => exact absurd hp hne
      | cons t ts => simp
    rw [hall]
    simp
  refine ⟨?_, h2, h3, ?_, ?_⟩
  · cases hs : utk.splitString line '\t' with
    | nil =>
      exact header_data_line_ctor_no_type rm line false false false flush_ostream
        (fun rt fields h => by rw [hs] at h; cases h)
    | cons rt fields =>
      cases hf : StdMap.find SAMHeaderDataLine.std_sam_data_header_type_tags rt with
      | none =>
        exact header_data_line_ctor_no_type rm line false false false flush_ostream
          (fun rt2 fields2 h => by
            rw [hs] at h
            simp only [List.cons.injEq] at h
            rw [← h.1]
            exact hf)
      | some p =>
        have hrt := (header_type_tags_facts hf).1
        cases fields with
        | nil => exact ⟨_, h3 rt hs hrt⟩
        | cons tok rest => exact ⟨_, h2 rt tok rest hs hrt⟩
  · rfl
  · rfl

/-- A `SAMFileReader` with `parse_header_line` on and `parse_header_fields` off (the default of the
alignment counter's arguments) cannot read the header data line "@HD<TAB>VN:1.0". -/
theorem reader_header_data_line_structural_only (rm : CppString → CppString → Bool) :
    SAMFileReader.readHeaderDataLine rm { parse_header_line := true } "@HD\tVN:1.0".toList =
      Except.error "VN:1.0 is not a standard data field of @HD type of SAM header line!" := rfl

/-- Claim C35 (what the code does): every emptiness test of `SAMAlignmentLine::parseLine` looks at
`qname.length()`.  A line with at least 11 tokens whose QNAME is not empty and
whose five numeric tokens convert is parsed, with the mandatory-field checks
off, whatever the RNAME, CIGAR, RNEXT, SEQ and QUAL tokens are, the empty
string included; only an empty QNAME is rejected ("QNAME is empty!"). -/
theorem parseLine_empty_fields_accepted {F : Type}
    (optCtor : CppString → Bool → Bool → Bool → Bool → Bool → Except String F)
    (al : SAMAlignmentLine SAMAlignmentMandatoryFields F)
    (t0 t1 t2 t3 t4 t5 t6 t7 t8 t9 t10 : CppString) (rest : List CppString)
    (flag pos mapq pnext : Nat) (tlen : Int) (opts : List (List F))
    (hparts : utk.splitString al.line '\t' =
      t0 :: t1 :: t2 :: t3 :: t4 :: t5 :: t6 :: t7 :: t8 :: t9 :: t10 :: rest)
    (hmand : al.parse_mand_fields = false)
    (h1 : std.stoul t1 = some flag) (h3 : std.stoul t3 = some pos)
    (h4 : std.stoul t4 = some mapq) (h7 : std.stoul t7 = some pnext)
    (h8 : std.stoll t8 = some tlen)
    (hopts : rest.mapM (SAMAlignmentLine.parseOptionalToken optCtor al) = Except.ok opts) :
    (t0 ≠ [] →
      SAMAlignmentLine.parseLine optCtor al =
        Except.ok { al with
          mand_fields := { qname := t0, flag := flag, rname := t2, pos := pos, mapq := mapq,
                           cigar := t5, rnext := t6, pnext := pnext, tlen := tlen, seq := t9,
                           qual := t10, flush_ostream := al.flush_ostream },
          opt_fields := al.opt_fields ++ opts.flatten }) ∧
    (t0 = [] → SAMAlignmentLine.parseLine optCtor al = Except.error "QNAME is empty!") := by
  constructor
  · intro hq
    rw [parseLine_eq optCtor al hparts hq]
    have e1 : SAMAlignmentLine.convertSizeOr t1 "Failed to convert FLAG to std::size_t type!"
        = Except.ok flag := by rw [convertSizeOr_eq, h1]
    have e3 : SAMAlignmentLine.convertSizeOr t3 "Failed to convert POS to std::size_t type!"
        = Except.ok pos := by rw [convertSizeOr_eq, h3]
    have e4 : SAMAlignmentLine.convertSizeOr t4 "Failed to convert MAPQ to std::size_t type!"
        = Except.ok mapq := by rw [convertSizeOr_eq, h4]
    have e7 : SAMAlignmentLine.convertSizeOr t7 "Failed to convert PNEXT to std::size_t type!"
        = Except.ok pnext := by rw [convertSizeOr_eq, h7]
    have e8 : SAMAlignmentLine.convertLongLongOr t8 "Failed to convert TLEN to long long type!"
        = Except.ok tlen := by rw [convertLongLongOr_eq, h8]
    have hm : (SAMAlignmentMandatoryFieldsTypeOps.ctor t0 flag t2 pos mapq t5 t6 pnext tlen t9 t10
        al.parse_mand_fields al.flush_ostream : Except String SAMAlignmentMandatoryFields) =
        Except.ok { qname := t0, flag := flag, rname := t2, pos := pos, mapq := mapq,
                    cigar := t5, rnext := t6, pnext := pnext, tlen := tlen, seq := t9,
                    qual := t10, flush_ostream := al.flush_ostream } := by
      rw [hmand]
      show SAMAlignmentMandatoryFields.ctor t0 flag t2 pos mapq t5 t6 pnext tlen t9 t10 false
        al.flush_ostream = _
      unfold SAMAlignmentMandatoryFields.ctor
      rw [mandatory_parse_reset _ rfl]
      rfl
    simp only [e1, e3, e4, e7, e8, hm, hopts, bind, Except.bind, pure, Except.pure]
  · intro hq
    unfold SAMAlignmentLine.parseLine
    simp only [SAMAlignmentLine.tab_sep, SAMAlignmentMandatoryFields.getNumberOfMandatoryFields,
      SAMAlignmentMandatoryFields.n_mand_fields, ge_iff_le]
    have hlen : 11 ≤ (utk.splitString al.line '\t').length := by
      rw [hparts]
      simp
    rw [if_pos hlen, hparts, hq]
    rfl

/-- Claim C35, failing input: the line `r1 0 "" 100 255 "" "" 200 -50 "" ""` (TAB-separated,
with empty RNAME, CIGAR, RNEXT, SEQ and QUAL) is parsed without error. -/
theorem parseLine_empty_fields_accepted_witness :
    SAMAlignmentLine.parseLine (fun field _ _ _ _ _ => Except.ok field)
        ({ line := "r1\t0\t\t100\t255\t\t\t200\t-50\t\t".toList, mand_fields := {} } :
          SAMAlignmentLine SAMAlignmentMandatoryFields CppString) =
      Except.ok { line := "r1\t0\t\t100\t255\t\t\t200\t-50\t\t".toList,
                  mand_fields := { qname := "r1".toList, flag := 0, rname := [], pos := 100,
                                   mapq := 255, cigar := [], rnext := [], pnext := 200,
                                   tlen := -50, seq := [], qual := [] } } :=
  (parseLine_empty_fields_accepted (fun field _ _ _ _ _ => Except.ok field)
    { line := "r1\t0\t\t100\t255\t\t\t200\t-50\t\t".toList, mand_fields := {} }
    "r1".toList "0".toList [] "100".toList "255".toList [] [] "200".toList "-50".toList [] [] []
    0 100 255 200 (-50) [] (by decide) rfl (by decide) (by decide) (by decide) (by decide)
    (by decide) rfl).1 (by decide)

theorem except_mapM_forall₂ {α β : Type} (f : α → Except String β) :
    ∀ (xs : List α) (ys : List β), xs.mapM f = Except.ok ys →
      List.Forall₂ (fun x y => f x = Except.ok y) xs ys := by
  intro xs
  induction xs with
  | nil =>
    intro ys h
    simp only [List.mapM_nil, pure, Except.pure, Except.ok.injEq] at h
    subst h
    exact List.Forall₂.nil
  | cons x xs ih =>
    intro ys h
    simp only [List.mapM_cons, bind, Except.bind, pure, Except.pure] at h
    split at h
    · cases h
    rename_i y hy
    split at h
    · cases h
    rename_i ys1 hys1
    simp only [Except.ok.injEq] at h
    subst h
    exact List.Forall₂.cons hy (ih ys1 hys1)

theorem parseLine_opt_fields {M F : Type} [SAMAlignmentMandatoryFieldsTypeOps M]
    (optCtor : CppString → Bool → Bool → Bool → Bool → Bool → Except String F)
    (al al1 : SAMAlignmentLine M F)
    (h : SAMAlignmentLine.parseLine optCtor al = Except.ok al1) :
    ∃ t0 t1 t2 t3 t4 t5 t6 t7 t8 t9 t10 rest opts,
      utk.splitString al.line '\t' =
        t0 :: t1 :: t2 :: t3 :: t4 :: t5 :: t6 :: t7 :: t8 :: t9 :: t10 :: rest ∧
      rest.mapM (SAMAlignmentLine.parseOptionalToken optCtor al) = Except.ok opts ∧
      al1.opt_fields = al.opt_fields ++ opts.flatten := by
  obtain ⟨t0, t1, t2, t3, t4, t5, t6, t7, t8, t9, t10, rest, flag, pos, mapq, pnext, tlen,
    hparts, hq, e1, e3, e4, e7, e8, hm⟩ := parseLine_fields optCtor al al1 h
  refine ⟨t0, t1, t2, t3, t4, t5, t6, t7, t8, t9, t10, rest, ?_⟩
  rw [parseLine_eq optCtor al hparts hq] at h
  have c1 : SAMAlignmentLine.convertSizeOr t1 "Failed to convert FLAG to std::size_t type!"
      = Except.ok flag := by rw [convertSizeOr_eq, e1]
  have c3 : SAMAlignmentLine.convertSizeOr t3 "Failed to convert POS to std::size_t type!"
      = Except.ok pos := by rw [convertSizeOr_eq, e3]
  have c4 : SAMAlignmentLine.convertSizeOr t4 "Failed to convert MAPQ to std::size_t type!"
      = Except.ok mapq := by rw [convertSizeOr_eq, e4]
  have c7 : SAMAlignmentLine.convertSizeOr t7 "Failed to convert PNEXT to std::size_t type!"
      = Except.ok pnext := by rw [convertSizeOr_eq, e7]
  have c8 : SAMAlignmentLine.convertLongLongOr t8 "Failed to convert TLEN to long long type!"
      = Except.ok tlen := by rw [convertLongLongOr_eq, e8]
  simp only [c1, c3, c4, c7, c8, hm, bind, Except.bind, pure, Except.pure] at h
  cases ho : rest.mapM (SAMAlignmentLine.parseOptionalToken optCtor al) with
  | error e =>
    rw [ho] at h
    cases h
  | ok opts =>
    rw [ho] at h
    simp only [Except.ok.injEq] at h
    exact ⟨opts, hparts, rfl, by rw [← h]⟩

theorem forall₂_exists_left {α β : Type} {R : α → β → Prop} {xs : List α} {ys : List β}
    (h : List.Forall₂ R xs ys) : ∀ y ∈ ys, ∃ x ∈ xs, R x y := by
  induction h with
  | nil => intro y hy; simp at hy
  | cons hxy _ ih =>
    intro y hy
    simp only [List.mem_cons] at hy
    rcases hy with rfl | hy
    · exact ⟨_, List.mem_cons_self _ _, hxy⟩
    · obtain ⟨x, hx, hr⟩ := ih y hy
      exact ⟨x, List.mem_cons_of_mem _ hx, hr⟩

theorem parseOptionalToken_length {M F : Type}
    (optCtor : CppString → Bool → Bool → Bool → Bool → Bool → Except String F)
    (al : SAMAlignmentLine M F) (it : CppString) (fs : List F)
    (h : SAMAlignmentLine.parseOptionalToken optCtor al it = Except.ok fs) :
    fs.length = (if al.pref_opt_fields_tags.length > 0 then al.pref_opt_fields_tags.length
      else 1) ∧
    ∀ f ∈ fs, ∃ a b c d, optCtor it a b c d al.flush_ostream = Except.ok f := by
  unfold SAMAlignmentLine.parseOptionalToken at h
  by_cases hk : al.pref_opt_fields_tags.length > 0
  · rw [if_pos hk] at h
    rw [if_pos hk]
    have hf := except_mapM_forall₂ _ _ _ h
    refine ⟨hf.length_eq.symm, ?_⟩
    intro f hfmem
    obtain ⟨tag, -, htag⟩ := forall₂_exists_left hf f hfmem
    by_cases hp : CppString.substr it 0 tag.length = tag
    · rw [if_pos hp] at htag
      exact ⟨_, _, _, _, htag⟩
    · rw [if_neg hp] at htag
      exact ⟨_, _, _, _, htag⟩
  · rw [if_neg hk] at h
    rw [if_neg hk]
    simp only [bind, Except.bind, pure, Except.pure] at h
    split at h
    · cases h
    rename_i f hf
    simp only [Except.ok.injEq] at h
    subst h
    refine ⟨rfl, ?_⟩
    intro f0 hf0
    simp only [List.mem_singleton] at hf0
    subst hf0
    exact ⟨_, _, _, _, hf⟩

theorem flatten_of_forall₂ {α β : Type} {P : α → β → Prop} {c : Nat} {rest : List α}
    {opts : List (List β)}
    (h : List.Forall₂ (fun it fs => fs.length = c ∧ ∀ f ∈ fs, P it f) rest opts) :
    opts.flatten.length = rest.length * c ∧ (c = 1 → List.Forall₂ P rest opts.flatten) := by
  induction h with
  | nil => exact ⟨by simp, fun _ => List.Forall₂.nil⟩
  | @cons it fs rest1 opts1 hxy _ ih =>
    obtain ⟨hl, hP⟩ := hxy
    obtain ⟨ih1, ih2⟩ := ih
    constructor
    · simp only [List.flatten_cons, List.length_append, List.length_cons, hl, ih1]
      rw [Nat.add_mul, Nat.one_mul, Nat.add_comm]
    · intro hc
      rw [hc] at hl
      cases fs with
      | nil => simp at hl
      | cons f fs1 =>
        cases fs1 with
        | nil =>
          simp only [List.flatten_cons, List.singleton_append]
          exact List.Forall₂.cons (hP f (by simp)) (ih2 hc)
        | cons g gs => simp at hl

/-- Claim C34 (what the code does): when `SAMAlignmentLine::parseLine` succeeds on a line with 11 + N
TAB-separated columns, the loop over the preferred tags appends one entry per
preferred tag for every optional column (parsed when the column starts with
the tag, unparsed otherwise).  With `k >= 1` preferred tags the optional-field
list has `N * k` entries, with no preferred tag it has `N`; only for at most
one preferred tag is the i-th entry built from column 11 + i. -/
theorem parseLine_optional_entries {M F : Type} [SAMAlignmentMandatoryFieldsTypeOps M]
    (optCtor : CppString → Bool → Bool → Bool → Bool → Bool → Except String F)
    (al al1 : SAMAlignmentLine M F)
    (h : SAMAlignmentLine.parseLine optCtor al = Except.ok al1)
    (hempty : al.opt_fields = []) :
    ∃ t0 t1 t2 t3 t4 t5 t6 t7 t8 t9 t10 rest,
      utk.splitString al.line '\t' =
        t0 :: t1 :: t2 :: t3 :: t4 :: t5 :: t6 :: t7 :: t8 :: t9 :: t10 :: rest ∧
      al1.opt_fields.length = rest.length *
        (if al.pref_opt_fields_tags.length > 0 then al.pref_opt_fields_tags.length else 1) ∧
      (al.pref_opt_fields_tags.length ≤ 1 →
        al1.opt_fields.length = rest.length ∧
        List.Forall₂ (fun it f => ∃ a b c d, optCtor it a b c d al.flush_ostream = Except.ok f)
          rest al1.opt_fields) := by
  obtain ⟨t0, t1, t2, t3, t4, t5, t6, t7, t8, t9, t10, rest, opts, hparts, hopts, hal1⟩ :=
    parseLine_opt_fields optCtor al al1 h
  refine ⟨t0, t1, t2, t3, t4, t5, t6, t7, t8, t9, t10, rest, hparts, ?_⟩
  rw [hal1, hempty, List.nil_append]
  have hF := except_mapM_forall₂ _ _ _ hopts
  have hF2 : List.Forall₂ (fun it fs =>
      fs.length = (if al.pref_opt_fields_tags.length > 0 then al.pref_opt_fields_tags.length
        else 1) ∧
      ∀ f ∈ fs, ∃ a b c d, optCtor it a b c d al.flush_ostream = Except.ok f) rest opts :=
    hF.imp (fun it fs hit => parseOptionalToken_length optCtor al it fs hit)
  obtain ⟨hlen, hone⟩ := flatten_of_forall₂ hF2
  refine ⟨hlen, ?_⟩
  intro hk
  have hc : (if al.pref_opt_fields_tags.length > 0 then al.pref_opt_fields_tags.length
      else 1) = 1 := by
    split_ifs with h0
    · omega
    · rfl
  refine ⟨by rw [hlen, hc, Nat.mul_one], hone hc⟩

/-- Claim C34, failing input: with the preset preferred tags XS, XN, XT of the alignment counter, a
line with 11 + 3 columns gets 9 optional-field entries, each optional column
three times. -/
theorem parseLine_optional_entries_witness :
    ∃ al1, SAMAlignmentLine.parseLine (fun field _ _ _ _ _ => Except.ok field)
        ({ line := "r1\t0\tchr1\t100\t255\t4M\t=\t200\t-50\tACGT\tIIII\tXS:Z:Assigned\tXN:i:1\tXT:Z:GAPDH".toList,
           mand_fields := {}, parse_line := true, parse_opt_fields := true,
           pref_opt_fields_tags := ["XS".toList, "XN".toList, "XT".toList] } :
          SAMAlignmentLine SAMAlignmentMandatoryFields CppString) = Except.ok al1 ∧
      al1.opt_fields =
        ["XS:Z:Assigned".toList, "XS:Z:Assigned".toList, "XS:Z:Assigned".toList,
         "XN:i:1".toList, "XN:i:1".toList, "XN:i:1".toList,
         "XT:Z:GAPDH".toList, "XT:Z:GAPDH".toList, "XT:Z:GAPDH".toList] ∧
      al1.opt_fields.length = 3 * 3 :=
  have key : ∃ al1, SAMAlignmentLine.parseLine (fun field _ _ _ _ _ => Except.ok field)
        ({ line := "r1\t0\tchr1\t100\t255\t4M\t=\t200\t-50\tACGT\tIIII\tXS:Z:Assigned\tXN:i:1\tXT:Z:GAPDH".toList,
           mand_fields := {}, parse_line := true, parse_opt_fields := true,
           pref_opt_fields_tags := ["XS".toList, "XN".toList, "XT".toList] } :
          SAMAlignmentLine SAMAlignmentMandatoryFields CppString) = Except.ok al1 ∧
      al1.opt_fields =
        ["XS:Z:Assigned".toList, "XS:Z:Assigned".toList, "XS:Z:Assigned".toList,
         "XN:i:1".toList, "XN:i:1".toList, "XN:i:1".toList,
         "XT:Z:GAPDH".toList, "XT:Z:GAPDH".toList, "XT:Z:GAPDH".toList] := ⟨_, rfl, rfl⟩
  key.elim (fun al1 hk => ⟨al1, hk.1, hk.2, by
    obtain ⟨t0, t1, t2, t3, t4, t5, t6, t7, t8, t9, t10, rest, hparts, hlen, -⟩ :=
      parseLine_optional_entries _ _ al1 hk.1 rfl
    have e : utk.splitString
        "r1\t0\tchr1\t100\t255\t4M\t=\t200\t-50\tACGT\tIIII\tXS:Z:Assigned\tXN:i:1\tXT:Z:GAPDH".toList
        '\t' =
        ["r1".toList, "0".toList, "chr1".toList, "100".toList, "255".toList, "4M".toList,
         "=".toList, "200".toList, "-50".toList, "ACGT".toList, "IIII".toList,
         "XS:Z:Assigned".toList, "XN:i:1".toList, "XT:Z:GAPDH".toList] := by decide
    rw [e] at hparts
    simp only [List.cons.injEq] at hparts
    obtain ⟨-, -, -, -, -, -, -, -, -, -, -, hrest⟩ := hparts
    rw [← hrest] at hlen
    exact hlen⟩)

/-- Claim C37 (what the code does): `SAMHeaderDataField::parseField` requires exactly two colon-separated
parts.  For a non-empty tag without `':'` and a non-empty value, the field
tag + ":" + value is parsed into that tag and that value when the value has no
`':'`, and is rejected with "... doesn't contain 2 parts!" when the value
contains a `':'`. -/
theorem header_field_colon_split (rm : CppString → CppString → Bool)
    (tag value record_type : CppString) (flush_ostream : Bool)
    (ht : tag ≠ []) (hv : value ≠ []) (htc : ':' ∉ tag) :
    (':' ∉ value →
      SAMHeaderDataField.ctor rm (tag ++ ':' :: value) record_type true false false
          flush_ostream =
        Except.ok { field := tag ++ ':' :: value, tag := tag, value := value,
                    record_type := record_type, parse_field := true,
                    flush_ostream := flush_ostream }) ∧
    (':' ∈ value →
      SAMHeaderDataField.ctor rm (tag ++ ':' :: value) record_type true false false
          flush_ostream =
        Except.error (String.mk (tag ++ ':' :: value) ++ " doesn't contain 2 parts!")) := by
  have hne : tag ++ ':' :: value ≠ [] := by simp
  have hsplit : utk.splitString (tag ++ ':' :: value) ':' = tag :: utk.splitOnChar ':' value := by
    have e : utk.splitString (tag ++ ':' :: value) ':' =
        utk.splitOnChar ':' (tag ++ ':' :: value) := by
      cases tag with
      | nil => exact absurd rfl ht
      | cons c cs => rfl
    rw [e, splitOnChar_append, splitOnChar_no_sep ':' tag htc]
    rfl
  constructor
  · intro hvc
    apply header_field_ctor_ok rm _ record_type tag value flush_ostream _ ht hv
    rw [hsplit, splitOnChar_no_sep ':' value hvc]
  · intro hvc
    rw [header_field_ctor_structural]
    unfold SAMHeaderDataField.parseField
    simp only [SAMHeaderDataField.colon_sep, SAMHeaderDataField.n_field_parts, hsplit,
      List.length_cons, splitOnChar_length]
    have hcount : 0 < value.count ':' := List.count_pos_iff.mpr hvc
    rw [if_neg (by omega)]
    have e2 : (" doesn't contain " ++ (toString 2 ++ " parts!") : String)
        = " doesn't contain 2 parts!" := by decide
    simp only [String.append_assoc, e2]

/-- Claim C37, witness: "VN:1.0" is split into VN and 1.0, and the failing input
"UR:file:/ref.fa" of an `@SQ` line is rejected. -/
theorem header_field_colon_split_witness :
    SAMHeaderDataField.ctor (fun _ _ => false) "VN:1.0".toList "@HD".toList true false false
        false =
      Except.ok { field := "VN:1.0".toList, tag := "VN".toList, value := "1.0".toList,
                  record_type := "@HD".toList, parse_field := true, flush_ostream := false } ∧
    SAMHeaderDataField.ctor (fun _ _ => false) "UR:file:/ref.fa".toList "@SQ".toList
        true false false false =
      Except.error "UR:file:/ref.fa doesn't contain 2 parts!" :=
  ⟨(header_field_colon_split (fun _ _ => false) "VN".toList "1.0".toList "@HD".toList false
      (by decide) (by decide) (by decide)).1 (by decide),
   (header_field_colon_split (fun _ _ => false) "UR".toList "file:/ref.fa".toList "@SQ".toList
      false (by decide) (by decide) (by decide)).2 (by decide)⟩

/-- Claim C37, the code on values with colons: the fields "UR:file:/ref.fa" and
"DT:2018-04-04T10:30:00" have three and four colon-separated parts and are rejected. -/
theorem header_field_colon_in_value_rejected :
    SAMHeaderDataField.ctor (fun _ _ => false) "UR:file:/ref.fa".toList "@SQ".toList
        true false false false =
      Except.error "UR:file:/ref.fa doesn't contain 2 parts!" ∧
    SAMHeaderDataField.ctor (fun _ _ => false) "DT:2018-04-04T10:30:00".toList "@RG".toList
        true false false false =
      Except.error "DT:2018-04-04T10:30:00 doesn't contain 2 parts!" :=
  ⟨rfl, rfl⟩

open SAMGeneUMIAlignmentCounter in
theorem countAlignmentLine_ok_cases (counter : SAMGeneUMIAlignmentCounter)
    (l : SAMCompositedDGEIlluminaSTARFeatureCountsAlignmentLine) (aux : Bool) (r : CountResult)
    (h : countAlignmentLine counter l aux = Except.ok r) :
    (¬ (l.opt_fields.number_of_target_features = some 1 ∧
        ∃ tf, l.opt_fields.target_features = some tf) ∧
      r = { status := false, aux_count := aux, counter := counter }) ∨
    (l.opt_fields.number_of_target_features = some 1 ∧
      ∃ g u, geneUMI l = some (g, u) ∧
        r = { status := decide (g ++ u ∉ counter.gene_umi_pool), aux_count := true,
              counter := { gene_umi_pool :=
                if g ++ u ∈ counter.gene_umi_pool then counter.gene_umi_pool
                else (g ++ u) :: counter.gene_umi_pool } }) := by
  by_cases hn : l.opt_fields.number_of_target_features = some 1
  · cases ht : l.opt_fields.target_features with
    | none =>
      left
      refine ⟨fun hc => ?_, ?_⟩
      · obtain ⟨-, tf, htf⟩ := hc
        cases htf
      · unfold countAlignmentLine at h
        simp only [hn, ht, if_true, pure, Except.pure, Except.ok.injEq] at h
        exact h.symm
    | some tf =>
      right
      refine ⟨hn, ?_⟩
      cases tf with
      | nil =>
        unfold countAlignmentLine at h
        simp only [hn, ht, if_true] at h
        cases h
      | cons g rest =>
        cases hc : CompositedDGEIlluminaFASTQSequence.ctor l.qname [] [] [] true false false with
        | error e =>
          unfold countAlignmentLine at h
          simp only [hn, ht, if_true, hc, bind, Except.bind] at h
          cases h
        | ok c =>
          have hg : geneUMI l = some (g, c.umi_barcode) := by
            unfold geneUMI
            simp only [ht, hc, CompositedDGEIlluminaFASTQSequence.getUMIBarcode]
          refine ⟨g, c.umi_barcode, hg, ?_⟩
          have hu := @countAlignmentLine_unique counter l g c.umi_barcode aux hn hg
          rw [hu] at h
          simp only [Except.ok.injEq] at h
          exact h.symm
  · left
    refine ⟨fun hc => hn hc.1, ?_⟩
    unfold countAlignmentLine at h
    cases hnn : l.opt_fields.number_of_target_features with
    | none =>
      simp only [hnn, pure, Except.pure, Except.ok.injEq] at h
      exact h.symm
    | some n =>
      have hn1 : ¬ n = 1 := by
        intro e
        rw [hnn, e] at hn
        exact hn rfl
      simp only [hnn, hn1, if_false, pure, Except.pure, Except.ok.injEq] at h
      exact h.symm

open SAMGeneUMIAlignmentCounter in
theorem countAlignmentLines_rejected
    (ls : List SAMCompositedDGEIlluminaSTARFeatureCountsAlignmentLine) :
    ∀ (counter : SAMGeneUMIAlignmentCounter) (statuses : List Bool)
      (counter1 : SAMGeneUMIAlignmentCounter),
      countAlignmentLines counter ls = Except.ok (statuses, counter1) →
      ∀ (i : Nat) l tf, ls[i]? = some l → statuses[i]? = some false →
        l.opt_fields.number_of_target_features = some 1 →
        l.opt_fields.target_features = some tf →
        ∃ g u, geneUMI l = some (g, u) ∧
          (g ++ u ∈ counter.gene_umi_pool ∨
            ∃ (j : Nat), ∃ l1, j < i ∧ ls[j]? = some l1 ∧
              l1.opt_fields.number_of_target_features = some 1 ∧
              geneUMI l1 = some (g, u)) := by
  induction ls with
  | nil =>
    intro counter statuses counter1 _ i l tf hl
    simp at hl
  | cons l0 rest ih =>
    intro counter statuses counter1 h i l tf hl hs hn ht
    simp only [countAlignmentLines, bind, Except.bind, pure, Except.pure] at h
    split at h
    · cases h
    rename_i r hr
    split at h
    · cases h
    rename_i rs hrs
    simp only [Except.ok.injEq, Prod.mk.injEq] at h
    obtain ⟨hst, -⟩ := h
    subst hst
    have hcases := countAlignmentLine_ok_cases counter l0 false r hr
    cases i with
    | zero =>
      simp only [List.getElem?_cons_zero, Option.some.injEq] at hl hs
      subst hl
      rcases hcases with ⟨hnot, -⟩ | ⟨-, g, u, hg, hrv⟩
      · exact absurd ⟨hn, tf, ht⟩ hnot
      · refine ⟨g, u, hg, Or.inl ?_⟩
        rw [hrv] at hs
        simpa using hs
    | succ i =>
      simp only [List.getElem?_cons_succ] at hl hs
      obtain ⟨g, u, hg, hor⟩ := ih r.counter rs.1 rs.2 hrs i l tf hl hs hn ht
      refine ⟨g, u, hg, ?_⟩
      rcases hor with hpool | ⟨j, l1, hj, hl1, hn1, hg1⟩
      · rcases hcases with ⟨-, hrv⟩ | ⟨hn0, g0, u0, hg0, hrv⟩
        · rw [hrv] at hpool
          exact Or.inl hpool
        · rw [hrv] at hpool
          simp only at hpool
          by_cases hmem : g0 ++ u0 ∈ counter.gene_umi_pool
          · rw [if_pos hmem] at hpool
            exact Or.inl hpool
          · rw [if_neg hmem] at hpool
            simp only [List.mem_cons] at hpool
            rcases hpool with heq | hpool
            · right
              have hinj := (@gene_umi_combo_inj g u g0 u0 (geneUMI_umi_length hg)
                (geneUMI_umi_length hg0)).mp heq
              refine ⟨0, l0, Nat.succ_pos _, List.getElem?_cons_zero, hn0, ?_⟩
              rw [hg0, hinj]
            · exact Or.inl hpool
      · exact Or.inr ⟨j + 1, l1, Nat.succ_lt_succ hj, by simpa using hl1, hn1, hg1⟩

open SAMGeneUMIAlignmentCounter in
/-- Claim C33: the deduplication key `gene ++ umi` is injective on (gene, UMI) pairs whose UMI has
10 characters, and the UMI that `countAlignmentLine` extracts always has 10
characters.  Hence, for the lines of a file counted in order by a fresh
counter, a line that reports one target feature with a retrievable feature
list and is rejected (status false) has the same target gene and the same UMI
barcode as an earlier line that reports one target feature. -/
theorem no_false_duplicates
    (ls : List SAMCompositedDGEIlluminaSTARFeatureCountsAlignmentLine) :
    (∀ g1 u1 g2 u2 : CppString, u1.length = 10 → u2.length = 10 →
      (g1 ++ u1 = g2 ++ u2 ↔ (g1, u1) = (g2, u2))) ∧
    (∀ l g u, geneUMI l = some (g, u) → u.length = 10) ∧
    (∀ statuses counter1, countAlignmentLines {} ls = Except.ok (statuses, counter1) →
      ∀ (i : Nat) l tf, ls[i]? = some l → statuses[i]? = some false →
        l.opt_fields.number_of_target_features = some 1 →
        l.opt_fields.target_features = some tf →
        ∃ g u, ∃ (j : Nat), ∃ l1, geneUMI l = some (g, u) ∧ j < i ∧ ls[j]? = some l1 ∧
          l1.opt_fields.number_of_target_features = some 1 ∧ geneUMI l1 = some (g, u)) := by
  refine ⟨fun g1 u1 g2 u2 h1 h2 => gene_umi_combo_inj h1 h2,
    fun l g u h => geneUMI_umi_length h, ?_⟩
  intro statuses counter1 h i l tf hl hs hn ht
  obtain ⟨g, u, hg, hor⟩ := countAlignmentLines_rejected ls {} statuses counter1 h i l tf hl hs hn ht
  rcases hor with hpool | ⟨j, l1, hj, hl1, hn1, hg1⟩
  · simp at hpool
  · exact ⟨g, u, j, l1, hg, hj, hl1, hn1, hg1⟩

open SAMGeneUMIAlignmentCounter in
/-- Claim C33, witness: of the three example lines the second is rejected, and the first has the
same gene and UMI. -/
theorem no_false_duplicates_witness :
    ∃ g u, ∃ (j : Nat), ∃ l1, geneUMI
        { qname := "HWI-D00704:48:C7302ANXX:1:1101:2200:3100:TAAGTACATAGCGTGG".toList,
          opt_fields := { number_of_target_features := some 1,
                          target_features := some ["GAPDH".toList] } } = some (g, u) ∧
      j < 1 ∧ exampleAlignmentLines[j]? = some l1 ∧
      l1.opt_fields.number_of_target_features = some 1 ∧ geneUMI l1 = some (g, u) :=
  (no_false_duplicates exampleAlignmentLines).2.2 [true, false, true] _ rfl 1 _
    ["GAPDH".toList] rfl rfl rfl rfl

theorem illumina_parsePart1_flags {s s1 : IlluminaFASTQSequence}
    (h : IlluminaFASTQSequence.parsePart1 s = Except.ok s1) :
    s1.parse_seq_id_level_1 = s.parse_seq_id_level_1 ∧
    s1.parse_seq_id_level_2 = s.parse_seq_id_level_2 := by
  unfold IlluminaFASTQSequence.parsePart1 at h
  split at h
  · simp only [bind, Except.bind, pure, Except.pure] at h
    repeat' split at h
    all_goals simp at h
    subst h
    exact ⟨rfl, rfl⟩
  · simp at h

theorem illumina_parsePart2_flags {s s1 : IlluminaFASTQSequence}
    (h : IlluminaFASTQSequence.parsePart2 s = Except.ok s1) :
    s1.parse_seq_id_level_1 = s.parse_seq_id_level_1 ∧
    s1.parse_seq_id_level_2 = s.parse_seq_id_level_2 := by
  unfold IlluminaFASTQSequence.parsePart2 at h
  split at h
  · simp only [bind, Except.bind, pure, Except.pure] at h
    repeat' split at h
    all_goals simp at h
    subst h
    exact ⟨rfl, rfl⟩
  · simp at h

theorem illumina_parse_flags {s s1 : IlluminaFASTQSequence}
    (h : IlluminaFASTQSequence.parse s = Except.ok s1) :
    s1.parse_seq_id_level_1 = s.parse_seq_id_level_1 ∧
    s1.parse_seq_id_level_2 = s.parse_seq_id_level_2 := by
  unfold IlluminaFASTQSequence.parse at h
  split_ifs at h with h1
  · split at h
    · simp only at h
      split_ifs at h with h2
      · simp only [bind, Except.bind] at h
        split at h
        · simp at h
        · rename_i s2 hs2
          have a := illumina_parsePart2_flags h
          have b := illumina_parsePart1_flags hs2
          exact ⟨a.1.trans b.1, a.2.trans b.2⟩
      · simp at h
        subst h
        exact ⟨rfl, rfl⟩
    · simp at h
  · simp at h
    subst h
    exact ⟨rfl, rfl⟩

theorem illumina_adjustParseOption_priority (s : IlluminaFASTQSequence) :
    IlluminaFASTQSequence.parseOptionPriority (IlluminaFASTQSequence.adjustParseOption s) := by
  unfold IlluminaFASTQSequence.parseOptionPriority IlluminaFASTQSequence.adjustParseOption
  cases hp : s.parse_seq <;> cases h1 : s.parse_seq_id_level_1 <;>
    cases h2 : s.parse_seq_id_level_2 <;> simp [hp, h1, h2]

theorem illumina_parsed_priority {s s1 : IlluminaFASTQSequence}
    (hs : IlluminaFASTQSequence.parseOptionPriority s)
    (h : (if s.parse_seq then do
            let s1 ← IlluminaFASTQSequence.parse s
            pure (IlluminaFASTQSequence.setGroupId s1)
          else pure s : Except String IlluminaFASTQSequence) = Except.ok s1) :
    IlluminaFASTQSequence.parseOptionPriority s1 := by
  split_ifs at h with hp
  · simp only [bind, Except.bind, pure, Except.pure] at h
    split at h
    · cases h
    · rename_i s2 hs2
      simp only [Except.ok.injEq] at h
      subst h
      have hf := illumina_parse_flags hs2
      have hb := illumina_parse_base hs2
      unfold IlluminaFASTQSequence.parseOptionPriority at hs ⊢
      simp only [IlluminaFASTQSequence.setGroupId]
      rw [hf.1, hf.2]
      refine ⟨hs.1, fun _ => ?_⟩
      have : s2.parse_seq = s.parse_seq := by
        show s2.toFASTQSequence.parse_seq = s.toFASTQSequence.parse_seq
        rw [hb]
      rw [this]
      exact hp
  · simp only [pure, Except.pure, Except.ok.injEq] at h
    subst h
    exact hs

/-- Claim C31: the parse-flag priority (level 2 needs level 1, level 1 needs `parse_seq`) holds
after `adjustParseOption`, after the default constructor, after every
successful value constructor and `FASTQSequence`-taking constructor, and after
`setParseSequenceIdentifierLevel1`, `setParseSequenceIdentifierLevel2` and
`setParseOption` on any object.  The inherited `setParseSequence` does not
adjust the level flags: on an object that satisfies the priority,
`setParseSequence true` keeps it, while `setParseSequence false` keeps it
exactly when level 1 was off, and on the record built with all three flags on
it leaves `parse_seq` off with both levels on. -/
theorem parse_flag_priority :
    (∀ s, IlluminaFASTQSequence.parseOptionPriority (IlluminaFASTQSequence.adjustParseOption s)) ∧
    IlluminaFASTQSequence.parseOptionPriority IlluminaFASTQSequence.defaultCtor ∧
    (∀ line1 line2 line3 line4 p l1 l2 f s,
      IlluminaFASTQSequence.ctor line1 line2 line3 line4 p l1 l2 f = Except.ok s →
      IlluminaFASTQSequence.parseOptionPriority s) ∧
    (∀ seq l1 l2 s, IlluminaFASTQSequence.ctorFromFASTQSequence seq l1 l2 = Except.ok s →
      IlluminaFASTQSequence.parseOptionPriority s) ∧
    (∀ s v, IlluminaFASTQSequence.parseOptionPriority
      (IlluminaFASTQSequence.setParseSequenceIdentifierLevel1 s v)) ∧
    (∀ s v, IlluminaFASTQSequence.parseOptionPriority
      (IlluminaFASTQSequence.setParseSequenceIdentifierLevel2 s v)) ∧
    (∀ s v1 v2, IlluminaFASTQSequence.parseOptionPriority
      (IlluminaFASTQSequence.setParseOption s v1 v2)) ∧
    (∀ s, IlluminaFASTQSequence.parseOptionPriority s →
      IlluminaFASTQSequence.parseOptionPriority (IlluminaFASTQSequence.setParseSequence s true)) ∧
    (∀ s, IlluminaFASTQSequence.parseOptionPriority s →
      (IlluminaFASTQSequence.parseOptionPriority (IlluminaFASTQSequence.setParseSequence s false)
        ↔ s.parse_seq_id_level_1 = false)) ∧
    (∃ s, IlluminaFASTQSequence.ctor
        "@HWI-D00704:48:C7302ANXX:1:1101:1103:2053 1:N:0:ATCACG".toList
        "AAAAAACATAGCGTGGTTTT".toList ['+'] "IIIIIIIIIIIIIIIIIIII".toList
        true true true false = Except.ok s ∧
      (IlluminaFASTQSequence.setParseSequence s false).parse_seq = false ∧
      (IlluminaFASTQSequence.setParseSequence s false).parse_seq_id_level_1 = true ∧
      (IlluminaFASTQSequence.setParseSequence s false).parse_seq_id_level_2 = true ∧
      ¬ IlluminaFASTQSequence.parseOptionPriority
          (IlluminaFASTQSequence.setParseSequence s false)) := by
  refine ⟨illumina_adjustParseOption_priority, by decide, ?_, ?_,
    fun s v => illumina_adjustParseOption_priority _,
    fun s v => illumina_adjustParseOption_priority _,
    fun s v1 v2 => illumina_adjustParseOption_priority _, ?_, ?_, ?_⟩
  · intro line1 line2 line3 line4 p l1 l2 f s h
    unfold IlluminaFASTQSequence.ctor at h
    simp only [bind, Except.bind] at h
    split at h
    · cases h
    · exact illumina_parsed_priority (illumina_adjustParseOption_priority _) h
  · intro seq l1 l2 s h
    unfold IlluminaFASTQSequence.ctorFromFASTQSequence at h
    exact illumina_parsed_priority (illumina_adjustParseOption_priority _) h
  · intro s hs
    unfold IlluminaFASTQSequence.parseOptionPriority at hs ⊢
    exact ⟨hs.1, fun _ => rfl⟩
  · intro s hs
    unfold IlluminaFASTQSequence.parseOptionPriority at hs ⊢
    simp only [IlluminaFASTQSequence.setParseSequence, FASTQSequence.setParseSequence]
    constructor
    · intro h
      cases h1 : s.parse_seq_id_level_1
      · rfl
      · exact absurd (h.2 h1) (by simp)
    · intro h
      refine ⟨fun h2 => ?_, fun h1 => ?_⟩
      · have := hs.1 h2
        rw [h] at this
        cases this
      · rw [h] at h1
        cases h1
  · refine ⟨_, rfl, rfl, rfl, rfl, ?_⟩
    decide

/-- Claim C40: copy and move construction keep the four lines and the read length of a
`FASTQSequence`, `IlluminaFASTQSequence` and `DGEIlluminaFASTQSequence`, and
copy assignment reproduces the whole source object, group ID included; the
constructed copy however always has an empty group ID, so it agrees with the
source (and with the assigned copy) exactly when the source group ID is empty.
For the DGE record `exampleRead1` the source and the assigned copy have group
ID `AAAAAA` and the constructed copy has the empty group ID. -/
theorem copy_ctor_group_id :
    (∀ s : FASTQSequence,
      (FASTQSequence.copyCtor s).lines = s.lines ∧
      (FASTQSequence.copyCtor s).read_length = s.read_length ∧
      (FASTQSequence.copyCtor s).group_id = [] ∧
      (∀ self, FASTQSequence.copyAssign self s = s)) ∧
    (∀ s : IlluminaFASTQSequence,
      (IlluminaFASTQSequence.copyCtor s).lines = s.lines ∧
      (IlluminaFASTQSequence.copyCtor s).read_length = s.read_length ∧
      (IlluminaFASTQSequence.copyCtor s).group_id = [] ∧
      (∀ self, IlluminaFASTQSequence.copyAssign self s = s)) ∧
    (∀ s : DGEIlluminaFASTQSequence,
      (DGEIlluminaFASTQSequence.copyCtor s).lines = s.lines ∧
      (DGEIlluminaFASTQSequence.copyCtor s).read_length = s.read_length ∧
      (DGEIlluminaFASTQSequence.copyCtor s).group_id = [] ∧
      (∀ self, DGEIlluminaFASTQSequence.copyAssign self s = s)) ∧
    (∀ s : DGEIlluminaFASTQSequence,
      (DGEIlluminaFASTQSequence.copyCtor s).group_id = s.group_id ↔ s.group_id = []) ∧
    DGEIlluminaFASTQSequenceDemuxer.exampleRead1.group_id = "AAAAAA".toList ∧
    (DGEIlluminaFASTQSequence.copyAssign {} DGEIlluminaFASTQSequenceDemuxer.exampleRead1).group_id
      = "AAAAAA".toList ∧
    (DGEIlluminaFASTQSequence.copyCtor DGEIlluminaFASTQSequenceDemuxer.exampleRead1).group_id
      = [] := by
  refine ⟨fun s => ⟨rfl, rfl, rfl, fun self => rfl⟩, fun s => ⟨rfl, rfl, rfl, fun self => rfl⟩,
    fun s => ⟨rfl, rfl, rfl, fun self => rfl⟩, fun s => ?_, by decide, by decide, rfl⟩
  have h : (DGEIlluminaFASTQSequence.copyCtor s).group_id = [] := rfl
  rw [h]
  exact ⟨fun e => e.symm, fun e => e.symm⟩

theorem comment_addPart_nonempty (parts : List CppString) :
    ∀ acc : CppString, acc ≠ [] →
      parts.foldl SAMHeaderCommentLine.addPart acc
        = acc ++ (parts.map (fun p => SAMHeaderLine.tab_sep :: p)).flatten := by
  induction parts with
  | nil => intro acc _; simp
  | cons p ps ih =>
    intro acc hacc
    have hl : acc.length > 0 := List.length_pos.mpr hacc
    simp only [List.foldl_cons, SAMHeaderCommentLine.addPart, hl, if_true]
    rw [ih _ (by simp)]
    simp

theorem intercalate_cons_eq (sep : Char) (p : CppString) (ps : List CppString) :
    [sep].intercalate (p :: ps) = p ++ (ps.map (fun q => sep :: q)).flatten := by
  induction ps generalizing p with
  | nil => simp [List.intercalate, List.intersperse]
  | cons q qs ih =>
    have : [sep].intercalate (p :: q :: qs) = p ++ sep :: [sep].intercalate (q :: qs) := by
      simp [List.intercalate, List.intersperse]
    rw [this, ih]
    simp

theorem comment_addPart_split (t : CppString) :
    (utk.splitOnChar SAMHeaderLine.tab_sep t).foldl SAMHeaderCommentLine.addPart []
      = t.dropWhile (fun c => c == SAMHeaderLine.tab_sep) := by
  induction t with
  | nil => simp [utk.splitOnChar, SAMHeaderCommentLine.addPart]
  | cons c cs ih =>
    by_cases hc : c = SAMHeaderLine.tab_sep
    · simp only [utk.splitOnChar, hc, if_true, List.foldl_cons]
      have e : SAMHeaderCommentLine.addPart [] [] = [] := rfl
      rw [e, ih]
      simp [List.dropWhile]
    · obtain ⟨p, ps, h1, h2⟩ := splitOnChar_cons_ne SAMHeaderLine.tab_sep c cs hc
      rw [h2]
      have e : SAMHeaderCommentLine.addPart [] (c :: p) = c :: p := rfl
      simp only [List.foldl_cons]
      rw [e, comment_addPart_nonempty ps (c :: p) (by simp)]
      have hi := splitOnChar_intercalate SAMHeaderLine.tab_sep cs
      rw [h1, intercalate_cons_eq] at hi
      have hd : (c :: cs).dropWhile (fun c => c == SAMHeaderLine.tab_sep) = c :: cs :=
        List.dropWhile_cons_of_neg (by simpa using hc)
      rw [hd, List.cons_append, hi]

theorem comment_line_ctor_eq (t : CppString) (flush_ostream : Bool) :
    SAMHeaderCommentLine.ctor ("@CO".toList ++ SAMHeaderLine.tab_sep :: t) true true flush_ostream
      = Except.ok
          { line := "@CO".toList ++ SAMHeaderLine.tab_sep :: t, record_type := "@CO".toList,
            parse_line := false, parse_record_type := true, flush_ostream := flush_ostream,
            comment_field := t.dropWhile (fun c => c == SAMHeaderLine.tab_sep) } := by
  have hs : utk.splitString ("@CO".toList ++ SAMHeaderLine.tab_sep :: t) SAMHeaderLine.tab_sep
      = "@CO".toList :: utk.splitOnChar SAMHeaderLine.tab_sep t := by
    have e : utk.splitString ("@CO".toList ++ SAMHeaderLine.tab_sep :: t) SAMHeaderLine.tab_sep
        = utk.splitOnChar SAMHeaderLine.tab_sep ("@CO".toList ++ SAMHeaderLine.tab_sep :: t) := rfl
    rw [e, splitOnChar_append, splitOnChar_no_sep _ _ (by decide)]
    rfl
  have hb : SAMHeaderLine.ctor ("@CO".toList ++ SAMHeaderLine.tab_sep :: t) true true flush_ostream
      = Except.ok { line := "@CO".toList ++ SAMHeaderLine.tab_sep :: t,
                    record_type := "@CO".toList, parse_line := false,
                    parse_record_type := true, flush_ostream := flush_ostream } := by
    simp only [SAMHeaderLine.ctor, SAMHeaderLine.parseLine, hs, if_true, bind, Except.bind,
      List.length_cons, gt_iff_lt, Nat.succ_pos, List.headD_cons]
    rfl
  simp only [SAMHeaderCommentLine.ctor, hb, bind, Except.bind, SAMHeaderCommentLine.parseLine,
    hs, if_true, List.length_cons, gt_iff_lt, Nat.succ_pos, List.tail_cons,
    comment_addPart_split, Bool.not_true, Bool.and_false, Bool.false_eq_true, if_false,
    pure, Except.pure]
  rfl

/-- Claim C36: parsing the header comment line `@CO` + TAB + t with both parse flags on succeeds
for every text t and yields record type `@CO`; the comment field is t without
its leading TABs, so it equals t exactly when t does not start with a TAB (an
empty t and TABs inside t are kept).  For t = TAB + `abc` the comment field is
`abc`. -/
theorem comment_line_round_trip (t : CppString) (flush_ostream : Bool) :
    ∃ h, SAMHeaderCommentLine.ctor ("@CO".toList ++ '\t' :: t) true true flush_ostream
        = Except.ok h ∧
      h.record_type = "@CO".toList ∧
      h.comment_field = t.dropWhile (fun c => c == '\t') ∧
      (h.comment_field = t ↔ t.head? ≠ some '\t') ∧
      (∃ h1, SAMHeaderCommentLine.ctor "@CO\t\tabc".toList true true flush_ostream
          = Except.ok h1 ∧ h1.comment_field = "abc".toList) := by
  refine ⟨_, comment_line_ctor_eq t flush_ostream, rfl, rfl, ?_,
    ⟨_, comment_line_ctor_eq "\tabc".toList flush_ostream, rfl⟩⟩
  show t.dropWhile (fun c => c == '\t') = t ↔ _
  cases t with
  | nil => simp
  | cons c cs =>
    by_cases hc : c = '\t'
    · subst hc
      simp only [List.dropWhile, beq_self_eq_true, List.head?_cons, ne_eq, not_true_eq_false,
        iff_false]
      intro e
      have hl := congrArg List.length e
      have := (@List.dropWhile_suffix Char cs (fun c => c == '\t')).length_le
      simp only [List.length_cons] at hl
      omega
    · rw [List.dropWhile_cons_of_neg (by simpa using hc)]
      simp only [List.head?_cons, ne_eq, Option.some.injEq, true_iff]
      exact hc

theorem getline_good (is : std.ifstream) (str : CppString) (delim : Char)
    (he : is.eofbit = false) (hf : is.failbit = false) :
    ((std.getline is str delim).1.eofbit = true ∨
      ((std.getline is str delim).1.content.length < is.content.length ∧
        (std.getline is str delim).1.eofbit = false ∧
        (std.getline is str delim).1.failbit = false)) := by
  unfold std.getline
  simp only [he, hf, Bool.or_self, Bool.false_eq_true, if_false]
  rw [List.span_eq_take_drop]
  cases hd : List.dropWhile (fun c => c != delim) is.content with
  | nil => left; rfl
  | cons x rest =>
    right
    refine ⟨?_, rfl, rfl⟩
    have h := List.takeWhile_append_dropWhile (fun c => c != delim) is.content
    have hl := congrArg List.length h
    rw [hd] at hl
    simp only [List.length_append, List.length_cons] at hl
    show rest.length < is.content.length
    omega

theorem readLine_measure (r : utk.LineReader) (line : CppString)
    (hinv : utk.LineReader.GoodUntilEnd r) :
    utk.LineReader.GoodUntilEnd (utk.LineReader.readLine r line).2.2 ∧
    utk.LineReader.unreadMeasure (utk.LineReader.readLine r line).2.2
      ≤ utk.LineReader.unreadMeasure r ∧
    (r.file_end = false →
      utk.LineReader.unreadMeasure (utk.LineReader.readLine r line).2.2
        < utk.LineReader.unreadMeasure r) := by
  cases hfe : r.file_end with
  | true =>
    have h1 : (utk.LineReader.readLine r line).2.2.file_end = true := by
      simp [utk.LineReader.readLine, hfe]
    refine ⟨fun h => ?_, ?_, fun h => by cases h⟩
    · rw [h1] at h
      cases h
    · simp [utk.LineReader.unreadMeasure, h1]
  | false =>
    obtain ⟨he, hf⟩ := hinv hfe
    have hfe1 : (utk.LineReader.readLine r line).2.2.file_end
        = (std.getline r.toifstream line r.line_delim).1.eofbit := by
      simp [utk.LineReader.readLine, hfe]
    have hc1 : (utk.LineReader.readLine r line).2.2.content
        = (std.getline r.toifstream line r.line_delim).1.content := rfl
    have he1 : (utk.LineReader.readLine r line).2.2.eofbit
        = (std.getline r.toifstream line r.line_delim).1.eofbit := rfl
    have hf1 : (utk.LineReader.readLine r line).2.2.failbit
        = (std.getline r.toifstream line r.line_delim).1.failbit := rfl
    have hm : utk.LineReader.unreadMeasure r = r.content.length + 1 := by
      simp [utk.LineReader.unreadMeasure, hfe]
    rcases getline_good r.toifstream line r.line_delim he hf with h | ⟨hlt, he2, hf2⟩
    · have h0 : utk.LineReader.unreadMeasure (utk.LineReader.readLine r line).2.2 = 0 := by
        simp [utk.LineReader.unreadMeasure, hfe1, h]
      refine ⟨fun hh => ?_, ?_, fun _ => ?_⟩
      · rw [hfe1, h] at hh
        cases hh
      · rw [h0]; exact Nat.zero_le _
      · rw [h0, hm]; exact Nat.succ_pos _
    · have h0 : utk.LineReader.unreadMeasure (utk.LineReader.readLine r line).2.2
          = (std.getline r.toifstream line r.line_delim).1.content.length + 1 := by
        simp [utk.LineReader.unreadMeasure, hfe1, he2, hc1]
      refine ⟨fun _ => ⟨by rw [he1, he2], by rw [hf1, hf2]⟩, ?_, fun _ => ?_⟩
      · rw [h0, hm]; omega
      · rw [h0, hm]; omega

theorem readLinesLoop_measure (counts : Nat) :
    ∀ (r : utk.LineReader) (lines : List CppString), utk.LineReader.GoodUntilEnd r →
      utk.LineReader.GoodUntilEnd (utk.LineReader.readLinesLoop counts r lines).2 ∧
      utk.LineReader.unreadMeasure (utk.LineReader.readLinesLoop counts r lines).2
        ≤ utk.LineReader.unreadMeasure r ∧
      (counts ≥ 1 → r.file_end = false →
        utk.LineReader.unreadMeasure (utk.LineReader.readLinesLoop counts r lines).2
          < utk.LineReader.unreadMeasure r) := by
  induction counts with
  | zero =>
    intro r lines hinv
    exact ⟨hinv, Nat.le_refl _, fun h => absurd h (by decide)⟩
  | succ k ih =>
    intro r lines hinv
    obtain ⟨h1, h2, h3⟩ := readLine_measure r [] hinv
    simp only [utk.LineReader.readLinesLoop]
    split_ifs with hs
    · obtain ⟨i1, i2, -⟩ := ih (utk.LineReader.readLine r []).2.2
        (lines ++ [(utk.LineReader.readLine r []).2.1]) h1
      exact ⟨i1, Nat.le_trans i2 h2, fun _ hfe => Nat.lt_of_le_of_lt i2 (h3 hfe)⟩
    · exact ⟨h1, h2, fun _ hfe => h3 hfe⟩

theorem readLines_measure (r : utk.LineReader) (n_lines : Nat)
    (hinv : utk.LineReader.GoodUntilEnd r) :
    utk.LineReader.GoodUntilEnd (utk.LineReader.readLines r n_lines).2 ∧
    utk.LineReader.unreadMeasure (utk.LineReader.readLines r n_lines).2
      ≤ utk.LineReader.unreadMeasure r ∧
    (r.file_end = false →
      utk.LineReader.unreadMeasure (utk.LineReader.readLines r n_lines).2
        < utk.LineReader.unreadMeasure r) := by
  unfold utk.LineReader.readLines
  cases hfe : r.file_end with
  | true =>
    simp only [Bool.not_true, Bool.false_eq_true, if_false]
    exact ⟨hinv, Nat.le_refl _, fun h => by cases h⟩
  | false =>
    simp only [Bool.not_false, if_true]
    split_ifs with hn
    · obtain ⟨a, b, c⟩ := readLinesLoop_measure n_lines r [] hinv
      exact ⟨a, b, fun _ => c hn hfe⟩
    · obtain ⟨a, b, c⟩ := readLinesLoop_measure (r.content.length + 1) r [] hinv
      exact ⟨a, b, fun _ => c (Nat.succ_pos _) hfe⟩

theorem readSequence_measure {SeqType : Type}
    (ops : FASTQFileReaderOps SeqType) (r : FASTQFileReader) (seq : SeqType)
    (hinv : utk.LineReader.GoodUntilEnd r.toLineReader) :
    utk.LineReader.GoodUntilEnd (FASTQFileReader.readSequence ops r seq).2.2.toLineReader ∧
    utk.LineReader.unreadMeasure (FASTQFileReader.readSequence ops r seq).2.2.toLineReader
      ≤ utk.LineReader.unreadMeasure r.toLineReader ∧
    (r.file_end = false →
      utk.LineReader.unreadMeasure (FASTQFileReader.readSequence ops r seq).2.2.toLineReader
        < utk.LineReader.unreadMeasure r.toLineReader) := by
  have key := readLines_measure r.toLineReader FASTQSequence.n_fastq_sequence_lines hinv
  unfold FASTQFileReader.readSequence
  cases hfe : r.file_end with
  | true =>
    simp only [hfe, Bool.not_true, Bool.false_eq_true, if_false]
    exact ⟨hinv, Nat.le_refl _, fun h => by cases h⟩
  | false =>
    simp only [hfe, Bool.not_false, if_true]
    split
    · split
      · exact ⟨key.1, key.2.1, fun _ => key.2.2 hfe⟩
      · exact ⟨key.1, key.2.1, fun _ => key.2.2 hfe⟩
    · exact ⟨key.1, key.2.1, fun _ => key.2.2 hfe⟩

theorem readSequencesLoop_measure {SeqType : Type}
    (ops : FASTQFileReaderOps SeqType) (counts : Nat) :
    ∀ (r : FASTQFileReader) (seq_buffer : List SeqType),
      utk.LineReader.GoodUntilEnd r.toLineReader →
      utk.LineReader.GoodUntilEnd
        (FASTQFileReader.readSequencesLoop ops counts r seq_buffer).2.toLineReader ∧
      utk.LineReader.unreadMeasure
        (FASTQFileReader.readSequencesLoop ops counts r seq_buffer).2.toLineReader
        ≤ utk.LineReader.unreadMeasure r.toLineReader ∧
      (counts ≥ 1 → r.file_end = false →
        utk.LineReader.unreadMeasure
          (FASTQFileReader.readSequencesLoop ops counts r seq_buffer).2.toLineReader
          < utk.LineReader.unreadMeasure r.toLineReader) := by
  induction counts with
  | zero =>
    intro r seq_buffer hinv
    exact ⟨hinv, Nat.le_refl _, fun h => absurd h (by decide)⟩
  | succ k ih =>
    intro r seq_buffer hinv
    obtain ⟨h1, h2, h3⟩ := readSequence_measure ops r ops.defaultCtor hinv
    simp only [FASTQFileReader.readSequencesLoop]
    cases hfe : r.file_end with
    | true =>
      simp only [Bool.not_true, Bool.false_eq_true, if_false]
      exact ⟨hinv, Nat.le_refl _, fun _ h => by cases h⟩
    | false =>
      simp only [Bool.not_false, if_true]
      split
      · obtain ⟨i1, i2, -⟩ := ih (FASTQFileReader.readSequence ops r ops.defaultCtor).2.2
          (seq_buffer ++ [_]) h1
        exact ⟨i1, Nat.le_trans i2 h2, fun _ _ => Nat.lt_of_le_of_lt i2 (h3 hfe)⟩
      · obtain ⟨i1, i2, -⟩ := ih (FASTQFileReader.readSequence ops r ops.defaultCtor).2.2
          seq_buffer h1
        exact ⟨i1, Nat.le_trans i2 h2, fun _ _ => Nat.lt_of_le_of_lt i2 (h3 hfe)⟩

theorem measure_zero_file_end (r : utk.LineReader)
    (h : utk.LineReader.unreadMeasure r = 0) : r.file_end = true := by
  unfold utk.LineReader.unreadMeasure at h
  cases hfe : r.file_end with
  | true => rfl
  | false => simp [hfe] at h

theorem pipe_run_fuel {SeqType D : Type}
    (ops : FASTQFileReaderOps SeqType)
    (addSequence : D → SeqType → Except String D) (n_read_seqs : Nat) (hn : n_read_seqs ≥ 1)
    (m : Nat) :
    ∀ (r : FASTQFileReader) (d : D), utk.LineReader.GoodUntilEnd r.toLineReader →
      utk.LineReader.unreadMeasure r.toLineReader ≤ m →
      ∃ r1 d1, FASTQSequencePipe.run ops addSequence n_read_seqs (m + 1) r d
          = some (r1, d1) ∧ r1.file_end = true := by
  induction m with
  | zero =>
    intro r d _ hm
    have hfe := measure_zero_file_end r.toLineReader (Nat.le_zero.mp hm)
    refine ⟨r, d, ?_, hfe⟩
    simp [FASTQSequencePipe.run, hfe]
  | succ k ih =>
    intro r d hinv hm
    cases hfe : r.file_end with
    | true =>
      refine ⟨r, d, ?_, hfe⟩
      rw [FASTQSequencePipe.run]
      simp [hfe]
    | false =>
      obtain ⟨i1, -, i3⟩ := readSequencesLoop_measure ops n_read_seqs r [] hinv
      have hlt := i3 hn hfe
      rw [FASTQSequencePipe.run]
      simp only [hfe, Bool.not_false, if_true]
      exact ih _ _ i1 (by unfold FASTQFileReader.readSequences; omega)

theorem paired_pipe_run_fuel {SeqType D : Type}
    (ops : FASTQFileReaderOps SeqType)
    (addSequence : D → SeqType → SeqType → Except String D) (n_read_seqs : Nat)
    (hn : n_read_seqs ≥ 1) (m : Nat) :
    ∀ (r1 r2 : FASTQFileReader) (d : D), utk.LineReader.GoodUntilEnd r1.toLineReader →
      utk.LineReader.unreadMeasure r1.toLineReader ≤ m →
      ∃ q1 q2 d1, PairedFASTQSequencePipe.run ops addSequence n_read_seqs (m + 1) r1 r2 d
          = some (q1, q2, d1) ∧ q1.file_end = true := by
  induction m with
  | zero =>
    intro r1 r2 d _ hm
    have hfe := measure_zero_file_end r1.toLineReader (Nat.le_zero.mp hm)
    refine ⟨r1, r2, d, ?_, hfe⟩
    simp [PairedFASTQSequencePipe.run, hfe]
  | succ k ih =>
    intro r1 r2 d hinv hm
    cases hfe : r1.file_end with
    | true =>
      refine ⟨r1, r2, d, ?_, hfe⟩
      rw [PairedFASTQSequencePipe.run]
      simp [hfe]
    | false =>
      obtain ⟨i1, -, i3⟩ := readSequencesLoop_measure ops n_read_seqs r1 [] hinv
      have hlt := i3 hn hfe
      rw [PairedFASTQSequencePipe.run]
      simp only [hfe, Bool.not_false, if_true]
      exact ih _ _ _ i1 (by unfold FASTQFileReader.readSequences; omega)

theorem pipe_run_zero_batch {SeqType D : Type}
    (ops : FASTQFileReaderOps SeqType)
    (addSequence : D → SeqType → Except String D) (fuel : Nat) :
    ∀ (r : FASTQFileReader) (d : D), r.file_end = false →
      FASTQSequencePipe.run ops addSequence 0 fuel r d = none := by
  induction fuel with
  | zero => intro r d _; rfl
  | succ k ih =>
    intro r d hfe
    rw [FASTQSequencePipe.run]
    simp only [hfe, Bool.not_false, if_true]
    exact ih _ _ hfe

theorem paired_pipe_run_zero_batch {SeqType D : Type}
    (ops : FASTQFileReaderOps SeqType)
    (addSequence : D → SeqType → SeqType → Except String D) (fuel : Nat) :
    ∀ (r1 r2 : FASTQFileReader) (d : D), r1.file_end = false →
      PairedFASTQSequencePipe.run ops addSequence 0 fuel r1 r2 d = none := by
  induction fuel with
  | zero => intro r1 r2 d _; rfl
  | succ k ih =>
    intro r1 r2 d hfe
    rw [PairedFASTQSequencePipe.run]
    simp only [hfe, Bool.not_false, if_true]
    exact ih _ _ _ hfe

theorem fastq_reader_ctor_fresh {content file_name line_delim_type : CppString}
    {r : FASTQFileReader}
    (h : FASTQFileReader.ctor content file_name line_delim_type = Except.ok r) :
    r.content = content ∧ r.eofbit = false ∧ r.failbit = false ∧ r.file_end = false := by
  unfold FASTQFileReader.ctor utk.LineReader.ctor at h
  simp only [bind, Except.bind, pure, Except.pure] at h
  split at h
  · cases h
  · rename_i base hb
    split at hb
    · simp only [Except.ok.injEq] at hb h
      subst hb
      subst h
      exact ⟨rfl, rfl, rfl, rfl⟩
    · cases hb

/-- Claim C32: on a freshly opened read-1 file with any content (and any read-2 reader), for
every batch size
`n_read_seqs ≥ 1` the read loops of `FASTQSequencePipe::run` and of
`PairedFASTQSequencePipe::run` end after finitely many iterations with the
end of the read-1 file reached, and one call of `readSequences` on a reader
that is not at its end strictly decreases what is left to read.  With
`n_read_seqs = 0` neither loop ever ends: for every number of iterations the
loop is still running. -/
theorem pipe_run_termination {SeqType D1 D2 : Type}
    (ops : FASTQFileReaderOps SeqType)
    (addSequence : D1 → SeqType → Except String D1)
    (addSequencePair : D2 → SeqType → SeqType → Except String D2)
    (content_1 file_name_1 line_delim_type : CppString)
    (reader_1 reader_2 : FASTQFileReader) (d1 : D1) (d2 : D2)
    (h1 : FASTQFileReader.ctor content_1 file_name_1 line_delim_type = Except.ok reader_1) :
    (∀ n_read_seqs, n_read_seqs ≥ 1 →
      ∃ fuel r d, FASTQSequencePipe.run ops addSequence n_read_seqs fuel reader_1 d1
          = some (r, d) ∧ r.file_end = true) ∧
    (∀ n_read_seqs, n_read_seqs ≥ 1 →
      ∃ fuel r1 r2 d, PairedFASTQSequencePipe.run ops addSequencePair n_read_seqs fuel
          reader_1 reader_2 d2 = some (r1, r2, d) ∧ r1.file_end = true) ∧
    (∀ n_read_seqs, n_read_seqs ≥ 1 →
      utk.LineReader.unreadMeasure
          (FASTQFileReader.readSequences ops reader_1 n_read_seqs).2.toLineReader
        < utk.LineReader.unreadMeasure reader_1.toLineReader) ∧
    (∀ fuel, FASTQSequencePipe.run ops addSequence 0 fuel reader_1 d1 = none) ∧
    (∀ fuel, PairedFASTQSequencePipe.run ops addSequencePair 0 fuel reader_1 reader_2 d2
      = none) := by
  obtain ⟨-, he, hf, hfe⟩ := fastq_reader_ctor_fresh h1
  have hinv : utk.LineReader.GoodUntilEnd reader_1.toLineReader := fun _ => ⟨he, hf⟩
  refine ⟨fun n hn => ?_, fun n hn => ?_, fun n hn => ?_,
    fun fuel => pipe_run_zero_batch ops addSequence fuel reader_1 d1 hfe,
    fun fuel => paired_pipe_run_zero_batch ops addSequencePair fuel reader_1 reader_2 d2
      hfe⟩
  · exact ⟨_, pipe_run_fuel ops addSequence n hn _ reader_1 d1 hinv (Nat.le_refl _)⟩
  · exact ⟨_, paired_pipe_run_fuel ops addSequencePair n hn _ reader_1 reader_2 d2 hinv
      (Nat.le_refl _)⟩
  · exact (readSequencesLoop_measure ops n reader_1 [] hinv).2.2 hn hfe

/-- Claim C32, witness: the example read-1 and read-2 files, read as DGE records with the
default flags of the controller, and demultiplexer stand-ins that record what
they are handed. -/
theorem pipe_run_termination_witness :
    (∀ n_read_seqs, n_read_seqs ≥ 1 →
      ∃ fuel r d, FASTQSequencePipe.run (DGEIlluminaFASTQFile.ops true true false false)
          (fun (acc : List DGEIlluminaFASTQSequence) seq => Except.ok (acc ++ [seq]))
          n_read_seqs fuel
          (DGEIlluminaFASTQFile.exampleReader DGEIlluminaFASTQFile.exampleRead1Text) []
          = some (r, d) ∧ r.file_end = true) ∧
    (∀ fuel, PairedFASTQSequencePipe.run (DGEIlluminaFASTQFile.ops true true false false)
        PairedFASTQSequencePipe.recordPair 0 fuel
        (DGEIlluminaFASTQFile.exampleReader DGEIlluminaFASTQFile.exampleRead1Text)
        (DGEIlluminaFASTQFile.exampleReader DGEIlluminaFASTQFile.exampleRead2Text) [] = none) :=
  ⟨(pipe_run_termination (DGEIlluminaFASTQFile.ops true true false false)
      (fun (acc : List DGEIlluminaFASTQSequence) seq => Except.ok (acc ++ [seq]))
      PairedFASTQSequencePipe.recordPair
      DGEIlluminaFASTQFile.exampleRead1Text [] "unix".toList _
      (DGEIlluminaFASTQFile.exampleReader DGEIlluminaFASTQFile.exampleRead2Text) [] [] rfl).1,
   (pipe_run_termination (DGEIlluminaFASTQFile.ops true true false false)
      (fun (acc : List DGEIlluminaFASTQSequence) seq => Except.ok (acc ++ [seq]))
      PairedFASTQSequencePipe.recordPair
      DGEIlluminaFASTQFile.exampleRead1Text [] "unix".toList _
      (DGEIlluminaFASTQFile.exampleReader DGEIlluminaFASTQFile.exampleRead2Text) [] [] rfl).2.2.2.2⟩

/-- Claim C39: on the example files (read 1: records A1, B1 with A1 ill-formed; read 2: records
A2, B2) read as DGE records with the default flags of the controller, the
reader drops A1, and `PairedFASTQSequencePipe::run` with batch size 2, and
with the default batch size 131072, hands exactly one pair to the
demultiplexer: the stored copy of record B1 (index 1 of the read-1 file) with
the stored copy of record A2 (index 0 of the read-2 file).  The stored copies
are move-constructed from the records built from the lines: they carry the
four lines of B1 and of A2, and an empty group ID.  With batch size 1 the pair
handed over is made of B1 and B2. -/
theorem paired_pipe_misaligned_pair :
    ∃ b1 a2 b2,
      DGEIlluminaFASTQFile.makeSequence true true false false
        DGEIlluminaFASTQFile.exampleRecordB1 = Except.ok b1 ∧
      DGEIlluminaFASTQFile.makeSequence true true false false
        DGEIlluminaFASTQFile.exampleRecordA2 = Except.ok a2 ∧
      DGEIlluminaFASTQFile.makeSequence true true false false
        DGEIlluminaFASTQFile.exampleRecordB2 = Except.ok b2 ∧
      (DGEIlluminaFASTQFile.makeSequence true true false false
        DGEIlluminaFASTQFile.exampleRecordA1).toOption = none ∧
      (PairedFASTQSequencePipe.run (DGEIlluminaFASTQFile.ops true true false false)
          PairedFASTQSequencePipe.recordPair 2 3
          (DGEIlluminaFASTQFile.exampleReader DGEIlluminaFASTQFile.exampleRead1Text)
          (DGEIlluminaFASTQFile.exampleReader DGEIlluminaFASTQFile.exampleRead2Text) []).map
        (fun result => result.2.2)
        = some [(DGEIlluminaFASTQSequence.copyCtor b1, DGEIlluminaFASTQSequence.copyCtor a2)] ∧
      (PairedFASTQSequencePipe.run (DGEIlluminaFASTQFile.ops true true false false)
          PairedFASTQSequencePipe.recordPair 131072 3
          (DGEIlluminaFASTQFile.exampleReader DGEIlluminaFASTQFile.exampleRead1Text)
          (DGEIlluminaFASTQFile.exampleReader DGEIlluminaFASTQFile.exampleRead2Text) []).map
        (fun result => result.2.2)
        = some [(DGEIlluminaFASTQSequence.copyCtor b1, DGEIlluminaFASTQSequence.copyCtor a2)] ∧
      (PairedFASTQSequencePipe.run (DGEIlluminaFASTQFile.ops true true false false)
          PairedFASTQSequencePipe.recordPair 1 4
          (DGEIlluminaFASTQFile.exampleReader DGEIlluminaFASTQFile.exampleRead1Text)
          (DGEIlluminaFASTQFile.exampleReader DGEIlluminaFASTQFile.exampleRead2Text) []).map
        (fun result => result.2.2)
        = some [(DGEIlluminaFASTQSequence.copyCtor b1, DGEIlluminaFASTQSequence.copyCtor b2)] ∧
      (DGEIlluminaFASTQSequence.copyCtor b1).lines = DGEIlluminaFASTQFile.exampleRecordB1 ∧
      (DGEIlluminaFASTQSequence.copyCtor a2).lines = DGEIlluminaFASTQFile.exampleRecordA2 ∧
      (DGEIlluminaFASTQSequence.copyCtor b1).seq_id_part_1
        = "@HWI-D00704:48:C7302ANXX:1:1101:1200:2060".toList ∧
      (DGEIlluminaFASTQSequence.copyCtor a2).seq_id_part_1
        = "@HWI-D00704:48:C7302ANXX:1:1101:1103:2053".toList ∧
      b1.group_id = "CCCCCC".toList ∧
      (DGEIlluminaFASTQSequence.copyCtor b1).group_id = [] ∧
      (DGEIlluminaFASTQSequence.copyCtor a2).group_id = [] :=
  ⟨_, _, _, rfl, rfl, rfl, rfl, by decide, by decide, by decide, by decide, by decide,
    by decide, by decide, by decide, rfl, rfl⟩

theorem fastq_output_append (os : CppString) (lines : FASTQSequenceLines) :
    FASTQSequence.output os lines = os ++ FASTQSequence.output [] lines := by
  simp [FASTQSequence.output, List.append_assoc]

theorem fastq_output_count (lines : FASTQSequenceLines) (h : lines.LineFeedFree) :
    (FASTQSequence.output [] lines).count '\n' = 3 := by
  obtain ⟨h1, h2, h3, h4⟩ := h
  simp [FASTQSequence.output, List.count_append, List.count_eq_zero_of_not_mem h1,
    List.count_eq_zero_of_not_mem h2, List.count_eq_zero_of_not_mem h3,
    List.count_eq_zero_of_not_mem h4]

theorem paired_write_fold (group_id : CppString)
    (pairs : List (PairedFASTQSequenceCreator DGEIlluminaFASTQSequence)) :
    ∀ os0 : StdMap (CppString × CppString),
      ∃ os1, pairs.foldlM (fun os seq =>
          PairedFASTQFileGroupOutputStreams.writeSequence (fun s => s.lines) os seq group_id) os0
          = Except.ok os1 ∧
        (StdMap.find os1 group_id).getD ([], [])
          = (((StdMap.find os0 group_id).getD ([], [])).1
              ++ (pairs.map (fun p => FASTQSequence.output [] p.seq_1.lines)).flatten,
             ((StdMap.find os0 group_id).getD ([], [])).2
              ++ (pairs.map (fun p => FASTQSequence.output [] p.seq_2.lines)).flatten) := by
  induction pairs with
  | nil => intro os0; exact ⟨os0, rfl, by simp⟩
  | cons p ps ih =>
    intro os0
    have hw : PairedFASTQFileGroupOutputStreams.writeSequence (fun s => s.lines) os0 p group_id
        = Except.ok (StdMap.assign os0 group_id
            (FASTQSequence.output ((StdMap.find os0 group_id).getD ([], [])).1 p.seq_1.lines,
             FASTQSequence.output ((StdMap.find os0 group_id).getD ([], [])).2 p.seq_2.lines)) :=
      rfl
    obtain ⟨os1, h1, h2⟩ := ih (StdMap.assign os0 group_id
            (FASTQSequence.output ((StdMap.find os0 group_id).getD ([], [])).1 p.seq_1.lines,
             FASTQSequence.output ((StdMap.find os0 group_id).getD ([], [])).2 p.seq_2.lines))
    refine ⟨os1, ?_, ?_⟩
    · simp only [List.foldlM_cons, hw, bind, Except.bind]
      exact h1
    · rw [h2, StdMap.find_assign]
      simp only [if_true, Option.getD_some, List.map_cons, List.flatten_cons]
      rw [fastq_output_append _ p.seq_1.lines, fastq_output_append _ p.seq_2.lines]
      simp only [List.append_assoc]

theorem single_write_fold (group_id : CppString) (records : List FASTQSequenceLines) :
    ∀ os0 : StdMap CppString,
      (StdMap.find (records.foldl (fun os lines =>
          FASTQFileGroupOutputStreams.writeSequenceText os lines group_id) os0) group_id).getD []
        = (StdMap.find os0 group_id).getD [] ++ DGEIlluminaFASTQFile.fileText records := by
  induction records with
  | nil => intro os0; simp [DGEIlluminaFASTQFile.fileText]
  | cons l ls ih =>
    intro os0
    simp only [List.foldl_cons]
    rw [ih, FASTQFileGroupOutputStreams.writeSequenceText, StdMap.find_assign]
    simp only [if_true, Option.getD_some, DGEIlluminaFASTQFile.fileText, List.map_cons,
      List.flatten_cons]
    rw [fastq_output_append _ l]
    simp only [List.append_assoc]

theorem flatten_output_count (records : List FASTQSequenceLines)
    (h : ∀ l ∈ records, l.LineFeedFree) :
    ((records.map (fun l => FASTQSequence.output [] l)).flatten).count '\n' = 3 * records.length ∧
    (DGEIlluminaFASTQFile.fileText records).count '\n' = 4 * records.length := by
  induction records with
  | nil => simp [DGEIlluminaFASTQFile.fileText]
  | cons l ls ih =>
    have hl := fastq_output_count l (h l (List.mem_cons_self _ _))
    obtain ⟨i1, i2⟩ := ih (fun x hx => h x (List.mem_cons_of_mem _ hx))
    unfold DGEIlluminaFASTQFile.fileText at i2 ⊢
    simp only [List.map_cons, List.flatten_cons, List.count_append, hl, i1, i2,
      List.length_cons, List.count_singleton_self]
    constructor <;> omega

set_option maxRecDepth 100000 in
theorem example_paired_read_back :
    (utk.LineReader.readLines (DGEIlluminaFASTQFile.exampleReader
        ((PairedFASTQFileGroupOutputStreams.examplePairs.map
          (fun p => FASTQSequence.output [] p.seq_1.lines)).flatten)).toLineReader 0).1
      = ["@HWI-D00704:48:C7302ANXX:1:1101:1103:2053 1:N:0:ATCACG".toList,
         "AAAAAACATAGCGTGGTTTT".toList, "+".toList,
         "IIIIIIIIIIIIIIIIIIII@HWI-D00704:48:C7302ANXX:1:1101:1200:2060 1:N:0:ATCACG".toList,
         "CCCCCCTTTTGCGTGGAAAA".toList, "+".toList, "IIIIIIIIIIIIIIIIIIII".toList] := by
  decide

set_option maxRecDepth 100000 in
theorem example_single_read_back :
    (utk.LineReader.readLines (DGEIlluminaFASTQFile.exampleReader
        ([] ++ DGEIlluminaFASTQFile.fileText
          (PairedFASTQFileGroupOutputStreams.examplePairs.map
            (fun p => p.seq_1.lines)))).toLineReader 0).1.length = 8 := by
  decide

/-- Claim C38: after `PairedFASTQFileGroupOutputStreams::writeSequence` has been called for k
pairs of a well whose lines contain no line feed, the R1 stream and the R2
stream of the well hold the k records one after the other without a line
break between them: each holds 3k line feeds.  The single-end
`FASTQFileGroupOutputStreams::writeSequence` on the same records ends
every record with a line feed: its stream holds 4k line feeds.  For the two
example pairs, reading the R1 text back line by line gives 7 lines, the fourth
being the quality line of the first record followed by the identifier line of
the second; the single-end text gives 8 lines. -/
theorem paired_output_line_breaks
    (pairs : List (PairedFASTQSequenceCreator DGEIlluminaFASTQSequence)) (group_id : CppString)
    (hfree : ∀ p ∈ pairs, p.seq_1.lines.LineFeedFree ∧ p.seq_2.lines.LineFeedFree) :
    (∃ r1 r2, PairedFASTQFileGroupOutputStreams.writeSequences pairs group_id
        = Except.ok (r1, r2) ∧
      r1 = (pairs.map (fun p => FASTQSequence.output [] p.seq_1.lines)).flatten ∧
      r2 = (pairs.map (fun p => FASTQSequence.output [] p.seq_2.lines)).flatten ∧
      r1.count '\n' = 3 * pairs.length ∧ r2.count '\n' = 3 * pairs.length) ∧
    FASTQFileGroupOutputStreams.writeSequencesText (pairs.map (fun p => p.seq_1.lines)) group_id
      = DGEIlluminaFASTQFile.fileText (pairs.map (fun p => p.seq_1.lines)) ∧
    (FASTQFileGroupOutputStreams.writeSequencesText (pairs.map (fun p => p.seq_1.lines))
      group_id).count '\n' = 4 * pairs.length ∧
    ((PairedFASTQFileGroupOutputStreams.writeSequences
        PairedFASTQFileGroupOutputStreams.examplePairs group_id).toOption.map
      (fun streams => (utk.LineReader.readLines
        (DGEIlluminaFASTQFile.exampleReader streams.1).toLineReader 0).1)
      = some ["@HWI-D00704:48:C7302ANXX:1:1101:1103:2053 1:N:0:ATCACG".toList,
              "AAAAAACATAGCGTGGTTTT".toList, "+".toList,
              "IIIIIIIIIIIIIIIIIIII@HWI-D00704:48:C7302ANXX:1:1101:1200:2060 1:N:0:ATCACG".toList,
              "CCCCCCTTTTGCGTGGAAAA".toList, "+".toList, "IIIIIIIIIIIIIIIIIIII".toList]) ∧
    ((utk.LineReader.readLines (DGEIlluminaFASTQFile.exampleReader
        (FASTQFileGroupOutputStreams.writeSequencesText
          (PairedFASTQFileGroupOutputStreams.examplePairs.map (fun p => p.seq_1.lines))
          group_id)).toLineReader 0).1.length = 8) := by
  obtain ⟨os1, h1, h2⟩ := paired_write_fold group_id pairs []
  have hs := single_write_fold group_id (pairs.map (fun p => p.seq_1.lines)) []
  have e0 : (StdMap.find ([] : StdMap (CppString × CppString)) group_id).getD ([], [])
      = ([], []) := rfl
  have e1 : (StdMap.find ([] : StdMap CppString) group_id).getD [] = [] := rfl
  rw [e0] at h2
  rw [e1] at hs
  simp only [List.nil_append] at h2 hs
  have c1 := (flatten_output_count (pairs.map (fun p => p.seq_1.lines)) (by
    intro l hl
    obtain ⟨p, hp, rfl⟩ := List.mem_map.mp hl
    exact (hfree p hp).1))
  have c2 := (flatten_output_count (pairs.map (fun p => p.seq_2.lines)) (by
    intro l hl
    obtain ⟨p, hp, rfl⟩ := List.mem_map.mp hl
    exact (hfree p hp).2))
  simp only [List.map_map, List.length_map] at c1 c2
  have hex := paired_write_fold group_id PairedFASTQFileGroupOutputStreams.examplePairs []
  have hsx := single_write_fold group_id
    (PairedFASTQFileGroupOutputStreams.examplePairs.map (fun p => p.seq_1.lines)) []
  refine ⟨⟨_, _, ?_, rfl, rfl, c1.1, c2.1⟩, hs, ?_, ?_, ?_⟩
  · unfold PairedFASTQFileGroupOutputStreams.writeSequences
    simp only [h1, bind, Except.bind, pure, Except.pure, h2]
  · unfold FASTQFileGroupOutputStreams.writeSequencesText
    rw [hs]
    exact c1.2
  · obtain ⟨osx, hx1, hx2⟩ := hex
    have hx : PairedFASTQFileGroupOutputStreams.writeSequences
        PairedFASTQFileGroupOutputStreams.examplePairs group_id
        = Except.ok
            ((PairedFASTQFileGroupOutputStreams.examplePairs.map
                (fun p => FASTQSequence.output [] p.seq_1.lines)).flatten,
             (PairedFASTQFileGroupOutputStreams.examplePairs.map
                (fun p => FASTQSequence.output [] p.seq_2.lines)).flatten) := by
      unfold PairedFASTQFileGroupOutputStreams.writeSequences
      simp only [hx1, bind, Except.bind, pure, Except.pure, hx2, e0, List.nil_append]
    rw [hx]
    exact congrArg some example_paired_read_back
  · unfold FASTQFileGroupOutputStreams.writeSequencesText
    rw [hsx, e1]
    exact example_single_read_back

/-- Claim C38, witness: the two example pairs. -/
theorem paired_output_line_breaks_witness :
    ∃ r1 r2, PairedFASTQFileGroupOutputStreams.writeSequences
        PairedFASTQFileGroupOutputStreams.examplePairs "1".toList = Except.ok (r1, r2) ∧
      r1.count '\n' = 3 * 2 ∧ r2.count '\n' = 3 * 2 :=
  (paired_output_line_breaks PairedFASTQFileGroupOutputStreams.examplePairs "1".toList
    (by decide)).1.elim
    (fun r1 h => h.elim (fun r2 h2 => ⟨r1, r2, h2.1, h2.2.2.2.1, h2.2.2.2.2⟩))

theorem readLine_calls_left (r : utk.LineReader) (line : CppString)
    (hs : (utk.LineReader.readLine r line).1 = true) :
    (if (utk.LineReader.readLine r line).2.2.eofbit
          || (utk.LineReader.readLine r line).2.2.failbit then 1
      else (utk.LineReader.readLine r line).2.2.content.length + 1) + 1
      ≤ (if r.eofbit || r.failbit then 1 else r.content.length + 1) := by
  have hst : (utk.LineReader.readLine r line).1
      = !(std.getline r.toifstream line r.line_delim).1.failbit := rfl
  have he1 : (utk.LineReader.readLine r line).2.2.eofbit
      = (std.getline r.toifstream line r.line_delim).1.eofbit := rfl
  have hf1 : (utk.LineReader.readLine r line).2.2.failbit
      = (std.getline r.toifstream line r.line_delim).1.failbit := rfl
  have hc1 : (utk.LineReader.readLine r line).2.2.content
      = (std.getline r.toifstream line r.line_delim).1.content := rfl
  rw [hst] at hs
  rw [he1, hf1, hc1]
  revert hs
  unfold std.getline
  by_cases hg : (r.eofbit || r.failbit) = true
  · simp only [hg, if_true]
    intro hs
    simp at hs
  · have hg2 : (r.eofbit || r.failbit) = false := by simpa using hg
    simp only [hg2, Bool.false_eq_true, if_false]
    rw [List.span_eq_take_drop]
    have h := List.takeWhile_append_dropWhile (fun c => c != r.line_delim) r.content
    have hl := congrArg List.length h
    cases hd : List.dropWhile (fun c => c != r.line_delim) r.content with
    | nil =>
      rw [hd] at hl
      simp only [List.append_nil] at hl
      intro hs
      simp only [Bool.not_eq_true', List.isEmpty_eq_false] at hs
      simp only [Bool.true_or, if_true]
      have : (List.takeWhile (fun c => c != r.line_delim) r.content).length ≠ 0 := by
        intro e
        exact hs (List.length_eq_zero.mp e)
      omega
    | cons x rest =>
      rw [hd] at hl
      simp only [List.length_append, List.length_cons] at hl
      intro _
      simp only [hg2, Bool.false_eq_true, if_false]
      omega

/-- Adequacy of the bound in `readLines` with `n_lines = 0`: once the number of allowed calls
reaches one more than the number of unread characters, allowing more calls
changes nothing, because the last allowed call already returned false. -/
theorem readLinesLoop_fuel_enough (counts : Nat) :
    ∀ (r : utk.LineReader) (lines : List CppString),
      (if r.eofbit || r.failbit then 1 else r.content.length + 1) ≤ counts →
      utk.LineReader.readLinesLoop (counts + 1) r lines
        = utk.LineReader.readLinesLoop counts r lines := by
  induction counts with
  | zero =>
    intro r lines h
    split_ifs at h <;> omega
  | succ k ih =>
    intro r lines h
    rw [utk.LineReader.readLinesLoop]
    conv_rhs => rw [utk.LineReader.readLinesLoop]
    cases hs : (utk.LineReader.readLine r []).1 with
    | false => simp
    | true =>
      simp only [if_true]
      have hc := readLine_calls_left r [] hs
      exact ih _ _ (by omega)

theorem stdmap_find_mapVal {V W : Type} (f : V → W) (m : StdMap V) (k : CppString) :
    StdMap.find (m.map (fun e => (e.1, f e.2))) k = (StdMap.find m k).map f := by
  induction m with
  | nil => rfl
  | cons e rest ih =>
    obtain ⟨k0, v0⟩ := e
    simp only [List.map_cons, StdMap.find]
    split_ifs
    · rfl
    · exact ih

theorem stdmap_insertSorted_mapVal {V W : Type} (f : V → W) (m : StdMap V) (k : CppString)
    (v : V) :
    (StdMap.insertSorted m k v).map (fun e => (e.1, f e.2)) =
      StdMap.insertSorted (m.map (fun e => (e.1, f e.2))) k (f v) := by
  induction m with
  | nil => rfl
  | cons e rest ih =>
    obtain ⟨k0, v0⟩ := e
    simp only [List.map_cons, StdMap.insertSorted]
    split_ifs
    · rfl
    · simp only [List.map_cons, ih]

theorem stdmap_replace_mapVal {V W : Type} (f : V → W) (m : StdMap V) (k : CppString)
    (v : V) :
    (StdMap.replace m k v).map (fun e => (e.1, f e.2)) =
      StdMap.replace (m.map (fun e => (e.1, f e.2))) k (f v) := by
  induction m with
  | nil => rfl
  | cons e rest ih =>
    obtain ⟨k0, v0⟩ := e
    simp only [List.map_cons, StdMap.replace]
    split_ifs
    · rfl
    · simp only [List.map_cons, ih]

theorem stdmap_assign_mapVal {V W : Type} (f : V → W) (m : StdMap V) (k : CppString)
    (v : V) :
    (StdMap.assign m k v).map (fun e => (e.1, f e.2)) =
      StdMap.assign (m.map (fun e => (e.1, f e.2))) k (f v) := by
  unfold StdMap.assign
  rw [stdmap_find_mapVal]
  cases StdMap.find m k with
  | none => exact stdmap_insertSorted_mapVal f m k v
  | some x => exact stdmap_replace_mapVal f m k v

/-- The constructor of the output streams as embedded for the demultiplexer and the
constructor as embedded for the open state alone give the same stream states. -/
theorem streams_ctor_open_state (can_open : CppString → Bool)
    (main_file_name file_dir : CppString) (table : WellBarcodeTable) :
    FASTQFileGroupOutputStreams.ctorOpen can_open main_file_name file_dir table =
      Except.ok ((FASTQFileGroupOutputStreams.ctor can_open main_file_name file_dir table).map
        (fun e => (e.1, e.2.toofstream))) := by
  unfold FASTQFileGroupOutputStreams.ctorOpen FASTQFileGroupOutputStreams.ctor
  congr 1
  have key : ∀ (l : List (CppString × CppString)) (os : FASTQFileGroupOutputStreams),
      l.foldl (fun os well_barcode =>
        let file_name := main_file_name ++ ['.'] ++ well_barcode.2 ++ ['.'] ++ "fastq".toList
        let file_path := file_dir ++ [utk.FileSystem.path_sep] ++ file_name
        let stream := (StdMap.find os well_barcode.2).getD {}
        StdMap.assign os well_barcode.2 (std.ofstream.open_file can_open stream file_path))
        (os.map (fun e => (e.1, e.2.toofstream))) =
      (l.foldl (fun os well_barcode =>
        let file_name := main_file_name ++ ['.'] ++ well_barcode.2 ++ ['.'] ++ "fastq".toList
        let file_path := file_dir ++ [utk.FileSystem.path_sep] ++ file_name
        let stream := (StdMap.find os well_barcode.2).getD {}
        StdMap.assign os well_barcode.2 (FASTQFileStream.open_file can_open stream file_path))
        os).map (fun e => (e.1, e.2.toofstream)) := by
    intro l
    induction l with
    | nil => intro os; rfl
    | cons e rest ih =>
      intro os
      simp only [List.foldl_cons]
      rw [← ih, stdmap_assign_mapVal, stdmap_find_mapVal]
      congr 2
      cases StdMap.find os e.2 <;> rfl
  exact key table []

end hts
